import Mathlib

/-!
# wl12xx scan engine (`scan.c`)

Shallow embedding of the scan orchestration code of the wl12xx driver
(`src/mac80211/compat/drivers/net/wireless/wl12xx/scan.c`) and theorems about it.
The Unicode routines of the FM stack (`mcp_unicode.c`) are embedded in the namespace
`McpUnicode`, after the definitions of the scan engine; the theorems about them are at
the end of the file.

Conventions of the embedding

* C integers whose range is never exceeded by the code are `Nat`/`Int`.  The `u8` fields
  `tx_power_att` and `channel` of a channel slot receive an `int` and a `u16`; the
  assignments keep the low 8 bits, written `% 256`.
* `cpu_to_le16/32` only fix the byte order of a stored value and are the identity here.
* A kernel bit array (`unsigned long x[BITS_TO_LONGS(n)]`) is the finite set of the
  positions of its set bits.
* Calls that leave `scan.c` (command transport, template builder, allocator, work queue)
  are appended to a chronological log kept in the device context; what they return is
  read from an `environment`, which is an arbitrary function of the log up to and
  including the call.  Assignments to `wl->scan.state` are logged as well, so that the
  states a drive passes through can be read off the log.
* `wl1271_cmd_send` and `wl1271_cmd_build_probe_req` follow the kernel convention their
  callers test with `ret < 0`: they return 0 or a negated errno.  The environment
  supplies the errno (0 for success).
* Constants and struct layouts that `scan.c` takes from headers are collected in
  `scan_constants`; the theorems hold for every value of them unless a hypothesis
  says otherwise.
* Functions that can dereference a null pointer, hit `BUG_ON` or read an array outside
  its bounds return `Except fault`; a read of `req->channels[j]` with `j` not below
  `req->n_channels` is the fault `OUT_OF_BOUNDS_READ`.
-/

set_option autoImplicit false
set_option linter.unusedVariables false

namespace Wl12xx

/-! ## Data model -/

/-- The two values of `enum ieee80211_band` that `scan.c` uses. -/
inductive ieee80211_band
  | IEEE80211_BAND_2GHZ
  | IEEE80211_BAND_5GHZ
  deriving DecidableEq

/-- The fields of `struct ieee80211_channel` that `scan.c` reads. -/
structure ieee80211_channel where
  band : ieee80211_band
  center_freq : Nat
  hw_value : Nat
  flags : Nat
  max_antenna_gain : Int
  max_power : Int
  beacon_found : Bool
  deriving DecidableEq

/-- The fields of `struct cfg80211_scan_request` that `scan.c` reads.
`channels` is the array `req->channels[0 .. n_channels-1]`, `ie` the `ie_len` bytes at
`req->ie`. -/
structure cfg80211_scan_request where
  channels : List ieee80211_channel
  n_ssids : Nat
  ie : List Nat
  deriving DecidableEq

/-- The field `req->n_channels`: number of entries of `req->channels`. -/
def cfg80211_scan_request.n_channels (req : cfg80211_scan_request) : Nat :=
  req.channels.length

/-- Named constants that `scan.c` takes from headers (`scan.h`, `wl12xx.h`, `conf.h`,
`cfg80211.h`). -/
structure scan_constants where
  WL1271_SCAN_MAX_CHANNELS : Nat
  WL1271_MAX_CHANNELS : Nat
  WL1271_SCAN_TIMEOUT : Nat
  MAX_CHANNELS_ALL_BANDS : Nat
  IEEE80211_CHAN_DISABLED : Nat
  IEEE80211_CHAN_PASSIVE_SCAN : Nat
  IEEE80211_CHAN_RADAR : Nat
  WL1271_SCAN_OPT_PASSIVE : Nat
  WL1271_INVALID_ROLE_ID : Nat
  WL1271_SCAN_DEFAULT_TAG : Nat
  WL1271_SCAN_BAND_2_4_GHZ : Nat
  WL1271_SCAN_BAND_5_GHZ : Nat
  CONF_HW_BIT_RATE_6MBPS : Nat
  WL1271_STATE_OFF : Nat
  WL1271_FLAG_STA_ASSOCIATED : Nat
  WL1271_FLAG_IBSS_JOINED : Nat
  BSS_TYPE_STA_BSS : Nat
  BSS_TYPE_IBSS : Nat
  SCAN_BSS_TYPE_ANY : Nat
  SCAN_MAX_CYCLE_INTERVALS : Nat
  SCAN_SSID_FILTER_ANY : Nat
  SCAN_SSID_FILTER_SPECIFIC : Nat

/-- The values the constants have in the upstream wl12xx and cfg80211 headers; used for
concrete evaluation only. -/
def upstream_constants : scan_constants where
  WL1271_SCAN_MAX_CHANNELS := 24
  WL1271_MAX_CHANNELS := 64
  WL1271_SCAN_TIMEOUT := 10000
  MAX_CHANNELS_ALL_BANDS := 41
  IEEE80211_CHAN_DISABLED := 1
  IEEE80211_CHAN_PASSIVE_SCAN := 2
  IEEE80211_CHAN_RADAR := 8
  WL1271_SCAN_OPT_PASSIVE := 1
  WL1271_INVALID_ROLE_ID := 255
  WL1271_SCAN_DEFAULT_TAG := 1
  WL1271_SCAN_BAND_2_4_GHZ := 0
  WL1271_SCAN_BAND_5_GHZ := 1
  CONF_HW_BIT_RATE_6MBPS := 8
  WL1271_STATE_OFF := 0
  WL1271_FLAG_STA_ASSOCIATED := 0
  WL1271_FLAG_IBSS_JOINED := 1
  BSS_TYPE_STA_BSS := 2
  BSS_TYPE_IBSS := 0
  SCAN_BSS_TYPE_ANY := 2
  SCAN_MAX_CYCLE_INTERVALS := 16
  SCAN_SSID_FILTER_ANY := 0
  SCAN_SSID_FILTER_SPECIFIC := 1

/-- The constants with a one-shot command capacity of 4 slots (the capacity of the
worked example of the specification). -/
def small_constants : scan_constants :=
  { upstream_constants with WL1271_SCAN_MAX_CHANNELS := 4 }

/-- The fields of `struct conf_scan_settings` (`wl->conf.scan`) that `scan.c` reads. -/
structure conf_scan_settings where
  min_dwell_time_active : Nat
  max_dwell_time_active : Nat
  min_dwell_time_passive : Nat
  max_dwell_time_passive : Nat
  num_probe_reqs : Nat
  deriving DecidableEq

/-- The fields of `struct basic_scan_channel_params` that `scan.c` writes.  The two BSSID
fields are kept as the bytes that `memset` stores; `tx_power_att` and `channel` are `u8`
fields and hold values from 0 to 255. -/
structure basic_scan_channel_params where
  min_duration : Nat
  max_duration : Nat
  bssid_lsb : List Nat
  bssid_msb : List Nat
  early_termination : Nat
  tx_power_att : Int
  channel : Nat
  deriving DecidableEq

/-- A slot of a `kzalloc`-ed channel array. -/
def basic_scan_channel_params.zero : basic_scan_channel_params :=
  { min_duration := 0, max_duration := 0, bssid_lsb := List.replicate 4 0,
    bssid_msb := List.replicate 2 0, early_termination := 0, tx_power_att := 0,
    channel := 0 }

/-- Kernel bit array, as the set of the positions of its set bits. -/
abbrev bitmap := Finset Nat

/-- Kernel `test_bit(nr, addr)`. -/
def test_bit (nr : Nat) (addr : bitmap) : Bool := decide (nr ∈ addr)

/-- Kernel `set_bit(nr, addr)`. -/
def set_bit (nr : Nat) (addr : bitmap) : bitmap := insert nr addr

/-! ## `wl1271_get_scan_channels` -/

/-- The `if` of the loop body of `wl1271_get_scan_channels` (scan.c:106-109). -/
def wl1271_get_scan_channels_cond (K : scan_constants) (req_channel : ieee80211_channel)
    (i : Nat) (scanned_ch : bitmap) (band : ieee80211_band) (passive : Bool) : Bool :=
  let flags := req_channel.flags
  (!test_bit i scanned_ch) &&
  (flags &&& K.IEEE80211_CHAN_DISABLED == 0) &&
  ((flags &&& K.IEEE80211_CHAN_PASSIVE_SCAN != 0) == passive) &&
  (req_channel.band == band)

/-- The value stored in `channels[j]` by the loop body (scan.c:124-140).  The fields
`tx_power_att` and `channel` are `u8`: the assignments of scan.c:136-137 keep the low 8
bits of `max_power` (an `int`) and of `hw_value` (a `u16`). -/
def wl1271_get_scan_channels_slot (c : conf_scan_settings) (req_channel : ieee80211_channel)
    (passive : Bool) : basic_scan_channel_params :=
  { min_duration := if !passive then c.min_dwell_time_active else c.min_dwell_time_passive
    max_duration := if !passive then c.max_dwell_time_active else c.max_dwell_time_passive
    early_termination := 0
    tx_power_att := req_channel.max_power % 256
    channel := req_channel.hw_value % 256
    bssid_lsb := List.replicate 4 0xff
    bssid_msb := List.replicate 2 0xff }

/-- The `for` loop of `wl1271_get_scan_channels` (scan.c:100-147), started at loop
variables `i`, `j`.  The first argument bounds the number of iterations; as `i` grows by
one in every iteration, `req.n_channels - i` iterations always reach the loop exit.
Returns the final `j`, the destination array and the scanned bit array. -/
def wl1271_get_scan_channels_loop (K : scan_constants) (c : conf_scan_settings)
    (req : cfg80211_scan_request) (band : ieee80211_band) (passive : Bool) :
    Nat → Nat → Nat → List basic_scan_channel_params → bitmap →
      Nat × List basic_scan_channel_params × bitmap
  | 0, _, j, channels, scanned_ch => (j, channels, scanned_ch)
  | n + 1, i, j, channels, scanned_ch =>
    if h : i < req.n_channels ∧ j < K.WL1271_SCAN_MAX_CHANNELS then
      let req_channel := req.channels.get ⟨i, h.1⟩
      if wl1271_get_scan_channels_cond K req_channel i scanned_ch band passive then
        wl1271_get_scan_channels_loop K c req band passive n (i + 1) (j + 1)
          (channels.set j (wl1271_get_scan_channels_slot c req_channel passive))
          (set_bit i scanned_ch)
      else
        wl1271_get_scan_channels_loop K c req band passive n (i + 1) j channels scanned_ch
    else
      (j, channels, scanned_ch)

/-- Function `wl1271_get_scan_channels` (scan.c:91-150).  `c` is `wl->conf.scan`, `scanned_ch` is
`wl->scan.scanned_ch`, `channels` the destination array.  Returns the count `j`, the
destination array and the bit array after the call. -/
def wl1271_get_scan_channels (K : scan_constants) (c : conf_scan_settings)
    (scanned_ch : bitmap) (req : cfg80211_scan_request)
    (channels : List basic_scan_channel_params) (band : ieee80211_band) (passive : Bool) :
    Nat × List basic_scan_channel_params × bitmap :=
  wl1271_get_scan_channels_loop K c req band passive req.n_channels 0 0 channels scanned_ch

/-! ## Device context, commands and environment -/

/-- The states of the one-shot scan state machine (`wl->scan.state`). -/
inductive wl1271_scan_state
  | WL1271_SCAN_STATE_IDLE
  | WL1271_SCAN_STATE_2GHZ_ACTIVE
  | WL1271_SCAN_STATE_2GHZ_PASSIVE
  | WL1271_SCAN_STATE_5GHZ_ACTIVE
  | WL1271_SCAN_STATE_5GHZ_PASSIVE
  | WL1271_SCAN_STATE_DONE
  deriving DecidableEq

/-- The command `struct wl1271_cmd_scan` (its `params` flattened), as far as
`wl1271_scan_send` fills it. `ssid` holds the `ssid_len` bytes copied by `memcpy`. -/
structure wl1271_cmd_scan where
  role_id : Nat
  scan_options : Nat
  n_ch : Nat
  tx_rate : Nat
  n_probe_reqs : Nat
  tid_trigger : Nat
  scan_tag : Nat
  band : Nat
  ssid_len : Nat
  ssid : List Nat
  channels : List basic_scan_channel_params
  addr : List Nat
  deriving DecidableEq

/-- A `kzalloc`-ed `struct wl1271_cmd_scan`: all zero, with `WL1271_SCAN_MAX_CHANNELS`
channel slots. -/
def wl1271_cmd_scan.zero (K : scan_constants) : wl1271_cmd_scan :=
  { role_id := 0, scan_options := 0, n_ch := 0, tx_rate := 0, n_probe_reqs := 0,
    tid_trigger := 0, scan_tag := 0, band := 0, ssid_len := 0, ssid := [],
    channels := List.replicate K.WL1271_SCAN_MAX_CHANNELS basic_scan_channel_params.zero,
    addr := [] }

/-- The fields of `struct conn_scan_ch_params` that `scan.c` writes; `channel` and
`tx_power_att` are `u8` fields and hold values from 0 to 255. -/
structure conn_scan_ch_params where
  min_duration : Nat
  max_duration : Nat
  passive_duration : Nat
  channel : Nat
  tx_power_att : Int
  deriving DecidableEq

/-- A slot of a `kzalloc`-ed channel array. -/
def conn_scan_ch_params.zero : conn_scan_ch_params :=
  { min_duration := 0, max_duration := 0, passive_duration := 0, channel := 0,
    tx_power_att := 0 }

/-- The command `struct wl1271_cmd_sched_scan_config`, as far as `scan.c` fills it.
`passive` and `active` are the per-band count arrays, `channels` the combined channel
list of `MAX_CHANNELS_ALL_BANDS` slots. -/
structure wl1271_cmd_sched_scan_config where
  rssi_threshold : Int
  snr_threshold : Int
  n_probe_reqs : Nat
  cycles : Nat
  report_after : Nat
  terminate : Nat
  tag : Nat
  bss_type : Nat
  intervals : List Nat
  filter_type : Nat
  ssid_len : Nat
  ssid : List Nat
  passive : List Nat
  active : List Nat
  dfs : Nat
  channels : List conn_scan_ch_params
  deriving DecidableEq

/-- A `kzalloc`-ed `struct wl1271_cmd_sched_scan_config`: all zero, with three entries
(`SCAN_MAX_BANDS`) in each count array and `MAX_CHANNELS_ALL_BANDS` channel slots. -/
def wl1271_cmd_sched_scan_config.zero (K : scan_constants) : wl1271_cmd_sched_scan_config :=
  { rssi_threshold := 0, snr_threshold := 0, n_probe_reqs := 0, cycles := 0,
    report_after := 0, terminate := 0, tag := 0, bss_type := 0, intervals := [],
    filter_type := 0, ssid_len := 0, ssid := [], passive := [0, 0, 0], active := [0, 0, 0],
    dfs := 0,
    channels := List.replicate K.MAX_CHANNELS_ALL_BANDS conn_scan_ch_params.zero }

/-- Commands handed to `wl1271_cmd_send` by the scan code, with their payload. -/
inductive command
  | CMD_TRIGGER_SCAN_TO (timeout : Nat)
  | CMD_SCAN (cmd : wl1271_cmd_scan)
  | CMD_STOP_SCAN
  | CMD_CONNECTION_SCAN_CFG (cfg : wl1271_cmd_sched_scan_config)
  deriving DecidableEq

/-- Observable actions of the scan code, in the order and with the arguments of the
source: the calls that leave `scan.c`, and assignments to `wl->scan.state`.
`cancel_delayed_work` and `ieee80211_queue_delayed_work` act on
`wl->scan_complete_work`, which serves as watchdog and as completion notification. -/
inductive event
  | kzalloc
  | wl1271_cmd_build_probe_req (ssid : List Nat) (ssid_len : Nat) (ie : List Nat)
      (band : ieee80211_band)
  | wl1271_cmd_send (cmd : command)
  | cancel_delayed_work
  | ieee80211_queue_delayed_work (msecs : Nat)
  | scan_state (state : wl1271_scan_state)
  | wl1271_ps_elp_wakeup
  | wl1271_cmd_build_ap_probe_req
  | wl1271_cmd_role_start_dev
  | wl1271_roc
  | wl1271_ps_elp_sleep
  | wl1271_queue_recovery_work
  | ieee80211_scan_completed (aborted : Bool)
  deriving DecidableEq

/-- Behaviour of the code outside `scan.c`.  The first three fields give the result of
the call whose event is the last entry of the log passed in: whether the allocation
succeeded, and the errno (0 = success) of the template builder and of the command
transport.  The next two are the pure helpers `cfg80211_find_vendor_ie` (for the WFA P2P
element, as a function of the IE bytes) and `wl1271_tx_min_rate_get` (as a function of
the rate mask).  The last is the errno of `wl1271_ps_elp_wakeup`, again for the call
that ends the log passed in. -/
structure environment where
  kzalloc : List event → Bool
  wl1271_cmd_build_probe_req : List event → Nat
  wl1271_cmd_send : List event → Nat
  cfg80211_find_vendor_ie : List Nat → Bool
  wl1271_tx_min_rate_get : Nat → Nat
  wl1271_ps_elp_wakeup : List event → Nat

/-- The scan session `wl->scan` (`struct wl1271_scan`; the plain name is taken by the
function `wl1271_scan`). `req = none` is the NULL pointer. -/
structure struct_wl1271_scan where
  req : Option cfg80211_scan_request
  scanned_ch : bitmap
  failed : Bool
  state : wl1271_scan_state
  ssid : List Nat
  ssid_len : Nat

/-- The fields of `struct conf_sched_scan_settings` (`wl->conf.sched_scan`) that `scan.c`
reads. -/
structure conf_sched_scan_settings where
  min_dwell_time_active : Nat
  max_dwell_time_active : Nat
  dwell_time_passive : Nat
  num_probe_reqs : Nat
  rssi_threshold : Int
  snr_threshold : Int
  deriving DecidableEq

/-- The fields of the device context `struct wl1271` used by `scan.c`, and the log of
observable actions.  `state` is the device state `wl->state`, `flags` and `roc_map` are
bit arrays. -/
structure wl1271 where
  scan : struct_wl1271_scan
  conf_scan : conf_scan_settings
  role_id : Nat
  mac_addr : List Nat
  bitrate_masks : ieee80211_band → Nat
  enable_11a : Bool
  log : List event
  state : Nat
  flags : bitmap
  bss_type : Nat
  dev_role_id : Nat
  roc_map : bitmap
  conf_sched_scan : conf_sched_scan_settings

/-- Append one observable action to the log. -/
def wl1271.emit (wl : wl1271) (e : event) : wl1271 :=
  { wl with log := wl.log ++ [e] }

/-- The assignment `wl->scan.state = state`. -/
def wl1271.set_scan_state (wl : wl1271) (state : wl1271_scan_state) : wl1271 :=
  { wl with scan := { wl.scan with state := state }, log := wl.log ++ [event.scan_state state] }

/-- Ways in which a call does not return. -/
inductive fault
  | BUG
  | NULL_DEREFERENCE
  | CALL_DEPTH_EXCEEDED
  | OUT_OF_BOUNDS_READ
  deriving DecidableEq

/-- Linux errno values used by `scan.c`. -/
def ENOMEM : Int := 12

/-- Linux errno `EBUSY`. -/
def EBUSY : Int := 16

/-- Linux errno `EINVAL`. -/
def EINVAL : Int := 22

/-- The value of `#define WL1271_NOTHING_TO_SCAN 1` (scan.c:152). -/
def WL1271_NOTHING_TO_SCAN : Int := 1

/-- Kernel `memcpy(dst, src, n)` on byte arrays: the first `n` bytes of `dst` become those of
`src`. -/
def memcpy (dst src : List Nat) (n : Nat) : List Nat :=
  src.take n ++ dst.drop n

/-! ## `wl1271_scan_send` -/

/-- The command `wl1271_scan_send` builds in its zeroed buffer `cmd` (the assignments of
scan.c:169-207, each field with the value it has when the command is sent).  `n_ch` and
`channels` are what `wl1271_get_scan_channels` returned and left in `cmd->channels`. -/
def wl1271_scan_send_cmd (K : scan_constants) (env : environment) (wl : wl1271)
    (req : cfg80211_scan_request) (band : ieee80211_band) (passive : Bool)
    (basic_rate : Nat) (n_ch : Nat) (channels : List basic_scan_channel_params) :
    wl1271_cmd_scan :=
  let scan_options : Nat :=
    if passive || req.n_ssids == 0 then 0 ||| K.WL1271_SCAN_OPT_PASSIVE else 0
  { role_id := if wl.role_id != K.WL1271_INVALID_ROLE_ID then wl.role_id else 0
    scan_options := scan_options
    n_ch := n_ch
    channels := channels
    tx_rate :=
      if band == ieee80211_band.IEEE80211_BAND_2GHZ &&
          (scan_options &&& K.WL1271_SCAN_OPT_PASSIVE == 0) &&
          env.cfg80211_find_vendor_ie req.ie then
        K.CONF_HW_BIT_RATE_6MBPS
      else
        basic_rate
    n_probe_reqs := wl.conf_scan.num_probe_reqs
    tid_trigger := 0
    scan_tag := K.WL1271_SCAN_DEFAULT_TAG
    band :=
      if band == ieee80211_band.IEEE80211_BAND_2GHZ then K.WL1271_SCAN_BAND_2_4_GHZ
      else K.WL1271_SCAN_BAND_5_GHZ
    ssid_len := if wl.scan.ssid_len != 0 then wl.scan.ssid_len else 0
    ssid := if wl.scan.ssid_len != 0 then memcpy [] wl.scan.ssid wl.scan.ssid_len else []
    addr := wl.mac_addr }

/-- The three calls at the end of `wl1271_scan_send` (scan.c:209-232): build the
probe-request template, send `CMD_TRIGGER_SCAN_TO` with timeout 0, send `CMD_SCAN`;
stop at the first negative result. -/
def wl1271_scan_send_dispatch (env : environment) (wl : wl1271)
    (req : cfg80211_scan_request) (band : ieee80211_band) (cmd : wl1271_cmd_scan) :
    Int × wl1271 :=
  let wl := wl.emit
    (event.wl1271_cmd_build_probe_req wl.scan.ssid wl.scan.ssid_len req.ie band)
  let ret : Int := -(env.wl1271_cmd_build_probe_req wl.log : Int)
  if ret < 0 then
    (ret, wl)
  else
    let wl := wl.emit (event.wl1271_cmd_send (command.CMD_TRIGGER_SCAN_TO 0))
    let ret : Int := -(env.wl1271_cmd_send wl.log : Int)
    if ret < 0 then
      (ret, wl)
    else
      let wl := wl.emit (event.wl1271_cmd_send (command.CMD_SCAN cmd))
      let ret : Int := -(env.wl1271_cmd_send wl.log : Int)
      (ret, wl)

/-- Function `wl1271_scan_send` (scan.c:154-238). Returns `ret` and the device context. -/
def wl1271_scan_send (K : scan_constants) (env : environment) (wl : wl1271)
    (band : ieee80211_band) (passive : Bool) (basic_rate : Nat) :
    Except fault (Int × wl1271) :=
  let wl := wl.emit event.kzalloc
  let cmd_allocated := env.kzalloc wl.log
  let wl := wl.emit event.kzalloc
  let trigger_allocated := env.kzalloc wl.log
  if !cmd_allocated || !trigger_allocated then
    Except.ok (-ENOMEM, wl)
  else
    match wl.scan.req with
    | none => Except.error fault.NULL_DEREFERENCE
    | some req =>
      let r := wl1271_get_scan_channels K wl.conf_scan wl.scan.scanned_ch req
        (wl1271_cmd_scan.zero K).channels band passive
      let wl := { wl with scan := { wl.scan with scanned_ch := r.2.2 } }
      if r.1 == 0 then
        Except.ok (WL1271_NOTHING_TO_SCAN, wl)
      else
        Except.ok (wl1271_scan_send_dispatch env wl req band
          (wl1271_scan_send_cmd K env wl req band passive basic_rate r.1 r.2.1))

/-! ## `wl1271_scan_stm` -/

/-- The end of `wl1271_scan_stm` (scan.c:309-313): on `ret < 0` cancel the delayed work
and queue it with delay 0. -/
def wl1271_scan_stm_out (wl : wl1271) (ret : Int) : wl1271 :=
  if ret < 0 then
    (wl.emit event.cancel_delayed_work).emit (event.ieee80211_queue_delayed_work 0)
  else
    wl

/-- Function `wl1271_scan_stm` (scan.c:240-314) with a bound on the depth of its self-calls: the
call with bound `depth + 1` makes its recursive call with bound `depth`, and the call
with bound 0 does not return (`CALL_DEPTH_EXCEEDED`). -/
def wl1271_scan_stm_depth (K : scan_constants) (env : environment) :
    Nat → wl1271 → Except fault wl1271
  | 0, _ => Except.error fault.CALL_DEPTH_EXCEEDED
  | depth + 1, wl =>
    match wl.scan.state with
    | wl1271_scan_state.WL1271_SCAN_STATE_IDLE =>
      Except.ok (wl1271_scan_stm_out wl 0)
    | wl1271_scan_state.WL1271_SCAN_STATE_2GHZ_ACTIVE =>
      let band := ieee80211_band.IEEE80211_BAND_2GHZ
      let rate := env.wl1271_tx_min_rate_get (wl.bitrate_masks band)
      match wl1271_scan_send K env wl band false rate with
      | Except.error f => Except.error f
      | Except.ok (ret, wl) =>
        if ret = WL1271_NOTHING_TO_SCAN then
          let wl := wl.set_scan_state wl1271_scan_state.WL1271_SCAN_STATE_2GHZ_PASSIVE
          match wl1271_scan_stm_depth K env depth wl with
          | Except.error f => Except.error f
          | Except.ok wl => Except.ok (wl1271_scan_stm_out wl ret)
        else
          Except.ok (wl1271_scan_stm_out wl ret)
    | wl1271_scan_state.WL1271_SCAN_STATE_2GHZ_PASSIVE =>
      let band := ieee80211_band.IEEE80211_BAND_2GHZ
      let rate := env.wl1271_tx_min_rate_get (wl.bitrate_masks band)
      match wl1271_scan_send K env wl band true rate with
      | Except.error f => Except.error f
      | Except.ok (ret, wl) =>
        if ret = WL1271_NOTHING_TO_SCAN then
          let wl :=
            if wl.enable_11a then
              wl.set_scan_state wl1271_scan_state.WL1271_SCAN_STATE_5GHZ_ACTIVE
            else
              wl.set_scan_state wl1271_scan_state.WL1271_SCAN_STATE_DONE
          match wl1271_scan_stm_depth K env depth wl with
          | Except.error f => Except.error f
          | Except.ok wl => Except.ok (wl1271_scan_stm_out wl ret)
        else
          Except.ok (wl1271_scan_stm_out wl ret)
    | wl1271_scan_state.WL1271_SCAN_STATE_5GHZ_ACTIVE =>
      let band := ieee80211_band.IEEE80211_BAND_5GHZ
      let rate := env.wl1271_tx_min_rate_get (wl.bitrate_masks band)
      match wl1271_scan_send K env wl band false rate with
      | Except.error f => Except.error f
      | Except.ok (ret, wl) =>
        if ret = WL1271_NOTHING_TO_SCAN then
          let wl := wl.set_scan_state wl1271_scan_state.WL1271_SCAN_STATE_5GHZ_PASSIVE
          match wl1271_scan_stm_depth K env depth wl with
          | Except.error f => Except.error f
          | Except.ok wl => Except.ok (wl1271_scan_stm_out wl ret)
        else
          Except.ok (wl1271_scan_stm_out wl ret)
    | wl1271_scan_state.WL1271_SCAN_STATE_5GHZ_PASSIVE =>
      let band := ieee80211_band.IEEE80211_BAND_5GHZ
      let rate := env.wl1271_tx_min_rate_get (wl.bitrate_masks band)
      match wl1271_scan_send K env wl band true rate with
      | Except.error f => Except.error f
      | Except.ok (ret, wl) =>
        if ret = WL1271_NOTHING_TO_SCAN then
          let wl := wl.set_scan_state wl1271_scan_state.WL1271_SCAN_STATE_DONE
          match wl1271_scan_stm_depth K env depth wl with
          | Except.error f => Except.error f
          | Except.ok wl => Except.ok (wl1271_scan_stm_out wl ret)
        else
          Except.ok (wl1271_scan_stm_out wl ret)
    | wl1271_scan_state.WL1271_SCAN_STATE_DONE =>
      let wl := { wl with scan := { wl.scan with failed := false } }
      let wl := wl.emit event.cancel_delayed_work
      let wl := wl.emit (event.ieee80211_queue_delayed_work 0)
      Except.ok (wl1271_scan_stm_out wl 0)

/-- Number of values of `wl1271_scan_state`. -/
def wl1271_scan_state.count : Nat := 6

/-- Function `wl1271_scan_stm` (scan.c:240-314), with one level of call depth per state. -/
def wl1271_scan_stm (K : scan_constants) (env : environment) (wl : wl1271) :
    Except fault wl1271 :=
  wl1271_scan_stm_depth K env wl1271_scan_state.count wl

/-! ## `wl1271_scan` -/

/-- Function `wl1271_scan` (scan.c:316-348). `ssid = none` is the NULL pointer. Returns the
return value and the device context. -/
def wl1271_scan (K : scan_constants) (env : environment) (wl : wl1271)
    (ssid : Option (List Nat)) (ssid_len : Nat) (req : cfg80211_scan_request) :
    Except fault (Int × wl1271) :=
  if req.n_channels > K.WL1271_MAX_CHANNELS then
    Except.error fault.BUG
  else if wl.scan.state ≠ wl1271_scan_state.WL1271_SCAN_STATE_IDLE then
    Except.ok (-EBUSY, wl)
  else
    let wl := wl.set_scan_state wl1271_scan_state.WL1271_SCAN_STATE_2GHZ_ACTIVE
    let wl :=
      match ssid with
      | some bytes =>
        if ssid_len != 0 then
          { wl with scan := { wl.scan with ssid_len := ssid_len,
                                           ssid := memcpy wl.scan.ssid bytes ssid_len } }
        else
          { wl with scan := { wl.scan with ssid_len := 0 } }
      | none => { wl with scan := { wl.scan with ssid_len := 0 } }
    let wl := { wl with scan := { wl.scan with req := some req } }
    let wl := { wl with scan := { wl.scan with scanned_ch := ∅ } }
    let wl := { wl with scan := { wl.scan with failed := true } }
    let wl := wl.emit (event.ieee80211_queue_delayed_work K.WL1271_SCAN_TIMEOUT)
    match wl1271_scan_stm K env wl with
    | Except.error f => Except.error f
    | Except.ok wl => Except.ok (0, wl)

/-! ## `wl1271_scan_complete_work` and `wl1271_scan_stop` -/

/-- Function `wl1271_scan_complete_work` (scan.c:33-88), the handler of the delayed work
`wl->scan_complete_work`.  The mutex is not modelled.  What
`wl1271_cmd_role_start_dev` and `wl1271_roc` do to `dev_role_id` and `roc_map` is
outside `scan.c` and not modelled; `wl1271_roc` is logged without its argument. -/
def wl1271_scan_complete_work (K : scan_constants) (env : environment) (wl : wl1271) :
    wl1271 :=
  if wl.state = K.WL1271_STATE_OFF then
    wl
  else if wl.scan.state = wl1271_scan_state.WL1271_SCAN_STATE_IDLE then
    wl
  else
    let wl := wl.set_scan_state wl1271_scan_state.WL1271_SCAN_STATE_IDLE
    let wl := { wl with scan := { wl.scan with scanned_ch := ∅ } }
    let wl := { wl with scan := { wl.scan with req := none } }
    let wl := wl.emit event.wl1271_ps_elp_wakeup
    let ret : Int := -(env.wl1271_ps_elp_wakeup wl.log : Int)
    if ret < 0 then
      wl
    else
      let wl :=
        if test_bit K.WL1271_FLAG_STA_ASSOCIATED wl.flags then
          wl.emit event.wl1271_cmd_build_ap_probe_req
        else wl
      let is_sta := wl.bss_type == K.BSS_TYPE_STA_BSS
      let is_ibss := wl.bss_type == K.BSS_TYPE_IBSS
      let wl :=
        if ((is_sta && !test_bit K.WL1271_FLAG_STA_ASSOCIATED wl.flags) ||
            (is_ibss && !test_bit K.WL1271_FLAG_IBSS_JOINED wl.flags)) &&
            !test_bit wl.dev_role_id wl.roc_map then
          (wl.emit event.wl1271_cmd_role_start_dev).emit event.wl1271_roc
        else wl
      let wl := wl.emit event.wl1271_ps_elp_sleep
      let wl := if wl.scan.failed then wl.emit event.wl1271_queue_recovery_work else wl
      wl.emit (event.ieee80211_scan_completed false)

/-- Function `wl1271_scan_stop` (scan.c:350-375). Returns the return value and the device
context. -/
def wl1271_scan_stop (env : environment) (wl : wl1271) : Int × wl1271 :=
  if wl.scan.state = wl1271_scan_state.WL1271_SCAN_STATE_IDLE then
    (-EINVAL, wl)
  else
    let wl := wl.emit event.kzalloc
    if !env.kzalloc wl.log then
      (-ENOMEM, wl)
    else
      let wl := wl.emit (event.wl1271_cmd_send command.CMD_STOP_SCAN)
      let ret : Int := -(env.wl1271_cmd_send wl.log : Int)
      (ret, wl)

/-! ## Scheduled scan: `wl1271_scan_get_sched_scan_channels` and
`wl1271_scan_sched_scan_channels` -/

/-- An entry of `req->ssids` (`struct cfg80211_ssid`). -/
structure cfg80211_ssid where
  ssid : List Nat
  ssid_len : Nat
  deriving DecidableEq

/-- The fields of `struct cfg80211_sched_scan_request` that `scan.c` reads. `channels` is
the array `req->channels[0 .. n_channels-1]`. -/
structure cfg80211_sched_scan_request where
  channels : List ieee80211_channel
  ssids : List cfg80211_ssid
  interval : Nat
  deriving DecidableEq

/-- The field `req->n_channels`: number of entries of `req->channels`. -/
def cfg80211_sched_scan_request.n_channels (req : cfg80211_sched_scan_request) : Nat :=
  req.channels.length

/-- The value of a C `bool` in an integer comparison. -/
def bool_value (b : Bool) : Nat := if b then 1 else 0

/-- The `if` of the loop body of `wl1271_scan_get_sched_scan_channels` (scan.c:393-396).
The masked flags are compared with the `bool` arguments as integers. -/
def wl1271_scan_get_sched_scan_channels_cond (K : scan_constants)
    (req_channel : ieee80211_channel) (band : ieee80211_band) (radar passive : Bool) : Bool :=
  let flags := req_channel.flags
  (flags &&& K.IEEE80211_CHAN_DISABLED == 0) &&
  (flags &&& K.IEEE80211_CHAN_PASSIVE_SCAN == bool_value passive) &&
  (flags &&& K.IEEE80211_CHAN_RADAR == bool_value radar) &&
  (req_channel.band == band)

/-- The assignments to `channels[j]` in the loop body (scan.c:406-416), applied to the
slot `old`: `chan_i` is `req->channels[i]`, the channel selected, and `chan_j` is
`req->channels[j]`, which the code reads for the tx power.  The fields `tx_power_att`
and `channel` are `u8`: the assignments of scan.c:415-416 keep the low 8 bits of
`max_power` (an `int`) and of `hw_value` (a `u16`). -/
def wl1271_scan_get_sched_scan_channels_slot (K : scan_constants)
    (c : conf_sched_scan_settings) (old : conn_scan_ch_params)
    (chan_i chan_j : ieee80211_channel) : conn_scan_ch_params :=
  let slot :=
    if chan_i.flags &&& K.IEEE80211_CHAN_PASSIVE_SCAN != 0 then
      { old with passive_duration := c.dwell_time_passive }
    else
      { old with min_duration := c.min_dwell_time_active,
                 max_duration := c.max_dwell_time_active }
  { slot with tx_power_att := chan_j.max_power % 256, channel := chan_i.hw_value % 256 }

/-- The `for` loop of `wl1271_scan_get_sched_scan_channels` (scan.c:388-420), started at
loop variables `i`, `j`.  The first argument bounds the number of iterations; as `i`
grows by one in every iteration, `req.n_channels - i` iterations always reach the loop
exit.  Reading `req->channels[j]` with `j` not below `req->n_channels` is the fault
`OUT_OF_BOUNDS_READ`.  Returns the final `j` and the destination array. -/
def wl1271_scan_get_sched_scan_channels_loop (K : scan_constants)
    (c : conf_sched_scan_settings) (req : cfg80211_sched_scan_request)
    (band : ieee80211_band) (radar passive : Bool) :
    Nat → Nat → Nat → List conn_scan_ch_params →
      Except fault (Nat × List conn_scan_ch_params)
  | 0, _, j, channels => Except.ok (j, channels)
  | n + 1, i, j, channels =>
    if h : i < req.n_channels ∧ j < K.MAX_CHANNELS_ALL_BANDS then
      let chan_i := req.channels.get ⟨i, h.1⟩
      if wl1271_scan_get_sched_scan_channels_cond K chan_i band radar passive then
        match req.channels[j]? with
        | none => Except.error fault.OUT_OF_BOUNDS_READ
        | some chan_j =>
          wl1271_scan_get_sched_scan_channels_loop K c req band radar passive n (i + 1)
            (j + 1)
            (channels.set j (wl1271_scan_get_sched_scan_channels_slot K c
              (channels.getD j conn_scan_ch_params.zero) chan_i chan_j))
      else
        wl1271_scan_get_sched_scan_channels_loop K c req band radar passive n (i + 1) j
          channels
    else
      Except.ok (j, channels)

/-- Function `wl1271_scan_get_sched_scan_channels` (scan.c:377-423). `c` is
`wl->conf.sched_scan`, `channels` the destination array. Returns `j - start` and the
destination array. -/
def wl1271_scan_get_sched_scan_channels (K : scan_constants) (c : conf_sched_scan_settings)
    (req : cfg80211_sched_scan_request) (channels : List conn_scan_ch_params)
    (band : ieee80211_band) (radar passive : Bool) (start : Nat) :
    Except fault (Nat × List conn_scan_ch_params) :=
  match wl1271_scan_get_sched_scan_channels_loop K c req band radar passive req.n_channels
      0 start channels with
  | Except.error f => Except.error f
  | Except.ok (j, channels) => Except.ok (j - start, channels)

/-- Function `wl1271_scan_sched_scan_channels` (scan.c:425-468). Returns `idx` and the
configuration command. -/
def wl1271_scan_sched_scan_channels (K : scan_constants) (c : conf_sched_scan_settings)
    (req : cfg80211_sched_scan_request) (cfg : wl1271_cmd_sched_scan_config) :
    Except fault (Nat × wl1271_cmd_sched_scan_config) :=
  let idx := 0
  match wl1271_scan_get_sched_scan_channels K c req cfg.channels
      ieee80211_band.IEEE80211_BAND_2GHZ false true idx with
  | Except.error f => Except.error f
  | Except.ok (n, channels) =>
    let cfg := { cfg with channels := channels, passive := cfg.passive.set 0 n }
    let idx := idx + cfg.passive.getD 0 0
    match wl1271_scan_get_sched_scan_channels K c req cfg.channels
        ieee80211_band.IEEE80211_BAND_2GHZ false false idx with
    | Except.error f => Except.error f
    | Except.ok (n, channels) =>
      let cfg := { cfg with channels := channels, active := cfg.active.set 0 n }
      let idx := idx + cfg.active.getD 0 0
      match wl1271_scan_get_sched_scan_channels K c req cfg.channels
          ieee80211_band.IEEE80211_BAND_5GHZ false true idx with
      | Except.error f => Except.error f
      | Except.ok (n, channels) =>
        let cfg := { cfg with channels := channels, passive := cfg.passive.set 1 n }
        let idx := idx + cfg.passive.getD 1 0
        match wl1271_scan_get_sched_scan_channels K c req cfg.channels
            ieee80211_band.IEEE80211_BAND_5GHZ false false 14 with
        | Except.error f => Except.error f
        | Except.ok (n, channels) =>
          let cfg := { cfg with channels := channels, active := cfg.active.set 1 n }
          let idx := idx + cfg.active.getD 1 0
          match wl1271_scan_get_sched_scan_channels K c req cfg.channels
              ieee80211_band.IEEE80211_BAND_5GHZ true false idx with
          | Except.error f => Except.error f
          | Except.ok (n, channels) =>
            let cfg := { cfg with channels := channels, dfs := n }
            let idx := idx + cfg.dfs
            Except.ok (idx, cfg)

/-! ## Scheduled scan: `wl1271_scan_sched_scan_config` -/

/-- The argument `ies` (`struct ieee80211_sched_scan_ies`): for each band the `len[band]`
bytes at `ie[band]`. -/
structure ieee80211_sched_scan_ies where
  ie : ieee80211_band → List Nat

/-- The command as `wl1271_scan_sched_scan_config` has filled its zeroed buffer before it
calls `wl1271_scan_sched_scan_channels` (scan.c:485-508). `ssid0` is `req->ssids[0]`; its
member `ssid` is an array, so the test `ssid_len && ssid` is a test of `ssid_len`. -/
def wl1271_scan_sched_scan_config_cmd (K : scan_constants) (c : conf_sched_scan_settings)
    (req : cfg80211_sched_scan_request) (ssid0 : cfg80211_ssid) :
    wl1271_cmd_sched_scan_config :=
  let cfg := wl1271_cmd_sched_scan_config.zero K
  { cfg with
    rssi_threshold := c.rssi_threshold
    snr_threshold := c.snr_threshold
    n_probe_reqs := c.num_probe_reqs
    cycles := 0
    report_after := 1
    terminate := 0
    tag := K.WL1271_SCAN_DEFAULT_TAG
    bss_type := K.SCAN_BSS_TYPE_ANY
    intervals := List.replicate K.SCAN_MAX_CYCLE_INTERVALS req.interval
    filter_type :=
      if ssid0.ssid_len != 0 then K.SCAN_SSID_FILTER_SPECIFIC else K.SCAN_SSID_FILTER_ANY
    ssid_len := if ssid0.ssid_len != 0 then ssid0.ssid_len else 0
    ssid := if ssid0.ssid_len != 0 then memcpy cfg.ssid ssid0.ssid ssid0.ssid_len
            else cfg.ssid }

/-- The end of `wl1271_scan_sched_scan_config` (scan.c:541-547): send the command. -/
def wl1271_scan_sched_scan_config_send (env : environment) (wl : wl1271)
    (cfg : wl1271_cmd_sched_scan_config) : Int × wl1271 :=
  let wl := wl.emit (event.wl1271_cmd_send (command.CMD_CONNECTION_SCAN_CFG cfg))
  (-(env.wl1271_cmd_send wl.log : Int), wl)

/-- The 5GHz template step of `wl1271_scan_sched_scan_config` (scan.c:529-539) and what
follows it. -/
def wl1271_scan_sched_scan_config_5ghz (env : environment) (wl : wl1271)
    (ssid0 : cfg80211_ssid) (ies : ieee80211_sched_scan_ies)
    (cfg : wl1271_cmd_sched_scan_config) : Int × wl1271 :=
  if cfg.active.getD 1 0 != 0 then
    let wl := wl.emit (event.wl1271_cmd_build_probe_req ssid0.ssid ssid0.ssid_len
      (ies.ie ieee80211_band.IEEE80211_BAND_5GHZ) ieee80211_band.IEEE80211_BAND_5GHZ)
    let ret : Int := -(env.wl1271_cmd_build_probe_req wl.log : Int)
    if ret < 0 then (ret, wl)
    else wl1271_scan_sched_scan_config_send env wl cfg
  else
    wl1271_scan_sched_scan_config_send env wl cfg

/-- The 2.4GHz template step of `wl1271_scan_sched_scan_config` (scan.c:517-527) and what
follows it. -/
def wl1271_scan_sched_scan_config_2ghz (env : environment) (wl : wl1271)
    (ssid0 : cfg80211_ssid) (ies : ieee80211_sched_scan_ies)
    (cfg : wl1271_cmd_sched_scan_config) : Int × wl1271 :=
  if cfg.active.getD 0 0 != 0 then
    let wl := wl.emit (event.wl1271_cmd_build_probe_req ssid0.ssid ssid0.ssid_len
      (ies.ie ieee80211_band.IEEE80211_BAND_2GHZ) ieee80211_band.IEEE80211_BAND_2GHZ)
    let ret : Int := -(env.wl1271_cmd_build_probe_req wl.log : Int)
    if ret < 0 then (ret, wl)
    else wl1271_scan_sched_scan_config_5ghz env wl ssid0 ies cfg
  else
    wl1271_scan_sched_scan_config_5ghz env wl ssid0 ies cfg

/-- Function `wl1271_scan_sched_scan_config` (scan.c:470-552). Returns the return value
and the device context.  Reading `req->ssids[0]` of a request without SSID entries is the
fault `OUT_OF_BOUNDS_READ`. -/
def wl1271_scan_sched_scan_config (K : scan_constants) (env : environment) (wl : wl1271)
    (req : cfg80211_sched_scan_request) (ies : ieee80211_sched_scan_ies) :
    Except fault (Int × wl1271) :=
  let c := wl.conf_sched_scan
  let wl := wl.emit event.kzalloc
  if !env.kzalloc wl.log then
    Except.ok (-ENOMEM, wl)
  else
    match req.ssids[0]? with
    | none => Except.error fault.OUT_OF_BOUNDS_READ
    | some ssid0 =>
      match wl1271_scan_sched_scan_channels K c req
          (wl1271_scan_sched_scan_config_cmd K c req ssid0) with
      | Except.error f => Except.error f
      | Except.ok (total_channels, cfg) =>
        if total_channels == 0 then
          Except.ok (-EINVAL, wl)
        else
          Except.ok (wl1271_scan_sched_scan_config_2ghz env wl ssid0 ies cfg)

/-! ## Specification-level notions used by the theorems -/

/-- Eligibility of the request channel `p.2` found at index `p.1` of the request's list
for a one-shot command: its band is the target band, its disabled flag is clear, its
passive-scan flag equals the `passive` argument and bit `p.1` of the scanned bit array is
not set. -/
def one_shot_eligible (K : scan_constants) (band : ieee80211_band) (passive : Bool)
    (scanned_ch : bitmap) (p : Nat × ieee80211_channel) : Bool :=
  decide (p.2.band = band ∧ p.2.flags &&& K.IEEE80211_CHAN_DISABLED = 0 ∧
    ((p.2.flags &&& K.IEEE80211_CHAN_PASSIVE_SCAN ≠ 0) ↔ passive = true) ∧
    p.1 ∉ scanned_ch)

/-- The eligible channels of a request, each with its index, in original list order. -/
def one_shot_eligible_channels (K : scan_constants) (req : cfg80211_scan_request)
    (band : ieee80211_band) (passive : Bool) (scanned_ch : bitmap) :
    List (Nat × ieee80211_channel) :=
  req.channels.enum.filter (one_shot_eligible K band passive scanned_ch)

/-- The channels one command takes: the first `WL1271_SCAN_MAX_CHANNELS` eligible ones. -/
def one_shot_selected (K : scan_constants) (req : cfg80211_scan_request)
    (band : ieee80211_band) (passive : Bool) (scanned_ch : bitmap) :
    List (Nat × ieee80211_channel) :=
  (one_shot_eligible_channels K req band passive scanned_ch).take K.WL1271_SCAN_MAX_CHANNELS

/-- The set of source indices of a list of indexed channels. -/
def index_set (l : List (Nat × ieee80211_channel)) : Finset Nat :=
  (l.map Prod.fst).toFinset

/-- What the loop of `wl1271_get_scan_channels` still selects when it stands at source
index `i` with `j` slots used. -/
def loop_selected (K : scan_constants) (req : cfg80211_scan_request)
    (band : ieee80211_band) (passive : Bool) (scanned_ch : bitmap) (i j : Nat) :
    List (Nat × ieee80211_channel) :=
  (((req.channels.drop i).enumFrom i).filter (one_shot_eligible K band passive scanned_ch)).take
    (K.WL1271_SCAN_MAX_CHANNELS - j)

/-- What one call of `wl1271_get_scan_channels` was given and what it produced. -/
structure call_record where
  band : ieee80211_band
  passive : Bool
  before : bitmap
  count : Nat
  dest : List basic_scan_channel_params
  after : bitmap

/-- One call of `wl1271_get_scan_channels` on a zeroed destination array of
`WL1271_SCAN_MAX_CHANNELS` slots (as `wl1271_scan_send` makes it), recorded. -/
def get_scan_channels_call (K : scan_constants) (c : conf_scan_settings)
    (req : cfg80211_scan_request) (scanned_ch : bitmap) (band : ieee80211_band)
    (passive : Bool) : call_record :=
  let r := wl1271_get_scan_channels K c scanned_ch req
    (List.replicate K.WL1271_SCAN_MAX_CHANNELS basic_scan_channel_params.zero) band passive
  { band := band, passive := passive, before := scanned_ch, count := r.1, dest := r.2.1,
    after := r.2.2 }

/-- A sequence of calls of `wl1271_get_scan_channels` on the same request, one per entry
of `args` (band and passive flag), each continuing with the bit array the previous call
left. -/
def get_scan_channels_calls (K : scan_constants) (c : conf_scan_settings)
    (req : cfg80211_scan_request) : bitmap → List (ieee80211_band × Bool) → List call_record
  | _, [] => []
  | scanned_ch, (band, passive) :: rest =>
    let r := get_scan_channels_call K c req scanned_ch band passive
    r :: get_scan_channels_calls K c req r.after rest

/-- Repeat `wl1271_get_scan_channels` with the same band and passive flag until it
returns 0.  Returns the records of the calls that returned a non-zero count and the bit
array at the end; `none` when the call budget (first argument) is used up before a call
returns 0. -/
def get_scan_channels_until_empty (K : scan_constants) (c : conf_scan_settings)
    (req : cfg80211_scan_request) (band : ieee80211_band) (passive : Bool) :
    Nat → bitmap → Option (List call_record × bitmap)
  | 0, _ => none
  | budget + 1, scanned_ch =>
    let r := get_scan_channels_call K c req scanned_ch band passive
    if r.count = 0 then
      some ([], r.after)
    else
      match get_scan_channels_until_empty K c req band passive budget r.after with
      | none => none
      | some (rs, final) => some (r :: rs, final)

/-- Position of a state in the fixed order
`Active2G, Passive2G, Active5G, Passive5G, Done` (`Idle` is placed before it). -/
def wl1271_scan_state.rank : wl1271_scan_state → Nat
  | wl1271_scan_state.WL1271_SCAN_STATE_IDLE => 0
  | wl1271_scan_state.WL1271_SCAN_STATE_2GHZ_ACTIVE => 1
  | wl1271_scan_state.WL1271_SCAN_STATE_2GHZ_PASSIVE => 2
  | wl1271_scan_state.WL1271_SCAN_STATE_5GHZ_ACTIVE => 3
  | wl1271_scan_state.WL1271_SCAN_STATE_5GHZ_PASSIVE => 4
  | wl1271_scan_state.WL1271_SCAN_STATE_DONE => 5

/-- The band and passive flag scanned in each of the four band states. -/
def wl1271_scan_state.band_state : wl1271_scan_state → Option (ieee80211_band × Bool)
  | wl1271_scan_state.WL1271_SCAN_STATE_2GHZ_ACTIVE =>
    some (ieee80211_band.IEEE80211_BAND_2GHZ, false)
  | wl1271_scan_state.WL1271_SCAN_STATE_2GHZ_PASSIVE =>
    some (ieee80211_band.IEEE80211_BAND_2GHZ, true)
  | wl1271_scan_state.WL1271_SCAN_STATE_5GHZ_ACTIVE =>
    some (ieee80211_band.IEEE80211_BAND_5GHZ, false)
  | wl1271_scan_state.WL1271_SCAN_STATE_5GHZ_PASSIVE =>
    some (ieee80211_band.IEEE80211_BAND_5GHZ, true)
  | _ => none

/-- The successor of a band state in the fixed order:
`Active2G → Passive2G`, `Passive2G → Active5G` if 5GHz is enabled and `→ Done`
otherwise, `Active5G → Passive5G`, `Passive5G → Done`. -/
def wl1271_scan_state.next (enable_11a : Bool) : wl1271_scan_state → wl1271_scan_state
  | wl1271_scan_state.WL1271_SCAN_STATE_2GHZ_ACTIVE =>
    wl1271_scan_state.WL1271_SCAN_STATE_2GHZ_PASSIVE
  | wl1271_scan_state.WL1271_SCAN_STATE_2GHZ_PASSIVE =>
    if enable_11a then wl1271_scan_state.WL1271_SCAN_STATE_5GHZ_ACTIVE
    else wl1271_scan_state.WL1271_SCAN_STATE_DONE
  | wl1271_scan_state.WL1271_SCAN_STATE_5GHZ_ACTIVE =>
    wl1271_scan_state.WL1271_SCAN_STATE_5GHZ_PASSIVE
  | wl1271_scan_state.WL1271_SCAN_STATE_5GHZ_PASSIVE =>
    wl1271_scan_state.WL1271_SCAN_STATE_DONE
  | s => s

/-- Whether a state is one of the two 5GHz band states. -/
def wl1271_scan_state.is_5ghz : wl1271_scan_state → Bool
  | wl1271_scan_state.WL1271_SCAN_STATE_5GHZ_ACTIVE => true
  | wl1271_scan_state.WL1271_SCAN_STATE_5GHZ_PASSIVE => true
  | _ => false

/-- The state assigned to `wl->scan.state` by a logged action, if it is one. -/
def event.state_written : event → Option wl1271_scan_state
  | event.scan_state s => some s
  | _ => none

/-- Whether a logged action hands a scan command (`CMD_SCAN`) to the transport. -/
def event.is_scan_command : event → Bool
  | event.wl1271_cmd_send (command.CMD_SCAN _) => true
  | _ => false

/-- Whether a logged action hands any command to the transport. -/
def event.is_command : event → Bool
  | event.wl1271_cmd_send _ => true
  | _ => false

/-- Whether a logged action builds a probe-request template. -/
def event.is_template_build : event → Bool
  | event.wl1271_cmd_build_probe_req _ _ _ _ => true
  | _ => false

/-- Whether a logged action cancels or queues the delayed work `scan_complete_work`. -/
def event.is_delayed_work : event → Bool
  | event.cancel_delayed_work => true
  | event.ieee80211_queue_delayed_work _ => true
  | _ => false

/-- Whether a logged action stays clear of 5GHz: a template is built for 2.4GHz, a scan
command carries the 2.4GHz band tag, a state assigned is not a 5GHz state. -/
def event.avoids_5ghz (K : scan_constants) : event → Bool
  | event.wl1271_cmd_build_probe_req _ _ _ band => band == ieee80211_band.IEEE80211_BAND_2GHZ
  | event.wl1271_cmd_send (command.CMD_SCAN cmd) => cmd.band == K.WL1271_SCAN_BAND_2_4_GHZ
  | event.scan_state s => !s.is_5ghz
  | _ => true

/-- The device context after a call that changed only the scanned bit array and the
log. -/
def wl1271.after_send (wl : wl1271) (scanned_ch : bitmap) (added : List event) : wl1271 :=
  { wl with scan := { wl.scan with scanned_ch := scanned_ch }, log := wl.log ++ added }

/-- The band tag `wl1271_scan_send` puts into the command (scan.c:197-200). -/
def band_tag (K : scan_constants) (band : ieee80211_band) : Nat :=
  if band = ieee80211_band.IEEE80211_BAND_2GHZ then K.WL1271_SCAN_BAND_2_4_GHZ
  else K.WL1271_SCAN_BAND_5_GHZ

/-- Successive external drives: `wl1271_scan_stm` called `n` times in a row. -/
def drives (K : scan_constants) (env : environment) : Nat → wl1271 → Except fault wl1271
  | 0, wl => Except.ok wl
  | n + 1, wl =>
    match wl1271_scan_stm K env wl with
    | Except.error f => Except.error f
    | Except.ok wl => drives K env n wl


/-- Number of nested calls of `wl1271_scan_stm` that a drive entered in a state can
make: the state itself and every state after it in the fixed order. -/
def wl1271_scan_state.frames : wl1271_scan_state → Nat
  | wl1271_scan_state.WL1271_SCAN_STATE_IDLE => 1
  | wl1271_scan_state.WL1271_SCAN_STATE_2GHZ_ACTIVE => 5
  | wl1271_scan_state.WL1271_SCAN_STATE_2GHZ_PASSIVE => 4
  | wl1271_scan_state.WL1271_SCAN_STATE_5GHZ_ACTIVE => 3
  | wl1271_scan_state.WL1271_SCAN_STATE_5GHZ_PASSIVE => 2
  | wl1271_scan_state.WL1271_SCAN_STATE_DONE => 1

/-- The states assigned to `wl->scan.state` by the actions of a log, in order. -/
def states_written (log : List event) : List wl1271_scan_state :=
  log.filterMap event.state_written

/-- The scan commands among the actions of a log. -/
def scan_commands (log : List event) : List event :=
  log.filter event.is_scan_command

/-- How the device context `wl1` after one or more drives relates to the context `wl`
before: the log grows by `added`; request pointer and 5GHz enable flag are kept; the
state does not move backwards; every state written lies strictly after the state at
entry and not after the state at exit, and the states written are strictly increasing;
and if 5GHz is disabled and the entry state is no 5GHz state, then neither is the exit
state and all added actions stay clear of 5GHz. -/
def drive_relation (K : scan_constants) (wl wl1 : wl1271) (added : List event) : Prop :=
  wl1.log = wl.log ++ added ∧
  wl1.scan.req = wl.scan.req ∧
  wl1.enable_11a = wl.enable_11a ∧
  wl.scan.state.rank ≤ wl1.scan.state.rank ∧
  (∀ s ∈ states_written added, wl.scan.state.rank < s.rank ∧ s.rank ≤ wl1.scan.state.rank) ∧
  ((states_written added).map wl1271_scan_state.rank).Pairwise (fun a b => a < b) ∧
  (wl.enable_11a = false → wl.scan.state.is_5ghz = false →
    wl1.scan.state.is_5ghz = false ∧ ∀ e ∈ added, e.avoids_5ghz K = true)

/-- The session that a successful start is said to set up before it drives once: the SSID
copied with its length (length 0 when no SSID or a zero length was given), the request
stored, the scanned bit array cleared, `failed = true`, state `Active2G`, and the delayed
work queued with `WL1271_SCAN_TIMEOUT`. -/
def started_session (K : scan_constants) (wl : wl1271) (ssid : Option (List Nat))
    (ssid_len : Nat) (req : cfg80211_scan_request) : wl1271 :=
  { wl with
    scan :=
      { req := some req
        scanned_ch := ∅
        failed := true
        state := wl1271_scan_state.WL1271_SCAN_STATE_2GHZ_ACTIVE
        ssid :=
          match ssid with
          | some bytes => bytes.take ssid_len ++ wl.scan.ssid.drop ssid_len
          | none => wl.scan.ssid
        ssid_len :=
          match ssid with
          | some _ => ssid_len
          | none => 0 }
    log := wl.log ++ [event.scan_state wl1271_scan_state.WL1271_SCAN_STATE_2GHZ_ACTIVE,
      event.ieee80211_queue_delayed_work K.WL1271_SCAN_TIMEOUT] }

/-- The device context at the recursive call of a `wl1271_scan_stm` whose dispatch was
allocated its two buffers and found nothing to scan: two allocations logged, then the
successor state assigned. -/
def wl1271.skipped (wl : wl1271) : wl1271 :=
  (wl.after_send wl.scan.scanned_ch [event.kzalloc, event.kzalloc]).set_scan_state
    (wl.scan.state.next wl.enable_11a)

/-- The log of a drive from Active2G that finds nothing to scan in any band state. -/
def nothing_to_scan_log (enable_11a : Bool) : List event :=
  if enable_11a then
    [event.kzalloc, event.kzalloc,
     event.scan_state wl1271_scan_state.WL1271_SCAN_STATE_2GHZ_PASSIVE,
     event.kzalloc, event.kzalloc,
     event.scan_state wl1271_scan_state.WL1271_SCAN_STATE_5GHZ_ACTIVE,
     event.kzalloc, event.kzalloc,
     event.scan_state wl1271_scan_state.WL1271_SCAN_STATE_5GHZ_PASSIVE,
     event.kzalloc, event.kzalloc,
     event.scan_state wl1271_scan_state.WL1271_SCAN_STATE_DONE,
     event.cancel_delayed_work, event.ieee80211_queue_delayed_work 0]
  else
    [event.kzalloc, event.kzalloc,
     event.scan_state wl1271_scan_state.WL1271_SCAN_STATE_2GHZ_PASSIVE,
     event.kzalloc, event.kzalloc,
     event.scan_state wl1271_scan_state.WL1271_SCAN_STATE_DONE,
     event.cancel_delayed_work, event.ieee80211_queue_delayed_work 0]

/-- The channels of the request that pass the test of one call of
`wl1271_scan_get_sched_scan_channels`, in request order. -/
def sched_bucket (K : scan_constants) (req : cfg80211_sched_scan_request)
    (band : ieee80211_band) (radar passive : Bool) : List ieee80211_channel :=
  req.channels.filter
    (fun ch => wl1271_scan_get_sched_scan_channels_cond K ch band radar passive)

/-- The five calls that `wl1271_scan_sched_scan_channels` makes, in program order
(scan.c:432-460). -/
inductive sched_call
  | PASSIVE_2GHZ
  | ACTIVE_2GHZ
  | PASSIVE_5GHZ
  | ACTIVE_5GHZ
  | DFS_5GHZ
  deriving DecidableEq

/-- The `band` argument of the call. -/
def sched_call.band : sched_call → ieee80211_band
  | sched_call.PASSIVE_2GHZ => ieee80211_band.IEEE80211_BAND_2GHZ
  | sched_call.ACTIVE_2GHZ => ieee80211_band.IEEE80211_BAND_2GHZ
  | sched_call.PASSIVE_5GHZ => ieee80211_band.IEEE80211_BAND_5GHZ
  | sched_call.ACTIVE_5GHZ => ieee80211_band.IEEE80211_BAND_5GHZ
  | sched_call.DFS_5GHZ => ieee80211_band.IEEE80211_BAND_5GHZ

/-- The `radar` argument of the call. -/
def sched_call.radar : sched_call → Bool
  | sched_call.DFS_5GHZ => true
  | _ => false

/-- The `passive` argument of the call. -/
def sched_call.passive : sched_call → Bool
  | sched_call.PASSIVE_2GHZ => true
  | sched_call.PASSIVE_5GHZ => true
  | _ => false

/-- The count that the call records in the command: `cfg->passive[0]`, `cfg->active[0]`,
`cfg->passive[1]`, `cfg->active[1]`, `cfg->dfs`. -/
def sched_call.count (b : sched_call) (cfg : wl1271_cmd_sched_scan_config) : Nat :=
  match b with
  | sched_call.PASSIVE_2GHZ => cfg.passive.getD 0 0
  | sched_call.ACTIVE_2GHZ => cfg.active.getD 0 0
  | sched_call.PASSIVE_5GHZ => cfg.passive.getD 1 0
  | sched_call.ACTIVE_5GHZ => cfg.active.getD 1 0
  | sched_call.DFS_5GHZ => cfg.dfs

/-- The `start` argument of the call, in terms of the recorded counts: `idx` is the sum of
the counts recorded so far, and the fourth call starts at the literal 14. -/
def sched_call.start (b : sched_call) (cfg : wl1271_cmd_sched_scan_config) : Nat :=
  match b with
  | sched_call.PASSIVE_2GHZ => 0
  | sched_call.ACTIVE_2GHZ => cfg.passive.getD 0 0
  | sched_call.PASSIVE_5GHZ => cfg.passive.getD 0 0 + cfg.active.getD 0 0
  | sched_call.ACTIVE_5GHZ => 14
  | sched_call.DFS_5GHZ =>
    cfg.passive.getD 0 0 + cfg.active.getD 0 0 + cfg.passive.getD 1 0 + cfg.active.getD 1 0

/-- The slots `start, ..., start + count - 1` of `final` hold the first `count` channels
of `bucket`, in order, each written over the slot of `initial` by the assignments of the
loop body; the tx power of slot `k` is read from `req->channels[k]`. -/
def bucket_at (K : scan_constants) (c : conf_sched_scan_settings)
    (req : cfg80211_sched_scan_request) (initial final : List conn_scan_ch_params)
    (bucket : List ieee80211_channel) (start count : Nat) : Prop :=
  ∀ m, m < count →
    ∃ chan_i chan_j, bucket[m]? = some chan_i ∧ req.channels[start + m]? = some chan_j ∧
      final[start + m]? = some (wl1271_scan_get_sched_scan_channels_slot K c
        (initial.getD (start + m) conn_scan_ch_params.zero) chan_i chan_j)

/-- The probe-request template that `wl1271_scan_sched_scan_config` builds for a band:
the call `wl1271_cmd_build_probe_req(wl, req->ssids[0].ssid, req->ssids[0].ssid_len,
ies->ie[band], ies->len[band], band)` as it is logged. -/
def sched_template (ssid0 : cfg80211_ssid) (ies : ieee80211_sched_scan_ies)
    (band : ieee80211_band) : event :=
  event.wl1271_cmd_build_probe_req ssid0.ssid ssid0.ssid_len (ies.ie band) band

/-- The scheduled-scan configuration carried by a logged action, if it hands one to the
transport. -/
def event.sched_cfg : event → Option wl1271_cmd_sched_scan_config
  | event.wl1271_cmd_send (command.CMD_CONNECTION_SCAN_CFG cfg) => some cfg
  | _ => none

/-- The scan command carried by a logged action, if it hands one to the transport. -/
def event.scan_cmd : event → Option wl1271_cmd_scan
  | event.wl1271_cmd_send (command.CMD_SCAN cmd) => some cmd
  | _ => none

/-- The actions of `wl1271_scan_complete_work` after a successful wake-up
(scan.c:60-82): restore the connection-monitoring template if the station is
associated, restore remain-on-channel under the test of scan.c:68-70, let the device
sleep, queue the recovery work if the failed flag is set, and notify mac80211. -/
def completion_actions (K : scan_constants) (wl : wl1271) : List event :=
  (if test_bit K.WL1271_FLAG_STA_ASSOCIATED wl.flags then
    [event.wl1271_cmd_build_ap_probe_req] else []) ++
  (if ((wl.bss_type == K.BSS_TYPE_STA_BSS &&
          !test_bit K.WL1271_FLAG_STA_ASSOCIATED wl.flags) ||
        (wl.bss_type == K.BSS_TYPE_IBSS &&
          !test_bit K.WL1271_FLAG_IBSS_JOINED wl.flags)) &&
      !test_bit wl.dev_role_id wl.roc_map then
    [event.wl1271_cmd_role_start_dev, event.wl1271_roc] else []) ++
  [event.wl1271_ps_elp_sleep] ++
  (if wl.scan.failed then [event.wl1271_queue_recovery_work] else []) ++
  [event.ieee80211_scan_completed false]

/-- The channels of a one-shot request whose disabled flag is clear, in request order. -/
def enabled_channels (K : scan_constants) (req : cfg80211_scan_request) :
    List ieee80211_channel :=
  req.channels.filter (fun ch => ch.flags &&& K.IEEE80211_CHAN_DISABLED == 0)

/-! ## Concrete inputs -/

/-- A 2.4GHz channel with the given hardware id and flags. -/
def example_channel (hw_value flags : Nat) : ieee80211_channel :=
  { band := ieee80211_band.IEEE80211_BAND_2GHZ, center_freq := 2407 + 5 * hw_value,
    hw_value := hw_value, flags := flags, max_antenna_gain := 0, max_power := 20,
    beacon_found := false }

/-- A request with three disabled channels and two enabled 2.4GHz channels that are not
passive-only. -/
def example_request : cfg80211_scan_request :=
  { channels := [example_channel 1 1, example_channel 2 0, example_channel 3 1,
      example_channel 4 1, example_channel 5 0],
    n_ssids := 1, ie := [] }

/-- A request whose channels are all disabled. -/
def disabled_request : cfg80211_scan_request :=
  { channels := [example_channel 1 1, example_channel 2 1], n_ssids := 1, ie := [] }

/-- A request with six enabled 2.4GHz channels that are not passive-only. -/
def long_request : cfg80211_scan_request :=
  { channels := [example_channel 1 0, example_channel 2 0, example_channel 3 0,
      example_channel 4 0, example_channel 5 0, example_channel 6 0],
    n_ssids := 1, ie := [] }

/-- Dwell times of a configuration. -/
def example_conf : conf_scan_settings :=
  { min_dwell_time_active := 8, max_dwell_time_active := 30, min_dwell_time_passive := 100,
    max_dwell_time_passive := 100, num_probe_reqs := 2 }

/-- Dwell times and thresholds of a scheduled-scan configuration. -/
def example_sched_conf : conf_sched_scan_settings :=
  { min_dwell_time_active := 8, max_dwell_time_active := 30, dwell_time_passive := 100,
    num_probe_reqs := 2, rssi_threshold := -90, snr_threshold := 0 }

/-- An environment in which every allocation and every command succeeds. -/
def env_ok : environment :=
  { kzalloc := fun _ => true
    wl1271_cmd_build_probe_req := fun _ => 0
    wl1271_cmd_send := fun _ => 0
    cfg80211_find_vendor_ie := fun _ => false
    wl1271_tx_min_rate_get := fun mask => mask
    wl1271_ps_elp_wakeup := fun _ => 0 }

/-- An environment in which no allocation succeeds. -/
def env_nomem : environment :=
  { env_ok with kzalloc := fun _ => false }

/-- An environment in which the command transport fails with `EIO` (5). -/
def env_eio : environment :=
  { env_ok with wl1271_cmd_send := fun _ => 5 }

/-- A device context in the given scan state, with the given request and an empty log;
5GHz is disabled. -/
def example_wl (state : wl1271_scan_state) (req : Option cfg80211_scan_request) : wl1271 :=
  { scan := { req := req, scanned_ch := ∅, failed := true, state := state, ssid := [],
              ssid_len := 0 }
    conf_scan := example_conf
    role_id := 0
    mac_addr := [0, 1, 2, 3, 4, 5]
    bitrate_masks := fun _ => 1
    enable_11a := false
    log := []
    state := 1
    flags := ∅
    bss_type := 2
    dev_role_id := 0
    roc_map := ∅
    conf_sched_scan := example_sched_conf }

/-- A channel of the given band, hardware id, flags and maximum tx power. -/
def sched_channel (band : ieee80211_band) (hw_value flags : Nat) (max_power : Int) :
    ieee80211_channel :=
  { band := band, center_freq := 0, hw_value := hw_value, flags := flags,
    max_antenna_gain := 0, max_power := max_power, beacon_found := false }

/-- A scheduled-scan request with an enabled passive-only 2.4GHz channel (flags
`IEEE80211_CHAN_PASSIVE_SCAN`) and an enabled 5GHz radar channel (flags
`IEEE80211_CHAN_RADAR`). -/
def radar_request : cfg80211_sched_scan_request :=
  { channels := [sched_channel ieee80211_band.IEEE80211_BAND_2GHZ 1 2 20,
      sched_channel ieee80211_band.IEEE80211_BAND_5GHZ 52 8 20],
    ssids := [], interval := 0 }

/-- A scheduled-scan request with a disabled 2.4GHz channel of maximum power 10 followed
by an enabled 2.4GHz channel of maximum power 20. -/
def power_request : cfg80211_sched_scan_request :=
  { channels := [sched_channel ieee80211_band.IEEE80211_BAND_2GHZ 1 1 10,
      sched_channel ieee80211_band.IEEE80211_BAND_2GHZ 2 0 20],
    ssids := [], interval := 0 }

/-- Enabled channels of a band, not passive-only and not radar, with hardware ids
`first, ..., first + n - 1`. -/
def active_channels (band : ieee80211_band) (first n : Nat) : List ieee80211_channel :=
  (List.range n).map (fun k => sched_channel band (first + k) 0 20)

/-- A scheduled-scan request with 15 active 2.4GHz entries followed by 27 active 5GHz
entries. -/
def crowded_request : cfg80211_sched_scan_request :=
  { channels := active_channels ieee80211_band.IEEE80211_BAND_2GHZ 1 15 ++
      active_channels ieee80211_band.IEEE80211_BAND_5GHZ 36 27,
    ssids := [], interval := 0 }

/-- A scheduled-scan request with 15 active 2.4GHz entries followed by one active 5GHz
entry. -/
def overlap_request : cfg80211_sched_scan_request :=
  { channels := active_channels ieee80211_band.IEEE80211_BAND_2GHZ 1 15 ++
      active_channels ieee80211_band.IEEE80211_BAND_5GHZ 36 1,
    ssids := [], interval := 0 }

/-- A scheduled-scan request with 14 active 2.4GHz entries followed by two active 5GHz
entries. -/
def two_band_request : cfg80211_sched_scan_request :=
  { channels := active_channels ieee80211_band.IEEE80211_BAND_2GHZ 1 14 ++
      active_channels ieee80211_band.IEEE80211_BAND_5GHZ 36 2,
    ssids := [], interval := 0 }

/-- A scheduled-scan request with a single active 5GHz channel. -/
def one_5ghz_request : cfg80211_sched_scan_request :=
  { channels := [sched_channel ieee80211_band.IEEE80211_BAND_5GHZ 36 0 20],
    ssids := [], interval := 0 }

/-- Information elements of a scheduled scan: none for either band. -/
def example_ies : ieee80211_sched_scan_ies :=
  { ie := fun _ => [] }

/-- An SSID entry with the two bytes `AB`. -/
def example_ssid : cfg80211_ssid :=
  { ssid := [65, 66], ssid_len := 2 }

/-- A scheduled-scan request with one SSID entry whose two channels are disabled. -/
def empty_sched_request : cfg80211_sched_scan_request :=
  { channels := [sched_channel ieee80211_band.IEEE80211_BAND_2GHZ 1 1 20,
      sched_channel ieee80211_band.IEEE80211_BAND_5GHZ 36 1 20],
    ssids := [example_ssid], interval := 10 }

/-- A scheduled-scan request with one SSID entry and a single channel: an enabled 5GHz
channel, not passive-only and no radar channel, of maximum power 20. -/
def single_5ghz_request : cfg80211_sched_scan_request :=
  { channels := [sched_channel ieee80211_band.IEEE80211_BAND_5GHZ 36 0 20],
    ssids := [example_ssid], interval := 10 }

/-- A scheduled-scan request with one SSID entry and 15 channels: the enabled 5GHz channel
of `single_5ghz_request` followed by 14 disabled 2.4GHz channels of maximum power 10. -/
def padded_5ghz_request : cfg80211_sched_scan_request :=
  { channels := sched_channel ieee80211_band.IEEE80211_BAND_5GHZ 36 0 20 ::
      (List.range 14).map
        (fun k => sched_channel ieee80211_band.IEEE80211_BAND_2GHZ (k + 1) 1 10),
    ssids := [example_ssid], interval := 10 }

/-- A scheduled-scan request with one SSID entry, 14 active 2.4GHz channels and two active
5GHz channels. -/
def two_band_sched_request : cfg80211_sched_scan_request :=
  { two_band_request with ssids := [example_ssid], interval := 10 }

/-- A one-shot request with two enabled 2.4GHz channels whose hardware id or maximum power
does not fit into 8 bits: hardware id 300 with power 300, and hardware id 1 with power
-1. -/
def wide_request : cfg80211_scan_request :=
  { channels :=
      [{ band := ieee80211_band.IEEE80211_BAND_2GHZ, center_freq := 0, hw_value := 300,
         flags := 0, max_antenna_gain := 0, max_power := 300, beacon_found := false },
       { band := ieee80211_band.IEEE80211_BAND_2GHZ, center_freq := 0, hw_value := 1,
         flags := 0, max_antenna_gain := 0, max_power := -1, beacon_found := false }],
    n_ssids := 1, ie := [] }

/-- A one-shot request with one SSID, no information elements and a single enabled 5GHz
channel that is not passive-only. -/
def five_ghz_scan_request : cfg80211_scan_request :=
  { channels := [sched_channel ieee80211_band.IEEE80211_BAND_5GHZ 36 0 20],
    n_ssids := 1, ie := [] }

/-- A device context for the scheduled scan: Idle session, empty log. -/
def example_sched_wl : wl1271 :=
  example_wl wl1271_scan_state.WL1271_SCAN_STATE_IDLE none

end Wl12xx

/-!
# MCP Unicode routines (`mcp_unicode.c`)

Shallow embedding of the UTF-8 / UTF-16 routines of the FM stack
(`src/fmradio/fm_stack/MCP_Common/frame/mcp_unicode.c`).

Conventions of the embedding

* A byte (`McpU8`, `McpUtf8`) is a `Nat` below 256, a UTF-16 code unit (`McpU16`,
  `McpUtf16`) a `Nat` below 65536; casts to these types and `McpU32` arithmetic that can
  wrap are written with `%`.
* A pointer into a buffer is the list of the cells from the pointer to the end of the
  buffer: `*p` is the head of the list, `p + k` drops `k` cells, and a read where the list
  has no cell is the fault `OUT_OF_BOUNDS_READ`.
* A cell of a UTF-16 buffer is the pair of its two bytes in memory order; how a code unit
  is laid out depends on the endianity argument and, for the native endianity, on the
  byte order of the host, which is a parameter (`host_big_endian`).
  `MCP_ENDIAN_HostToBE16`, `MCP_ENDIAN_HostToLE16`, `MCP_ENDIAN_BEtoHost16` and
  `MCP_ENDIAN_LEtoHost16` come from `mcp_endian.h`, which is not part of the source
  tree; they are modelled by what their names say.
* A loop that the C code leaves only through its own tests runs on a bound:
  a loop that is not left within the bound is the fault `LOOP_BOUND_EXCEEDED`.
* A target buffer is represented by the cells written so far, in order, together with
  the number of cells between `targetStart` and `targetEnd`.
-/

namespace McpUnicode

/-- Ways in which a call does not return a value. -/
inductive fault
  | OUT_OF_BOUNDS_READ
  | LOOP_BOUND_EXCEEDED
  deriving DecidableEq

/-- The constant `mcpUni_halfShift`. -/
def mcpUni_halfShift : Nat := 10

/-- The constant `mcpUni_halfBase`. -/
def mcpUni_halfBase : Nat := 0x0010000

/-- The constant `mcpUni_halfMask`. -/
def mcpUni_halfMask : Nat := 0x3FF

/-- The table `mcpUni_trailingBytesForUTF8[256]` (mcp_unicode.c:59-68). -/
def mcpUni_trailingBytesForUTF8 : List Nat := [
    0,0,0,0,0,0,0,0,0,0,0,0,0,0,0,0, 0,0,0,0,0,0,0,0,0,0,0,0,0,0,0,0,
    0,0,0,0,0,0,0,0,0,0,0,0,0,0,0,0, 0,0,0,0,0,0,0,0,0,0,0,0,0,0,0,0,
    0,0,0,0,0,0,0,0,0,0,0,0,0,0,0,0, 0,0,0,0,0,0,0,0,0,0,0,0,0,0,0,0,
    0,0,0,0,0,0,0,0,0,0,0,0,0,0,0,0, 0,0,0,0,0,0,0,0,0,0,0,0,0,0,0,0,
    0,0,0,0,0,0,0,0,0,0,0,0,0,0,0,0, 0,0,0,0,0,0,0,0,0,0,0,0,0,0,0,0,
    0,0,0,0,0,0,0,0,0,0,0,0,0,0,0,0, 0,0,0,0,0,0,0,0,0,0,0,0,0,0,0,0,
    1,1,1,1,1,1,1,1,1,1,1,1,1,1,1,1, 1,1,1,1,1,1,1,1,1,1,1,1,1,1,1,1,
    2,2,2,2,2,2,2,2,2,2,2,2,2,2,2,2, 3,3,3,3,3,3,3,3,4,4,4,4,5,5,5,5]

/-- The table `mcpUni_offsetsFromUTF8[6]` (mcp_unicode.c:75-78). -/
def mcpUni_offsetsFromUTF8 : List Nat :=
  [0x00000000, 0x00003080, 0x000E2080, 0x03C82080, 0xFA082080, 0x82082080]

/-- The table `mcpUni_firstByteMark[7]` (mcp_unicode.c:87-89). -/
def mcpUni_firstByteMark : List Nat :=
  [0x00, 0x00, 0xC0, 0xE0, 0xF0, 0xF8, 0xFC]

/-- The enumeration `McpUniConversionResult`. -/
inductive McpUniConversionResult
  | conversionOK
  | sourceExhausted
  | targetExhausted
  | sourceIllegal
  deriving DecidableEq

/-- The enumeration `McpUniConversionFlags`. -/
inductive McpUniConversionFlags
  | strictConversion
  | lenientConversion
  deriving DecidableEq

/-- The endianity directive `McpUniEndianity`: native, big-endian, or (any other value)
little-endian. -/
inductive McpUniEndianity
  | mcpNativeEndian
  | mcpBigEndian
  | mcpLittleEndian
  deriving DecidableEq

/-- The constant `MCP_UNI_REPLACEMENT_CHAR`. -/
def MCP_UNI_REPLACEMENT_CHAR : Nat := 0x0000FFFD

/-- The constant `MCP_UNI_MAX_BMP`. -/
def MCP_UNI_MAX_BMP : Nat := 0x0000FFFF

/-- The constant `MCP_UNI_MAX_UTF16`. -/
def MCP_UNI_MAX_UTF16 : Nat := 0x0010FFFF

/-- The constant `MCP_UNI_SUR_HIGH_START`. -/
def MCP_UNI_SUR_HIGH_START : Nat := 0xD800

/-- The constant `MCP_UNI_SUR_HIGH_END`. -/
def MCP_UNI_SUR_HIGH_END : Nat := 0xDBFF

/-- The constant `MCP_UNI_SUR_LOW_START`. -/
def MCP_UNI_SUR_LOW_START : Nat := 0xDC00

/-- The constant `MCP_UNI_SUR_LOW_END`. -/
def MCP_UNI_SUR_LOW_END : Nat := 0xDFFF

/-- The two bytes, in memory order, that `MCP_ENDIAN_HostToBE16` stores for a word. -/
def MCP_ENDIAN_HostToBE16 (word : Nat) : Nat × Nat :=
  (word / 256 % 256, word % 256)

/-- The two bytes, in memory order, that `MCP_ENDIAN_HostToLE16` stores for a word. -/
def MCP_ENDIAN_HostToLE16 (word : Nat) : Nat × Nat :=
  (word % 256, word / 256 % 256)

/-- The word that `MCP_ENDIAN_BEtoHost16` reads from two bytes in memory order. -/
def MCP_ENDIAN_BEtoHost16 (cell : Nat × Nat) : Nat :=
  cell.1 * 256 + cell.2

/-- The word that `MCP_ENDIAN_LEtoHost16` reads from two bytes in memory order. -/
def MCP_ENDIAN_LEtoHost16 (cell : Nat × Nat) : Nat :=
  cell.2 * 256 + cell.1

/-- The macro `MCP_UNI_WRITE_UTF16`: the cell stored for `nativeWord`. The native store
`*target = nativeWord` lays the word out in the byte order of the host. -/
def MCP_UNI_WRITE_UTF16 (host_big_endian : Bool) (endianity : McpUniEndianity)
    (nativeWord : Nat) : Nat × Nat :=
  match endianity with
  | McpUniEndianity.mcpNativeEndian =>
    if host_big_endian then MCP_ENDIAN_HostToBE16 nativeWord
    else MCP_ENDIAN_HostToLE16 nativeWord
  | McpUniEndianity.mcpBigEndian => MCP_ENDIAN_HostToBE16 nativeWord
  | McpUniEndianity.mcpLittleEndian => MCP_ENDIAN_HostToLE16 nativeWord

/-- The macro `MCP_UNI_READ_UTF16`: the word read from a cell. -/
def MCP_UNI_READ_UTF16 (host_big_endian : Bool) (endianity : McpUniEndianity)
    (cell : Nat × Nat) : Nat :=
  match endianity with
  | McpUniEndianity.mcpNativeEndian =>
    if host_big_endian then MCP_ENDIAN_BEtoHost16 cell else MCP_ENDIAN_LEtoHost16 cell
  | McpUniEndianity.mcpBigEndian => MCP_ENDIAN_BEtoHost16 cell
  | McpUniEndianity.mcpLittleEndian => MCP_ENDIAN_LEtoHost16 cell

/-- The read `source[k]` of a byte. -/
def read_byte (source : List Nat) (k : Nat) : Except fault Nat :=
  match source[k]? with
  | some b => Except.ok b
  | none => Except.error fault.OUT_OF_BOUNDS_READ

/-- The read `mcpUni_trailingBytesForUTF8[b]` for a byte `b`. -/
def trailingBytesForUTF8 (b : Nat) : Nat :=
  mcpUni_trailingBytesForUTF8.getD b 0

/-! ## `McpUniIsLegalUTF8` -/

/-- The end of `McpUniIsLegalUTF8` from `case 1` on (mcp_unicode.c:343-347). -/
def McpUniIsLegalUTF8_case1 (source : List Nat) : Except fault Bool :=
  match read_byte source 0 with
  | Except.error f => Except.error f
  | Except.ok s0 =>
    if s0 ≥ 0x80 ∧ s0 < 0xC2 then Except.ok false
    else if s0 > 0xF4 then Except.ok false
    else Except.ok true

/-- Function `McpUniIsLegalUTF8` from `case 2` on (mcp_unicode.c:331-347): `a` is the
byte `source[1]`; the inner `switch` is on `*source`. -/
def McpUniIsLegalUTF8_case2 (source : List Nat) : Except fault Bool :=
  match read_byte source 1 with
  | Except.error f => Except.error f
  | Except.ok a =>
    if a > 0xBF then Except.ok false
    else
      match read_byte source 0 with
      | Except.error f => Except.error f
      | Except.ok s0 =>
        if s0 = 0xE0 then
          if a < 0xA0 then Except.ok false else McpUniIsLegalUTF8_case1 source
        else if s0 = 0xED then
          if a > 0x9F then Except.ok false else McpUniIsLegalUTF8_case1 source
        else if s0 = 0xF0 then
          if a < 0x90 then Except.ok false else McpUniIsLegalUTF8_case1 source
        else if s0 = 0xF4 then
          if a > 0x8F then Except.ok false else McpUniIsLegalUTF8_case1 source
        else
          if a < 0x80 then Except.ok false else McpUniIsLegalUTF8_case1 source

/-- Function `McpUniIsLegalUTF8` from `case 3` on (mcp_unicode.c:330). -/
def McpUniIsLegalUTF8_case3 (source : List Nat) : Except fault Bool :=
  match read_byte source 2 with
  | Except.error f => Except.error f
  | Except.ok a =>
    if a < 0x80 ∨ a > 0xBF then Except.ok false else McpUniIsLegalUTF8_case2 source

/-- Function `McpUniIsLegalUTF8` from `case 4` on (mcp_unicode.c:329). -/
def McpUniIsLegalUTF8_case4 (source : List Nat) : Except fault Bool :=
  match read_byte source 3 with
  | Except.error f => Except.error f
  | Except.ok a =>
    if a < 0x80 ∨ a > 0xBF then Except.ok false else McpUniIsLegalUTF8_case3 source

/-- Function `McpUniIsLegalUTF8` (mcp_unicode.c:318-348): the `switch` on `length` with
its fall-through cases. -/
def McpUniIsLegalUTF8 (source : List Nat) (length : Nat) : Except fault Bool :=
  match length with
  | 4 => McpUniIsLegalUTF8_case4 source
  | 3 => McpUniIsLegalUTF8_case3 source
  | 2 => McpUniIsLegalUTF8_case2 source
  | 1 => McpUniIsLegalUTF8_case1 source
  | _ => Except.ok false

/-! ## `McpUniConvertUTF8toUTF16` -/

/-- The fall-through `switch (extraBytesToRead)` of `McpUniConvertUTF8toUTF16`
(mcp_unicode.c:429-437, "Note A"): `ch += *source++; ch <<= 6;` for each of the first
`extraBytesToRead` bytes, in `McpU32` arithmetic, started at `ch`. -/
def McpUniConvertUTF8toUTF16_shift (ch : Nat) : List Nat → Nat
  | [] => ch
  | b :: rest => McpUniConvertUTF8toUTF16_shift ((ch + b) % 2 ^ 32 * 64 % 2 ^ 32) rest

/-- The value of `ch` after the `switch` and the subtraction of
`mcpUni_offsetsFromUTF8[extraBytesToRead]` (mcp_unicode.c:429-439). `source` holds at
least `extraBytesToRead + 1` bytes. -/
def McpUniConvertUTF8toUTF16_ch (source : List Nat) (extraBytesToRead : Nat) : Nat :=
  let ch := McpUniConvertUTF8toUTF16_shift 0 (source.take extraBytesToRead)
  let ch := (ch + source.getD extraBytesToRead 0) % 2 ^ 32
  (ch + 2 ^ 32 - mcpUni_offsetsFromUTF8.getD extraBytesToRead 0) % 2 ^ 32

/-- The loop of `McpUniConvertUTF8toUTF16` (mcp_unicode.c:414-507).  `source` is the
list of the bytes from `source` to `sourceEnd`, `target` the cells written so far and
`capacity` the number of cells from `*targetStart` to `targetEnd`.  Every iteration that
does not leave the loop moves `source` forward, so a bound above the number of source
bytes is never reached.  Returns the result code, the bytes not consumed and the cells
written. -/
def McpUniConvertUTF8toUTF16_loop (host_big_endian : Bool) (capacity : Nat)
    (flags : McpUniConversionFlags) (endianity : McpUniEndianity) :
    Nat → List Nat → List (Nat × Nat) →
      Except fault (McpUniConversionResult × List Nat × List (Nat × Nat))
  | 0, _, _ => Except.error fault.LOOP_BOUND_EXCEEDED
  | bound + 1, source, target =>
    match source with
    | [] => Except.ok (McpUniConversionResult.conversionOK, source, target)
    | b0 :: _ =>
      let extraBytesToRead := trailingBytesForUTF8 b0
      if extraBytesToRead ≥ source.length then
        Except.ok (McpUniConversionResult.sourceExhausted, source, target)
      else
        match McpUniIsLegalUTF8 source (extraBytesToRead + 1) with
        | Except.error f => Except.error f
        | Except.ok false => Except.ok (McpUniConversionResult.sourceIllegal, source, target)
        | Except.ok true =>
          let ch := McpUniConvertUTF8toUTF16_ch source extraBytesToRead
          let next := source.drop (extraBytesToRead + 1)
          if target.length ≥ capacity then
            Except.ok (McpUniConversionResult.targetExhausted, source, target)
          else if ch ≤ MCP_UNI_MAX_BMP then
            if ch ≥ MCP_UNI_SUR_HIGH_START ∧ ch ≤ MCP_UNI_SUR_LOW_END then
              if flags = McpUniConversionFlags.strictConversion then
                Except.ok (McpUniConversionResult.sourceIllegal, source, target)
              else
                McpUniConvertUTF8toUTF16_loop host_big_endian capacity flags endianity bound
                  next
                  (target ++ [MCP_UNI_WRITE_UTF16 host_big_endian endianity
                    (MCP_UNI_REPLACEMENT_CHAR % 2 ^ 16)])
            else
              McpUniConvertUTF8toUTF16_loop host_big_endian capacity flags endianity bound
                next (target ++ [MCP_UNI_WRITE_UTF16 host_big_endian endianity (ch % 2 ^ 16)])
          else if ch > MCP_UNI_MAX_UTF16 then
            if flags = McpUniConversionFlags.strictConversion then
              Except.ok (McpUniConversionResult.sourceIllegal, source, target)
            else
              McpUniConvertUTF8toUTF16_loop host_big_endian capacity flags endianity bound
                next
                (target ++ [MCP_UNI_WRITE_UTF16 host_big_endian endianity
                  (MCP_UNI_REPLACEMENT_CHAR % 2 ^ 16)])
          else
            if target.length + 1 ≥ capacity then
              Except.ok (McpUniConversionResult.targetExhausted, source, target)
            else
              let ch := ch - mcpUni_halfBase
              McpUniConvertUTF8toUTF16_loop host_big_endian capacity flags endianity bound
                next
                (target ++
                  [MCP_UNI_WRITE_UTF16 host_big_endian endianity
                    (((ch >>> mcpUni_halfShift) + MCP_UNI_SUR_HIGH_START) % 2 ^ 16),
                   MCP_UNI_WRITE_UTF16 host_big_endian endianity
                    (((ch &&& mcpUni_halfMask) + MCP_UNI_SUR_LOW_START) % 2 ^ 16)])

/-- Function `McpUniConvertUTF8toUTF16` (mcp_unicode.c:400-513) on the bytes `source`
between `*sourceStart` and `sourceEnd` and an empty target of `capacity` cells. -/
def McpUniConvertUTF8toUTF16 (host_big_endian : Bool) (source : List Nat) (capacity : Nat)
    (flags : McpUniConversionFlags) (endianity : McpUniEndianity) :
    Except fault (McpUniConversionResult × List Nat × List (Nat × Nat)) :=
  McpUniConvertUTF8toUTF16_loop host_big_endian capacity flags endianity
    (source.length + 1) source []

/-! ## `McpUniConvertUTF16toUTF8` -/

/-- The fall-through `switch (bytesToWrite)` of `McpUniConvertUTF16toUTF8`
(mcp_unicode.c:289-295): the bytes stored, first byte first. -/
def McpUniConvertUTF16toUTF8_bytes (bytesToWrite : Nat) (ch : Nat) : List Nat :=
  match bytesToWrite with
  | 4 =>
    let b3 := ((ch ||| 0x80) &&& 0xBF) % 2 ^ 8
    let ch := ch >>> 6
    let b2 := ((ch ||| 0x80) &&& 0xBF) % 2 ^ 8
    let ch := ch >>> 6
    let b1 := ((ch ||| 0x80) &&& 0xBF) % 2 ^ 8
    let ch := ch >>> 6
    let b0 := (ch ||| mcpUni_firstByteMark.getD 4 0) % 2 ^ 8
    [b0, b1, b2, b3]
  | 3 =>
    let b2 := ((ch ||| 0x80) &&& 0xBF) % 2 ^ 8
    let ch := ch >>> 6
    let b1 := ((ch ||| 0x80) &&& 0xBF) % 2 ^ 8
    let ch := ch >>> 6
    let b0 := (ch ||| mcpUni_firstByteMark.getD 3 0) % 2 ^ 8
    [b0, b1, b2]
  | 2 =>
    let b1 := ((ch ||| 0x80) &&& 0xBF) % 2 ^ 8
    let ch := ch >>> 6
    let b0 := (ch ||| mcpUni_firstByteMark.getD 2 0) % 2 ^ 8
    [b0, b1]
  | 1 =>
    [(ch ||| mcpUni_firstByteMark.getD 1 0) % 2 ^ 8]
  | _ => []

/-- The number of bytes and the character that `McpUniConvertUTF16toUTF8` writes for the
value `ch` (mcp_unicode.c:269-278). -/
def McpUniConvertUTF16toUTF8_size (ch : Nat) : Nat × Nat :=
  if ch < 0x80 then (1, ch)
  else if ch < 0x800 then (2, ch)
  else if ch < 0x10000 then (3, ch)
  else if ch < 0x110000 then (4, ch)
  else (3, MCP_UNI_REPLACEMENT_CHAR)

/-- The loop of `McpUniConvertUTF16toUTF8` (mcp_unicode.c:209-298).  `remaining` is the
number of cells from `source` to `sourceEnd`, `source` the cells of the source buffer
from `source` on, `target` the bytes written so far and `capacity` the number of bytes
from `*targetStart` to `targetEnd`.  Every iteration that does not leave the loop makes
`remaining` smaller.  Returns the result code, the number of cells not consumed and the
bytes written. -/
def McpUniConvertUTF16toUTF8_loop (host_big_endian : Bool) (capacity : Nat)
    (flags : McpUniConversionFlags) (endianity : McpUniEndianity) :
    Nat → Nat → List (Nat × Nat) → List Nat →
      Except fault (McpUniConversionResult × Nat × List Nat)
  | 0, _, _, _ => Except.error fault.LOOP_BOUND_EXCEEDED
  | bound + 1, remaining, source, target =>
    if remaining = 0 then
      Except.ok (McpUniConversionResult.conversionOK, remaining, target)
    else
      match source with
      | [] => Except.error fault.OUT_OF_BOUNDS_READ
      | cell :: rest =>
        let ch := MCP_UNI_READ_UTF16 host_big_endian endianity cell
        if ch ≥ MCP_UNI_SUR_HIGH_START ∧ ch ≤ MCP_UNI_SUR_HIGH_END then
          if remaining - 1 > 0 then
            match rest with
            | [] => Except.error fault.OUT_OF_BOUNDS_READ
            | cell2 :: rest2 =>
              let ch2 := MCP_UNI_READ_UTF16 host_big_endian endianity cell2
              if ch2 ≥ MCP_UNI_SUR_LOW_START ∧ ch2 ≤ MCP_UNI_SUR_LOW_END then
                let ch := ((ch - MCP_UNI_SUR_HIGH_START) <<< mcpUni_halfShift) % 2 ^ 32 +
                  (ch2 - MCP_UNI_SUR_LOW_START) + mcpUni_halfBase
                let w := McpUniConvertUTF16toUTF8_size ch
                if target.length + w.1 > capacity then
                  Except.ok (McpUniConversionResult.targetExhausted, remaining, target)
                else
                  McpUniConvertUTF16toUTF8_loop host_big_endian capacity flags endianity
                    bound (remaining - 2) rest2
                    (target ++ McpUniConvertUTF16toUTF8_bytes w.1 w.2)
              else if flags = McpUniConversionFlags.strictConversion then
                Except.ok (McpUniConversionResult.sourceIllegal, remaining, target)
              else
                let w := McpUniConvertUTF16toUTF8_size ch
                if target.length + w.1 > capacity then
                  Except.ok (McpUniConversionResult.targetExhausted, remaining, target)
                else
                  McpUniConvertUTF16toUTF8_loop host_big_endian capacity flags endianity
                    bound (remaining - 1) rest
                    (target ++ McpUniConvertUTF16toUTF8_bytes w.1 w.2)
          else
            Except.ok (McpUniConversionResult.sourceExhausted, remaining, target)
        else if flags = McpUniConversionFlags.strictConversion ∧
            ch ≥ MCP_UNI_SUR_LOW_START ∧ ch ≤ MCP_UNI_SUR_LOW_END then
          Except.ok (McpUniConversionResult.sourceIllegal, remaining, target)
        else
          let w := McpUniConvertUTF16toUTF8_size ch
          if target.length + w.1 > capacity then
            Except.ok (McpUniConversionResult.targetExhausted, remaining, target)
          else
            McpUniConvertUTF16toUTF8_loop host_big_endian capacity flags endianity
              bound (remaining - 1) rest
              (target ++ McpUniConvertUTF16toUTF8_bytes w.1 w.2)

/-- Function `McpUniConvertUTF16toUTF8` (mcp_unicode.c:198-304) on a source buffer of
which `srcLen` cells lie before `sourceEnd`, and an empty target of `capacity` bytes. -/
def McpUniConvertUTF16toUTF8 (host_big_endian : Bool) (source : List (Nat × Nat))
    (srcLen : Nat) (capacity : Nat) (flags : McpUniConversionFlags)
    (endianity : McpUniEndianity) :
    Except fault (McpUniConversionResult × Nat × List Nat) :=
  McpUniConvertUTF16toUTF8_loop host_big_endian capacity flags endianity
    (srcLen + 1) srcLen source []

/-! ## Exported functions -/

/-- Function `MCP_Utf16ToUtf8Endian` (mcp_unicode.c:522-554): `targetEnd` is
`tgtText + tgtSize + 1`, the result of the conversion is discarded.  Returns the return
value, `(McpU16)(targetStart - tgtText)`, and the bytes written to `tgtText`. -/
def MCP_Utf16ToUtf8Endian (host_big_endian : Bool) (tgtSize : Nat)
    (srcText : List (Nat × Nat)) (srcLen : Nat) (endianity : McpUniEndianity) :
    Except fault (Nat × List Nat) :=
  match McpUniConvertUTF16toUTF8 host_big_endian srcText srcLen (tgtSize + 1)
      McpUniConversionFlags.strictConversion endianity with
  | Except.error f => Except.error f
  | Except.ok (_, _, target) => Except.ok (target.length % 2 ^ 16, target)

/-- The function `MCP_HAL_STRING_StrLen` (`strlen`): the number of bytes before the first
0 byte; running off the buffer is the fault `OUT_OF_BOUNDS_READ`. -/
def MCP_HAL_STRING_StrLen : List Nat → Except fault Nat
  | [] => Except.error fault.OUT_OF_BOUNDS_READ
  | b :: rest =>
    if b = 0 then Except.ok 0
    else
      match MCP_HAL_STRING_StrLen rest with
      | Except.error f => Except.error f
      | Except.ok n => Except.ok (n + 1)

/-- Function `MCP_Utf8ToUtf16Endian` (mcp_unicode.c:556-595): the source runs up to and
including the terminating 0 byte, `targetEnd` is `tgtText + tgtSize + 1`.  Returns the
return value (1 on failure, else `(McpU16)(2 * (targetStart - tgtText))`) and the cells
written to `tgtText`. -/
def MCP_Utf8ToUtf16Endian (host_big_endian : Bool) (tgtSize : Nat) (srcText : List Nat)
    (endianity : McpUniEndianity) : Except fault (Nat × List (Nat × Nat)) :=
  match MCP_HAL_STRING_StrLen srcText with
  | Except.error f => Except.error f
  | Except.ok len =>
    match McpUniConvertUTF8toUTF16 host_big_endian (srcText.take (len + 1)) (tgtSize + 1)
        McpUniConversionFlags.strictConversion endianity with
    | Except.error f => Except.error f
    | Except.ok (res, _, target) =>
      if res ≠ McpUniConversionResult.conversionOK then Except.ok (1, target)
      else Except.ok (2 * target.length % 2 ^ 16, target)

/-- The inner `for` loop of `MCP_StriCmpUtf8` (mcp_unicode.c:680-691): compare up to
`ch1Len` bytes, advancing both pointers while they agree.  Returns the two pointers. -/
def MCP_StriCmpUtf8_inner : Nat → List Nat → List Nat → Except fault (List Nat × List Nat)
  | 0, str1, str2 => Except.ok (str1, str2)
  | ch1Len + 1, str1, str2 =>
    match str1, str2 with
    | b1 :: rest1, b2 :: rest2 =>
      if b1 ≠ b2 then Except.ok (str1, str2)
      else MCP_StriCmpUtf8_inner ch1Len rest1 rest2
    | _, _ => Except.error fault.OUT_OF_BOUNDS_READ

/-- The end of `MCP_StriCmpUtf8` (mcp_unicode.c:695-703): 0 if `*str1 == *str2`, else
1. -/
def MCP_StriCmpUtf8_result (str1 str2 : List Nat) : Except fault Nat :=
  match str1, str2 with
  | b1 :: _, b2 :: _ => if b1 = b2 then Except.ok 0 else Except.ok 1
  | _, _ => Except.error fault.OUT_OF_BOUNDS_READ

/-- Function `MCP_StriCmpUtf8` (mcp_unicode.c:631-704) with a bound on the number of
iterations of its outer `for (;;)` loop: with bound 0 the loop has not been left. -/
def MCP_StriCmpUtf8 : Nat → List Nat → List Nat → Except fault Nat
  | 0, _, _ => Except.error fault.LOOP_BOUND_EXCEEDED
  | bound + 1, str1, str2 =>
    match str1, str2 with
    | ch1 :: rest1, ch2 :: rest2 =>
      if ch1 = 0 ∨ ch2 = 0 then
        MCP_StriCmpUtf8_result str1 str2
      else
        let ch1Len := (trailingBytesForUTF8 ch1 + 1) % 2 ^ 8
        let ch2Len := (trailingBytesForUTF8 ch2 + 1) % 2 ^ 8
        match McpUniIsLegalUTF8 str1 ch1Len with
        | Except.error f => Except.error f
        | Except.ok legal1 =>
          if legal1 = false then Except.ok 1
          else
            match McpUniIsLegalUTF8 str2 ch2Len with
            | Except.error f => Except.error f
            | Except.ok legal2 =>
              if legal2 = false ∨ ch1Len ≠ ch2Len then Except.ok 1
              else if ch1Len = 1 then
                let ch1 := if ch1 ≥ 97 ∧ ch1 ≤ 122 then (ch1 + 2 ^ 8 - 0x20) % 2 ^ 8 else ch1
                let ch2 := if ch2 ≥ 97 ∧ ch2 ≤ 122 then (ch2 + 2 ^ 8 - 0x20) % 2 ^ 8 else ch2
                if ch1 ≠ ch2 then MCP_StriCmpUtf8_result str1 str2
                else MCP_StriCmpUtf8 bound rest1 rest2
              else
                match MCP_StriCmpUtf8_inner ch1Len str1 str2 with
                | Except.error f => Except.error f
                | Except.ok (str1, str2) => MCP_StriCmpUtf8 bound str1 str2
    | _, _ => Except.error fault.OUT_OF_BOUNDS_READ

/-! ## `MCP_StrnCpyUtf8` -/

/-- The inner `for` loop of `MCP_StrnCpyUtf8` (mcp_unicode.c:735-738):
`*dest++ = *source++;`, `chLen` times.  `written` holds the bytes stored from `dest` on
so far.  Returns the source pointer and the bytes stored. -/
def MCP_StrnCpyUtf8_copy : Nat → List Nat → List Nat → Except fault (List Nat × List Nat)
  | 0, source, written => Except.ok (source, written)
  | chLen + 1, source, written =>
    match source with
    | [] => Except.error fault.OUT_OF_BOUNDS_READ
    | b :: rest => MCP_StrnCpyUtf8_copy chLen rest (written ++ [b])

/-- The loop `for (; count>0; count--)` of `MCP_StrnCpyUtf8` (mcp_unicode.c:713-741).
`written` holds the bytes stored from `dest` on so far; the `break` at an illegal
character leaves the loop with what has been stored.  Returns the bytes stored. -/
def MCP_StrnCpyUtf8_loop : Nat → Bool → List Nat → List Nat → Except fault (List Nat)
  | 0, _, _, written => Except.ok written
  | count + 1, padding, source, written =>
    if padding = true then
      MCP_StrnCpyUtf8_loop count padding source (written ++ [0])
    else
      match source with
      | [] => Except.error fault.OUT_OF_BOUNDS_READ
      | ch :: _ =>
        if ch = 0 then
          MCP_StrnCpyUtf8_loop count true source (written ++ [0])
        else
          let chLen := (trailingBytesForUTF8 ch + 1) % 2 ^ 8
          match McpUniIsLegalUTF8 source chLen with
          | Except.error f => Except.error f
          | Except.ok false => Except.ok written
          | Except.ok true =>
            match MCP_StrnCpyUtf8_copy chLen source written with
            | Except.error f => Except.error f
            | Except.ok (source, written) =>
              MCP_StrnCpyUtf8_loop count false source written

/-- Function `MCP_StrnCpyUtf8` (mcp_unicode.c:706-744).  `dest` is the address passed as
destination.  Returns the pointer returned (`destStart`) and the bytes stored from
`dest` on, in order. -/
def MCP_StrnCpyUtf8 (dest : Nat) (source : List Nat) (count : Nat) :
    Except fault (Nat × List Nat) :=
  let destStart := dest
  match MCP_StrnCpyUtf8_loop count false source [] with
  | Except.error f => Except.error f
  | Except.ok written => Except.ok (destStart, written)

/-! ## Specification-level notions: Unicode -/

/-- A Unicode scalar value: a code point up to U+10FFFF that is no surrogate. -/
def is_scalar_value (cp : Nat) : Prop :=
  cp ≤ 0x10FFFF ∧ ¬ (0xD800 ≤ cp ∧ cp ≤ 0xDFFF)

instance (cp : Nat) : Decidable (is_scalar_value cp) := by
  unfold is_scalar_value; infer_instance

/-- The UTF-8 encoding (shortest form) of a code point up to U+10FFFF. -/
def utf8_encode (cp : Nat) : List Nat :=
  if cp < 0x80 then [cp]
  else if cp < 0x800 then [0xC0 + cp / 64, 0x80 + cp % 64]
  else if cp < 0x10000 then [0xE0 + cp / 4096, 0x80 + cp / 64 % 64, 0x80 + cp % 64]
  else [0xF0 + cp / 262144, 0x80 + cp / 4096 % 64, 0x80 + cp / 64 % 64, 0x80 + cp % 64]

/-- The UTF-16 encoding of a code point up to U+10FFFF. -/
def utf16_encode (cp : Nat) : List Nat :=
  if cp < 0x10000 then [cp]
  else [0xD800 + (cp - 0x10000) / 1024, 0xDC00 + (cp - 0x10000) % 1024]

/-- A byte sequence is the well-formed UTF-8 encoding of a single Unicode scalar value. -/
def well_formed_utf8_char (s : List Nat) : Prop :=
  ∃ cp, is_scalar_value cp ∧ utf8_encode cp = s

/-- The bytes of a text given by its scalar values, in UTF-8. -/
def utf8_text (cps : List Nat) : List Nat :=
  cps.flatMap utf8_encode

/-- The code units of a text given by its scalar values, in UTF-16. -/
def utf16_text (cps : List Nat) : List Nat :=
  cps.flatMap utf16_encode

/-- The characters of a text, from its start, whose UTF-8 encodings fit one after the
other into `room` bytes. -/
def chars_that_fit (room : Nat) : List Nat → List Nat
  | [] => []
  | cp :: cps =>
    if (utf8_encode cp).length ≤ room then
      cp :: chars_that_fit (room - (utf8_encode cp).length) cps
    else []

end McpUnicode

namespace Wl12xx

/-! ## Theorems: channel selection -/

theorem list_set_window {α : Type} (l : List α) (j : Nat) (e : α) (es : List α)
    (h : j < l.length) :
    (l.set j e).take (j + 1) ++ es ++ (l.set j e).drop (j + 1 + es.length)
      = l.take j ++ (e :: es) ++ l.drop (j + (es.length + 1)) := by
  have h1 : (l.set j e).take (j + 1) = l.take j ++ [e] := by
    rw [List.set_eq_take_append_cons_drop, if_pos h, List.take_append_eq_append_take]
    simp [List.length_take, Nat.min_eq_left (Nat.le_of_lt h)]
  have h2 : (l.set j e).drop (j + 1 + es.length) = l.drop (j + (es.length + 1)) := by
    rw [List.drop_set_of_lt]
    · congr 1; omega
    · omega
  rw [h1, h2]; simp

theorem cond_eq_eligible (K : scan_constants) (ch : ieee80211_channel) (i : Nat)
    (sc : bitmap) (band : ieee80211_band) (passive : Bool) :
    wl1271_get_scan_channels_cond K ch i sc band passive
      = one_shot_eligible K band passive sc (i, ch) := by
  unfold wl1271_get_scan_channels_cond one_shot_eligible test_bit
  rw [Bool.eq_iff_iff]
  cases passive <;> simp <;> tauto

theorem eligible_insert_of_lt (K : scan_constants) (band : ieee80211_band) (passive : Bool)
    (sc : bitmap) (i : Nat) (l : List ieee80211_channel) :
    (l.enumFrom (i + 1)).filter (one_shot_eligible K band passive (insert i sc))
      = (l.enumFrom (i + 1)).filter (one_shot_eligible K band passive sc) := by
  apply List.filter_congr
  rintro ⟨x, ch⟩ hx
  have hle := (List.mem_enumFrom hx).1
  have hne : x ≠ i := by omega
  simp [one_shot_eligible, hne]

theorem loop_selected_zero (K : scan_constants) (req : cfg80211_scan_request)
    (band : ieee80211_band) (passive : Bool) (sc : bitmap) :
    loop_selected K req band passive sc 0 0 = one_shot_selected K req band passive sc := by
  simp [loop_selected, one_shot_selected, one_shot_eligible_channels, List.enum]

theorem wl1271_get_scan_channels_loop_eq (K : scan_constants) (c : conf_scan_settings)
    (req : cfg80211_scan_request) (band : ieee80211_band) (passive : Bool) :
    ∀ (n i j : Nat) (channels : List basic_scan_channel_params) (sc : bitmap),
      i + n = req.n_channels →
      (wl1271_get_scan_channels_loop K c req band passive n i j channels sc).1
          = j + (loop_selected K req band passive sc i j).length ∧
      (wl1271_get_scan_channels_loop K c req band passive n i j channels sc).2.2
          = sc ∪ index_set (loop_selected K req band passive sc i j) ∧
      (K.WL1271_SCAN_MAX_CHANNELS ≤ channels.length →
        (wl1271_get_scan_channels_loop K c req band passive n i j channels sc).2.1
          = channels.take j
             ++ (loop_selected K req band passive sc i j).map
                  (fun p => wl1271_get_scan_channels_slot c p.2 passive)
             ++ channels.drop (j + (loop_selected K req band passive sc i j).length)) := by
  intro n
  induction n with
  | zero =>
    intro i j channels sc hi
    have hdrop : req.channels.drop i = [] := by
      apply List.drop_eq_nil_of_le
      simp only [cfg80211_scan_request.n_channels] at hi
      omega
    simp [wl1271_get_scan_channels_loop, loop_selected, hdrop, index_set]
  | succ n ih =>
    intro i j channels sc hi
    have hlt : i < req.channels.length := by
      simp only [cfg80211_scan_request.n_channels] at hi
      omega
    have hdrop : req.channels.drop i = req.channels[i] :: req.channels.drop (i + 1) :=
      List.drop_eq_getElem_cons hlt
    rw [wl1271_get_scan_channels_loop]
    by_cases hj : j < K.WL1271_SCAN_MAX_CHANNELS
    · have hguard : i < req.n_channels ∧ j < K.WL1271_SCAN_MAX_CHANNELS := ⟨hlt, hj⟩
      rw [dif_pos hguard]
      have hsub : K.WL1271_SCAN_MAX_CHANNELS - j
          = (K.WL1271_SCAN_MAX_CHANNELS - (j + 1)) + 1 := by omega
      by_cases hc : wl1271_get_scan_channels_cond K (req.channels.get ⟨i, hlt⟩) i sc band
          passive = true
      · simp only [hc, if_true]
        have hc2 : one_shot_eligible K band passive sc (i, req.channels[i]) = true := by
          rw [← cond_eq_eligible]; exact hc
        have hsel : loop_selected K req band passive sc i j
            = (i, req.channels[i])
                :: loop_selected K req band passive (set_bit i sc) (i + 1) (j + 1) := by
          unfold loop_selected set_bit
          rw [hdrop, List.enumFrom_cons, List.filter_cons_of_pos hc2, hsub,
            List.take_succ_cons, eligible_insert_of_lt]
        obtain ⟨h1, h2, h3⟩ := ih (i + 1) (j + 1)
          (channels.set j (wl1271_get_scan_channels_slot c (req.channels.get ⟨i, hlt⟩) passive))
          (set_bit i sc) (by omega)
        rw [hsel]
        refine ⟨?_, ?_, ?_⟩
        · rw [h1]; simp; omega
        · rw [h2]
          simp only [set_bit, index_set, List.map_cons, List.toFinset_cons]
          ext x; simp
        · intro hcap
          have hjl : j < channels.length := by omega
          rw [h3 (by simpa using hcap)]
          simp only [List.map_cons, List.length_cons, List.length_map]
          have := list_set_window channels j
            (wl1271_get_scan_channels_slot c (req.channels[i]) passive)
            ((loop_selected K req band passive (set_bit i sc) (i + 1) (j + 1)).map
              (fun p => wl1271_get_scan_channels_slot c p.2 passive)) hjl
          simp only [List.length_map] at this
          simpa using this
      · simp only [hc, Bool.false_eq_true, if_false]
        have hc2 : one_shot_eligible K band passive sc (i, req.channels[i]) = false := by
          rw [← cond_eq_eligible]; simpa using hc
        have hsel : loop_selected K req band passive sc i j
            = loop_selected K req band passive sc (i + 1) j := by
          unfold loop_selected
          rw [hdrop, List.enumFrom_cons, List.filter_cons_of_neg (by simp [hc2])]
        rw [hsel]
        exact ih (i + 1) j channels sc (by omega)
    · have hguard : ¬ (i < req.n_channels ∧ j < K.WL1271_SCAN_MAX_CHANNELS) := fun h => hj h.2
      rw [dif_neg hguard]
      have hz : K.WL1271_SCAN_MAX_CHANNELS - j = 0 := by omega
      simp [loop_selected, hz, index_set]

/-- Count and bit array computed by `wl1271_get_scan_channels`. -/
theorem wl1271_get_scan_channels_count_bits (K : scan_constants) (c : conf_scan_settings)
    (sc : bitmap) (req : cfg80211_scan_request) (channels : List basic_scan_channel_params)
    (band : ieee80211_band) (passive : Bool) :
    (wl1271_get_scan_channels K c sc req channels band passive).1
        = (one_shot_selected K req band passive sc).length ∧
    (wl1271_get_scan_channels K c sc req channels band passive).2.2
        = sc ∪ index_set (one_shot_selected K req band passive sc) := by
  have h := wl1271_get_scan_channels_loop_eq K c req band passive req.n_channels 0 0 channels sc
    (by simp)
  rw [loop_selected_zero] at h
  exact ⟨by simpa using h.1, h.2.1⟩

/-- Destination array computed by `wl1271_get_scan_channels`. -/
theorem wl1271_get_scan_channels_dest (K : scan_constants) (c : conf_scan_settings)
    (sc : bitmap) (req : cfg80211_scan_request) (channels : List basic_scan_channel_params)
    (band : ieee80211_band) (passive : Bool)
    (hcap : K.WL1271_SCAN_MAX_CHANNELS ≤ channels.length) :
    (wl1271_get_scan_channels K c sc req channels band passive).2.1
        = (one_shot_selected K req band passive sc).map
            (fun p => wl1271_get_scan_channels_slot c p.2 passive)
          ++ channels.drop (one_shot_selected K req band passive sc).length := by
  have h := wl1271_get_scan_channels_loop_eq K c req band passive req.n_channels 0 0 channels sc
    (by simp)
  rw [loop_selected_zero] at h
  simpa using h.2.2 hcap


theorem mem_eligible_channels (K : scan_constants) (req : cfg80211_scan_request)
    (band : ieee80211_band) (passive : Bool) (sc : bitmap) (p : Nat × ieee80211_channel)
    (hp : p ∈ one_shot_eligible_channels K req band passive sc) :
    req.channels[p.1]? = some p.2 ∧ p.1 ∉ sc := by
  unfold one_shot_eligible_channels at hp
  rw [List.mem_filter] at hp
  obtain ⟨h1, h2⟩ := hp
  refine ⟨?_, ?_⟩
  · obtain ⟨i, x⟩ := p
    exact List.mk_mem_enum_iff_getElem?.mp h1
  · simp [one_shot_eligible] at h2
    exact h2.2.2.2

theorem eligible_channels_nodup (K : scan_constants) (req : cfg80211_scan_request)
    (band : ieee80211_band) (passive : Bool) (sc : bitmap) :
    ((one_shot_eligible_channels K req band passive sc).map Prod.fst).Nodup := by
  have hsub : ((one_shot_eligible_channels K req band passive sc).map Prod.fst).Sublist
      (req.channels.enum.map Prod.fst) :=
    List.Sublist.map _ (List.filter_sublist _)
  apply List.Nodup.sublist hsub
  rw [List.enum_map_fst]
  exact List.nodup_range _

theorem selected_nodup (K : scan_constants) (req : cfg80211_scan_request)
    (band : ieee80211_band) (passive : Bool) (sc : bitmap) :
    ((one_shot_selected K req band passive sc).map Prod.fst).Nodup :=
  List.Nodup.sublist (List.Sublist.map _ (List.take_sublist _ _))
    (eligible_channels_nodup K req band passive sc)

theorem selected_disjoint (K : scan_constants) (req : cfg80211_scan_request)
    (band : ieee80211_band) (passive : Bool) (sc : bitmap) :
    Disjoint sc (index_set (one_shot_selected K req band passive sc)) := by
  rw [Finset.disjoint_left]
  intro x hx hmem
  simp only [index_set, List.mem_toFinset, List.mem_map] at hmem
  obtain ⟨p, hp, rfl⟩ := hmem
  exact (mem_eligible_channels K req band passive sc p (List.mem_of_mem_take hp)).2 hx

theorem selected_card (K : scan_constants) (req : cfg80211_scan_request)
    (band : ieee80211_band) (passive : Bool) (sc : bitmap) :
    (index_set (one_shot_selected K req band passive sc)).card
      = (one_shot_selected K req band passive sc).length := by
  unfold index_set
  rw [List.toFinset_card_of_nodup (selected_nodup K req band passive sc), List.length_map]

theorem added_eq_selected (K : scan_constants) (req : cfg80211_scan_request)
    (band : ieee80211_band) (passive : Bool) (sc : bitmap) :
    (sc ∪ index_set (one_shot_selected K req band passive sc)) \ sc
      = index_set (one_shot_selected K req band passive sc) :=
  Finset.union_sdiff_cancel_left (selected_disjoint K req band passive sc)

theorem wl1271_get_scan_channels_loop_frame (K : scan_constants) (c : conf_scan_settings)
    (req : cfg80211_scan_request) (band : ieee80211_band) (passive : Bool) :
    ∀ (n i j : Nat) (channels : List basic_scan_channel_params) (sc : bitmap),
      j ≤ (wl1271_get_scan_channels_loop K c req band passive n i j channels sc).1 ∧
      (wl1271_get_scan_channels_loop K c req band passive n i j channels sc).2.1.length
          = channels.length ∧
      ∀ k, (wl1271_get_scan_channels_loop K c req band passive n i j channels sc).1 ≤ k →
        (wl1271_get_scan_channels_loop K c req band passive n i j channels sc).2.1[k]?
          = channels[k]? := by
  intro n
  induction n with
  | zero => intro i j channels sc; simp [wl1271_get_scan_channels_loop]
  | succ n ih =>
    intro i j channels sc
    rw [wl1271_get_scan_channels_loop]
    by_cases h : i < req.n_channels ∧ j < K.WL1271_SCAN_MAX_CHANNELS
    · rw [dif_pos h]
      by_cases hc : wl1271_get_scan_channels_cond K (req.channels.get ⟨i, h.1⟩) i sc band
          passive = true
      · simp only [hc, if_true]
        obtain ⟨h1, h2, h3⟩ := ih (i + 1) (j + 1)
          (channels.set j (wl1271_get_scan_channels_slot c (req.channels.get ⟨i, h.1⟩) passive))
          (set_bit i sc)
        refine ⟨by omega, by simpa using h2, ?_⟩
        intro k hk
        rw [h3 k hk, List.getElem?_set_ne (by omega)]
      · simp only [hc, Bool.false_eq_true, if_false]
        exact ih (i + 1) j channels sc
    · rw [dif_neg h]; simp

/-- C1 as amended: for every request, band, passive flag and scanned bit array (and a
destination array with at least `WL1271_SCAN_MAX_CHANNELS` slots), the value `n` returned
by `wl1271_get_scan_channels` is `min(WL1271_SCAN_MAX_CHANNELS, m)` for `m` eligible
channels; the destination entries `0..n-1` are, in original list order, the entries of
the first `n` eligible request channels (band equal to the target band, disabled flag
clear, passive-scan flag equal to `passive`, bit `i` not set in the scanned bit array);
the entry of a source channel carries the passive dwell times of the configuration when
`passive` holds and the active ones otherwise, `early_termination = 0`, the low 8 bits of
that channel's `max_power` and of its `hw_value` (the fields are `u8`), and an all-0xff
BSSID; when `max_power` and `hw_value` of the channels placed lie between 0 and 255, the
entries carry `max_power` and `hw_value` themselves; and an eligible channel listed with
index `i` is the request's channel `i`. -/
theorem wl1271_get_scan_channels_selection (K : scan_constants) (c : conf_scan_settings)
    (scanned_ch : bitmap) (req : cfg80211_scan_request)
    (channels : List basic_scan_channel_params) (band : ieee80211_band) (passive : Bool)
    (hcap : K.WL1271_SCAN_MAX_CHANNELS ≤ channels.length) :
    (wl1271_get_scan_channels K c scanned_ch req channels band passive).1
        = min K.WL1271_SCAN_MAX_CHANNELS
            (one_shot_eligible_channels K req band passive scanned_ch).length ∧
    (wl1271_get_scan_channels K c scanned_ch req channels band passive).2.1.take
        (wl1271_get_scan_channels K c scanned_ch req channels band passive).1
        = ((one_shot_eligible_channels K req band passive scanned_ch).take
            K.WL1271_SCAN_MAX_CHANNELS).map
            (fun p =>
              { min_duration :=
                  if passive then c.min_dwell_time_passive else c.min_dwell_time_active
                max_duration :=
                  if passive then c.max_dwell_time_passive else c.max_dwell_time_active
                early_termination := 0
                tx_power_att := p.2.max_power % 256
                channel := p.2.hw_value % 256
                bssid_lsb := [0xff, 0xff, 0xff, 0xff]
                bssid_msb := [0xff, 0xff] }) ∧
    ((∀ p ∈ (one_shot_eligible_channels K req band passive scanned_ch).take
          K.WL1271_SCAN_MAX_CHANNELS,
        0 ≤ p.2.max_power ∧ p.2.max_power ≤ 255 ∧ p.2.hw_value ≤ 255) →
      (wl1271_get_scan_channels K c scanned_ch req channels band passive).2.1.take
        (wl1271_get_scan_channels K c scanned_ch req channels band passive).1
        = ((one_shot_eligible_channels K req band passive scanned_ch).take
            K.WL1271_SCAN_MAX_CHANNELS).map
            (fun p =>
              { min_duration :=
                  if passive then c.min_dwell_time_passive else c.min_dwell_time_active
                max_duration :=
                  if passive then c.max_dwell_time_passive else c.max_dwell_time_active
                early_termination := 0
                tx_power_att := p.2.max_power
                channel := p.2.hw_value
                bssid_lsb := [0xff, 0xff, 0xff, 0xff]
                bssid_msb := [0xff, 0xff] })) ∧
    ∀ p ∈ one_shot_eligible_channels K req band passive scanned_ch,
      req.channels[p.1]? = some p.2 := by
  have hcount := (wl1271_get_scan_channels_count_bits K c scanned_ch req channels band passive).1
  have hdest := wl1271_get_scan_channels_dest K c scanned_ch req channels band passive hcap
  have hentries : (wl1271_get_scan_channels K c scanned_ch req channels band passive).2.1.take
        (wl1271_get_scan_channels K c scanned_ch req channels band passive).1
        = ((one_shot_eligible_channels K req band passive scanned_ch).take
            K.WL1271_SCAN_MAX_CHANNELS).map
            (fun p =>
              { min_duration :=
                  if passive then c.min_dwell_time_passive else c.min_dwell_time_active
                max_duration :=
                  if passive then c.max_dwell_time_passive else c.max_dwell_time_active
                early_termination := 0
                tx_power_att := p.2.max_power % 256
                channel := p.2.hw_value % 256
                bssid_lsb := [0xff, 0xff, 0xff, 0xff]
                bssid_msb := [0xff, 0xff] }) := by
    rw [hcount, hdest]
    have hlen : (one_shot_selected K req band passive scanned_ch).length
        = ((one_shot_selected K req band passive scanned_ch).map
            (fun p => wl1271_get_scan_channels_slot c p.2 passive)).length := by simp
    rw [hlen, List.take_left']
    · unfold one_shot_selected wl1271_get_scan_channels_slot
      apply List.map_congr_left
      intro p _
      cases passive <;> simp [List.replicate]
    · rfl
  refine ⟨?_, hentries, ?_, ?_⟩
  · rw [hcount]; simp [one_shot_selected]
  · intro hrange
    rw [hentries]
    apply List.map_congr_left
    intro p hp
    obtain ⟨h0, h1, h2⟩ := hrange p hp
    rw [Int.emod_eq_of_lt h0 (by omega), Nat.mod_eq_of_lt (by omega)]
  · intro p hp
    exact (mem_eligible_channels K req band passive scanned_ch p hp).1

/-- Witness of C1: the request with three disabled and two enabled channels, a cleared
bit array and a destination of four slots; the two channels placed have hardware ids 2
and 5 and maximum power 20. -/
theorem wl1271_get_scan_channels_selection_witness :
    small_constants.WL1271_SCAN_MAX_CHANNELS
        ≤ (List.replicate 4 basic_scan_channel_params.zero).length ∧
    (wl1271_get_scan_channels small_constants example_conf ∅ example_request
        (List.replicate 4 basic_scan_channel_params.zero)
        ieee80211_band.IEEE80211_BAND_2GHZ false).1
      = min small_constants.WL1271_SCAN_MAX_CHANNELS
          (one_shot_eligible_channels small_constants example_request
            ieee80211_band.IEEE80211_BAND_2GHZ false ∅).length :=
  ⟨by decide,
    (wl1271_get_scan_channels_selection small_constants example_conf ∅ example_request
      (List.replicate 4 basic_scan_channel_params.zero)
      ieee80211_band.IEEE80211_BAND_2GHZ false (by decide)).1⟩

/-- Counterexample to C1 as stated: both channels of the request are eligible and are
placed, in order; the entry of the channel with `max_power = 300` and `hw_value = 300`
carries tx power 44 and channel 44, and the entry of the channel with `max_power = -1`
carries tx power 255, because `tx_power_att` and `channel` are `u8` fields. -/
theorem wl1271_get_scan_channels_narrows_to_u8 :
    wide_request.channels.map (fun ch => (ch.max_power, ch.hw_value))
      = [(300, 300), (-1, 1)] ∧
    (wl1271_get_scan_channels upstream_constants example_conf ∅ wide_request
        (List.replicate 24 basic_scan_channel_params.zero)
        ieee80211_band.IEEE80211_BAND_2GHZ false).1 = 2 ∧
    ((wl1271_get_scan_channels upstream_constants example_conf ∅ wide_request
        (List.replicate 24 basic_scan_channel_params.zero)
        ieee80211_band.IEEE80211_BAND_2GHZ false).2.1.take 2).map
      (fun slot => (slot.tx_power_att, slot.channel))
      = [(44, 44), (255, 1)] := by
  exact ⟨rfl, rfl, rfl⟩

/-- C3: for every request the value returned by `wl1271_get_scan_channels` is at most
`WL1271_SCAN_MAX_CHANNELS`, the destination array keeps its length and every slot at or
above the returned count holds what it held before the call, and the number of bits
newly set in the scanned bit array equals the returned count. -/
theorem wl1271_get_scan_channels_capacity (K : scan_constants) (c : conf_scan_settings)
    (scanned_ch : bitmap) (req : cfg80211_scan_request)
    (channels : List basic_scan_channel_params) (band : ieee80211_band) (passive : Bool) :
    (wl1271_get_scan_channels K c scanned_ch req channels band passive).1
        ≤ K.WL1271_SCAN_MAX_CHANNELS ∧
    (wl1271_get_scan_channels K c scanned_ch req channels band passive).2.1.length
        = channels.length ∧
    (∀ k, (wl1271_get_scan_channels K c scanned_ch req channels band passive).1 ≤ k →
      (wl1271_get_scan_channels K c scanned_ch req channels band passive).2.1[k]?
        = channels[k]?) ∧
    ((wl1271_get_scan_channels K c scanned_ch req channels band passive).2.2
        \ scanned_ch).card
      = (wl1271_get_scan_channels K c scanned_ch req channels band passive).1 := by
  obtain ⟨hcount, hbits⟩ :=
    wl1271_get_scan_channels_count_bits K c scanned_ch req channels band passive
  obtain ⟨_, hlen, hframe⟩ :=
    wl1271_get_scan_channels_loop_frame K c req band passive req.n_channels 0 0 channels
      scanned_ch
  refine ⟨?_, hlen, hframe, ?_⟩
  · rw [hcount]; simp [one_shot_selected]
  · rw [hbits, hcount, added_eq_selected, selected_card]


/-! ## Theorems: sequences of calls -/

theorem get_scan_channels_call_eq (K : scan_constants) (c : conf_scan_settings)
    (req : cfg80211_scan_request) (sc : bitmap) (band : ieee80211_band) (passive : Bool) :
    get_scan_channels_call K c req sc band passive
      = { band := band, passive := passive, before := sc,
          count := (one_shot_selected K req band passive sc).length,
          dest := (one_shot_selected K req band passive sc).map
              (fun p => wl1271_get_scan_channels_slot c p.2 passive)
            ++ (List.replicate K.WL1271_SCAN_MAX_CHANNELS basic_scan_channel_params.zero).drop
                (one_shot_selected K req band passive sc).length,
          after := sc ∪ index_set (one_shot_selected K req band passive sc) } := by
  unfold get_scan_channels_call
  obtain ⟨h1, h2⟩ := wl1271_get_scan_channels_count_bits K c sc req
    (List.replicate K.WL1271_SCAN_MAX_CHANNELS basic_scan_channel_params.zero) band passive
  have h3 := wl1271_get_scan_channels_dest K c sc req
    (List.replicate K.WL1271_SCAN_MAX_CHANNELS basic_scan_channel_params.zero) band passive
    (by simp)
  simp only [h1, h2, h3]

theorem get_scan_channels_call_added (K : scan_constants) (c : conf_scan_settings)
    (req : cfg80211_scan_request) (sc : bitmap) (band : ieee80211_band) (passive : Bool) :
    (get_scan_channels_call K c req sc band passive).after
        \ (get_scan_channels_call K c req sc band passive).before
      = index_set (one_shot_selected K req band passive sc) := by
  rw [get_scan_channels_call_eq]
  exact added_eq_selected K req band passive sc

theorem get_scan_channels_call_taken (K : scan_constants) (c : conf_scan_settings)
    (req : cfg80211_scan_request) (sc : bitmap) (band : ieee80211_band) (passive : Bool) :
    (get_scan_channels_call K c req sc band passive).dest.take
        (get_scan_channels_call K c req sc band passive).count
      = (one_shot_selected K req band passive sc).map
          (fun p => wl1271_get_scan_channels_slot c p.2 passive) := by
  rw [get_scan_channels_call_eq]
  simp only
  have hlen : (one_shot_selected K req band passive sc).length
      = ((one_shot_selected K req band passive sc).map
          (fun p => wl1271_get_scan_channels_slot c p.2 passive)).length := by simp
  rw [hlen, List.take_left']
  rfl

theorem get_scan_channels_calls_mem (K : scan_constants) (c : conf_scan_settings)
    (req : cfg80211_scan_request) (args : List (ieee80211_band × Bool)) :
    ∀ (sc : bitmap) (r : call_record), r ∈ get_scan_channels_calls K c req sc args →
      ∃ sc1 band passive, sc ⊆ sc1 ∧ r = get_scan_channels_call K c req sc1 band passive := by
  induction args with
  | nil => intro sc r hr; simp [get_scan_channels_calls] at hr
  | cons a rest ih =>
    intro sc r hr
    obtain ⟨band, passive⟩ := a
    simp only [get_scan_channels_calls, List.mem_cons] at hr
    rcases hr with h | h
    · exact ⟨sc, band, passive, Finset.Subset.refl _, h⟩
    · obtain ⟨sc1, b1, p1, hsub, heq⟩ := ih _ r h
      refine ⟨sc1, b1, p1, ?_, heq⟩
      refine Finset.Subset.trans ?_ hsub
      rw [get_scan_channels_call_eq]
      exact Finset.subset_union_left

/-- C2: in every sequence of calls of `wl1271_get_scan_channels` on one request (any band
and passive arguments, starting from any bit array, in particular the cleared one), each
call leaves a bit array that contains the one it found, the bits it adds are exactly the
source indices of the channels it selected (whose entries fill the first `count` slots of
its destination), and the sets of indices added by two different calls are disjoint. -/
theorem get_scan_channels_calls_no_repeat (K : scan_constants) (c : conf_scan_settings)
    (req : cfg80211_scan_request) (scanned_ch : bitmap)
    (args : List (ieee80211_band × Bool)) :
    (∀ r ∈ get_scan_channels_calls K c req scanned_ch args,
      r.before ⊆ r.after ∧
      r.after \ r.before = index_set (one_shot_selected K req r.band r.passive r.before) ∧
      r.dest.take r.count = (one_shot_selected K req r.band r.passive r.before).map
        (fun p => wl1271_get_scan_channels_slot c p.2 r.passive)) ∧
    (get_scan_channels_calls K c req scanned_ch args).Pairwise
      (fun a b => Disjoint (a.after \ a.before) (b.after \ b.before)) := by
  constructor
  · intro r hr
    obtain ⟨sc1, b1, p1, _, heq⟩ := get_scan_channels_calls_mem K c req args scanned_ch r hr
    have ha := get_scan_channels_call_added K c req sc1 b1 p1
    have ht := get_scan_channels_call_taken K c req sc1 b1 p1
    rw [← heq] at ha ht
    have hb : r.before = sc1 ∧ r.band = b1 ∧ r.passive = p1
        ∧ r.after = sc1 ∪ index_set (one_shot_selected K req b1 p1 sc1) := by
      rw [heq, get_scan_channels_call_eq]; exact ⟨rfl, rfl, rfl, rfl⟩
    obtain ⟨h1, h2, h3, h4⟩ := hb
    rw [h1] at ha
    rw [h1, h2, h3]
    refine ⟨?_, ha, ht⟩
    rw [h4]; exact Finset.subset_union_left
  · induction args generalizing scanned_ch with
    | nil => simp [get_scan_channels_calls]
    | cons a rest ih =>
      obtain ⟨band, passive⟩ := a
      simp only [get_scan_channels_calls, List.pairwise_cons]
      refine ⟨?_, ih _⟩
      intro b hb
      obtain ⟨sc1, b1, p1, hsub, heq⟩ := get_scan_channels_calls_mem K c req rest _ b hb
      have hbefore : b.before = sc1 := by rw [heq, get_scan_channels_call_eq]
      rw [Finset.disjoint_left]
      intro x hx hx2
      have h1 : x ∈ sc1 := hsub (Finset.mem_sdiff.mp hx).1
      exact (Finset.mem_sdiff.mp hx2).2 (hbefore ▸ h1)


theorem filter_not_mem_take {α : Type} (l : List (Nat × α)) (k : Nat)
    (hnd : (l.map Prod.fst).Nodup) :
    l.filter (fun p => decide (p.1 ∉ ((l.take k).map Prod.fst).toFinset)) = l.drop k := by
  have hsplit : l = l.take k ++ l.drop k := (List.take_append_drop k l).symm
  have hnd2 : ((l.take k).map Prod.fst ++ (l.drop k).map Prod.fst).Nodup := by
    rw [← List.map_append, ← hsplit]; exact hnd
  have hdisj := (List.nodup_append.mp hnd2).2.2
  have h1 : (l.take k).filter (fun p => decide (p.1 ∉ ((l.take k).map Prod.fst).toFinset))
      = [] := by
    rw [List.filter_eq_nil_iff]
    intro p hp
    simp only [List.mem_toFinset, decide_not, Bool.not_eq_true', decide_eq_false_iff_not,
      not_not]
    exact List.mem_map_of_mem _ hp
  have h2 : (l.drop k).filter (fun p => decide (p.1 ∉ ((l.take k).map Prod.fst).toFinset))
      = l.drop k := by
    rw [List.filter_eq_self]
    intro p hp
    simp only [List.mem_toFinset, decide_eq_true_eq]
    intro hmem
    exact hdisj hmem (List.mem_map_of_mem _ hp)
  have h3 : l.filter (fun p => decide (p.1 ∉ ((l.take k).map Prod.fst).toFinset))
      = (l.take k ++ l.drop k).filter
          (fun p => decide (p.1 ∉ ((l.take k).map Prod.fst).toFinset)) := by
    rw [List.take_append_drop]
  rw [h3, List.filter_append, h1, h2, List.nil_append]

theorem eligible_after_call (K : scan_constants) (req : cfg80211_scan_request)
    (band : ieee80211_band) (passive : Bool) (sc : bitmap) :
    one_shot_eligible_channels K req band passive
        (sc ∪ index_set (one_shot_selected K req band passive sc))
      = (one_shot_eligible_channels K req band passive sc).drop K.WL1271_SCAN_MAX_CHANNELS := by
  have hnd := eligible_channels_nodup K req band passive sc
  rw [← filter_not_mem_take _ K.WL1271_SCAN_MAX_CHANNELS hnd]
  unfold one_shot_eligible_channels
  rw [List.filter_filter]
  apply List.filter_congr
  intro p _
  simp only [one_shot_eligible, index_set, one_shot_selected, one_shot_eligible_channels,
    Finset.mem_union, not_or]
  rw [Bool.eq_iff_iff]
  simp only [decide_eq_true_eq, Bool.and_eq_true]
  tauto

theorem ceil_div_step (x M : Nat) (hM : 0 < M) (hx : 0 < x) :
    (x + M - 1) / M = (x - M + M - 1) / M + 1 := by
  by_cases h : M ≤ x
  · have e : x + M - 1 = (x - M + M - 1) + M := by omega
    rw [e, Nat.add_div_right _ hM]
  · have e1 : x - M + M - 1 = M - 1 := by omega
    have e2 : x + M - 1 = (x - 1) + M := by omega
    rw [e1, e2, Nat.add_div_right _ hM, Nat.div_eq_of_lt (by omega), Nat.div_eq_of_lt (by omega)]

theorem get_scan_channels_until_empty_spec (K : scan_constants) (c : conf_scan_settings)
    (req : cfg80211_scan_request) (band : ieee80211_band) (passive : Bool)
    (hpos : 0 < K.WL1271_SCAN_MAX_CHANNELS) :
    ∀ (budget : Nat) (sc : bitmap),
      ((one_shot_eligible_channels K req band passive sc).length
          + K.WL1271_SCAN_MAX_CHANNELS - 1) / K.WL1271_SCAN_MAX_CHANNELS < budget →
      ∃ rs, get_scan_channels_until_empty K c req band passive budget sc
          = some (rs, sc ∪ index_set (one_shot_eligible_channels K req band passive sc)) ∧
        rs.length = ((one_shot_eligible_channels K req band passive sc).length
          + K.WL1271_SCAN_MAX_CHANNELS - 1) / K.WL1271_SCAN_MAX_CHANNELS ∧
        (∀ r ∈ rs, r.count ≠ 0 ∧ sc ⊆ r.before) ∧
        (rs.map (fun r => r.dest.take r.count)).flatten
          = (one_shot_eligible_channels K req band passive sc).map
              (fun p => wl1271_get_scan_channels_slot c p.2 passive) ∧
        rs.Pairwise (fun a b => Disjoint (a.after \ a.before) (b.after \ b.before)) := by
  intro budget
  induction budget with
  | zero => intro sc h; exact absurd h (Nat.not_lt_zero _)
  | succ b ih =>
    intro sc hb
    have htaken := get_scan_channels_call_taken K c req sc band passive
    have hadded := get_scan_channels_call_added K c req sc band passive
    have hfields : (get_scan_channels_call K c req sc band passive).count
          = (one_shot_selected K req band passive sc).length ∧
        (get_scan_channels_call K c req sc band passive).after
          = sc ∪ index_set (one_shot_selected K req band passive sc) ∧
        (get_scan_channels_call K c req sc band passive).before = sc := by
      rw [get_scan_channels_call_eq]; exact ⟨rfl, rfl, rfl⟩
    obtain ⟨hcount, hafter, hbefore⟩ := hfields
    have hsel_len : (one_shot_selected K req band passive sc).length
        = min K.WL1271_SCAN_MAX_CHANNELS
            (one_shot_eligible_channels K req band passive sc).length := by
      simp [one_shot_selected]
    rw [get_scan_channels_until_empty]
    by_cases hz : (get_scan_channels_call K c req sc band passive).count = 0
    · simp only [hz, if_true]
      have hnil : one_shot_eligible_channels K req band passive sc = [] := by
        rw [hcount, hsel_len] at hz
        have : (one_shot_eligible_channels K req band passive sc).length = 0 := by omega
        exact List.length_eq_zero.mp this
      have hselnil : one_shot_selected K req band passive sc = [] := by
        simp [one_shot_selected, hnil]
      refine ⟨[], ?_, ?_, ?_, ?_, ?_⟩
      · rw [hafter, hselnil, hnil]
      · rw [hnil]
        simp only [List.length_nil, Nat.zero_add]
        exact (Nat.div_eq_of_lt (by omega)).symm
      · simp
      · rw [hnil]; simp
      · simp
    · simp only [hz, if_false]
      have hlen_pos : 0 < (one_shot_eligible_channels K req band passive sc).length := by
        rw [hcount, hsel_len] at hz; omega
      have hnext := eligible_after_call K req band passive sc
      have hstep := ceil_div_step (one_shot_eligible_channels K req band passive sc).length
        K.WL1271_SCAN_MAX_CHANNELS hpos hlen_pos
      have hdroplen : (one_shot_eligible_channels K req band passive
            (sc ∪ index_set (one_shot_selected K req band passive sc))).length
          = (one_shot_eligible_channels K req band passive sc).length
              - K.WL1271_SCAN_MAX_CHANNELS := by
        rw [hnext, List.length_drop]
      obtain ⟨rs, hrs, hlen, hall, hjoin, hpw⟩ := ih (get_scan_channels_call K c req sc band
        passive).after (by rw [hafter, hdroplen]; omega)
      rw [hrs]
      refine ⟨get_scan_channels_call K c req sc band passive :: rs, ?_, ?_, ?_, ?_, ?_⟩
      · simp only [Option.some.injEq, Prod.mk.injEq, true_and]
        rw [hafter, hnext, Finset.union_assoc]
        congr 1
        unfold index_set one_shot_selected
        rw [← List.toFinset_append, ← List.map_append, List.take_append_drop]
      · rw [List.length_cons, hlen, hafter, hdroplen, hstep]
      · intro r hr
        rcases List.mem_cons.mp hr with h | h
        · rw [h]; exact ⟨hz, by rw [hbefore]⟩
        · refine ⟨(hall r h).1, Finset.Subset.trans ?_ (hall r h).2⟩
          rw [hafter]; exact Finset.subset_union_left
      · rw [List.map_cons, List.flatten_cons, hjoin, htaken, hafter, hnext, ← List.map_append]
        unfold one_shot_selected
        rw [List.take_append_drop]
      · rw [List.pairwise_cons]
        refine ⟨?_, hpw⟩
        intro r hr
        rw [Finset.disjoint_left]
        intro x hx hx2
        exact (Finset.mem_sdiff.mp hx2).2 ((hall r hr).2 (Finset.mem_sdiff.mp hx).1)

/-- C4: let `m` be the number of eligible channels of a request for a band and passive
flag (band equal, disabled flag clear, passive-scan flag equal to `passive`; nothing
scanned yet) and let `WL1271_SCAN_MAX_CHANNELS` be positive.  Repeating
`wl1271_get_scan_channels` with that band and flag from a cleared bit array until it
returns 0 ends (within any budget above `ceil(m / WL1271_SCAN_MAX_CHANNELS)` calls) after
exactly `ceil(m / WL1271_SCAN_MAX_CHANNELS)` calls with a non-zero count; the entries
these calls placed, concatenated, are the entries of all eligible channels, each once
and in original list order; the bits set at the end are exactly the eligible indices;
and the index sets added by different calls are disjoint. -/
theorem get_scan_channels_until_empty_complete (K : scan_constants)
    (c : conf_scan_settings) (req : cfg80211_scan_request) (band : ieee80211_band)
    (passive : Bool) (budget : Nat) (hpos : 0 < K.WL1271_SCAN_MAX_CHANNELS)
    (hbudget : ((one_shot_eligible_channels K req band passive ∅).length
        + K.WL1271_SCAN_MAX_CHANNELS - 1) / K.WL1271_SCAN_MAX_CHANNELS < budget) :
    ∃ rs, get_scan_channels_until_empty K c req band passive budget ∅
        = some (rs, index_set (one_shot_eligible_channels K req band passive ∅)) ∧
      rs.length = ((one_shot_eligible_channels K req band passive ∅).length
        + K.WL1271_SCAN_MAX_CHANNELS - 1) / K.WL1271_SCAN_MAX_CHANNELS ∧
      (∀ r ∈ rs, r.count ≠ 0) ∧
      (rs.map (fun r => r.dest.take r.count)).flatten
        = (one_shot_eligible_channels K req band passive ∅).map
            (fun p =>
              { min_duration :=
                  if passive then c.min_dwell_time_passive else c.min_dwell_time_active
                max_duration :=
                  if passive then c.max_dwell_time_passive else c.max_dwell_time_active
                early_termination := 0
                tx_power_att := p.2.max_power % 256
                channel := p.2.hw_value % 256
                bssid_lsb := [0xff, 0xff, 0xff, 0xff]
                bssid_msb := [0xff, 0xff] }) ∧
      rs.Pairwise (fun a b => Disjoint (a.after \ a.before) (b.after \ b.before)) ∧
      ∀ p, p ∈ one_shot_eligible_channels K req band passive ∅ ↔
        (req.channels[p.1]? = some p.2 ∧ p.2.band = band ∧
          p.2.flags &&& K.IEEE80211_CHAN_DISABLED = 0 ∧
          ((p.2.flags &&& K.IEEE80211_CHAN_PASSIVE_SCAN ≠ 0) ↔ passive = true)) := by
  obtain ⟨rs, h1, h2, h3, h4, h5⟩ :=
    get_scan_channels_until_empty_spec K c req band passive hpos budget ∅ hbudget
  refine ⟨rs, ?_, h2, fun r hr => (h3 r hr).1, ?_, h5, ?_⟩
  · rw [h1]; simp
  · rw [h4]
    apply List.map_congr_left
    intro p _
    unfold wl1271_get_scan_channels_slot
    cases passive <;> simp [List.replicate]
  · rintro ⟨i, ch⟩
    unfold one_shot_eligible_channels
    rw [List.mem_filter, List.mk_mem_enum_iff_getElem?]
    simp only [one_shot_eligible, decide_eq_true_eq, Finset.not_mem_empty, not_false_eq_true,
      and_true]


/-- Witness of C4: six eligible channels and a capacity of four take two non-empty
calls. -/
theorem get_scan_channels_until_empty_complete_witness :
    0 < small_constants.WL1271_SCAN_MAX_CHANNELS ∧
    ((one_shot_eligible_channels small_constants long_request
        ieee80211_band.IEEE80211_BAND_2GHZ false ∅).length
      + small_constants.WL1271_SCAN_MAX_CHANNELS - 1)
        / small_constants.WL1271_SCAN_MAX_CHANNELS < 3 ∧
    ∃ rs, get_scan_channels_until_empty small_constants example_conf long_request
          ieee80211_band.IEEE80211_BAND_2GHZ false 3 ∅
        = some (rs, index_set (one_shot_eligible_channels small_constants long_request
            ieee80211_band.IEEE80211_BAND_2GHZ false ∅)) ∧
      rs.length = ((one_shot_eligible_channels small_constants long_request
            ieee80211_band.IEEE80211_BAND_2GHZ false ∅).length
          + small_constants.WL1271_SCAN_MAX_CHANNELS - 1)
            / small_constants.WL1271_SCAN_MAX_CHANNELS :=
  ⟨by decide, by decide,
    (get_scan_channels_until_empty_complete small_constants example_conf long_request
      ieee80211_band.IEEE80211_BAND_2GHZ false 3 (by decide) (by decide)).imp
      (fun _ h => ⟨h.1, h.2.1⟩)⟩

/-! ## Theorems: dispatch of one command -/

theorem after_send_after_send (wl : wl1271) (sc1 sc2 : bitmap) (a1 a2 : List event) :
    (wl.after_send sc1 a1).after_send sc2 a2 = wl.after_send sc2 (a1 ++ a2) := by
  simp [wl1271.after_send]

theorem wl1271_scan_send_dispatch_cases (env : environment) (wl : wl1271)
    (req : cfg80211_scan_request) (band : ieee80211_band) (cmd : wl1271_cmd_scan) :
    ∃ ret added,
      wl1271_scan_send_dispatch env wl req band cmd
        = (ret, wl.after_send wl.scan.scanned_ch added) ∧
      ((ret < 0 ∧ added =
          [event.wl1271_cmd_build_probe_req wl.scan.ssid wl.scan.ssid_len req.ie band]) ∨
       (ret < 0 ∧ added =
          [event.wl1271_cmd_build_probe_req wl.scan.ssid wl.scan.ssid_len req.ie band,
           event.wl1271_cmd_send (command.CMD_TRIGGER_SCAN_TO 0)]) ∨
       (ret ≤ 0 ∧ added =
          [event.wl1271_cmd_build_probe_req wl.scan.ssid wl.scan.ssid_len req.ie band,
           event.wl1271_cmd_send (command.CMD_TRIGGER_SCAN_TO 0),
           event.wl1271_cmd_send (command.CMD_SCAN cmd)])) := by
  unfold wl1271_scan_send_dispatch
  simp only []
  split
  · rename_i h
    exact ⟨_, _, by simp [wl1271.emit, wl1271.after_send], Or.inl ⟨h, rfl⟩⟩
  · split
    · rename_i h
      refine ⟨_, _, ?_, Or.inr (Or.inl ⟨h, rfl⟩)⟩
      simp [wl1271.emit, wl1271.after_send]
    · refine ⟨-(env.wl1271_cmd_send (wl.log
          ++ [event.wl1271_cmd_build_probe_req wl.scan.ssid wl.scan.ssid_len req.ie band]
          ++ [event.wl1271_cmd_send (command.CMD_TRIGGER_SCAN_TO 0)]
          ++ [event.wl1271_cmd_send (command.CMD_SCAN cmd)]) : Int),
        [event.wl1271_cmd_build_probe_req wl.scan.ssid wl.scan.ssid_len req.ie band,
          event.wl1271_cmd_send (command.CMD_TRIGGER_SCAN_TO 0),
          event.wl1271_cmd_send (command.CMD_SCAN cmd)], ?_, Or.inr (Or.inr ⟨?_, rfl⟩)⟩
      · simp [wl1271.emit, wl1271.after_send]
      · omega

theorem wl1271_scan_send_eq (K : scan_constants) (env : environment) (wl : wl1271)
    (band : ieee80211_band) (passive : Bool) (basic_rate : Nat)
    (req : cfg80211_scan_request) (hreq : wl.scan.req = some req) :
    wl1271_scan_send K env wl band passive basic_rate
      = if (!env.kzalloc (wl.log ++ [event.kzalloc])
            || !env.kzalloc (wl.log ++ [event.kzalloc] ++ [event.kzalloc])) = true then
          Except.ok (-ENOMEM, wl.after_send wl.scan.scanned_ch [event.kzalloc, event.kzalloc])
        else if (wl1271_get_scan_channels K wl.conf_scan wl.scan.scanned_ch req
            (wl1271_cmd_scan.zero K).channels band passive).1 = 0 then
          Except.ok (WL1271_NOTHING_TO_SCAN,
            wl.after_send (wl1271_get_scan_channels K wl.conf_scan wl.scan.scanned_ch req
              (wl1271_cmd_scan.zero K).channels band passive).2.2
              [event.kzalloc, event.kzalloc])
        else
          Except.ok (wl1271_scan_send_dispatch env
            (wl.after_send (wl1271_get_scan_channels K wl.conf_scan wl.scan.scanned_ch req
              (wl1271_cmd_scan.zero K).channels band passive).2.2
              [event.kzalloc, event.kzalloc]) req band
            (wl1271_scan_send_cmd K env wl req band passive basic_rate
              (wl1271_get_scan_channels K wl.conf_scan wl.scan.scanned_ch req
                (wl1271_cmd_scan.zero K).channels band passive).1
              (wl1271_get_scan_channels K wl.conf_scan wl.scan.scanned_ch req
                (wl1271_cmd_scan.zero K).channels band passive).2.1)) := by
  unfold wl1271_scan_send
  simp only [wl1271.emit, beq_iff_eq]
  split
  · simp [wl1271.after_send]
  · split
    · rename_i hnone
      rw [hreq] at hnone
      cases hnone
    · rename_i req1 hsome
      rw [hreq] at hsome
      cases hsome
      split
      · simp [wl1271.after_send]
      · simp only [wl1271.after_send, List.append_assoc, List.singleton_append]
        rfl

/-- What `wl1271_scan_send` returns and leaves behind when the request pointer is set:
the device context changes only in the scanned bit array and the log. -/
theorem wl1271_scan_send_cases (K : scan_constants) (env : environment) (wl : wl1271)
    (band : ieee80211_band) (passive : Bool) (basic_rate : Nat)
    (req : cfg80211_scan_request) (hreq : wl.scan.req = some req) :
    ∃ ret sc added,
      wl1271_scan_send K env wl band passive basic_rate
        = Except.ok (ret, wl.after_send sc added) ∧
      ((ret = -ENOMEM ∧ sc = wl.scan.scanned_ch ∧ added = [event.kzalloc, event.kzalloc]) ∨
       (ret = WL1271_NOTHING_TO_SCAN ∧ sc = wl.scan.scanned_ch ∧
          added = [event.kzalloc, event.kzalloc] ∧
          one_shot_selected K req band passive wl.scan.scanned_ch = []) ∨
       (one_shot_selected K req band passive wl.scan.scanned_ch ≠ [] ∧
        sc = wl.scan.scanned_ch
              ∪ index_set (one_shot_selected K req band passive wl.scan.scanned_ch) ∧
        ∃ cmd : wl1271_cmd_scan, cmd.band = band_tag K band ∧
        ((ret < 0 ∧ added = [event.kzalloc, event.kzalloc,
            event.wl1271_cmd_build_probe_req wl.scan.ssid wl.scan.ssid_len req.ie band]) ∨
         (ret < 0 ∧ added = [event.kzalloc, event.kzalloc,
            event.wl1271_cmd_build_probe_req wl.scan.ssid wl.scan.ssid_len req.ie band,
            event.wl1271_cmd_send (command.CMD_TRIGGER_SCAN_TO 0)]) ∨
         (ret ≤ 0 ∧ added = [event.kzalloc, event.kzalloc,
              event.wl1271_cmd_build_probe_req wl.scan.ssid wl.scan.ssid_len req.ie band,
              event.wl1271_cmd_send (command.CMD_TRIGGER_SCAN_TO 0),
              event.wl1271_cmd_send (command.CMD_SCAN cmd)])))) := by
  obtain ⟨hcount, hbits⟩ := wl1271_get_scan_channels_count_bits K wl.conf_scan
    wl.scan.scanned_ch req (wl1271_cmd_scan.zero K).channels band passive
  rw [wl1271_scan_send_eq K env wl band passive basic_rate req hreq, hcount, hbits]
  split
  · exact ⟨_, _, _, rfl, Or.inl ⟨rfl, rfl, rfl⟩⟩
  · split
    · rename_i hz
      have hnil := List.length_eq_zero.mp hz
      refine ⟨WL1271_NOTHING_TO_SCAN, wl.scan.scanned_ch, _, ?_,
        Or.inr (Or.inl ⟨rfl, rfl, rfl, hnil⟩)⟩
      simp [hnil, index_set]
    · rename_i hz
      have hne : one_shot_selected K req band passive wl.scan.scanned_ch ≠ [] := by
        intro h; exact hz (by rw [h]; rfl)
      obtain ⟨ret, added, heq, hcases⟩ := wl1271_scan_send_dispatch_cases env
        (wl.after_send (wl.scan.scanned_ch
          ∪ index_set (one_shot_selected K req band passive wl.scan.scanned_ch))
          [event.kzalloc, event.kzalloc]) req band
        (wl1271_scan_send_cmd K env wl req band passive basic_rate
          (one_shot_selected K req band passive wl.scan.scanned_ch).length
          (wl1271_get_scan_channels K wl.conf_scan wl.scan.scanned_ch req
            (wl1271_cmd_scan.zero K).channels band passive).2.1)
      rw [heq, after_send_after_send]
      refine ⟨ret, _, _, rfl, Or.inr (Or.inr ⟨hne, rfl,
        wl1271_scan_send_cmd K env wl req band passive basic_rate
          (one_shot_selected K req band passive wl.scan.scanned_ch).length
          (wl1271_get_scan_channels K wl.conf_scan wl.scan.scanned_ch req
            (wl1271_cmd_scan.zero K).channels band passive).2.1, ?_, ?_⟩)⟩
      · simp [wl1271_scan_send_cmd, band_tag]
      · rcases hcases with ⟨h1, h2⟩ | ⟨h1, h2⟩ | ⟨h1, h2⟩
        · exact Or.inl ⟨h1, by rw [h2]; rfl⟩
        · exact Or.inr (Or.inl ⟨h1, by rw [h2]; rfl⟩)
        · exact Or.inr (Or.inr ⟨h1, by rw [h2]; rfl⟩)


/-! ## Theorems: the state machine -/

theorem wl1271_scan_stm_out_nothing (wl : wl1271) :
    wl1271_scan_stm_out wl WL1271_NOTHING_TO_SCAN = wl := by
  simp [wl1271_scan_stm_out, WL1271_NOTHING_TO_SCAN]

theorem except_match_id (x : Except fault wl1271) :
    (match x with
      | Except.error f => Except.error f
      | Except.ok wl => Except.ok (wl1271_scan_stm_out wl WL1271_NOTHING_TO_SCAN)) = x := by
  cases x <;> simp [wl1271_scan_stm_out_nothing]

/-- One call of `wl1271_scan_stm` in a band state: dispatch for the state's band and
passive flag; on nothing-to-scan continue with the recursive call in the successor
state, otherwise finish with the exit code of scan.c:309-313. -/
theorem wl1271_scan_stm_depth_band (K : scan_constants) (env : environment) (d : Nat)
    (wl : wl1271) (band : ieee80211_band) (passive : Bool)
    (hs : wl.scan.state.band_state = some (band, passive)) :
    wl1271_scan_stm_depth K env (d + 1) wl
      = match wl1271_scan_send K env wl band passive
            (env.wl1271_tx_min_rate_get (wl.bitrate_masks band)) with
        | Except.error f => Except.error f
        | Except.ok (ret, wl1) =>
          if ret = WL1271_NOTHING_TO_SCAN then
            wl1271_scan_stm_depth K env d
              (wl1.set_scan_state (wl.scan.state.next wl1.enable_11a))
          else
            Except.ok (wl1271_scan_stm_out wl1 ret) := by
  rw [wl1271_scan_stm_depth]
  cases hst : wl.scan.state <;> simp only [hst, wl1271_scan_state.band_state] at hs <;>
    cases hs
  all_goals
    simp only [wl1271_scan_state.next]
    cases hsend : wl1271_scan_send K env wl _ _ _ with
    | error f => rfl
    | ok p =>
      obtain ⟨ret, wl1⟩ := p
      simp only []
      by_cases hret : ret = WL1271_NOTHING_TO_SCAN
      · subst hret
        simp only [if_true, except_match_id]
        try (cases wl1.enable_11a <;> simp)
      · simp only [hret, if_false]


theorem wl1271_scan_send_digest (K : scan_constants) (env : environment) (wl : wl1271)
    (band : ieee80211_band) (passive : Bool) (basic_rate : Nat)
    (req : cfg80211_scan_request) (hreq : wl.scan.req = some req) :
    ∃ ret sc added,
      wl1271_scan_send K env wl band passive basic_rate
        = Except.ok (ret, wl.after_send sc added) ∧
      states_written added = [] ∧
      (scan_commands added).length ≤ 1 ∧
      (ret = WL1271_NOTHING_TO_SCAN → scan_commands added = []) ∧
      (ret = 0 → (scan_commands added).length = 1) ∧
      (∀ e ∈ added, e.is_delayed_work = false) ∧
      (band = ieee80211_band.IEEE80211_BAND_2GHZ → ∀ e ∈ added, e.avoids_5ghz K = true) := by
  obtain ⟨ret, sc, added, heq, hcases⟩ :=
    wl1271_scan_send_cases K env wl band passive basic_rate req hreq
  refine ⟨ret, sc, added, heq, ?_⟩
  rcases hcases with ⟨h1, _, h3⟩ | ⟨h1, _, h3, _⟩ | ⟨_, _, cmd, hband, h⟩
  · subst h3
    simp [states_written, scan_commands, event.state_written, event.is_scan_command,
      event.is_delayed_work, event.avoids_5ghz, h1, ENOMEM, WL1271_NOTHING_TO_SCAN]
  · subst h3
    simp [states_written, scan_commands, event.state_written, event.is_scan_command,
      event.is_delayed_work, event.avoids_5ghz, h1, WL1271_NOTHING_TO_SCAN]
  · rcases h with ⟨h1, h2⟩ | ⟨h1, h2⟩ | ⟨h1, h2⟩
    · subst h2
      have hne1 : ret ≠ WL1271_NOTHING_TO_SCAN := by
        simp only [WL1271_NOTHING_TO_SCAN]; omega
      have hne0 : ret ≠ 0 := by omega
      simp [states_written, scan_commands, event.state_written, event.is_scan_command,
        event.is_delayed_work, event.avoids_5ghz, hne1, hne0]
    · subst h2
      have hne1 : ret ≠ WL1271_NOTHING_TO_SCAN := by
        simp only [WL1271_NOTHING_TO_SCAN]; omega
      have hne0 : ret ≠ 0 := by omega
      simp [states_written, scan_commands, event.state_written, event.is_scan_command,
        event.is_delayed_work, event.avoids_5ghz, hne1, hne0]
    · subst h2
      have hne1 : ret ≠ WL1271_NOTHING_TO_SCAN := by
        simp only [WL1271_NOTHING_TO_SCAN]; omega
      simp [states_written, scan_commands, event.state_written, event.is_scan_command,
        event.is_delayed_work, event.avoids_5ghz, hne1, hband, band_tag]
      intro hb
      exact ⟨hb, fun h => absurd hb h⟩

theorem next_rank_lt (e : Bool) (s : wl1271_scan_state) (b : ieee80211_band × Bool)
    (hs : s.band_state = some b) : s.rank < (s.next e).rank := by
  cases s <;> cases e <;> simp_all [wl1271_scan_state.band_state, wl1271_scan_state.next,
    wl1271_scan_state.rank]

theorem next_frames_lt (e : Bool) (s : wl1271_scan_state) (b : ieee80211_band × Bool)
    (hs : s.band_state = some b) : (s.next e).frames < s.frames := by
  cases s <;> cases e <;> simp_all [wl1271_scan_state.band_state, wl1271_scan_state.next,
    wl1271_scan_state.frames]

theorem next_not_5ghz (s : wl1271_scan_state) (h : s.is_5ghz = false) :
    (s.next false).is_5ghz = false := by
  cases s <;> simp_all [wl1271_scan_state.next, wl1271_scan_state.is_5ghz]

theorem band_of_not_5ghz (s : wl1271_scan_state) (band : ieee80211_band) (passive : Bool)
    (hs : s.band_state = some (band, passive)) (h : s.is_5ghz = false) :
    band = ieee80211_band.IEEE80211_BAND_2GHZ := by
  cases s <;> simp_all [wl1271_scan_state.band_state, wl1271_scan_state.is_5ghz]

theorem band_state_cases (s : wl1271_scan_state) :
    s = wl1271_scan_state.WL1271_SCAN_STATE_IDLE ∨
    s = wl1271_scan_state.WL1271_SCAN_STATE_DONE ∨
    ∃ band passive, s.band_state = some (band, passive) := by
  cases s <;> simp [wl1271_scan_state.band_state]


theorem states_written_append (a b : List event) :
    states_written (a ++ b) = states_written a ++ states_written b := by
  simp [states_written]

theorem scan_commands_append (a b : List event) :
    scan_commands (a ++ b) = scan_commands a ++ scan_commands b := by
  simp [scan_commands]

/-- A drive entered with the request pointer set (or in a state that does not use it)
returns, within as many nested calls as the entry state allows, in the relation
`drive_relation` to its entry, and hands at most one scan command to the transport. -/
theorem wl1271_scan_stm_depth_ok (K : scan_constants) (env : environment) :
    ∀ (d : Nat) (wl : wl1271),
      (wl.scan.state.band_state ≠ none → wl.scan.req ≠ none) → wl.scan.state.frames ≤ d →
      ∃ wl1 added, wl1271_scan_stm_depth K env d wl = Except.ok wl1 ∧
        drive_relation K wl wl1 added ∧ (scan_commands added).length ≤ 1 := by
  intro d
  induction d with
  | zero =>
    intro wl _ hf
    cases hst : wl.scan.state <;> simp [hst, wl1271_scan_state.frames] at hf
  | succ d ih =>
    intro wl hreq0 hf
    rcases band_state_cases wl.scan.state with hst | hst | ⟨band, passive, hbs⟩
    · refine ⟨wl, [], ?_, ?_, by simp [scan_commands]⟩
      · rw [wl1271_scan_stm_depth]; simp [hst, wl1271_scan_stm_out]
      · simp [drive_relation, states_written]
    · refine ⟨(({ wl with scan := { wl.scan with failed := false } } : wl1271).emit
          event.cancel_delayed_work).emit (event.ieee80211_queue_delayed_work 0),
        [event.cancel_delayed_work, event.ieee80211_queue_delayed_work 0], ?_, ?_,
        by simp [scan_commands, event.is_scan_command]⟩
      · rw [wl1271_scan_stm_depth]; simp [hst, wl1271_scan_stm_out]
      · simp [drive_relation, states_written, wl1271.emit, event.state_written,
          event.avoids_5ghz]
    · obtain ⟨req, hreq⟩ : ∃ req, wl.scan.req = some req :=
        Option.ne_none_iff_exists'.mp (hreq0 (by rw [hbs]; simp))
      obtain ⟨ret, sc, a1, hsend, hw1, hc1, hnone, _, _, h5⟩ :=
        wl1271_scan_send_digest K env wl band passive
          (env.wl1271_tx_min_rate_get (wl.bitrate_masks band)) req hreq
      rw [wl1271_scan_stm_depth_band K env d wl band passive hbs, hsend]
      simp only []
      by_cases hret : ret = WL1271_NOTHING_TO_SCAN
      · simp only [hret, if_true]
        have hen : (wl.after_send sc a1).enable_11a = wl.enable_11a := rfl
        rw [hen]
        have hfr := next_frames_lt wl.enable_11a wl.scan.state _ hbs
        have hrk := next_rank_lt wl.enable_11a wl.scan.state _ hbs
        obtain ⟨wl2, a2, hrec, hrel, hc2⟩ := ih
          ((wl.after_send sc a1).set_scan_state (wl.scan.state.next wl.enable_11a))
          (fun _ => by simp [wl1271.set_scan_state, wl1271.after_send, hreq])
          (by simp only [wl1271.set_scan_state]; omega)
        obtain ⟨r1, r2, r3, r4, r5, r6, r7⟩ := hrel
        have hst2 : ((wl.after_send sc a1).set_scan_state
            (wl.scan.state.next wl.enable_11a)).scan.state
              = wl.scan.state.next wl.enable_11a := rfl
        rw [hst2] at r4 r5 r7
        refine ⟨wl2, a1 ++ [event.scan_state (wl.scan.state.next wl.enable_11a)] ++ a2, hrec,
          ⟨?_, ?_, ?_, ?_, ?_, ?_, ?_⟩, ?_⟩
        · rw [r1]; simp [wl1271.set_scan_state, wl1271.after_send]
        · rw [r2]; rfl
        · rw [r3]; rfl
        · omega
        · intro s hs
          rw [states_written_append, states_written_append, hw1] at hs
          simp only [states_written, List.nil_append, List.filterMap_cons,
            event.state_written, List.filterMap_nil, List.singleton_append,
            List.mem_cons] at hs
          rcases hs with rfl | hs
          · exact ⟨hrk, r4⟩
          · have := r5 s hs
            omega
        · rw [states_written_append, states_written_append, hw1]
          simp only [states_written, List.nil_append, List.filterMap_cons,
            event.state_written, List.filterMap_nil, List.singleton_append, List.map_cons,
            List.pairwise_cons]
          refine ⟨?_, r6⟩
          intro x hx
          obtain ⟨s, hs, rfl⟩ := List.mem_map.mp hx
          exact (r5 s hs).1
        · intro he h5g
          have hband := band_of_not_5ghz wl.scan.state band passive hbs h5g
          have hnext : (wl.scan.state.next wl.enable_11a).is_5ghz = false := by
            rw [he]; exact next_not_5ghz _ h5g
          obtain ⟨q1, q2⟩ := r7 he hnext
          refine ⟨q1, ?_⟩
          intro e hmem
          simp only [List.mem_append, List.mem_singleton] at hmem
          rcases hmem with (hmem | rfl) | hmem
          · exact h5 hband e hmem
          · simp [event.avoids_5ghz, hnext]
          · exact q2 e hmem
        · rw [scan_commands_append, scan_commands_append, hnone hret]
          simpa [scan_commands, event.is_scan_command] using hc2
      · simp only [hret, if_false]
        by_cases hneg : ret < 0
        · refine ⟨_, a1 ++ [event.cancel_delayed_work, event.ieee80211_queue_delayed_work 0],
            rfl, ⟨?_, ?_, ?_, ?_, ?_, ?_, ?_⟩, ?_⟩
          · simp [wl1271_scan_stm_out, hneg, wl1271.emit, wl1271.after_send]
          · simp [wl1271_scan_stm_out, hneg, wl1271.emit, wl1271.after_send]
          · simp [wl1271_scan_stm_out, hneg, wl1271.emit, wl1271.after_send]
          · simp [wl1271_scan_stm_out, hneg, wl1271.emit, wl1271.after_send]
          · rw [states_written_append, hw1]
            simp [states_written, event.state_written]
          · rw [states_written_append, hw1]
            simp [states_written, event.state_written]
          · intro he h5g
            have hband := band_of_not_5ghz wl.scan.state band passive hbs h5g
            refine ⟨by simpa [wl1271_scan_stm_out, hneg, wl1271.emit, wl1271.after_send]
              using h5g, ?_⟩
            intro e hmem
            simp only [List.mem_append, List.mem_cons, List.mem_singleton,
              List.not_mem_nil, or_false] at hmem
            rcases hmem with hmem | rfl | rfl
            · exact h5 hband e hmem
            · rfl
            · rfl
          · rw [scan_commands_append]
            simpa [scan_commands, event.is_scan_command] using hc1
        · refine ⟨_, a1, rfl, ⟨?_, ?_, ?_, ?_, ?_, ?_, ?_⟩, hc1⟩
          · simp [wl1271_scan_stm_out, hneg, wl1271.after_send]
          · simp [wl1271_scan_stm_out, hneg, wl1271.after_send]
          · simp [wl1271_scan_stm_out, hneg, wl1271.after_send]
          · simp [wl1271_scan_stm_out, hneg, wl1271.after_send]
          · rw [hw1]; simp
          · rw [hw1]; simp
          · intro he h5g
            have hband := band_of_not_5ghz wl.scan.state band passive hbs h5g
            exact ⟨by simpa [wl1271_scan_stm_out, hneg, wl1271.after_send] using h5g,
              h5 hband⟩


theorem frames_le_five (s : wl1271_scan_state) : s.frames ≤ 5 := by
  cases s <;> simp [wl1271_scan_state.frames]

/-- Beyond the number of nested calls the entry state allows, the bound on the call
depth has no influence on `wl1271_scan_stm_depth`. -/
theorem wl1271_scan_stm_depth_succ (K : scan_constants) (env : environment) :
    ∀ (d : Nat) (wl : wl1271), wl.scan.state.frames ≤ d →
      wl1271_scan_stm_depth K env (d + 1) wl = wl1271_scan_stm_depth K env d wl := by
  intro d
  induction d with
  | zero =>
    intro wl hf
    cases hst : wl.scan.state <;> simp [hst, wl1271_scan_state.frames] at hf
  | succ d ih =>
    intro wl hf
    rcases band_state_cases wl.scan.state with hst | hst | ⟨band, passive, hbs⟩
    · rw [wl1271_scan_stm_depth, wl1271_scan_stm_depth]; simp [hst]
    · rw [wl1271_scan_stm_depth, wl1271_scan_stm_depth]; simp [hst]
    · rw [wl1271_scan_stm_depth_band K env (d + 1) wl band passive hbs,
        wl1271_scan_stm_depth_band K env d wl band passive hbs]
      cases hsend : wl1271_scan_send K env wl band passive
          (env.wl1271_tx_min_rate_get (wl.bitrate_masks band)) with
      | error f => rfl
      | ok p =>
        obtain ⟨ret, wl1⟩ := p
        simp only []
        by_cases hret : ret = WL1271_NOTHING_TO_SCAN
        · simp only [hret, if_true]
          apply ih
          have := next_frames_lt wl1.enable_11a wl.scan.state _ hbs
          simp only [wl1271.set_scan_state]
          omega
        · simp only [hret, if_false]

/-- Function `wl1271_scan_stm` in a band state: dispatch for the state's band and passive flag;
on nothing-to-scan the result is that of `wl1271_scan_stm` entered in the successor
state, otherwise the drive ends with the exit code of scan.c:309-313. -/
theorem wl1271_scan_stm_band (K : scan_constants) (env : environment)
    (wl : wl1271) (band : ieee80211_band) (passive : Bool)
    (hs : wl.scan.state.band_state = some (band, passive)) :
    wl1271_scan_stm K env wl
      = match wl1271_scan_send K env wl band passive
            (env.wl1271_tx_min_rate_get (wl.bitrate_masks band)) with
        | Except.error f => Except.error f
        | Except.ok (ret, wl1) =>
          if ret = WL1271_NOTHING_TO_SCAN then
            wl1271_scan_stm K env (wl1.set_scan_state (wl.scan.state.next wl1.enable_11a))
          else
            Except.ok (wl1271_scan_stm_out wl1 ret) := by
  unfold wl1271_scan_stm wl1271_scan_state.count
  rw [wl1271_scan_stm_depth_band K env 5 wl band passive hs]
  cases hsend : wl1271_scan_send K env wl band passive
      (env.wl1271_tx_min_rate_get (wl.bitrate_masks band)) with
  | error f => rfl
  | ok p =>
    obtain ⟨ret, wl1⟩ := p
    simp only []
    by_cases hret : ret = WL1271_NOTHING_TO_SCAN
    · simp only [hret, if_true]
      exact (wl1271_scan_stm_depth_succ K env 5 _ (frames_le_five _)).symm
    · simp only [hret, if_false]

/-- Every way in which `wl1271_scan_send` returns. -/
theorem wl1271_scan_send_ok_cases (K : scan_constants) (env : environment) (wl : wl1271)
    (band : ieee80211_band) (passive : Bool) (basic_rate : Nat) (ret : Int) (wl1 : wl1271)
    (h : wl1271_scan_send K env wl band passive basic_rate = Except.ok (ret, wl1)) :
    ∃ sc added, wl1 = wl.after_send sc added ∧
      ((ret = -ENOMEM ∧ sc = wl.scan.scanned_ch ∧ added = [event.kzalloc, event.kzalloc]) ∨
       ∃ req, wl.scan.req = some req ∧
        ((ret = WL1271_NOTHING_TO_SCAN ∧ sc = wl.scan.scanned_ch ∧
          added = [event.kzalloc, event.kzalloc] ∧
          one_shot_selected K req band passive wl.scan.scanned_ch = []) ∨
         (one_shot_selected K req band passive wl.scan.scanned_ch ≠ [] ∧
          sc = wl.scan.scanned_ch
                ∪ index_set (one_shot_selected K req band passive wl.scan.scanned_ch) ∧
          ∃ cmd : wl1271_cmd_scan, cmd.band = band_tag K band ∧
          ((ret < 0 ∧ added = [event.kzalloc, event.kzalloc,
              event.wl1271_cmd_build_probe_req wl.scan.ssid wl.scan.ssid_len req.ie band]) ∨
           (ret < 0 ∧ added = [event.kzalloc, event.kzalloc,
              event.wl1271_cmd_build_probe_req wl.scan.ssid wl.scan.ssid_len req.ie band,
              event.wl1271_cmd_send (command.CMD_TRIGGER_SCAN_TO 0)]) ∨
           (ret ≤ 0 ∧ added = [event.kzalloc, event.kzalloc,
                event.wl1271_cmd_build_probe_req wl.scan.ssid wl.scan.ssid_len req.ie band,
                event.wl1271_cmd_send (command.CMD_TRIGGER_SCAN_TO 0),
                event.wl1271_cmd_send (command.CMD_SCAN cmd)]))))) := by
  cases hreq : wl.scan.req with
  | none =>
    unfold wl1271_scan_send at h
    simp only [wl1271.emit, hreq] at h
    split at h
    · simp only [Except.ok.injEq, Prod.mk.injEq] at h
      refine ⟨wl.scan.scanned_ch, [event.kzalloc, event.kzalloc], ?_, Or.inl ⟨h.1.symm, rfl, rfl⟩⟩
      rw [← h.2]; simp [wl1271.after_send]
    · cases h
  | some req =>
    obtain ⟨ret2, sc, added, heq, hcases⟩ :=
      wl1271_scan_send_cases K env wl band passive basic_rate req hreq
    rw [heq] at h
    simp only [Except.ok.injEq, Prod.mk.injEq] at h
    obtain ⟨rfl, rfl⟩ := h
    refine ⟨sc, added, rfl, ?_⟩
    rcases hcases with h1 | h1 | h1
    · exact Or.inl h1
    · exact Or.inr ⟨req, rfl, Or.inl h1⟩
    · exact Or.inr ⟨req, rfl, Or.inr h1⟩


/-! ## Theorems: starting a scan -/

/-- C5: started while the session state is not Idle (with a request within
`WL1271_MAX_CHANNELS`), `wl1271_scan` returns `-EBUSY` (-16) and hands back the device
context it was given: state, stored SSID and length, request pointer, scanned bit array
and failed flag are as before, and nothing is added to the log, so the delayed work is
not queued again and no command is dispatched. -/
theorem wl1271_scan_busy (K : scan_constants) (env : environment) (wl : wl1271)
    (ssid : Option (List Nat)) (ssid_len : Nat) (req : cfg80211_scan_request)
    (hn : req.n_channels ≤ K.WL1271_MAX_CHANNELS)
    (hbusy : wl.scan.state ≠ wl1271_scan_state.WL1271_SCAN_STATE_IDLE) :
    wl1271_scan K env wl ssid ssid_len req = Except.ok (-16, wl) := by
  unfold wl1271_scan
  rw [if_neg (by omega), if_pos hbusy]
  rfl

/-- Witness of C5: a start in state Active2G. -/
theorem wl1271_scan_busy_witness :
    example_request.n_channels ≤ small_constants.WL1271_MAX_CHANNELS ∧
    (example_wl wl1271_scan_state.WL1271_SCAN_STATE_2GHZ_ACTIVE (some disabled_request)).scan.state
      ≠ wl1271_scan_state.WL1271_SCAN_STATE_IDLE ∧
    wl1271_scan small_constants env_ok
        (example_wl wl1271_scan_state.WL1271_SCAN_STATE_2GHZ_ACTIVE (some disabled_request))
        (some [65, 66]) 2 example_request
      = Except.ok (-16,
          example_wl wl1271_scan_state.WL1271_SCAN_STATE_2GHZ_ACTIVE (some disabled_request)) :=
  ⟨by decide, by decide,
    wl1271_scan_busy small_constants env_ok _ (some [65, 66]) 2 example_request (by decide)
      (by decide)⟩

theorem wl1271_scan_eq (K : scan_constants) (env : environment) (wl : wl1271)
    (ssid : Option (List Nat)) (ssid_len : Nat) (req : cfg80211_scan_request)
    (hn : req.n_channels ≤ K.WL1271_MAX_CHANNELS)
    (hidle : wl.scan.state = wl1271_scan_state.WL1271_SCAN_STATE_IDLE) :
    wl1271_scan K env wl ssid ssid_len req
      = match wl1271_scan_stm K env (started_session K wl ssid ssid_len req) with
        | Except.error f => Except.error f
        | Except.ok wl1 => Except.ok (0, wl1) := by
  unfold wl1271_scan
  rw [if_neg (by omega), if_neg (by simp [hidle])]
  have hprep : ∀ w, w = started_session K wl ssid ssid_len req →
      (match wl1271_scan_stm K env w with
        | Except.error f => (Except.error f : Except fault (Int × wl1271))
        | Except.ok wl1 => Except.ok (0, wl1))
      = match wl1271_scan_stm K env (started_session K wl ssid ssid_len req) with
        | Except.error f => Except.error f
        | Except.ok wl1 => Except.ok (0, wl1) := by
    intro w hw; rw [hw]
  apply hprep
  cases ssid with
  | none => simp [started_session, wl1271.set_scan_state, wl1271.emit]
  | some bytes =>
    by_cases hz : ssid_len = 0
    · simp [started_session, wl1271.set_scan_state, wl1271.emit, hz]
    · simp [started_session, wl1271.set_scan_state, wl1271.emit, hz, memcpy]

/-- C6: started on an Idle session (with a request within `WL1271_MAX_CHANNELS`),
`wl1271_scan` returns 0, and the device context it leaves is the one that a single drive
`wl1271_scan_stm` (which returns) leaves when applied to the session `started_session`:
SSID copied with its length (length 0 without SSID or with zero length; the first
`ssid_len` stored bytes are those given, when that many are given), request stored,
scanned bit array clear, `failed = true`, delayed work queued with `WL1271_SCAN_TIMEOUT`,
state Active2G. -/
theorem wl1271_scan_starts (K : scan_constants) (env : environment) (wl : wl1271)
    (ssid : Option (List Nat)) (ssid_len : Nat) (req : cfg80211_scan_request)
    (hn : req.n_channels ≤ K.WL1271_MAX_CHANNELS)
    (hidle : wl.scan.state = wl1271_scan_state.WL1271_SCAN_STATE_IDLE) :
    ∃ wl1, wl1271_scan_stm K env (started_session K wl ssid ssid_len req) = Except.ok wl1 ∧
      wl1271_scan K env wl ssid ssid_len req = Except.ok (0, wl1) ∧
      (started_session K wl ssid ssid_len req).scan.state
        = wl1271_scan_state.WL1271_SCAN_STATE_2GHZ_ACTIVE ∧
      (started_session K wl ssid ssid_len req).scan.req = some req ∧
      (started_session K wl ssid ssid_len req).scan.scanned_ch = ∅ ∧
      (started_session K wl ssid ssid_len req).scan.failed = true ∧
      (started_session K wl ssid ssid_len req).scan.ssid_len
        = (if ssid.isSome then ssid_len else 0) ∧
      (∀ bytes, ssid = some bytes → ssid_len ≤ bytes.length →
        (started_session K wl ssid ssid_len req).scan.ssid.take ssid_len
          = bytes.take ssid_len) ∧
      (started_session K wl ssid ssid_len req).log
        = wl.log ++ [event.scan_state wl1271_scan_state.WL1271_SCAN_STATE_2GHZ_ACTIVE,
            event.ieee80211_queue_delayed_work K.WL1271_SCAN_TIMEOUT] := by
  obtain ⟨wl1, added, hstm, _, _⟩ := wl1271_scan_stm_depth_ok K env wl1271_scan_state.count
    (started_session K wl ssid ssid_len req) (fun _ => by simp [started_session])
    (by simp [started_session, wl1271_scan_state.frames, wl1271_scan_state.count])
  have hstm2 : wl1271_scan_stm K env (started_session K wl ssid ssid_len req)
      = Except.ok wl1 := hstm
  refine ⟨wl1, hstm2, ?_, rfl, rfl, rfl, rfl, ?_, ?_, rfl⟩
  · rw [wl1271_scan_eq K env wl ssid ssid_len req hn hidle, hstm2]
  · cases ssid <;> simp [started_session]
  · intro bytes hb hlen
    subst hb
    simp only [started_session]
    rw [List.take_append_of_le_length (by simp [hlen]), List.take_take]
    simp


/-- Witness of C6: a start on an Idle session. -/
theorem wl1271_scan_starts_witness :
    example_request.n_channels ≤ small_constants.WL1271_MAX_CHANNELS ∧
    (example_wl wl1271_scan_state.WL1271_SCAN_STATE_IDLE none).scan.state
      = wl1271_scan_state.WL1271_SCAN_STATE_IDLE ∧
    ∃ wl1, wl1271_scan small_constants env_ok
        (example_wl wl1271_scan_state.WL1271_SCAN_STATE_IDLE none) (some [65, 66]) 2
        example_request = Except.ok (0, wl1) :=
  ⟨by decide, rfl,
    (wl1271_scan_starts small_constants env_ok
      (example_wl wl1271_scan_state.WL1271_SCAN_STATE_IDLE none) (some [65, 66]) 2
      example_request (by decide) rfl).imp (fun _ h => h.2.1)⟩

/-! ## Theorems: order of the states -/

theorem drive_relation_trans (K : scan_constants) (wl wl1 wl2 : wl1271)
    (a1 a2 : List event) (h1 : drive_relation K wl wl1 a1)
    (h2 : drive_relation K wl1 wl2 a2) : drive_relation K wl wl2 (a1 ++ a2) := by
  obtain ⟨p1, p2, p3, p4, p5, p6, p7⟩ := h1
  obtain ⟨q1, q2, q3, q4, q5, q6, q7⟩ := h2
  refine ⟨?_, ?_, ?_, ?_, ?_, ?_, ?_⟩
  · rw [q1, p1, List.append_assoc]
  · rw [q2, p2]
  · rw [q3, p3]
  · omega
  · intro s hs
    rw [states_written_append, List.mem_append] at hs
    rcases hs with hs | hs
    · have := p5 s hs; omega
    · have := q5 s hs; omega
  · rw [states_written_append, List.map_append, List.pairwise_append]
    refine ⟨p6, q6, ?_⟩
    intro x hx y hy
    obtain ⟨s, hs, rfl⟩ := List.mem_map.mp hx
    obtain ⟨s2, hs2, rfl⟩ := List.mem_map.mp hy
    have := p5 s hs
    have := q5 s2 hs2
    omega
  · intro he h5
    obtain ⟨r1, r2⟩ := p7 he h5
    obtain ⟨r3, r4⟩ := q7 (by rw [p3]; exact he) r1
    refine ⟨r3, ?_⟩
    intro e hmem
    rcases List.mem_append.mp hmem with h | h
    · exact r2 e h
    · exact r4 e h

theorem drives_ok (K : scan_constants) (env : environment) :
    ∀ (n : Nat) (wl : wl1271), wl.scan.req ≠ none →
      ∃ wl1 added, drives K env n wl = Except.ok wl1 ∧ drive_relation K wl wl1 added := by
  intro n
  induction n with
  | zero =>
    intro wl _
    exact ⟨wl, [], rfl, by simp [drive_relation, states_written]⟩
  | succ n ih =>
    intro wl hreq
    obtain ⟨wl1, a1, hstm, hrel, _⟩ := wl1271_scan_stm_depth_ok K env
      wl1271_scan_state.count wl (fun _ => hreq)
      (by have := frames_le_five wl.scan.state; simp only [wl1271_scan_state.count]; omega)
    have hstm2 : wl1271_scan_stm K env wl = Except.ok wl1 := hstm
    obtain ⟨wl2, a2, hdr, hrel2⟩ := ih wl1 (by rw [hrel.2.1]; exact hreq)
    refine ⟨wl2, a1 ++ a2, ?_, drive_relation_trans K wl wl1 wl2 a1 a2 hrel hrel2⟩
    rw [drives, hstm2]
    exact hdr

theorem wl1271_scan_send_keeps (K : scan_constants) (env : environment) (wl : wl1271)
    (band : ieee80211_band) (passive : Bool) (basic_rate : Nat) (ret : Int) (wl1 : wl1271)
    (h : wl1271_scan_send K env wl band passive basic_rate = Except.ok (ret, wl1)) :
    wl1.enable_11a = wl.enable_11a ∧ wl1.scan.state = wl.scan.state ∧
      wl1.scan.failed = wl.scan.failed ∧ wl1.scan.req = wl.scan.req := by
  obtain ⟨sc, added, rfl, _⟩ := wl1271_scan_send_ok_cases K env wl band passive basic_rate
    ret wl1 h
  exact ⟨rfl, rfl, rfl, rfl⟩

/-- C7: (1) when the dispatch of a band state returns nothing-to-scan, the drive
continues as a drive entered in the successor state `next` of the fixed order, which is
(2) Active2G -> Passive2G, Passive2G -> Active5G if 5GHz is enabled and -> Done
otherwise, Active5G -> Passive5G, Passive5G -> Done; (3) a session started by
`wl1271_scan` with 5GHz disabled and driven any number of times is never put into
Active5G or Passive5G (neither at the end of a drive nor by an assignment within one),
builds templates only for 2.4GHz and sends only scan commands with the 2.4GHz band tag;
(4) every drive returns with a state not before its entry state in the order, and the
states it assigns on the way are strictly increasing from after the entry state up to
its exit state. -/
theorem wl1271_scan_stm_state_order (K : scan_constants) (env : environment) :
    (∀ (wl wl1 : wl1271) (band : ieee80211_band) (passive : Bool),
      wl.scan.state.band_state = some (band, passive) →
      wl1271_scan_send K env wl band passive
          (env.wl1271_tx_min_rate_get (wl.bitrate_masks band))
        = Except.ok (WL1271_NOTHING_TO_SCAN, wl1) →
      wl1271_scan_stm K env wl
          = wl1271_scan_stm K env (wl1.set_scan_state (wl.scan.state.next wl.enable_11a)) ∧
        (wl1.set_scan_state (wl.scan.state.next wl.enable_11a)).scan.state
          = wl.scan.state.next wl.enable_11a) ∧
    (∀ e : Bool,
      wl1271_scan_state.next e wl1271_scan_state.WL1271_SCAN_STATE_2GHZ_ACTIVE
        = wl1271_scan_state.WL1271_SCAN_STATE_2GHZ_PASSIVE ∧
      wl1271_scan_state.next true wl1271_scan_state.WL1271_SCAN_STATE_2GHZ_PASSIVE
        = wl1271_scan_state.WL1271_SCAN_STATE_5GHZ_ACTIVE ∧
      wl1271_scan_state.next false wl1271_scan_state.WL1271_SCAN_STATE_2GHZ_PASSIVE
        = wl1271_scan_state.WL1271_SCAN_STATE_DONE ∧
      wl1271_scan_state.next e wl1271_scan_state.WL1271_SCAN_STATE_5GHZ_ACTIVE
        = wl1271_scan_state.WL1271_SCAN_STATE_5GHZ_PASSIVE ∧
      wl1271_scan_state.next e wl1271_scan_state.WL1271_SCAN_STATE_5GHZ_PASSIVE
        = wl1271_scan_state.WL1271_SCAN_STATE_DONE) ∧
    (∀ (wl : wl1271) (ssid : Option (List Nat)) (ssid_len : Nat)
        (req : cfg80211_scan_request) (n : Nat),
      req.n_channels ≤ K.WL1271_MAX_CHANNELS →
      wl.scan.state = wl1271_scan_state.WL1271_SCAN_STATE_IDLE →
      wl.enable_11a = false →
      ∃ wl1 wl2 added, wl1271_scan K env wl ssid ssid_len req = Except.ok (0, wl1) ∧
        drives K env n wl1 = Except.ok wl2 ∧
        wl2.log = wl.log ++ added ∧
        wl2.scan.state ≠ wl1271_scan_state.WL1271_SCAN_STATE_5GHZ_ACTIVE ∧
        wl2.scan.state ≠ wl1271_scan_state.WL1271_SCAN_STATE_5GHZ_PASSIVE ∧
        (∀ s ∈ states_written added,
          s ≠ wl1271_scan_state.WL1271_SCAN_STATE_5GHZ_ACTIVE ∧
          s ≠ wl1271_scan_state.WL1271_SCAN_STATE_5GHZ_PASSIVE) ∧
        (∀ ssid1 len1 ie1 band1,
          event.wl1271_cmd_build_probe_req ssid1 len1 ie1 band1 ∈ added →
            band1 = ieee80211_band.IEEE80211_BAND_2GHZ) ∧
        (∀ cmd, event.wl1271_cmd_send (command.CMD_SCAN cmd) ∈ added →
          cmd.band = K.WL1271_SCAN_BAND_2_4_GHZ)) ∧
    (∀ wl : wl1271, (wl.scan.state.band_state ≠ none → wl.scan.req ≠ none) →
      ∃ wl1 added, wl1271_scan_stm K env wl = Except.ok wl1 ∧
        wl1.log = wl.log ++ added ∧
        wl.scan.state.rank ≤ wl1.scan.state.rank ∧
        (∀ s ∈ states_written added,
          wl.scan.state.rank < s.rank ∧ s.rank ≤ wl1.scan.state.rank) ∧
        ((states_written added).map wl1271_scan_state.rank).Pairwise (fun a b => a < b)) := by
  refine ⟨?_, ?_, ?_, ?_⟩
  · intro wl wl1 band passive hs hsend
    have hk := wl1271_scan_send_keeps K env wl band passive _ _ wl1 hsend
    refine ⟨?_, rfl⟩
    rw [wl1271_scan_stm_band K env wl band passive hs, hsend]
    simp only [if_true, hk.1]
  · intro e
    cases e <;> simp [wl1271_scan_state.next]
  · intro wl ssid ssid_len req n hn hidle h11a
    obtain ⟨wl1, a1, hstm, hrel1, _⟩ := wl1271_scan_stm_depth_ok K env
      wl1271_scan_state.count (started_session K wl ssid ssid_len req)
      (fun _ => by simp [started_session])
      (by simp [started_session, wl1271_scan_state.frames, wl1271_scan_state.count])
    have hstm2 : wl1271_scan_stm K env (started_session K wl ssid ssid_len req)
        = Except.ok wl1 := hstm
    obtain ⟨wl2, a2, hdr, hrel2⟩ := drives_ok K env n wl1
      (by rw [hrel1.2.1]; simp [started_session])
    have hrel := drive_relation_trans K _ wl1 wl2 a1 a2 hrel1 hrel2
    obtain ⟨r1, _, _, _, _, _, r7⟩ := hrel
    obtain ⟨q1, q2⟩ := r7 h11a rfl
    have hmem : ∀ e ∈ [event.scan_state wl1271_scan_state.WL1271_SCAN_STATE_2GHZ_ACTIVE,
        event.ieee80211_queue_delayed_work K.WL1271_SCAN_TIMEOUT] ++ (a1 ++ a2),
        e.avoids_5ghz K = true := by
      intro e he
      simp only [List.cons_append, List.nil_append, List.mem_cons] at he
      rcases he with rfl | rfl | he
      · rfl
      · rfl
      · exact q2 e he
    refine ⟨wl1, wl2, [event.scan_state wl1271_scan_state.WL1271_SCAN_STATE_2GHZ_ACTIVE,
        event.ieee80211_queue_delayed_work K.WL1271_SCAN_TIMEOUT] ++ (a1 ++ a2),
      ?_, hdr, ?_, ?_, ?_, ?_, ?_, ?_⟩
    · rw [wl1271_scan_eq K env wl ssid ssid_len req hn hidle, hstm2]
    · rw [r1]; simp [started_session]
    · intro h; rw [h] at q1; simp [wl1271_scan_state.is_5ghz] at q1
    · intro h; rw [h] at q1; simp [wl1271_scan_state.is_5ghz] at q1
    · intro s hs
      simp only [states_written, List.mem_filterMap] at hs
      obtain ⟨e, he, hes⟩ := hs
      have h5 := hmem e he
      cases e with
      | scan_state st =>
        simp only [event.state_written, Option.some.injEq] at hes
        subst hes
        simp only [event.avoids_5ghz, Bool.not_eq_true'] at h5
        constructor <;> intro h <;> rw [h] at h5 <;> simp [wl1271_scan_state.is_5ghz] at h5
      | _ => simp [event.state_written] at hes
    · intro ssid1 len1 ie1 band1 he
      simpa [event.avoids_5ghz] using hmem _ he
    · intro cmd he
      simpa [event.avoids_5ghz] using hmem _ he
  · intro wl hreq
    obtain ⟨wl1, added, hstm, hrel, _⟩ := wl1271_scan_stm_depth_ok K env
      wl1271_scan_state.count wl hreq
      (by have := frames_le_five wl.scan.state; simp only [wl1271_scan_state.count]; omega)
    exact ⟨wl1, added, hstm, hrel.1, hrel.2.2.2.1, hrel.2.2.2.2.1, hrel.2.2.2.2.2.1⟩

/-- Witness of C7: a session started with 5GHz disabled and driven twice. -/
theorem wl1271_scan_stm_state_order_witness :
    ∃ wl1 wl2 added, wl1271_scan small_constants env_ok
          (example_wl wl1271_scan_state.WL1271_SCAN_STATE_IDLE none) none 0 example_request
        = Except.ok (0, wl1) ∧
      drives small_constants env_ok 2 wl1 = Except.ok wl2 ∧
      wl2.log = (example_wl wl1271_scan_state.WL1271_SCAN_STATE_IDLE none).log ++ added ∧
      wl2.scan.state ≠ wl1271_scan_state.WL1271_SCAN_STATE_5GHZ_ACTIVE ∧
      wl2.scan.state ≠ wl1271_scan_state.WL1271_SCAN_STATE_5GHZ_PASSIVE :=
  ((wl1271_scan_stm_state_order small_constants env_ok).2.2.1
    (example_wl wl1271_scan_state.WL1271_SCAN_STATE_IDLE none) none 0 example_request 2
    (by decide) rfl rfl).imp
    (fun _ h => h.imp (fun _ h => h.imp (fun _ h => ⟨h.1, h.2.1, h.2.2.1, h.2.2.2.1,
      h.2.2.2.2.1⟩)))


/-! ## Theorems: outcomes of a drive -/

theorem wl1271_scan_send_nothing (K : scan_constants) (env : environment) (wl : wl1271)
    (band : ieee80211_band) (passive : Bool) (basic_rate : Nat)
    (req : cfg80211_scan_request) (hreq : wl.scan.req = some req)
    (hall : ∀ p ∈ req.channels.enum,
      p.2.flags &&& K.IEEE80211_CHAN_DISABLED ≠ 0 ∨ p.1 ∈ wl.scan.scanned_ch)
    (halloc : ∀ log, env.kzalloc log = true) :
    wl1271_scan_send K env wl band passive basic_rate
      = Except.ok (WL1271_NOTHING_TO_SCAN,
          wl.after_send wl.scan.scanned_ch [event.kzalloc, event.kzalloc]) := by
  have hnil : one_shot_selected K req band passive wl.scan.scanned_ch = [] := by
    unfold one_shot_selected one_shot_eligible_channels
    rw [List.take_eq_nil_iff]
    right
    rw [List.filter_eq_nil_iff]
    intro p hp
    rcases hall p hp with h | h <;> simp [one_shot_eligible, h]
  obtain ⟨hcount, hbits⟩ := wl1271_get_scan_channels_count_bits K wl.conf_scan
    wl.scan.scanned_ch req (wl1271_cmd_scan.zero K).channels band passive
  rw [wl1271_scan_send_eq K env wl band passive basic_rate req hreq, hcount, hbits, hnil]
  simp [halloc, index_set]

theorem wl1271_scan_stm_skip (K : scan_constants) (env : environment) (wl : wl1271)
    (band : ieee80211_band) (passive : Bool)
    (hs : wl.scan.state.band_state = some (band, passive))
    (req : cfg80211_scan_request) (hreq : wl.scan.req = some req)
    (hall : ∀ p ∈ req.channels.enum,
      p.2.flags &&& K.IEEE80211_CHAN_DISABLED ≠ 0 ∨ p.1 ∈ wl.scan.scanned_ch)
    (halloc : ∀ log, env.kzalloc log = true) :
    wl1271_scan_stm K env wl = wl1271_scan_stm K env wl.skipped := by
  rw [wl1271_scan_stm_band K env wl band passive hs,
    wl1271_scan_send_nothing K env wl band passive _ req hreq hall halloc]
  rfl

theorem wl1271_scan_stm_done (K : scan_constants) (env : environment) (wl : wl1271)
    (hs : wl.scan.state = wl1271_scan_state.WL1271_SCAN_STATE_DONE) :
    wl1271_scan_stm K env wl
      = Except.ok { wl with
          scan := { wl.scan with failed := false }
          log := wl.log ++ [event.cancel_delayed_work,
            event.ieee80211_queue_delayed_work 0] } := by
  unfold wl1271_scan_stm wl1271_scan_state.count
  rw [wl1271_scan_stm_depth]
  simp [hs, wl1271_scan_stm_out, wl1271.emit]

/-- C8 with the amendment "provided the command buffers are allocated": for a request
each of whose channels is disabled or already marked scanned, and an allocator that
does not fail, one drive `wl1271_scan_stm` from Active2G ends in Done with
`failed = false`; what it adds to the log is, per band state visited (the two 2.4GHz
states, and the two 5GHz states if 5GHz is enabled), the two allocations followed by the
assignment of the next state, and at the end the cancellation of the delayed work and
its queueing with delay 0: no template is built and no command is sent; five nested
calls (fewer than the six states) are enough; and in every band state the dispatch
returns nothing-to-scan. -/
theorem wl1271_scan_stm_nothing_to_scan (K : scan_constants) (env : environment)
    (wl : wl1271) (req : cfg80211_scan_request)
    (hstate : wl.scan.state = wl1271_scan_state.WL1271_SCAN_STATE_2GHZ_ACTIVE)
    (hreq : wl.scan.req = some req)
    (hall : ∀ p ∈ req.channels.enum,
      p.2.flags &&& K.IEEE80211_CHAN_DISABLED ≠ 0 ∨ p.1 ∈ wl.scan.scanned_ch)
    (halloc : ∀ log, env.kzalloc log = true) :
    wl1271_scan_stm K env wl
      = Except.ok { wl with
          scan := { wl.scan with
            state := wl1271_scan_state.WL1271_SCAN_STATE_DONE, failed := false }
          log := wl.log ++ nothing_to_scan_log wl.enable_11a } ∧
    wl1271_scan_stm_depth K env 5 wl = wl1271_scan_stm K env wl ∧
    (∀ e ∈ nothing_to_scan_log wl.enable_11a,
      e.is_command = false ∧ e.is_template_build = false) ∧
    (∀ (wl2 : wl1271) (band : ieee80211_band) (passive : Bool) (basic_rate : Nat),
      wl2.scan.req = some req → wl2.scan.scanned_ch = wl.scan.scanned_ch →
      wl1271_scan_send K env wl2 band passive basic_rate
        = Except.ok (WL1271_NOTHING_TO_SCAN,
            wl2.after_send wl2.scan.scanned_ch [event.kzalloc, event.kzalloc])) := by
  refine ⟨?_, ?_, ?_, ?_⟩
  · have h1 := wl1271_scan_stm_skip K env wl _ _ (by rw [hstate]; rfl) req hreq hall halloc
    have h2 := wl1271_scan_stm_skip K env wl.skipped ieee80211_band.IEEE80211_BAND_2GHZ true
      (by simp [wl1271.skipped, wl1271.set_scan_state, hstate, wl1271_scan_state.next,
        wl1271_scan_state.band_state]) req hreq hall halloc
    rw [h1, h2]
    cases h11a : wl.enable_11a
    · rw [wl1271_scan_stm_done K env wl.skipped.skipped (by
        simp [wl1271.skipped, wl1271.set_scan_state, wl1271.after_send, hstate, h11a,
          wl1271_scan_state.next])]
      simp [wl1271.skipped, wl1271.set_scan_state, wl1271.after_send, hstate, h11a,
        wl1271_scan_state.next, nothing_to_scan_log]
    · have h3 := wl1271_scan_stm_skip K env wl.skipped.skipped
        ieee80211_band.IEEE80211_BAND_5GHZ false
        (by simp [wl1271.skipped, wl1271.set_scan_state, wl1271.after_send, hstate, h11a,
          wl1271_scan_state.next, wl1271_scan_state.band_state]) req hreq hall halloc
      have h4 := wl1271_scan_stm_skip K env wl.skipped.skipped.skipped
        ieee80211_band.IEEE80211_BAND_5GHZ true
        (by simp [wl1271.skipped, wl1271.set_scan_state, wl1271.after_send, hstate, h11a,
          wl1271_scan_state.next, wl1271_scan_state.band_state]) req hreq hall halloc
      rw [h3, h4, wl1271_scan_stm_done K env wl.skipped.skipped.skipped.skipped (by
        simp [wl1271.skipped, wl1271.set_scan_state, wl1271.after_send, hstate, h11a,
          wl1271_scan_state.next])]
      simp [wl1271.skipped, wl1271.set_scan_state, wl1271.after_send, hstate, h11a,
        wl1271_scan_state.next, nothing_to_scan_log]
  · exact (wl1271_scan_stm_depth_succ K env 5 wl (frames_le_five _)).symm
  · intro e he
    cases h11a : wl.enable_11a <;> rw [h11a] at he <;>
      simp only [nothing_to_scan_log, Bool.false_eq_true, if_false, if_true, List.mem_cons,
        List.mem_singleton, List.not_mem_nil, or_false] at he <;>
      rcases he with rfl | rfl | rfl | rfl | rfl | rfl | rfl | he <;>
      first
        | exact ⟨rfl, rfl⟩
        | (rcases he with rfl | rfl | rfl | rfl | rfl | rfl | rfl <;> exact ⟨rfl, rfl⟩)
  · intro wl2 band passive basic_rate hreq2 hsc
    exact wl1271_scan_send_nothing K env wl2 band passive basic_rate req hreq2
      (by rw [hsc]; exact hall) halloc


/-- Witness of C8 (amended): a request of two disabled channels, 5GHz disabled. -/
theorem wl1271_scan_stm_nothing_to_scan_witness :
    (∀ p ∈ disabled_request.channels.enum,
      p.2.flags &&& small_constants.IEEE80211_CHAN_DISABLED ≠ 0 ∨
        p.1 ∈ (example_wl wl1271_scan_state.WL1271_SCAN_STATE_2GHZ_ACTIVE
          (some disabled_request)).scan.scanned_ch) ∧
    (∀ log, env_ok.kzalloc log = true) ∧
    wl1271_scan_stm small_constants env_ok
        (example_wl wl1271_scan_state.WL1271_SCAN_STATE_2GHZ_ACTIVE (some disabled_request))
      = Except.ok { example_wl wl1271_scan_state.WL1271_SCAN_STATE_2GHZ_ACTIVE
            (some disabled_request) with
          scan := { (example_wl wl1271_scan_state.WL1271_SCAN_STATE_2GHZ_ACTIVE
              (some disabled_request)).scan with
            state := wl1271_scan_state.WL1271_SCAN_STATE_DONE, failed := false }
          log := [] ++ nothing_to_scan_log false } :=
  ⟨by decide, fun _ => rfl,
    (wl1271_scan_stm_nothing_to_scan small_constants env_ok
      (example_wl wl1271_scan_state.WL1271_SCAN_STATE_2GHZ_ACTIVE (some disabled_request))
      disabled_request rfl rfl (by decide) (fun _ => rfl)).1⟩

/-- Counterexample to C8 as stated: every channel of the request is disabled, yet with
an allocator that fails the drive from Active2G gets `-ENOMEM` instead of
nothing-to-scan, stays in Active2G with `failed = true`, and only cancels and re-queues
the delayed work; it does not reach Done. -/
theorem wl1271_scan_stm_nothing_to_scan_alloc_failure :
    (∀ p ∈ disabled_request.channels.enum,
      p.2.flags &&& small_constants.IEEE80211_CHAN_DISABLED ≠ 0) ∧
    wl1271_scan_send small_constants env_nomem
        (example_wl wl1271_scan_state.WL1271_SCAN_STATE_2GHZ_ACTIVE (some disabled_request))
        ieee80211_band.IEEE80211_BAND_2GHZ false 1
      = Except.ok (-12, (example_wl wl1271_scan_state.WL1271_SCAN_STATE_2GHZ_ACTIVE
          (some disabled_request)).after_send ∅ [event.kzalloc, event.kzalloc]) ∧
    ∃ wl1, wl1271_scan_stm small_constants env_nomem
        (example_wl wl1271_scan_state.WL1271_SCAN_STATE_2GHZ_ACTIVE (some disabled_request))
        = Except.ok wl1 ∧
      wl1.scan.state = wl1271_scan_state.WL1271_SCAN_STATE_2GHZ_ACTIVE ∧
      wl1.scan.state ≠ wl1271_scan_state.WL1271_SCAN_STATE_DONE ∧
      wl1.scan.failed = true ∧
      wl1.log = [event.kzalloc, event.kzalloc, event.cancel_delayed_work,
        event.ieee80211_queue_delayed_work 0] :=
  ⟨by decide, rfl, _, rfl, rfl, by decide, rfl, rfl⟩

/-- C9: if in a band state `wl1271_scan_send` returns a negative result, the drive
`wl1271_scan_stm` returns right after it with the delayed work cancelled and queued
with delay 0: the state and the failed flag are those at entry, no state is assigned,
and the whole log of the drive is that of the one failed dispatch (two allocations,
then at most the template build for this state's band, the trigger-scan-timeout command
and the scan command) followed by the cancellation and the queueing; nothing is built or
sent for another band state. -/
theorem wl1271_scan_stm_dispatch_failure (K : scan_constants) (env : environment)
    (wl wl1 : wl1271) (band : ieee80211_band) (passive : Bool) (ret : Int)
    (hs : wl.scan.state.band_state = some (band, passive))
    (hsend : wl1271_scan_send K env wl band passive
        (env.wl1271_tx_min_rate_get (wl.bitrate_masks band)) = Except.ok (ret, wl1))
    (hneg : ret < 0) :
    ∃ wl2 sc added,
      wl1271_scan_stm K env wl = Except.ok wl2 ∧
      wl2 = wl.after_send sc
        (added ++ [event.cancel_delayed_work, event.ieee80211_queue_delayed_work 0]) ∧
      wl1 = wl.after_send sc added ∧
      wl2.scan.state = wl.scan.state ∧
      wl2.scan.failed = wl.scan.failed ∧
      states_written
        (added ++ [event.cancel_delayed_work, event.ieee80211_queue_delayed_work 0]) = [] ∧
      (added = [event.kzalloc, event.kzalloc] ∨
       ∃ req cmd, wl.scan.req = some req ∧
        (added = [event.kzalloc, event.kzalloc,
            event.wl1271_cmd_build_probe_req wl.scan.ssid wl.scan.ssid_len req.ie band] ∨
         added = [event.kzalloc, event.kzalloc,
            event.wl1271_cmd_build_probe_req wl.scan.ssid wl.scan.ssid_len req.ie band,
            event.wl1271_cmd_send (command.CMD_TRIGGER_SCAN_TO 0)] ∨
         added = [event.kzalloc, event.kzalloc,
            event.wl1271_cmd_build_probe_req wl.scan.ssid wl.scan.ssid_len req.ie band,
            event.wl1271_cmd_send (command.CMD_TRIGGER_SCAN_TO 0),
            event.wl1271_cmd_send (command.CMD_SCAN cmd)])) := by
  have hne : ret ≠ WL1271_NOTHING_TO_SCAN := by
    simp only [WL1271_NOTHING_TO_SCAN]; omega
  obtain ⟨sc, added, hwl1, hcases⟩ := wl1271_scan_send_ok_cases K env wl band passive _ ret
    wl1 hsend
  have hstm : wl1271_scan_stm K env wl = Except.ok (wl.after_send sc
      (added ++ [event.cancel_delayed_work, event.ieee80211_queue_delayed_work 0])) := by
    rw [wl1271_scan_stm_band K env wl band passive hs, hsend]
    simp only [hne, if_false, wl1271_scan_stm_out, hneg, if_true, hwl1]
    simp [wl1271.emit, wl1271.after_send]
  have hshape : added = [event.kzalloc, event.kzalloc] ∨
      ∃ req cmd, wl.scan.req = some req ∧
        (added = [event.kzalloc, event.kzalloc,
            event.wl1271_cmd_build_probe_req wl.scan.ssid wl.scan.ssid_len req.ie band] ∨
         added = [event.kzalloc, event.kzalloc,
            event.wl1271_cmd_build_probe_req wl.scan.ssid wl.scan.ssid_len req.ie band,
            event.wl1271_cmd_send (command.CMD_TRIGGER_SCAN_TO 0)] ∨
         added = [event.kzalloc, event.kzalloc,
            event.wl1271_cmd_build_probe_req wl.scan.ssid wl.scan.ssid_len req.ie band,
            event.wl1271_cmd_send (command.CMD_TRIGGER_SCAN_TO 0),
            event.wl1271_cmd_send (command.CMD_SCAN cmd)]) := by
    rcases hcases with ⟨_, _, h⟩ | ⟨req, hreq, h⟩
    · exact Or.inl h
    · rcases h with ⟨h1, _⟩ | ⟨_, _, cmd, _, h⟩
      · exact absurd h1 hne
      · rcases h with ⟨_, h⟩ | ⟨_, h⟩ | ⟨_, h⟩
        · exact Or.inr ⟨req, cmd, hreq, Or.inl h⟩
        · exact Or.inr ⟨req, cmd, hreq, Or.inr (Or.inl h)⟩
        · exact Or.inr ⟨req, cmd, hreq, Or.inr (Or.inr h)⟩
  refine ⟨_, sc, added, hstm, rfl, hwl1, rfl, rfl, ?_, hshape⟩
  rcases hshape with h | ⟨req, cmd, _, h | h | h⟩ <;> subst h <;>
    simp [states_written, event.state_written]

/-- Witness of C9: the transport fails with `EIO` on the trigger-scan-timeout command of
the Active2G dispatch. -/
theorem wl1271_scan_stm_dispatch_failure_witness :
    (-5 : Int) < 0 ∧
    ∃ wl2 sc added,
      wl1271_scan_stm small_constants env_eio
          (example_wl wl1271_scan_state.WL1271_SCAN_STATE_2GHZ_ACTIVE (some example_request))
        = Except.ok wl2 ∧
      wl2 = (example_wl wl1271_scan_state.WL1271_SCAN_STATE_2GHZ_ACTIVE
          (some example_request)).after_send sc
        (added ++ [event.cancel_delayed_work, event.ieee80211_queue_delayed_work 0]) :=
  ⟨by decide,
    (wl1271_scan_stm_dispatch_failure small_constants env_eio
      (example_wl wl1271_scan_state.WL1271_SCAN_STATE_2GHZ_ACTIVE (some example_request))
      ((example_wl wl1271_scan_state.WL1271_SCAN_STATE_2GHZ_ACTIVE
          (some example_request)).after_send (set_bit 4 (set_bit 1 ∅))
        [event.kzalloc, event.kzalloc,
          event.wl1271_cmd_build_probe_req [] 0 [] ieee80211_band.IEEE80211_BAND_2GHZ,
          event.wl1271_cmd_send (command.CMD_TRIGGER_SCAN_TO 0)])
      ieee80211_band.IEEE80211_BAND_2GHZ false (-5) rfl rfl (by decide)).imp
      (fun _ h => h.imp (fun _ h => h.imp (fun _ h => ⟨h.1, h.2.1⟩)))⟩


/-- C10: (1) if in a band state the dispatch returns 0 (the scan command was accepted),
the drive `wl1271_scan_stm` returns right after it: what it adds to the log is two
allocations, the template build, the trigger-scan-timeout command and exactly one scan
command; state and failed flag are those at entry, and the delayed work is neither
cancelled nor queued.  (2) Every drive (entered with the request pointer set, or in
Idle or Done) returns and has handed at most one scan command to the transport,
nested calls included.  (3) If the dispatch of a band state returns anything but
nothing-to-scan, the drive returns in the state it was entered in and assigns no
state. -/
theorem wl1271_scan_stm_dispatch_success (K : scan_constants) (env : environment) :
    (∀ (wl wl1 : wl1271) (band : ieee80211_band) (passive : Bool),
      wl.scan.state.band_state = some (band, passive) →
      wl1271_scan_send K env wl band passive
          (env.wl1271_tx_min_rate_get (wl.bitrate_masks band)) = Except.ok (0, wl1) →
      wl1271_scan_stm K env wl = Except.ok wl1 ∧
      wl1.scan.state = wl.scan.state ∧
      wl1.scan.failed = wl.scan.failed ∧
      ∃ req cmd added, wl.scan.req = some req ∧
        wl1.log = wl.log ++ added ∧
        added = [event.kzalloc, event.kzalloc,
          event.wl1271_cmd_build_probe_req wl.scan.ssid wl.scan.ssid_len req.ie band,
          event.wl1271_cmd_send (command.CMD_TRIGGER_SCAN_TO 0),
          event.wl1271_cmd_send (command.CMD_SCAN cmd)] ∧
        (scan_commands added).length = 1 ∧
        (∀ e ∈ added, e.is_delayed_work = false) ∧
        states_written added = []) ∧
    (∀ wl : wl1271, (wl.scan.state.band_state ≠ none → wl.scan.req ≠ none) →
      ∃ wl1 added, wl1271_scan_stm K env wl = Except.ok wl1 ∧
        wl1.log = wl.log ++ added ∧ (scan_commands added).length ≤ 1) ∧
    (∀ (wl wl1 : wl1271) (band : ieee80211_band) (passive : Bool) (ret : Int),
      wl.scan.state.band_state = some (band, passive) →
      wl1271_scan_send K env wl band passive
          (env.wl1271_tx_min_rate_get (wl.bitrate_masks band)) = Except.ok (ret, wl1) →
      ret ≠ WL1271_NOTHING_TO_SCAN →
      ∃ wl2 added, wl1271_scan_stm K env wl = Except.ok wl2 ∧
        wl2.log = wl.log ++ added ∧
        wl2.scan.state = wl.scan.state ∧
        states_written added = []) := by
  refine ⟨?_, ?_, ?_⟩
  · intro wl wl1 band passive hs hsend
    have hne : (0 : Int) ≠ WL1271_NOTHING_TO_SCAN := by simp [WL1271_NOTHING_TO_SCAN]
    obtain ⟨sc, added, hwl1, hcases⟩ := wl1271_scan_send_ok_cases K env wl band passive _ 0
      wl1 hsend
    refine ⟨?_, by rw [hwl1]; rfl, by rw [hwl1]; rfl, ?_⟩
    · rw [wl1271_scan_stm_band K env wl band passive hs, hsend]
      simp [hne, wl1271_scan_stm_out]
    · rcases hcases with ⟨h, _⟩ | ⟨req, hreq, h⟩
      · simp [ENOMEM] at h
      · rcases h with ⟨h1, _⟩ | ⟨_, _, cmd, _, h⟩
        · exact absurd h1 hne
        · rcases h with ⟨h0, _⟩ | ⟨h0, _⟩ | ⟨_, h⟩
          · omega
          · omega
          · refine ⟨req, cmd, added, hreq, by rw [hwl1]; rfl, h, ?_, ?_, ?_⟩ <;> subst h <;>
              simp [scan_commands, states_written, event.is_scan_command,
                event.is_delayed_work, event.state_written]
  · intro wl hreq
    obtain ⟨wl1, added, hstm, hrel, hc⟩ := wl1271_scan_stm_depth_ok K env
      wl1271_scan_state.count wl hreq
      (by have := frames_le_five wl.scan.state; simp only [wl1271_scan_state.count]; omega)
    exact ⟨wl1, added, hstm, hrel.1, hc⟩
  · intro wl wl1 band passive ret hs hsend hne
    obtain ⟨sc, added, hwl1, hcases⟩ := wl1271_scan_send_ok_cases K env wl band passive _ ret
      wl1 hsend
    have hw : states_written added = [] := by
      rcases hcases with ⟨_, _, h⟩ | ⟨req, _, h⟩
      · subst h; simp [states_written, event.state_written]
      · rcases h with ⟨_, _, h, _⟩ | ⟨_, _, cmd, _, h⟩
        · subst h; simp [states_written, event.state_written]
        · rcases h with ⟨_, h⟩ | ⟨_, h⟩ | ⟨_, h⟩ <;> subst h <;>
            simp [states_written, event.state_written]
    rw [wl1271_scan_stm_band K env wl band passive hs, hsend]
    simp only [hne, if_false]
    by_cases hneg : ret < 0
    · refine ⟨_, added ++ [event.cancel_delayed_work, event.ieee80211_queue_delayed_work 0],
        rfl, ?_, ?_, ?_⟩
      · simp [wl1271_scan_stm_out, hneg, hwl1, wl1271.emit, wl1271.after_send]
      · simp [wl1271_scan_stm_out, hneg, hwl1, wl1271.emit, wl1271.after_send]
      · rw [states_written_append, hw]; simp [states_written, event.state_written]
    · refine ⟨_, added, rfl, ?_, ?_, hw⟩
      · simp [wl1271_scan_stm_out, hneg, hwl1, wl1271.after_send]
      · simp [wl1271_scan_stm_out, hneg, hwl1, wl1271.after_send]

/-- Witness of C10: a drive from Active2G with two eligible channels and a transport that
accepts every command. -/
theorem wl1271_scan_stm_dispatch_success_witness :
    ∃ wl1 added,
      wl1271_scan_stm small_constants env_ok
          (example_wl wl1271_scan_state.WL1271_SCAN_STATE_2GHZ_ACTIVE (some example_request))
        = Except.ok wl1 ∧
      wl1.log = (example_wl wl1271_scan_state.WL1271_SCAN_STATE_2GHZ_ACTIVE
          (some example_request)).log ++ added ∧
      (scan_commands added).length ≤ 1 :=
  (wl1271_scan_stm_dispatch_success small_constants env_ok).2.1
    (example_wl wl1271_scan_state.WL1271_SCAN_STATE_2GHZ_ACTIVE (some example_request))
    (fun _ => by decide)


/-! ## Theorems: dispatch in full -/

theorem neg_errno_lt_zero (n : Nat) : (-(n : Int) < 0) ↔ n ≠ 0 := by
  omega

theorem wl1271_scan_send_dispatch_eq (env : environment) (wl : wl1271)
    (req : cfg80211_scan_request) (band : ieee80211_band) (cmd : wl1271_cmd_scan) :
    wl1271_scan_send_dispatch env wl req band cmd
      = if env.wl1271_cmd_build_probe_req (wl.log ++
            [event.wl1271_cmd_build_probe_req wl.scan.ssid wl.scan.ssid_len req.ie band])
            ≠ 0 then
          (-(env.wl1271_cmd_build_probe_req (wl.log ++
            [event.wl1271_cmd_build_probe_req wl.scan.ssid wl.scan.ssid_len req.ie band])
              : Int),
            wl.after_send wl.scan.scanned_ch
              [event.wl1271_cmd_build_probe_req wl.scan.ssid wl.scan.ssid_len req.ie band])
        else if env.wl1271_cmd_send (wl.log ++
            [event.wl1271_cmd_build_probe_req wl.scan.ssid wl.scan.ssid_len req.ie band,
             event.wl1271_cmd_send (command.CMD_TRIGGER_SCAN_TO 0)]) ≠ 0 then
          (-(env.wl1271_cmd_send (wl.log ++
            [event.wl1271_cmd_build_probe_req wl.scan.ssid wl.scan.ssid_len req.ie band,
             event.wl1271_cmd_send (command.CMD_TRIGGER_SCAN_TO 0)]) : Int),
            wl.after_send wl.scan.scanned_ch
              [event.wl1271_cmd_build_probe_req wl.scan.ssid wl.scan.ssid_len req.ie band,
               event.wl1271_cmd_send (command.CMD_TRIGGER_SCAN_TO 0)])
        else
          (-(env.wl1271_cmd_send (wl.log ++
            [event.wl1271_cmd_build_probe_req wl.scan.ssid wl.scan.ssid_len req.ie band,
             event.wl1271_cmd_send (command.CMD_TRIGGER_SCAN_TO 0),
             event.wl1271_cmd_send (command.CMD_SCAN cmd)]) : Int),
            wl.after_send wl.scan.scanned_ch
              [event.wl1271_cmd_build_probe_req wl.scan.ssid wl.scan.ssid_len req.ie band,
               event.wl1271_cmd_send (command.CMD_TRIGGER_SCAN_TO 0),
               event.wl1271_cmd_send (command.CMD_SCAN cmd)]) := by
  unfold wl1271_scan_send_dispatch
  simp only [wl1271.emit, neg_errno_lt_zero, wl1271.after_send, List.append_assoc,
    List.singleton_append]
  split
  · rfl
  · split
    · rfl
    · rfl

/-- The closed form of `wl1271_scan_send` when the request pointer is set: the result and
the log of each of its five ways out. -/
theorem wl1271_scan_send_full (K : scan_constants) (env : environment) (wl : wl1271)
    (band : ieee80211_band) (passive : Bool) (basic_rate : Nat)
    (req : cfg80211_scan_request) (hreq : wl.scan.req = some req) :
    wl1271_scan_send K env wl band passive basic_rate
      = if (!env.kzalloc (wl.log ++ [event.kzalloc])
            || !env.kzalloc (wl.log ++ [event.kzalloc] ++ [event.kzalloc])) = true then
          Except.ok (-ENOMEM, wl.after_send wl.scan.scanned_ch [event.kzalloc, event.kzalloc])
        else if (wl1271_get_scan_channels K wl.conf_scan wl.scan.scanned_ch req
            (wl1271_cmd_scan.zero K).channels band passive).1 = 0 then
          Except.ok (WL1271_NOTHING_TO_SCAN,
            wl.after_send (wl1271_get_scan_channels K wl.conf_scan wl.scan.scanned_ch req
              (wl1271_cmd_scan.zero K).channels band passive).2.2
              [event.kzalloc, event.kzalloc])
        else if env.wl1271_cmd_build_probe_req (wl.log ++ [event.kzalloc, event.kzalloc,
            event.wl1271_cmd_build_probe_req wl.scan.ssid wl.scan.ssid_len req.ie band])
            ≠ 0 then
          Except.ok (-(env.wl1271_cmd_build_probe_req (wl.log ++
              [event.kzalloc, event.kzalloc,
               event.wl1271_cmd_build_probe_req wl.scan.ssid wl.scan.ssid_len req.ie band])
                : Int),
            wl.after_send (wl1271_get_scan_channels K wl.conf_scan wl.scan.scanned_ch req
              (wl1271_cmd_scan.zero K).channels band passive).2.2
              [event.kzalloc, event.kzalloc,
               event.wl1271_cmd_build_probe_req wl.scan.ssid wl.scan.ssid_len req.ie band])
        else if env.wl1271_cmd_send (wl.log ++ [event.kzalloc, event.kzalloc,
            event.wl1271_cmd_build_probe_req wl.scan.ssid wl.scan.ssid_len req.ie band,
            event.wl1271_cmd_send (command.CMD_TRIGGER_SCAN_TO 0)]) ≠ 0 then
          Except.ok (-(env.wl1271_cmd_send (wl.log ++ [event.kzalloc, event.kzalloc,
              event.wl1271_cmd_build_probe_req wl.scan.ssid wl.scan.ssid_len req.ie band,
              event.wl1271_cmd_send (command.CMD_TRIGGER_SCAN_TO 0)]) : Int),
            wl.after_send (wl1271_get_scan_channels K wl.conf_scan wl.scan.scanned_ch req
              (wl1271_cmd_scan.zero K).channels band passive).2.2
              [event.kzalloc, event.kzalloc,
               event.wl1271_cmd_build_probe_req wl.scan.ssid wl.scan.ssid_len req.ie band,
               event.wl1271_cmd_send (command.CMD_TRIGGER_SCAN_TO 0)])
        else
          Except.ok (-(env.wl1271_cmd_send (wl.log ++ [event.kzalloc, event.kzalloc,
              event.wl1271_cmd_build_probe_req wl.scan.ssid wl.scan.ssid_len req.ie band,
              event.wl1271_cmd_send (command.CMD_TRIGGER_SCAN_TO 0),
              event.wl1271_cmd_send (command.CMD_SCAN
                (wl1271_scan_send_cmd K env wl req band passive basic_rate
                  (wl1271_get_scan_channels K wl.conf_scan wl.scan.scanned_ch req
                    (wl1271_cmd_scan.zero K).channels band passive).1
                  (wl1271_get_scan_channels K wl.conf_scan wl.scan.scanned_ch req
                    (wl1271_cmd_scan.zero K).channels band passive).2.1))]) : Int),
            wl.after_send (wl1271_get_scan_channels K wl.conf_scan wl.scan.scanned_ch req
              (wl1271_cmd_scan.zero K).channels band passive).2.2
              [event.kzalloc, event.kzalloc,
               event.wl1271_cmd_build_probe_req wl.scan.ssid wl.scan.ssid_len req.ie band,
               event.wl1271_cmd_send (command.CMD_TRIGGER_SCAN_TO 0),
               event.wl1271_cmd_send (command.CMD_SCAN
                (wl1271_scan_send_cmd K env wl req band passive basic_rate
                  (wl1271_get_scan_channels K wl.conf_scan wl.scan.scanned_ch req
                    (wl1271_cmd_scan.zero K).channels band passive).1
                  (wl1271_get_scan_channels K wl.conf_scan wl.scan.scanned_ch req
                    (wl1271_cmd_scan.zero K).channels band passive).2.1))]) := by
  rw [wl1271_scan_send_eq K env wl band passive basic_rate req hreq,
    wl1271_scan_send_dispatch_eq]
  simp only [after_send_after_send]
  split
  · rfl
  · split
    · rfl
    · simp only [wl1271.after_send, List.append_assoc, List.cons_append, List.nil_append]
      split
      · rfl
      · split
        · rfl
        · rfl


/-! ## Theorems: completion, termination, the nothing-to-scan signal, stopping -/

theorem wl1271_scan_complete_work_idle (K : scan_constants) (env : environment)
    (wl : wl1271) (hon : wl.state ≠ K.WL1271_STATE_OFF)
    (hbusy : wl.scan.state ≠ wl1271_scan_state.WL1271_SCAN_STATE_IDLE) :
    (wl1271_scan_complete_work K env wl).scan.state
      = wl1271_scan_state.WL1271_SCAN_STATE_IDLE := by
  unfold wl1271_scan_complete_work
  rw [if_neg hon, if_neg hbusy]
  simp only []
  split
  · rfl
  · simp only [wl1271.emit]
    split <;> split <;> split <;> rfl

/-- What `wl1271_scan_complete_work` clears when it runs with the device not off and the
session not Idle: the scanned bit array and the request pointer. -/
theorem wl1271_scan_complete_work_clears (K : scan_constants) (env : environment)
    (wl : wl1271) (hon : wl.state ≠ K.WL1271_STATE_OFF)
    (hbusy : wl.scan.state ≠ wl1271_scan_state.WL1271_SCAN_STATE_IDLE) :
    (wl1271_scan_complete_work K env wl).scan.scanned_ch = ∅ ∧
    (wl1271_scan_complete_work K env wl).scan.req = none := by
  unfold wl1271_scan_complete_work
  rw [if_neg hon, if_neg hbusy]
  simp only []
  split
  · exact ⟨rfl, rfl⟩
  · simp only [wl1271.emit]
    split <;> split <;> split <;> exact ⟨rfl, rfl⟩

/-- C11 as amended: a drive `wl1271_scan_stm` in state Done clears `failed`, cancels the
delayed work and queues it with delay 0 (the immediate completion notification), and
leaves the state Done (and the request pointer and the scanned bit array as they were);
the session is in Idle, with the scanned bit array and the request pointer cleared,
after the completion handler `wl1271_scan_complete_work` that was queued has run with
the device not off. -/
theorem wl1271_scan_stm_in_done (K : scan_constants) (env : environment) (wl : wl1271)
    (hdone : wl.scan.state = wl1271_scan_state.WL1271_SCAN_STATE_DONE) :
    ∃ wl1, wl1271_scan_stm K env wl = Except.ok wl1 ∧
      wl1.scan.failed = false ∧
      wl1.log = wl.log ++ [event.cancel_delayed_work, event.ieee80211_queue_delayed_work 0] ∧
      wl1.scan.state = wl1271_scan_state.WL1271_SCAN_STATE_DONE ∧
      wl1.scan.req = wl.scan.req ∧
      wl1.scan.scanned_ch = wl.scan.scanned_ch ∧
      (wl.state ≠ K.WL1271_STATE_OFF →
        (wl1271_scan_complete_work K env wl1).scan.state
          = wl1271_scan_state.WL1271_SCAN_STATE_IDLE ∧
        (wl1271_scan_complete_work K env wl1).scan.scanned_ch = ∅ ∧
        (wl1271_scan_complete_work K env wl1).scan.req = none) := by
  refine ⟨_, wl1271_scan_stm_done K env wl hdone, rfl, rfl, hdone, rfl, rfl, ?_⟩
  intro hon
  refine ⟨?_, ?_⟩
  · apply wl1271_scan_complete_work_idle
    · exact hon
    · simp [hdone]
  · apply wl1271_scan_complete_work_clears
    · exact hon
    · simp [hdone]

/-- Witness of C11 (amended): a drive in Done on a device that is on. -/
theorem wl1271_scan_stm_in_done_witness :
    (example_wl wl1271_scan_state.WL1271_SCAN_STATE_DONE (some example_request)).scan.state
      = wl1271_scan_state.WL1271_SCAN_STATE_DONE ∧
    ∃ wl1, wl1271_scan_stm small_constants env_ok
        (example_wl wl1271_scan_state.WL1271_SCAN_STATE_DONE (some example_request))
        = Except.ok wl1 ∧
      wl1.scan.failed = false ∧
      wl1.scan.state = wl1271_scan_state.WL1271_SCAN_STATE_DONE :=
  ⟨rfl,
    (wl1271_scan_stm_in_done small_constants env_ok
      (example_wl wl1271_scan_state.WL1271_SCAN_STATE_DONE (some example_request)) rfl).imp
      (fun _ h => ⟨h.1, h.2.1, h.2.2.2.1⟩)⟩

/-- Counterexample to C11 as stated: after a drive in state Done the session state is
Done, not Idle. -/
theorem wl1271_scan_stm_in_done_not_idle :
    ∃ wl1, wl1271_scan_stm small_constants env_ok
        (example_wl wl1271_scan_state.WL1271_SCAN_STATE_DONE (some example_request))
        = Except.ok wl1 ∧
      wl1.scan.state = wl1271_scan_state.WL1271_SCAN_STATE_DONE ∧
      wl1.scan.state ≠ wl1271_scan_state.WL1271_SCAN_STATE_IDLE :=
  ⟨_, rfl, rfl, by decide⟩

theorem wl1271_scan_send_error (K : scan_constants) (env : environment) (wl : wl1271)
    (band : ieee80211_band) (passive : Bool) (basic_rate : Nat) (f : fault)
    (h : wl1271_scan_send K env wl band passive basic_rate = Except.error f) :
    f = fault.NULL_DEREFERENCE ∧ wl.scan.req = none := by
  cases hreq : wl.scan.req with
  | none =>
    unfold wl1271_scan_send at h
    simp only [wl1271.emit, hreq] at h
    split at h
    · cases h
    · cases h; exact ⟨rfl, rfl⟩
  | some req =>
    obtain ⟨ret, sc, added, heq, _⟩ :=
      wl1271_scan_send_cases K env wl band passive basic_rate req hreq
    rw [heq] at h
    cases h

theorem wl1271_scan_stm_depth_no_overrun (K : scan_constants) (env : environment) :
    ∀ (d : Nat) (wl : wl1271), wl.scan.state.frames ≤ d →
      wl1271_scan_stm_depth K env d wl ≠ Except.error fault.CALL_DEPTH_EXCEEDED := by
  intro d
  induction d with
  | zero =>
    intro wl hf
    cases hst : wl.scan.state <;> simp [hst, wl1271_scan_state.frames] at hf
  | succ d ih =>
    intro wl hf
    rcases band_state_cases wl.scan.state with hst | hst | ⟨band, passive, hbs⟩
    · rw [wl1271_scan_stm_depth]; simp [hst]
    · rw [wl1271_scan_stm_depth]; simp [hst]
    · rw [wl1271_scan_stm_depth_band K env d wl band passive hbs]
      cases hsend : wl1271_scan_send K env wl band passive
          (env.wl1271_tx_min_rate_get (wl.bitrate_masks band)) with
      | error f =>
        have := (wl1271_scan_send_error K env wl band passive _ f hsend).1
        subst this
        simp
      | ok p =>
        obtain ⟨ret, wl1⟩ := p
        simp only []
        by_cases hret : ret = WL1271_NOTHING_TO_SCAN
        · simp only [hret, if_true]
          apply ih
          have := next_frames_lt wl1.enable_11a wl.scan.state _ hbs
          simp only [wl1271.set_scan_state]
          omega
        · simp only [hret, if_false]
          simp

theorem wl1271_scan_stm_depth_stable (K : scan_constants) (env : environment)
    (wl : wl1271) : ∀ (d : Nat), wl.scan.state.frames ≤ d →
      wl1271_scan_stm_depth K env d wl
        = wl1271_scan_stm_depth K env wl.scan.state.frames wl := by
  intro d hd
  induction d with
  | zero =>
    have : wl.scan.state.frames = 0 := by omega
    rw [this]
  | succ d ih =>
    by_cases h : wl.scan.state.frames ≤ d
    · rw [wl1271_scan_stm_depth_succ K env d wl h]
      exact ih h
    · have : wl.scan.state.frames = d + 1 := by omega
      rw [this]

/-- C12: for every device context (any state, request and environment), the result of
`wl1271_scan_stm` is already reached with as many nested calls as `frames` counts for the
entry state, which is 1 for Idle and Done (no self-call) and at most 5, below the number
of states: a larger bound on the call depth changes nothing and the bound is never hit;
each self-call is made in a state strictly later in the fixed order; and when the
request pointer is set (or the state is Idle or Done) the drive returns. -/
theorem wl1271_scan_stm_terminates (K : scan_constants) (env : environment) (wl : wl1271) :
    (∀ d, wl.scan.state.frames ≤ d →
      wl1271_scan_stm_depth K env d wl
          = wl1271_scan_stm_depth K env wl.scan.state.frames wl ∧
        wl1271_scan_stm_depth K env d wl ≠ Except.error fault.CALL_DEPTH_EXCEEDED) ∧
    wl.scan.state.frames ≤ 5 ∧ 5 < wl1271_scan_state.count ∧
    wl1271_scan_stm K env wl = wl1271_scan_stm_depth K env wl.scan.state.frames wl ∧
    wl1271_scan_stm K env wl ≠ Except.error fault.CALL_DEPTH_EXCEEDED ∧
    (wl.scan.state.band_state = none → wl.scan.state.frames = 1) ∧
    (∀ band passive wl1, wl.scan.state.band_state = some (band, passive) →
      wl1271_scan_send K env wl band passive
          (env.wl1271_tx_min_rate_get (wl.bitrate_masks band))
        = Except.ok (WL1271_NOTHING_TO_SCAN, wl1) →
      wl1271_scan_stm_depth K env wl.scan.state.frames wl
          = wl1271_scan_stm_depth K env (wl.scan.state.frames - 1)
              (wl1.set_scan_state (wl.scan.state.next wl1.enable_11a)) ∧
        wl.scan.state.rank < (wl.scan.state.next wl1.enable_11a).rank ∧
        (wl.scan.state.next wl1.enable_11a).frames ≤ wl.scan.state.frames - 1) ∧
    ((wl.scan.state.band_state ≠ none → wl.scan.req ≠ none) →
      ∃ wl1, wl1271_scan_stm K env wl = Except.ok wl1) := by
  have h5 := frames_le_five wl.scan.state
  have h6 : wl.scan.state.frames ≤ wl1271_scan_state.count := by
    simp only [wl1271_scan_state.count]; omega
  refine ⟨?_, h5, by simp [wl1271_scan_state.count], ?_, ?_, ?_, ?_, ?_⟩
  · intro d hd
    exact ⟨wl1271_scan_stm_depth_stable K env wl d hd,
      wl1271_scan_stm_depth_no_overrun K env d wl hd⟩
  · exact wl1271_scan_stm_depth_stable K env wl _ h6
  · exact wl1271_scan_stm_depth_no_overrun K env _ wl h6
  · intro hb
    cases hst : wl.scan.state <;> simp [hst, wl1271_scan_state.band_state] at hb <;>
      simp [wl1271_scan_state.frames]
  · intro band passive wl1 hbs hsend
    have hfr := next_frames_lt wl1.enable_11a wl.scan.state _ hbs
    have hrk := next_rank_lt wl1.enable_11a wl.scan.state _ hbs
    refine ⟨?_, hrk, by omega⟩
    obtain ⟨d, hd⟩ : ∃ d, wl.scan.state.frames = d + 1 := ⟨wl.scan.state.frames - 1, by omega⟩
    rw [hd, wl1271_scan_stm_depth_band K env d wl band passive hbs, hsend]
    simp
  · intro hreq
    obtain ⟨wl1, _, hstm, _, _⟩ := wl1271_scan_stm_depth_ok K env
      wl1271_scan_state.count wl hreq h6
    exact ⟨wl1, hstm⟩

/-- Witness of C12: a drive from Active2G with nothing to scan runs through in three
nested calls when 5GHz is disabled. -/
theorem wl1271_scan_stm_terminates_witness :
    (example_wl wl1271_scan_state.WL1271_SCAN_STATE_2GHZ_ACTIVE
        (some disabled_request)).scan.state.frames ≤ 5 ∧
    wl1271_scan_stm_depth small_constants env_ok 5
        (example_wl wl1271_scan_state.WL1271_SCAN_STATE_2GHZ_ACTIVE (some disabled_request))
      ≠ Except.error fault.CALL_DEPTH_EXCEEDED :=
  ⟨by decide,
    ((wl1271_scan_stm_terminates small_constants env_ok
      (example_wl wl1271_scan_state.WL1271_SCAN_STATE_2GHZ_ACTIVE
        (some disabled_request))).1 5 (by decide)).2⟩


/-- C13: with the request pointer set, `wl1271_scan_send` returns; it returns
`WL1271_NOTHING_TO_SCAN` exactly when both allocations succeeded and
`wl1271_get_scan_channels` placed zero channels; then its log holds the two allocations
only (no template build, no command) and the scanned bit array is as before; every
other return value is 0 or negative, the sentinel is neither, and the exit code of
`wl1271_scan_stm` (scan.c:309-313) does nothing for it. -/
theorem wl1271_scan_send_nothing_to_scan_iff (K : scan_constants) (env : environment)
    (wl : wl1271) (band : ieee80211_band) (passive : Bool) (basic_rate : Nat)
    (req : cfg80211_scan_request) (hreq : wl.scan.req = some req) :
    ∃ ret sc added,
      wl1271_scan_send K env wl band passive basic_rate
        = Except.ok (ret, wl.after_send sc added) ∧
      (ret = WL1271_NOTHING_TO_SCAN ↔
        (env.kzalloc (wl.log ++ [event.kzalloc]) = true ∧
         env.kzalloc (wl.log ++ [event.kzalloc] ++ [event.kzalloc]) = true ∧
         (wl1271_get_scan_channels K wl.conf_scan wl.scan.scanned_ch req
            (wl1271_cmd_scan.zero K).channels band passive).1 = 0)) ∧
      (ret = WL1271_NOTHING_TO_SCAN →
        added = [event.kzalloc, event.kzalloc] ∧ sc = wl.scan.scanned_ch ∧
        ∀ e ∈ added, e.is_command = false ∧ e.is_template_build = false) ∧
      (ret ≠ WL1271_NOTHING_TO_SCAN → ret ≤ 0) ∧
      WL1271_NOTHING_TO_SCAN ≠ 0 ∧ ¬ WL1271_NOTHING_TO_SCAN < 0 ∧
      (∀ w : wl1271, wl1271_scan_stm_out w WL1271_NOTHING_TO_SCAN = w) := by
  obtain ⟨hcount, hbits⟩ := wl1271_get_scan_channels_count_bits K wl.conf_scan
    wl.scan.scanned_ch req (wl1271_cmd_scan.zero K).channels band passive
  have hsent : WL1271_NOTHING_TO_SCAN ≠ 0 ∧ ¬ WL1271_NOTHING_TO_SCAN < 0 ∧
      (∀ w : wl1271, wl1271_scan_stm_out w WL1271_NOTHING_TO_SCAN = w) :=
    ⟨by simp [WL1271_NOTHING_TO_SCAN], by simp [WL1271_NOTHING_TO_SCAN],
      wl1271_scan_stm_out_nothing⟩
  rw [wl1271_scan_send_full K env wl band passive basic_rate req hreq]
  by_cases halloc : (!env.kzalloc (wl.log ++ [event.kzalloc])
      || !env.kzalloc (wl.log ++ [event.kzalloc] ++ [event.kzalloc])) = true
  · rw [if_pos halloc]
    refine ⟨_, _, _, rfl, ?_, ?_, ?_, hsent⟩
    · simp only [ENOMEM, WL1271_NOTHING_TO_SCAN]
      constructor
      · intro h; omega
      · rintro ⟨h1, h2, _⟩
        rw [h1, h2] at halloc
        simp at halloc
    · intro h; simp [ENOMEM, WL1271_NOTHING_TO_SCAN] at h
    · intro _; simp [ENOMEM]
  · rw [if_neg halloc]
    have halloc2 : env.kzalloc (wl.log ++ [event.kzalloc]) = true ∧
        env.kzalloc (wl.log ++ [event.kzalloc] ++ [event.kzalloc]) = true := by
      simpa using halloc
    by_cases hz : (wl1271_get_scan_channels K wl.conf_scan wl.scan.scanned_ch req
        (wl1271_cmd_scan.zero K).channels band passive).1 = 0
    · rw [if_pos hz]
      have hnil : one_shot_selected K req band passive wl.scan.scanned_ch = [] :=
        List.length_eq_zero.mp (hcount ▸ hz)
      refine ⟨_, _, _, rfl, ?_, ?_, ?_, hsent⟩
      · exact ⟨fun _ => ⟨halloc2.1, halloc2.2, hz⟩, fun _ => rfl⟩
      · intro _
        refine ⟨rfl, ?_, ?_⟩
        · rw [hbits, hnil]; simp [index_set]
        · intro e he
          simp only [List.mem_cons, List.mem_singleton, List.not_mem_nil, or_false] at he
          rcases he with rfl | rfl <;> exact ⟨rfl, rfl⟩
      · intro h; exact absurd rfl h
    · rw [if_neg hz]
      have hne : ∀ n : Nat, (-(n : Int)) ≠ WL1271_NOTHING_TO_SCAN := by
        intro n; simp only [WL1271_NOTHING_TO_SCAN]; omega
      split
      · refine ⟨_, _, _, rfl, ?_, ?_, ?_, hsent⟩
        · exact ⟨fun h => absurd h (hne _), fun h => absurd h.2.2 hz⟩
        · intro h; exact absurd h (hne _)
        · intro _; omega
      · split
        · refine ⟨_, _, _, rfl, ?_, ?_, ?_, hsent⟩
          · exact ⟨fun h => absurd h (hne _), fun h => absurd h.2.2 hz⟩
          · intro h; exact absurd h (hne _)
          · intro _; omega
        · refine ⟨_, _, _, rfl, ?_, ?_, ?_, hsent⟩
          · exact ⟨fun h => absurd h (hne _), fun h => absurd h.2.2 hz⟩
          · intro h; exact absurd h (hne _)
          · intro _; omega

/-- Witness of C13: a dispatch for a request whose channels are all disabled. -/
theorem wl1271_scan_send_nothing_to_scan_iff_witness :
    (example_wl wl1271_scan_state.WL1271_SCAN_STATE_2GHZ_ACTIVE
        (some disabled_request)).scan.req = some disabled_request ∧
    ∃ ret sc added,
      wl1271_scan_send small_constants env_ok
          (example_wl wl1271_scan_state.WL1271_SCAN_STATE_2GHZ_ACTIVE (some disabled_request))
          ieee80211_band.IEEE80211_BAND_2GHZ false 1
        = Except.ok (ret, (example_wl wl1271_scan_state.WL1271_SCAN_STATE_2GHZ_ACTIVE
            (some disabled_request)).after_send sc added) :=
  ⟨rfl,
    (wl1271_scan_send_nothing_to_scan_iff small_constants env_ok
      (example_wl wl1271_scan_state.WL1271_SCAN_STATE_2GHZ_ACTIVE (some disabled_request))
      ieee80211_band.IEEE80211_BAND_2GHZ false 1 disabled_request rfl).imp
      (fun _ h => h.imp (fun _ h => h.imp (fun _ h => h.1)))⟩

/-- C14 as amended: `wl1271_scan_stop` returns `-EINVAL` (-22) and logs nothing when the
session is Idle; otherwise, when its command buffer is allocated, it sends exactly one
`CMD_STOP_SCAN` and returns the transport's result, and when the allocation fails it
returns `-ENOMEM` (-12) and sends nothing; in every case the session (state, scanned bit
array, failed flag, request pointer, SSID) is left as it was. -/
theorem wl1271_scan_stop_frame (env : environment) (wl : wl1271) :
    (wl.scan.state = wl1271_scan_state.WL1271_SCAN_STATE_IDLE →
      wl1271_scan_stop env wl = (-22, wl)) ∧
    (wl.scan.state ≠ wl1271_scan_state.WL1271_SCAN_STATE_IDLE →
      env.kzalloc (wl.log ++ [event.kzalloc]) = true →
      wl1271_scan_stop env wl
        = (-(env.wl1271_cmd_send (wl.log ++ [event.kzalloc,
              event.wl1271_cmd_send command.CMD_STOP_SCAN]) : Int),
           { wl with log := wl.log ++ [event.kzalloc,
              event.wl1271_cmd_send command.CMD_STOP_SCAN] })) ∧
    (wl.scan.state ≠ wl1271_scan_state.WL1271_SCAN_STATE_IDLE →
      env.kzalloc (wl.log ++ [event.kzalloc]) = false →
      wl1271_scan_stop env wl = (-12, { wl with log := wl.log ++ [event.kzalloc] })) ∧
    (wl1271_scan_stop env wl).2.scan = wl.scan := by
  refine ⟨?_, ?_, ?_, ?_⟩
  · intro h
    unfold wl1271_scan_stop
    rw [if_pos h]; rfl
  · intro h ha
    unfold wl1271_scan_stop
    rw [if_neg h]
    simp [wl1271.emit, ha]
  · intro h ha
    unfold wl1271_scan_stop
    rw [if_neg h]
    simp [wl1271.emit, ha, ENOMEM]
  · unfold wl1271_scan_stop
    split
    · rfl
    · simp only [wl1271.emit]
      split <;> rfl

/-- Witness of C14 (amended): a stop in Active2G with a working allocator. -/
theorem wl1271_scan_stop_frame_witness :
    (example_wl wl1271_scan_state.WL1271_SCAN_STATE_2GHZ_ACTIVE
        (some example_request)).scan.state ≠ wl1271_scan_state.WL1271_SCAN_STATE_IDLE ∧
    env_ok.kzalloc ((example_wl wl1271_scan_state.WL1271_SCAN_STATE_2GHZ_ACTIVE
        (some example_request)).log ++ [event.kzalloc]) = true ∧
    wl1271_scan_stop env_ok
        (example_wl wl1271_scan_state.WL1271_SCAN_STATE_2GHZ_ACTIVE (some example_request))
      = (-(env_ok.wl1271_cmd_send ((example_wl wl1271_scan_state.WL1271_SCAN_STATE_2GHZ_ACTIVE
              (some example_request)).log ++ [event.kzalloc,
              event.wl1271_cmd_send command.CMD_STOP_SCAN]) : Int),
         { example_wl wl1271_scan_state.WL1271_SCAN_STATE_2GHZ_ACTIVE
              (some example_request) with
            log := (example_wl wl1271_scan_state.WL1271_SCAN_STATE_2GHZ_ACTIVE
              (some example_request)).log ++ [event.kzalloc,
              event.wl1271_cmd_send command.CMD_STOP_SCAN] }) :=
  ⟨by decide, rfl,
    (wl1271_scan_stop_frame env_ok
      (example_wl wl1271_scan_state.WL1271_SCAN_STATE_2GHZ_ACTIVE
        (some example_request))).2.1 (by decide) rfl⟩

/-- Counterexample to C14 as stated: the session is in Active2G, not Idle, yet with an
allocator that fails `wl1271_scan_stop` returns `-ENOMEM` (-12) and sends no stop
command. -/
theorem wl1271_scan_stop_alloc_failure :
    (example_wl wl1271_scan_state.WL1271_SCAN_STATE_2GHZ_ACTIVE
        (some example_request)).scan.state ≠ wl1271_scan_state.WL1271_SCAN_STATE_IDLE ∧
    (wl1271_scan_stop env_nomem
        (example_wl wl1271_scan_state.WL1271_SCAN_STATE_2GHZ_ACTIVE
          (some example_request))).1 = -12 ∧
    (wl1271_scan_stop env_nomem
        (example_wl wl1271_scan_state.WL1271_SCAN_STATE_2GHZ_ACTIVE
          (some example_request))).2.log = [event.kzalloc] ∧
    event.wl1271_cmd_send command.CMD_STOP_SCAN ∉
      (wl1271_scan_stop env_nomem
        (example_wl wl1271_scan_state.WL1271_SCAN_STATE_2GHZ_ACTIVE
          (some example_request))).2.log :=
  ⟨by decide, by decide, by decide, by decide⟩


/-! ## Theorems: the scan command and its companion -/

theorem wl1271_scan_send_cmd_rate (K : scan_constants) (env : environment) (wl : wl1271)
    (req : cfg80211_scan_request) (band : ieee80211_band) (passive : Bool)
    (basic_rate n_ch : Nat) (channels : List basic_scan_channel_params)
    (hopt : K.WL1271_SCAN_OPT_PASSIVE ≠ 0) :
    ((wl1271_scan_send_cmd K env wl req band passive basic_rate n_ch channels).scan_options
        &&& K.WL1271_SCAN_OPT_PASSIVE ≠ 0 ↔ (passive = true ∨ req.n_ssids = 0)) ∧
    (wl1271_scan_send_cmd K env wl req band passive basic_rate n_ch channels).tx_rate
      = if band = ieee80211_band.IEEE80211_BAND_2GHZ ∧ passive = false ∧ req.n_ssids ≠ 0 ∧
          env.cfg80211_find_vendor_ie req.ie = true
        then K.CONF_HW_BIT_RATE_6MBPS else basic_rate := by
  unfold wl1271_scan_send_cmd
  by_cases hp : (passive || req.n_ssids == 0) = true
  · have hp2 : passive = true ∨ req.n_ssids = 0 := by simpa using hp
    have hcond : ¬ (band = ieee80211_band.IEEE80211_BAND_2GHZ ∧ passive = false ∧
        req.n_ssids ≠ 0 ∧ env.cfg80211_find_vendor_ie req.ie = true) := by
      rintro ⟨_, h1, h2, _⟩
      rcases hp2 with h | h
      · rw [h] at h1; cases h1
      · exact h2 h
    simp only [hp, if_true, Nat.zero_or, Nat.and_self, hcond, if_false]
    refine ⟨⟨fun _ => hp2, fun _ => hopt⟩, ?_⟩
    simp [hopt]
  · have hp2 : ¬ (passive = true ∨ req.n_ssids = 0) := by simpa using hp
    have hp3 : passive = false ∧ req.n_ssids ≠ 0 := by
      constructor
      · cases passive
        · rfl
        · exact absurd (Or.inl rfl) hp2
      · exact fun h => hp2 (Or.inr h)
    simp only [hp, Bool.false_eq_true, if_false, Nat.zero_and]
    refine ⟨⟨fun h => absurd rfl h, fun h => absurd h hp2⟩, ?_⟩
    by_cases hb : band = ieee80211_band.IEEE80211_BAND_2GHZ
    · cases hv : env.cfg80211_find_vendor_ie req.ie <;> simp [hb, hv, hp3]
    · simp [hb]

/-- C15 as amended: let the request pointer be set and the passive-option mask be
non-zero.  In every scan command that `wl1271_scan_send` hands to the transport,
`tx_rate` is `CONF_HW_BIT_RATE_6MBPS` when the band is 2.4GHz, the scan is active
(`passive` false and the request has an SSID) and the request's IEs contain the WFA P2P
vendor element, and is the basic rate passed in in every other case; so `tx_rate` is
6 Mbps if and only if these three conditions hold or the basic rate passed in is itself
6 Mbps (for a basic rate other than 6 Mbps, if and only if the three conditions hold);
and the passive option is set in `scan_options` if and only if `passive` holds or the
request has no SSIDs. -/
theorem wl1271_scan_send_tx_rate (K : scan_constants) (env : environment) (wl : wl1271)
    (band : ieee80211_band) (passive : Bool) (basic_rate : Nat)
    (req : cfg80211_scan_request) (hreq : wl.scan.req = some req)
    (hopt : K.WL1271_SCAN_OPT_PASSIVE ≠ 0) :
    ∃ ret sc added,
      wl1271_scan_send K env wl band passive basic_rate
        = Except.ok (ret, wl.after_send sc added) ∧
      ∀ cmd, event.wl1271_cmd_send (command.CMD_SCAN cmd) ∈ added →
        ((band = ieee80211_band.IEEE80211_BAND_2GHZ ∧ passive = false ∧ req.n_ssids ≠ 0 ∧
            env.cfg80211_find_vendor_ie req.ie = true) →
          cmd.tx_rate = K.CONF_HW_BIT_RATE_6MBPS) ∧
        (¬ (band = ieee80211_band.IEEE80211_BAND_2GHZ ∧ passive = false ∧
            req.n_ssids ≠ 0 ∧ env.cfg80211_find_vendor_ie req.ie = true) →
          cmd.tx_rate = basic_rate) ∧
        (cmd.tx_rate = K.CONF_HW_BIT_RATE_6MBPS ↔
          ((band = ieee80211_band.IEEE80211_BAND_2GHZ ∧ passive = false ∧
              req.n_ssids ≠ 0 ∧ env.cfg80211_find_vendor_ie req.ie = true) ∨
            basic_rate = K.CONF_HW_BIT_RATE_6MBPS)) ∧
        (basic_rate ≠ K.CONF_HW_BIT_RATE_6MBPS →
          (cmd.tx_rate = K.CONF_HW_BIT_RATE_6MBPS ↔
            (band = ieee80211_band.IEEE80211_BAND_2GHZ ∧ passive = false ∧
              req.n_ssids ≠ 0 ∧ env.cfg80211_find_vendor_ie req.ie = true))) ∧
        (cmd.scan_options &&& K.WL1271_SCAN_OPT_PASSIVE ≠ 0 ↔
          (passive = true ∨ req.n_ssids = 0)) := by
  have hcmd : ∀ (n_ch : Nat) (channels : List basic_scan_channel_params) (cmd : wl1271_cmd_scan),
      cmd = wl1271_scan_send_cmd K env wl req band passive basic_rate n_ch channels →
      ((band = ieee80211_band.IEEE80211_BAND_2GHZ ∧ passive = false ∧ req.n_ssids ≠ 0 ∧
            env.cfg80211_find_vendor_ie req.ie = true) →
          cmd.tx_rate = K.CONF_HW_BIT_RATE_6MBPS) ∧
        (¬ (band = ieee80211_band.IEEE80211_BAND_2GHZ ∧ passive = false ∧
            req.n_ssids ≠ 0 ∧ env.cfg80211_find_vendor_ie req.ie = true) →
          cmd.tx_rate = basic_rate) ∧
        (cmd.tx_rate = K.CONF_HW_BIT_RATE_6MBPS ↔
          ((band = ieee80211_band.IEEE80211_BAND_2GHZ ∧ passive = false ∧
              req.n_ssids ≠ 0 ∧ env.cfg80211_find_vendor_ie req.ie = true) ∨
            basic_rate = K.CONF_HW_BIT_RATE_6MBPS)) ∧
        (basic_rate ≠ K.CONF_HW_BIT_RATE_6MBPS →
          (cmd.tx_rate = K.CONF_HW_BIT_RATE_6MBPS ↔
            (band = ieee80211_band.IEEE80211_BAND_2GHZ ∧ passive = false ∧
              req.n_ssids ≠ 0 ∧ env.cfg80211_find_vendor_ie req.ie = true))) ∧
        (cmd.scan_options &&& K.WL1271_SCAN_OPT_PASSIVE ≠ 0 ↔
          (passive = true ∨ req.n_ssids = 0)) := by
    intro n_ch channels cmd hc
    obtain ⟨h1, h2⟩ := wl1271_scan_send_cmd_rate K env wl req band passive basic_rate n_ch
      channels hopt
    rw [← hc] at h1 h2
    refine ⟨fun h => by rw [h2, if_pos h], fun h => by rw [h2, if_neg h], ?_, ?_, h1⟩
    · rw [h2]
      constructor
      · intro h
        by_cases hcon : band = ieee80211_band.IEEE80211_BAND_2GHZ ∧ passive = false ∧
            req.n_ssids ≠ 0 ∧ env.cfg80211_find_vendor_ie req.ie = true
        · exact Or.inl hcon
        · rw [if_neg hcon] at h
          exact Or.inr h
      · intro h
        by_cases hcon : band = ieee80211_band.IEEE80211_BAND_2GHZ ∧ passive = false ∧
            req.n_ssids ≠ 0 ∧ env.cfg80211_find_vendor_ie req.ie = true
        · rw [if_pos hcon]
        · rw [if_neg hcon]
          rcases h with h | h
          · exact absurd h hcon
          · exact h
    · intro hne
      rw [h2]
      constructor
      · intro h
        by_contra hcon
        rw [if_neg hcon] at h
        exact hne h
      · intro h
        rw [if_pos h]
  rw [wl1271_scan_send_full K env wl band passive basic_rate req hreq]
  split
  · exact ⟨_, _, _, rfl, fun cmd h => by simp at h⟩
  · split
    · exact ⟨_, _, _, rfl, fun cmd h => by simp at h⟩
    · split
      · exact ⟨_, _, _, rfl, fun cmd h => by simp at h⟩
      · split
        · exact ⟨_, _, _, rfl, fun cmd h => by simp at h⟩
        · refine ⟨_, _, _, rfl, ?_⟩
          intro cmd h
          simp only [List.mem_cons, List.mem_singleton, List.not_mem_nil, or_false,
            event.wl1271_cmd_send.injEq, command.CMD_SCAN.injEq, reduceCtorEq,
            false_or] at h
          exact hcmd _ _ cmd h

/-- Witness of C15: an active 2.4GHz dispatch with two eligible channels. -/
theorem wl1271_scan_send_tx_rate_witness :
    (example_wl wl1271_scan_state.WL1271_SCAN_STATE_2GHZ_ACTIVE
        (some example_request)).scan.req = some example_request ∧
    small_constants.WL1271_SCAN_OPT_PASSIVE ≠ 0 ∧
    ∃ ret sc added,
      wl1271_scan_send small_constants env_ok
          (example_wl wl1271_scan_state.WL1271_SCAN_STATE_2GHZ_ACTIVE (some example_request))
          ieee80211_band.IEEE80211_BAND_2GHZ false 1
        = Except.ok (ret, (example_wl wl1271_scan_state.WL1271_SCAN_STATE_2GHZ_ACTIVE
            (some example_request)).after_send sc added) :=
  ⟨rfl, by decide,
    (wl1271_scan_send_tx_rate small_constants env_ok
      (example_wl wl1271_scan_state.WL1271_SCAN_STATE_2GHZ_ACTIVE (some example_request))
      ieee80211_band.IEEE80211_BAND_2GHZ false 1 example_request rfl (by decide)).imp
      (fun _ h => h.imp (fun _ h => h.imp (fun _ h => h.1)))⟩

/-- Counterexample to C15 as stated: an active scan of the 5GHz band with the 6 Mbps
rate (`CONF_HW_BIT_RATE_6MBPS`, the value 8) passed in as basic rate.  The call returns
0 and hands one scan command to the transport; the command carries the 5GHz band tag and
`tx_rate` is the 6 Mbps rate although the band is not 2.4GHz (and the request holds no
P2P element). -/
theorem wl1271_scan_send_tx_rate_basic_6mbps :
    five_ghz_scan_request.channels.map (fun ch => ch.band)
      = [ieee80211_band.IEEE80211_BAND_5GHZ] ∧
    env_ok.cfg80211_find_vendor_ie five_ghz_scan_request.ie = false ∧
    upstream_constants.CONF_HW_BIT_RATE_6MBPS = 8 ∧
    (wl1271_scan_send upstream_constants env_ok
        (example_wl wl1271_scan_state.WL1271_SCAN_STATE_5GHZ_ACTIVE
          (some five_ghz_scan_request))
        ieee80211_band.IEEE80211_BAND_5GHZ false
        upstream_constants.CONF_HW_BIT_RATE_6MBPS).toOption.map
      (fun r => (r.1, r.2.log.filterMap
        (fun e => e.scan_cmd.map (fun cmd => (cmd.band, cmd.tx_rate)))))
      = some (0, [(upstream_constants.WL1271_SCAN_BAND_5_GHZ, 8)]) := by
  exact ⟨rfl, rfl, rfl, rfl⟩

/-- C16: with the request pointer set, `wl1271_scan_send` returns, and in its log a scan
command is the last entry and directly preceded by the trigger-scan-timeout command
with timeout 0; if the trigger-scan-timeout command is sent at all it is the fourth
entry (after the two allocations and the template build), and if the transport fails
for it, `wl1271_scan_send` returns that negative result with the log ending there: no
scan command is sent. -/
theorem wl1271_scan_send_companion (K : scan_constants) (env : environment) (wl : wl1271)
    (band : ieee80211_band) (passive : Bool) (basic_rate : Nat)
    (req : cfg80211_scan_request) (hreq : wl.scan.req = some req) :
    ∃ ret sc added,
      wl1271_scan_send K env wl band passive basic_rate
        = Except.ok (ret, wl.after_send sc added) ∧
      (∀ cmd, event.wl1271_cmd_send (command.CMD_SCAN cmd) ∈ added →
        ∃ pre, added = pre ++ [event.wl1271_cmd_send (command.CMD_TRIGGER_SCAN_TO 0),
          event.wl1271_cmd_send (command.CMD_SCAN cmd)]) ∧
      (event.wl1271_cmd_send (command.CMD_TRIGGER_SCAN_TO 0) ∈ added →
        added.take 4 = [event.kzalloc, event.kzalloc,
          event.wl1271_cmd_build_probe_req wl.scan.ssid wl.scan.ssid_len req.ie band,
          event.wl1271_cmd_send (command.CMD_TRIGGER_SCAN_TO 0)] ∧
        (env.wl1271_cmd_send (wl.log ++ [event.kzalloc, event.kzalloc,
            event.wl1271_cmd_build_probe_req wl.scan.ssid wl.scan.ssid_len req.ie band,
            event.wl1271_cmd_send (command.CMD_TRIGGER_SCAN_TO 0)]) ≠ 0 →
          ret = -(env.wl1271_cmd_send (wl.log ++ [event.kzalloc, event.kzalloc,
            event.wl1271_cmd_build_probe_req wl.scan.ssid wl.scan.ssid_len req.ie band,
            event.wl1271_cmd_send (command.CMD_TRIGGER_SCAN_TO 0)]) : Int) ∧
          ret < 0 ∧
          added = [event.kzalloc, event.kzalloc,
            event.wl1271_cmd_build_probe_req wl.scan.ssid wl.scan.ssid_len req.ie band,
            event.wl1271_cmd_send (command.CMD_TRIGGER_SCAN_TO 0)] ∧
          scan_commands added = [])) := by
  rw [wl1271_scan_send_full K env wl band passive basic_rate req hreq]
  split
  · exact ⟨_, _, _, rfl, fun cmd h => by simp at h, fun h => by simp at h⟩
  · split
    · exact ⟨_, _, _, rfl, fun cmd h => by simp at h, fun h => by simp at h⟩
    · split
      · exact ⟨_, _, _, rfl, fun cmd h => by simp at h, fun h => by simp at h⟩
      · split
        · rename_i hfail
          refine ⟨_, _, _, rfl, fun cmd h => by simp at h, fun _ => ⟨rfl, fun _ => ?_⟩⟩
          refine ⟨rfl, ?_, rfl, ?_⟩
          · omega
          · simp [scan_commands, event.is_scan_command]
        · rename_i hok
          refine ⟨_, _, _, rfl, ?_, fun _ => ⟨rfl, fun hfail => absurd hfail hok⟩⟩
          intro cmd h
          simp only [List.mem_cons, List.mem_singleton, List.not_mem_nil, or_false,
            event.wl1271_cmd_send.injEq, command.CMD_SCAN.injEq, reduceCtorEq,
            false_or] at h
          subst h
          exact ⟨[event.kzalloc, event.kzalloc,
            event.wl1271_cmd_build_probe_req wl.scan.ssid wl.scan.ssid_len req.ie band], rfl⟩

/-- Witness of C16: a dispatch in which the transport fails with `EIO`. -/
theorem wl1271_scan_send_companion_witness :
    (example_wl wl1271_scan_state.WL1271_SCAN_STATE_2GHZ_ACTIVE
        (some example_request)).scan.req = some example_request ∧
    ∃ ret sc added,
      wl1271_scan_send small_constants env_eio
          (example_wl wl1271_scan_state.WL1271_SCAN_STATE_2GHZ_ACTIVE (some example_request))
          ieee80211_band.IEEE80211_BAND_2GHZ false 1
        = Except.ok (ret, (example_wl wl1271_scan_state.WL1271_SCAN_STATE_2GHZ_ACTIVE
            (some example_request)).after_send sc added) :=
  ⟨rfl,
    (wl1271_scan_send_companion small_constants env_eio
      (example_wl wl1271_scan_state.WL1271_SCAN_STATE_2GHZ_ACTIVE (some example_request))
      ieee80211_band.IEEE80211_BAND_2GHZ false 1 example_request rfl).imp
      (fun _ h => h.imp (fun _ h => h.imp (fun _ h => h.1)))⟩


/-! ## Theorems: scheduled scan, one call -/

theorem wl1271_scan_get_sched_scan_channels_loop_ok (K : scan_constants)
    (c : conf_sched_scan_settings) (req : cfg80211_sched_scan_request)
    (band : ieee80211_band) (radar passive : Bool) :
    ∀ (n i j : Nat) (channels : List conn_scan_ch_params),
      (∀ m, m < ((req.channels.drop i).filter
          (fun ch => wl1271_scan_get_sched_scan_channels_cond K ch band radar
            passive)).length →
        j + m < K.MAX_CHANNELS_ALL_BANDS → j + m < req.n_channels) →
      ∃ r, wl1271_scan_get_sched_scan_channels_loop K c req band radar passive n i j channels
        = Except.ok r := by
  intro n
  induction n with
  | zero => intro i j channels _; exact ⟨_, rfl⟩
  | succ n ih =>
    intro i j channels hb
    unfold wl1271_scan_get_sched_scan_channels_loop
    by_cases h : i < req.n_channels ∧ j < K.MAX_CHANNELS_ALL_BANDS
    · rw [dif_pos h]
      have hi : i < req.channels.length := h.1
      rw [List.drop_eq_getElem_cons hi, List.filter_cons] at hb
      simp only [List.get_eq_getElem]
      by_cases hc : wl1271_scan_get_sched_scan_channels_cond K req.channels[i] band radar
          passive = true
      · rw [if_pos hc] at hb
        rw [if_pos hc]
        simp only [List.length_cons] at hb
        have hj : j < req.channels.length := hb 0 (by omega) h.2
        rw [List.getElem?_eq_getElem hj]
        refine ih (i + 1) (j + 1) _ ?_
        intro m hm hlt
        have := hb (m + 1) (by omega) (by omega)
        omega
      · rw [if_neg hc] at hb
        rw [if_neg hc]
        exact ih (i + 1) j _ hb
    · rw [dif_neg h]; exact ⟨_, rfl⟩

theorem wl1271_scan_get_sched_scan_channels_loop_spec (K : scan_constants)
    (c : conf_sched_scan_settings) (req : cfg80211_sched_scan_request)
    (band : ieee80211_band) (radar passive : Bool) :
    ∀ (n i j : Nat) (channels : List conn_scan_ch_params) (j2 : Nat)
      (channels2 : List conn_scan_ch_params),
      req.n_channels ≤ i + n →
      wl1271_scan_get_sched_scan_channels_loop K c req band radar passive n i j channels
        = Except.ok (j2, channels2) →
      j2 = j + min ((req.channels.drop i).filter
        (fun ch => wl1271_scan_get_sched_scan_channels_cond K ch band radar passive)).length
          (K.MAX_CHANNELS_ALL_BANDS - j) ∧
      channels2.length = channels.length ∧
      (∀ k, k < j ∨ j2 ≤ k → channels2[k]? = channels[k]?) ∧
      (∀ m, j + m < j2 →
        ∃ chan_i chan_j,
          ((req.channels.drop i).filter
            (fun ch => wl1271_scan_get_sched_scan_channels_cond K ch band radar
              passive))[m]? = some chan_i ∧
          req.channels[j + m]? = some chan_j ∧
          (j + m < channels.length →
            channels2[j + m]? = some (wl1271_scan_get_sched_scan_channels_slot K c
              (channels.getD (j + m) conn_scan_ch_params.zero) chan_i chan_j))) := by
  intro n
  induction n with
  | zero =>
    intro i j channels j2 channels2 hn h
    have hd : req.channels.drop i = [] := List.drop_eq_nil_of_le (by
      unfold cfg80211_sched_scan_request.n_channels at hn; omega)
    simp only [wl1271_scan_get_sched_scan_channels_loop, Except.ok.injEq, Prod.mk.injEq] at h
    obtain ⟨rfl, rfl⟩ := h
    rw [hd]
    refine ⟨by simp, rfl, fun _ _ => rfl, fun m hm => by omega⟩
  | succ n ih =>
    intro i j channels j2 channels2 hn h
    unfold wl1271_scan_get_sched_scan_channels_loop at h
    by_cases hg : i < req.n_channels ∧ j < K.MAX_CHANNELS_ALL_BANDS
    · rw [dif_pos hg] at h
      have hi : i < req.channels.length := hg.1
      rw [List.drop_eq_getElem_cons hi, List.filter_cons]
      simp only [List.get_eq_getElem] at h
      by_cases hc : wl1271_scan_get_sched_scan_channels_cond K req.channels[i] band radar
          passive = true
      · rw [if_pos hc] at h
        rw [if_pos hc]
        cases hr : req.channels[j]? with
        | none => rw [hr] at h; cases h
        | some chan_j =>
          rw [hr] at h
          obtain ⟨h1, h2, h3, h4⟩ := ih (i + 1) (j + 1) _ j2 channels2 (by omega) h
          rw [List.length_set] at h2
          refine ⟨?_, h2, ?_, ?_⟩
          · rw [h1, List.length_cons]; omega
          · intro k hk
            have hk2 : k < j + 1 ∨ j2 ≤ k := by omega
            rw [h3 k hk2]
            exact List.getElem?_set_ne (by omega)
          · intro m hm
            cases m with
            | zero =>
              refine ⟨req.channels[i], chan_j, by simp, hr, ?_⟩
              intro hlen
              rw [Nat.add_zero] at hlen ⊢
              rw [h3 j (Or.inl (by omega))]
              exact List.getElem?_set_self hlen
            | succ m =>
              obtain ⟨ci, cj, e1, e2, e3⟩ := h4 m (by omega)
              refine ⟨ci, cj, ?_, ?_, ?_⟩
              · simpa using e1
              · rw [← e2]; congr 1; omega
              · intro hlen
                have e4 := e3 (by rw [List.length_set]; omega)
                have e5 : j + (m + 1) = j + 1 + m := by omega
                have hd : ∀ s, (channels.set j s).getD (j + 1 + m) conn_scan_ch_params.zero
                    = channels.getD (j + 1 + m) conn_scan_ch_params.zero := by
                  intro s
                  rw [List.getD_eq_getElem?_getD, List.getD_eq_getElem?_getD,
                    List.getElem?_set_ne (by omega)]
                rw [e5, e4, hd]
      · rw [if_neg hc] at h
        rw [if_neg hc]
        exact ih (i + 1) j channels j2 channels2 (by omega) h
    · rw [dif_neg hg] at h
      simp only [Except.ok.injEq, Prod.mk.injEq] at h
      obtain ⟨rfl, rfl⟩ := h
      have hz : min ((req.channels.drop i).filter
          (fun ch => wl1271_scan_get_sched_scan_channels_cond K ch band radar passive)).length
          (K.MAX_CHANNELS_ALL_BANDS - j) = 0 := by
        by_cases hi : i < req.n_channels
        · have : ¬ j < K.MAX_CHANNELS_ALL_BANDS := fun hj => hg ⟨hi, hj⟩
          omega
        · have hd : req.channels.drop i = [] := List.drop_eq_nil_of_le (by
            unfold cfg80211_sched_scan_request.n_channels at hi; omega)
          rw [hd]; simp
      rw [hz]
      refine ⟨rfl, rfl, fun _ _ => rfl, fun m hm => by omega⟩


theorem wl1271_scan_get_sched_scan_channels_ok (K : scan_constants)
    (c : conf_sched_scan_settings) (req : cfg80211_sched_scan_request)
    (channels : List conn_scan_ch_params) (band : ieee80211_band) (radar passive : Bool)
    (start : Nat)
    (hfit : ∀ m, m < (sched_bucket K req band radar passive).length →
      start + m < K.MAX_CHANNELS_ALL_BANDS → start + m < req.n_channels) :
    ∃ r, wl1271_scan_get_sched_scan_channels K c req channels band radar passive start
      = Except.ok r := by
  obtain ⟨r, hr⟩ := wl1271_scan_get_sched_scan_channels_loop_ok K c req band radar passive
    req.n_channels 0 start channels (by rw [List.drop_zero]; exact hfit)
  unfold wl1271_scan_get_sched_scan_channels
  rw [hr]
  exact ⟨_, rfl⟩

theorem wl1271_scan_get_sched_scan_channels_spec (K : scan_constants)
    (c : conf_sched_scan_settings) (req : cfg80211_sched_scan_request)
    (channels : List conn_scan_ch_params) (band : ieee80211_band) (radar passive : Bool)
    (start n : Nat) (channels2 : List conn_scan_ch_params)
    (h : wl1271_scan_get_sched_scan_channels K c req channels band radar passive start
      = Except.ok (n, channels2)) :
    n = min (sched_bucket K req band radar passive).length
      (K.MAX_CHANNELS_ALL_BANDS - start) ∧
    channels2.length = channels.length ∧
    (∀ k, k < start ∨ start + n ≤ k → channels2[k]? = channels[k]?) ∧
    (∀ m, m < n →
      ∃ chan_i chan_j,
        (sched_bucket K req band radar passive)[m]? = some chan_i ∧
        req.channels[start + m]? = some chan_j ∧
        (start + m < channels.length →
          channels2[start + m]? = some (wl1271_scan_get_sched_scan_channels_slot K c
            (channels.getD (start + m) conn_scan_ch_params.zero) chan_i chan_j))) := by
  unfold wl1271_scan_get_sched_scan_channels at h
  cases hl : wl1271_scan_get_sched_scan_channels_loop K c req band radar passive
      req.n_channels 0 start channels with
  | error f => rw [hl] at h; cases h
  | ok r =>
    obtain ⟨j2, ch2⟩ := r
    rw [hl] at h
    simp only [Except.ok.injEq, Prod.mk.injEq] at h
    obtain ⟨hn, hch⟩ := h
    subst hch
    obtain ⟨h1, h2, h3, h4⟩ := wl1271_scan_get_sched_scan_channels_loop_spec K c req band
      radar passive req.n_channels 0 start channels j2 ch2 (by omega) hl
    rw [List.drop_zero] at h1 h4
    unfold sched_bucket
    refine ⟨by omega, h2, fun k hk => h3 k (by omega), fun m hm => h4 m (by omega)⟩

/-- No channel passes the test of two of the five calls: the sizes of the five buckets
add up to at most the number of channels of the request. -/
theorem sched_bucket_length_sum (K : scan_constants) (req : cfg80211_sched_scan_request) :
    (sched_bucket K req ieee80211_band.IEEE80211_BAND_2GHZ false true).length +
    (sched_bucket K req ieee80211_band.IEEE80211_BAND_2GHZ false false).length +
    (sched_bucket K req ieee80211_band.IEEE80211_BAND_5GHZ false true).length +
    (sched_bucket K req ieee80211_band.IEEE80211_BAND_5GHZ false false).length +
    (sched_bucket K req ieee80211_band.IEEE80211_BAND_5GHZ true false).length
      ≤ req.n_channels := by
  unfold sched_bucket cfg80211_sched_scan_request.n_channels
  induction req.channels with
  | nil => simp
  | cons ch l ih =>
    simp only [List.filter_cons, List.length_cons]
    have hx : ∀ (b1 b2 : ieee80211_band) (r1 r2 p1 p2 : Bool),
        (b1 ≠ b2 ∨ r1 ≠ r2 ∨ p1 ≠ p2) →
        wl1271_scan_get_sched_scan_channels_cond K ch b1 r1 p1 = true →
        wl1271_scan_get_sched_scan_channels_cond K ch b2 r2 p2 = true → False := by
      intro b1 b2 r1 r2 p1 p2 hne h1 h2
      simp only [wl1271_scan_get_sched_scan_channels_cond, Bool.and_eq_true, beq_iff_eq]
        at h1 h2
      obtain ⟨⟨⟨_, hp1⟩, hr1⟩, hb1⟩ := h1
      obtain ⟨⟨⟨_, hp2⟩, hr2⟩, hb2⟩ := h2
      rcases hne with hne | hne | hne
      · exact hne (hb1.symm.trans hb2)
      · have := hr1.symm.trans hr2
        cases r1 <;> cases r2 <;> simp [bool_value] at this hne
      · have := hp1.symm.trans hp2
        cases p1 <;> cases p2 <;> simp [bool_value] at this hne
    by_cases c1 : wl1271_scan_get_sched_scan_channels_cond K ch
        ieee80211_band.IEEE80211_BAND_2GHZ false true = true
    · have c2 := fun h => hx _ _ _ _ _ _ (Or.inr (Or.inr (by decide))) c1
        (h : wl1271_scan_get_sched_scan_channels_cond K ch
          ieee80211_band.IEEE80211_BAND_2GHZ false false = true)
      have c3 := fun h => hx _ _ _ _ _ _ (Or.inl (by decide)) c1
        (h : wl1271_scan_get_sched_scan_channels_cond K ch
          ieee80211_band.IEEE80211_BAND_5GHZ false true = true)
      have c4 := fun h => hx _ _ _ _ _ _ (Or.inl (by decide)) c1
        (h : wl1271_scan_get_sched_scan_channels_cond K ch
          ieee80211_band.IEEE80211_BAND_5GHZ false false = true)
      have c5 := fun h => hx _ _ _ _ _ _ (Or.inl (by decide)) c1
        (h : wl1271_scan_get_sched_scan_channels_cond K ch
          ieee80211_band.IEEE80211_BAND_5GHZ true false = true)
      rw [if_pos c1, if_neg c2, if_neg c3, if_neg c4, if_neg c5, List.length_cons]
      omega
    · rw [if_neg c1]
      by_cases c2 : wl1271_scan_get_sched_scan_channels_cond K ch
          ieee80211_band.IEEE80211_BAND_2GHZ false false = true
      · have c3 := fun h => hx _ _ _ _ _ _ (Or.inl (by decide)) c2
          (h : wl1271_scan_get_sched_scan_channels_cond K ch
            ieee80211_band.IEEE80211_BAND_5GHZ false true = true)
        have c4 := fun h => hx _ _ _ _ _ _ (Or.inl (by decide)) c2
          (h : wl1271_scan_get_sched_scan_channels_cond K ch
            ieee80211_band.IEEE80211_BAND_5GHZ false false = true)
        have c5 := fun h => hx _ _ _ _ _ _ (Or.inl (by decide)) c2
          (h : wl1271_scan_get_sched_scan_channels_cond K ch
            ieee80211_band.IEEE80211_BAND_5GHZ true false = true)
        rw [if_pos c2, if_neg c3, if_neg c4, if_neg c5, List.length_cons]
        omega
      · rw [if_neg c2]
        by_cases c3 : wl1271_scan_get_sched_scan_channels_cond K ch
            ieee80211_band.IEEE80211_BAND_5GHZ false true = true
        · have c4 := fun h => hx _ _ _ _ _ _ (Or.inr (Or.inr (by decide))) c3
            (h : wl1271_scan_get_sched_scan_channels_cond K ch
              ieee80211_band.IEEE80211_BAND_5GHZ false false = true)
          have c5 := fun h => hx _ _ _ _ _ _ (Or.inr (Or.inl (by decide))) c3
            (h : wl1271_scan_get_sched_scan_channels_cond K ch
              ieee80211_band.IEEE80211_BAND_5GHZ true false = true)
          rw [if_pos c3, if_neg c4, if_neg c5, List.length_cons]
          omega
        · rw [if_neg c3]
          by_cases c4 : wl1271_scan_get_sched_scan_channels_cond K ch
              ieee80211_band.IEEE80211_BAND_5GHZ false false = true
          · have c5 := fun h => hx _ _ _ _ _ _ (Or.inr (Or.inl (by decide))) c4
              (h : wl1271_scan_get_sched_scan_channels_cond K ch
                ieee80211_band.IEEE80211_BAND_5GHZ true false = true)
            rw [if_pos c4, if_neg c5, List.length_cons]
            omega
          · rw [if_neg c4]
            by_cases c5 : wl1271_scan_get_sched_scan_channels_cond K ch
                ieee80211_band.IEEE80211_BAND_5GHZ true false = true
            · rw [if_pos c5, List.length_cons]; omega
            · rw [if_neg c5]; omega


/-- With a flag mask that does not contain bit 0, the masked flags never equal the
integer value 1 of a `bool` argument that is true. -/
theorem flags_and_mask_ne_one (flags mask : Nat) (h : mask % 2 = 0) :
    flags &&& mask ≠ 1 := by
  intro h1
  have h2 := congrArg (fun t => Nat.testBit t 0) h1
  simp [Nat.testBit_and, Nat.testBit_zero] at h2
  omega

/-- With `IEEE80211_CHAN_PASSIVE_SCAN` a mask without bit 0, no channel passes the test
of a call with `passive` true. -/
theorem wl1271_scan_get_sched_scan_channels_cond_passive (K : scan_constants)
    (ch : ieee80211_channel) (band : ieee80211_band) (radar : Bool)
    (h : K.IEEE80211_CHAN_PASSIVE_SCAN % 2 = 0) :
    wl1271_scan_get_sched_scan_channels_cond K ch band radar true = false := by
  have h1 := flags_and_mask_ne_one ch.flags K.IEEE80211_CHAN_PASSIVE_SCAN h
  simp [wl1271_scan_get_sched_scan_channels_cond, bool_value, h1]

/-- With `IEEE80211_CHAN_RADAR` a mask without bit 0, no channel passes the test of a
call with `radar` true. -/
theorem wl1271_scan_get_sched_scan_channels_cond_radar (K : scan_constants)
    (ch : ieee80211_channel) (band : ieee80211_band) (passive : Bool)
    (h : K.IEEE80211_CHAN_RADAR % 2 = 0) :
    wl1271_scan_get_sched_scan_channels_cond K ch band true passive = false := by
  have h1 := flags_and_mask_ne_one ch.flags K.IEEE80211_CHAN_RADAR h
  simp [wl1271_scan_get_sched_scan_channels_cond, bool_value, h1]

/-- C17 (divergence): the request holds an enabled passive-only 2.4GHz channel and an
enabled 5GHz radar channel, yet `wl1271_scan_sched_scan_channels` records
`passive[0] = 0` and `dfs = 0` and returns 0: neither channel passes the test of any of
the five calls, because the masked flag (2, 8) is compared with the `bool` argument
(0 or 1). -/
theorem wl1271_scan_sched_scan_channels_drops_flagged :
    radar_request.channels.map
        (fun ch => (ch.band, ch.flags &&& upstream_constants.IEEE80211_CHAN_DISABLED,
          ch.flags &&& upstream_constants.IEEE80211_CHAN_PASSIVE_SCAN,
          ch.flags &&& upstream_constants.IEEE80211_CHAN_RADAR))
      = [(ieee80211_band.IEEE80211_BAND_2GHZ, 0, 2, 0),
         (ieee80211_band.IEEE80211_BAND_5GHZ, 0, 0, 8)] ∧
    (wl1271_scan_sched_scan_channels upstream_constants example_sched_conf radar_request
        (wl1271_cmd_sched_scan_config.zero upstream_constants)).toOption.map
      (fun r => (r.1, r.2.passive, r.2.active, r.2.dfs))
      = some (0, [0, 0, 0], [0, 0, 0], 0) ∧
    (wl1271_scan_get_sched_scan_channels upstream_constants example_sched_conf
        radar_request (wl1271_cmd_sched_scan_config.zero upstream_constants).channels
        ieee80211_band.IEEE80211_BAND_2GHZ false true 0).toOption.map (fun r => r.1)
      = some 0 ∧
    (wl1271_scan_get_sched_scan_channels upstream_constants example_sched_conf
        radar_request (wl1271_cmd_sched_scan_config.zero upstream_constants).channels
        ieee80211_band.IEEE80211_BAND_5GHZ true false 0).toOption.map (fun r => r.1)
      = some 0 := by
  refine ⟨?_, ?_, ?_, ?_⟩ <;> decide

/-- C18 (divergence): in a request whose first channel is disabled (hardware id 1,
maximum power 10) and whose second channel is enabled (hardware id 2, maximum power 20),
the active 2.4GHz call selects the second channel (`i = 1`) into slot `j = 0` with the
active dwell times and hardware id 2, but with tx power 10, read from
`req->channels[0]`; and for a request with a single active 5GHz channel the call with
start slot 14 reads `req->channels[14]`, outside the array. -/
theorem wl1271_scan_get_sched_scan_channels_tx_power :
    power_request.channels.map (fun ch => (ch.hw_value, ch.flags, ch.max_power))
      = [(1, 1, 10), (2, 0, 20)] ∧
    (wl1271_scan_get_sched_scan_channels upstream_constants example_sched_conf
        power_request (wl1271_cmd_sched_scan_config.zero upstream_constants).channels
        ieee80211_band.IEEE80211_BAND_2GHZ false false 0).toOption.map
      (fun r => (r.1, r.2.head?))
      = some (1, some { min_duration := 8, max_duration := 30, passive_duration := 0,
                        channel := 2, tx_power_att := 10 }) ∧
    wl1271_scan_sched_scan_channels upstream_constants example_sched_conf one_5ghz_request
        (wl1271_cmd_sched_scan_config.zero upstream_constants)
      = Except.error fault.OUT_OF_BOUNDS_READ := by
  refine ⟨by decide, by decide, rfl⟩


/-! ## Theorems: scheduled scan, the five calls -/

/-- Arithmetic of the five start slots and counts: a count is the bucket size cut off at
the capacity left after the start slot. -/
theorem sched_counts_arith (M L1 L2 L3 L4 L5 n1 n2 n3 n4 n5 : Nat)
    (s1 : n1 = min L1 (M - 0)) (s2 : n2 = min L2 (M - n1))
    (s3 : n3 = min L3 (M - (n1 + n2))) (s4 : n4 = min L4 (M - 14))
    (s5 : n5 = min L5 (M - (n1 + n2 + n3 + n4))) :
    (L1 + L2 + L3 ≤ 14 → n1 + n2 + n3 + n4 + n5 ≤ M) ∧
    (L1 + L2 + L3 ≤ 14 → n1 + n2 + n3 ≤ 14) ∧
    (L1 + L2 + L3 = 14 ∨ (L1 + L2 + L3 ≤ 14 ∧ (L4 = 0 ∨ L5 = 0)) →
      n1 + n2 + n3 = 14 ∨ n4 = 0 ∨ n5 = 0) := by
  refine ⟨?_, ?_, ?_⟩ <;> omega


theorem list_set_getD_self (l : List Nat) (i v d : Nat) (h : i < l.length) :
    (l.set i v).getD i d = v := by
  rw [List.getD_eq_getElem?_getD, List.getElem?_set_self h]; rfl

theorem list_set_getD_ne (l : List Nat) (i k v d : Nat) (h : i ≠ k) :
    (l.set i v).getD k d = l.getD k d := by
  rw [List.getD_eq_getElem?_getD, List.getD_eq_getElem?_getD, List.getElem?_set_ne h]

theorem wl1271_scan_sched_scan_channels_of_ok (K : scan_constants)
    (c : conf_sched_scan_settings) (req : cfg80211_sched_scan_request)
    (cfg : wl1271_cmd_sched_scan_config)
    (hp : 2 ≤ cfg.passive.length) (ha : 2 ≤ cfg.active.length)
    (idx : Nat) (cfg2 : wl1271_cmd_sched_scan_config)
    (h : wl1271_scan_sched_scan_channels K c req cfg = Except.ok (idx, cfg2)) :
    ∃ n1 ch1 n2 ch2 n3 ch3 n4 ch4 n5 ch5,
      wl1271_scan_get_sched_scan_channels K c req cfg.channels
        ieee80211_band.IEEE80211_BAND_2GHZ false true 0 = Except.ok (n1, ch1) ∧
      wl1271_scan_get_sched_scan_channels K c req ch1
        ieee80211_band.IEEE80211_BAND_2GHZ false false n1 = Except.ok (n2, ch2) ∧
      wl1271_scan_get_sched_scan_channels K c req ch2
        ieee80211_band.IEEE80211_BAND_5GHZ false true (n1 + n2) = Except.ok (n3, ch3) ∧
      wl1271_scan_get_sched_scan_channels K c req ch3
        ieee80211_band.IEEE80211_BAND_5GHZ false false 14 = Except.ok (n4, ch4) ∧
      wl1271_scan_get_sched_scan_channels K c req ch4
        ieee80211_band.IEEE80211_BAND_5GHZ true false (n1 + n2 + n3 + n4)
          = Except.ok (n5, ch5) ∧
      idx = n1 + n2 + n3 + n4 + n5 ∧
      cfg2 = { cfg with channels := ch5, passive := (cfg.passive.set 0 n1).set 1 n3,
                        active := (cfg.active.set 0 n2).set 1 n4, dfs := n5 } := by
  unfold wl1271_scan_sched_scan_channels at h
  simp only [] at h
  split at h
  · cases h
  · rename_i n1 ch1 h1
    rw [list_set_getD_self _ _ _ _ (by omega), Nat.zero_add] at h
    split at h
    · cases h
    · rename_i n2 ch2 h2
      rw [list_set_getD_self _ _ _ _ (by omega)] at h
      split at h
      · cases h
      · rename_i n3 ch3 h3
        rw [list_set_getD_self _ _ _ _ (by rw [List.length_set]; omega)] at h
        split at h
        · cases h
        · rename_i n4 ch4 h4
          rw [list_set_getD_self _ _ _ _ (by rw [List.length_set]; omega)] at h
          split at h
          · cases h
          · rename_i n5 ch5 h5
            simp only [Except.ok.injEq, Prod.mk.injEq] at h
            exact ⟨n1, ch1, n2, ch2, n3, ch3, n4, ch4, n5, ch5, h1, h2, h3, h4, h5,
              h.1.symm, h.2.symm⟩

theorem wl1271_scan_sched_scan_channels_eq (K : scan_constants)
    (c : conf_sched_scan_settings) (req : cfg80211_sched_scan_request)
    (cfg : wl1271_cmd_sched_scan_config)
    (hp : 2 ≤ cfg.passive.length) (ha : 2 ≤ cfg.active.length)
    (n1 n2 n3 n4 n5 : Nat) (ch1 ch2 ch3 ch4 ch5 : List conn_scan_ch_params)
    (h1 : wl1271_scan_get_sched_scan_channels K c req cfg.channels
        ieee80211_band.IEEE80211_BAND_2GHZ false true 0 = Except.ok (n1, ch1))
    (h2 : wl1271_scan_get_sched_scan_channels K c req ch1
        ieee80211_band.IEEE80211_BAND_2GHZ false false n1 = Except.ok (n2, ch2))
    (h3 : wl1271_scan_get_sched_scan_channels K c req ch2
        ieee80211_band.IEEE80211_BAND_5GHZ false true (n1 + n2) = Except.ok (n3, ch3))
    (h4 : wl1271_scan_get_sched_scan_channels K c req ch3
        ieee80211_band.IEEE80211_BAND_5GHZ false false 14 = Except.ok (n4, ch4))
    (h5 : wl1271_scan_get_sched_scan_channels K c req ch4
        ieee80211_band.IEEE80211_BAND_5GHZ true false (n1 + n2 + n3 + n4)
          = Except.ok (n5, ch5)) :
    wl1271_scan_sched_scan_channels K c req cfg
      = Except.ok (n1 + n2 + n3 + n4 + n5,
          { cfg with channels := ch5, passive := (cfg.passive.set 0 n1).set 1 n3,
                     active := (cfg.active.set 0 n2).set 1 n4, dfs := n5 }) := by
  unfold wl1271_scan_sched_scan_channels
  simp only []
  rw [h1]
  simp only []
  rw [list_set_getD_self _ _ _ _ (by omega), Nat.zero_add, h2]
  simp only []
  rw [list_set_getD_self _ _ _ _ (by omega), h3]
  simp only []
  rw [list_set_getD_self _ _ _ _ (by rw [List.length_set]; omega), h4]
  simp only []
  rw [list_set_getD_self _ _ _ _ (by rw [List.length_set]; omega), h5]


/-- The five calls of `wl1271_scan_sched_scan_channels` all return when every slot index
that the fourth call (fixed start 14) may reach is an index of `req->channels`. -/
theorem wl1271_scan_sched_scan_channels_calls (K : scan_constants)
    (c : conf_sched_scan_settings) (req : cfg80211_sched_scan_request)
    (channels : List conn_scan_ch_params)
    (hfit : ∀ m, m < (sched_bucket K req ieee80211_band.IEEE80211_BAND_5GHZ false
        false).length →
      14 + m < K.MAX_CHANNELS_ALL_BANDS → 14 + m < req.n_channels) :
    ∃ n1 ch1 n2 ch2 n3 ch3 n4 ch4 n5 ch5,
      wl1271_scan_get_sched_scan_channels K c req channels
        ieee80211_band.IEEE80211_BAND_2GHZ false true 0 = Except.ok (n1, ch1) ∧
      wl1271_scan_get_sched_scan_channels K c req ch1
        ieee80211_band.IEEE80211_BAND_2GHZ false false n1 = Except.ok (n2, ch2) ∧
      wl1271_scan_get_sched_scan_channels K c req ch2
        ieee80211_band.IEEE80211_BAND_5GHZ false true (n1 + n2) = Except.ok (n3, ch3) ∧
      wl1271_scan_get_sched_scan_channels K c req ch3
        ieee80211_band.IEEE80211_BAND_5GHZ false false 14 = Except.ok (n4, ch4) ∧
      wl1271_scan_get_sched_scan_channels K c req ch4
        ieee80211_band.IEEE80211_BAND_5GHZ true false (n1 + n2 + n3 + n4)
          = Except.ok (n5, ch5) := by
  have hsum := sched_bucket_length_sum K req
  obtain ⟨⟨n1, ch1⟩, h1⟩ := wl1271_scan_get_sched_scan_channels_ok K c req channels
    ieee80211_band.IEEE80211_BAND_2GHZ false true 0 (fun m hm _ => by omega)
  have s1 := (wl1271_scan_get_sched_scan_channels_spec K c req _ _ _ _ _ _ _ h1).1
  obtain ⟨⟨n2, ch2⟩, h2⟩ := wl1271_scan_get_sched_scan_channels_ok K c req ch1
    ieee80211_band.IEEE80211_BAND_2GHZ false false n1 (fun m hm _ => by omega)
  have s2 := (wl1271_scan_get_sched_scan_channels_spec K c req _ _ _ _ _ _ _ h2).1
  obtain ⟨⟨n3, ch3⟩, h3⟩ := wl1271_scan_get_sched_scan_channels_ok K c req ch2
    ieee80211_band.IEEE80211_BAND_5GHZ false true (n1 + n2) (fun m hm _ => by omega)
  have s3 := (wl1271_scan_get_sched_scan_channels_spec K c req _ _ _ _ _ _ _ h3).1
  obtain ⟨⟨n4, ch4⟩, h4⟩ := wl1271_scan_get_sched_scan_channels_ok K c req ch3
    ieee80211_band.IEEE80211_BAND_5GHZ false false 14 hfit
  have s4 := (wl1271_scan_get_sched_scan_channels_spec K c req _ _ _ _ _ _ _ h4).1
  obtain ⟨⟨n5, ch5⟩, h5⟩ := wl1271_scan_get_sched_scan_channels_ok K c req ch4
    ieee80211_band.IEEE80211_BAND_5GHZ true false (n1 + n2 + n3 + n4)
    (fun m hm _ => by omega)
  exact ⟨n1, ch1, n2, ch2, n3, ch3, n4, ch4, n5, ch5, h1, h2, h3, h4, h5⟩

/-- The counts that the five calls record are read back unchanged from the command. -/
theorem sched_call_count_eq (cfg : wl1271_cmd_sched_scan_config)
    (hp : 2 ≤ cfg.passive.length) (ha : 2 ≤ cfg.active.length)
    (n1 n2 n3 n4 n5 : Nat) (ch5 : List conn_scan_ch_params)
    (cfg2 : wl1271_cmd_sched_scan_config)
    (h : cfg2 = { cfg with channels := ch5, passive := (cfg.passive.set 0 n1).set 1 n3,
                           active := (cfg.active.set 0 n2).set 1 n4, dfs := n5 }) :
    cfg2.passive.getD 0 0 = n1 ∧ cfg2.active.getD 0 0 = n2 ∧ cfg2.passive.getD 1 0 = n3 ∧
    cfg2.active.getD 1 0 = n4 ∧ cfg2.dfs = n5 ∧ cfg2.channels = ch5 := by
  subst h
  refine ⟨?_, ?_, ?_, ?_, rfl, rfl⟩
  · show ((cfg.passive.set 0 n1).set 1 n3).getD 0 0 = n1
    rw [list_set_getD_ne _ _ _ _ _ (by omega), list_set_getD_self _ _ _ _ (by omega)]
  · show ((cfg.active.set 0 n2).set 1 n4).getD 0 0 = n2
    rw [list_set_getD_ne _ _ _ _ _ (by omega), list_set_getD_self _ _ _ _ (by omega)]
  · show ((cfg.passive.set 0 n1).set 1 n3).getD 1 0 = n3
    rw [list_set_getD_self _ _ _ _ (by rw [List.length_set]; omega)]
  · show ((cfg.active.set 0 n2).set 1 n4).getD 1 0 = n4
    rw [list_set_getD_self _ _ _ _ (by rw [List.length_set]; omega)]

/-! ## Theorems: scheduled scan, capacity -/

/-- C19: let the count arrays of the command have their two band entries, let every slot
index that the active 5GHz call (fixed start 14) may reach be an index of
`req->channels`, and let at most 14 channels of the request fall in the first three
buckets (2.4GHz passive, 2.4GHz active, 5GHz passive).  Then
`wl1271_scan_sched_scan_channels` returns, the value it returns is
`passive[0] + active[0] + passive[1] + active[1] + dfs`, and it is at most
`MAX_CHANNELS_ALL_BANDS`. -/
theorem wl1271_scan_sched_scan_channels_capacity (K : scan_constants)
    (c : conf_sched_scan_settings) (req : cfg80211_sched_scan_request)
    (cfg : wl1271_cmd_sched_scan_config)
    (hp : 2 ≤ cfg.passive.length) (ha : 2 ≤ cfg.active.length)
    (hfit : ∀ m, m < (sched_bucket K req ieee80211_band.IEEE80211_BAND_5GHZ false
        false).length →
      14 + m < K.MAX_CHANNELS_ALL_BANDS → 14 + m < req.n_channels)
    (hfirst : (sched_bucket K req ieee80211_band.IEEE80211_BAND_2GHZ false true).length +
      (sched_bucket K req ieee80211_band.IEEE80211_BAND_2GHZ false false).length +
      (sched_bucket K req ieee80211_band.IEEE80211_BAND_5GHZ false true).length ≤ 14) :
    ∃ idx cfg2,
      wl1271_scan_sched_scan_channels K c req cfg = Except.ok (idx, cfg2) ∧
      idx = sched_call.PASSIVE_2GHZ.count cfg2 + sched_call.ACTIVE_2GHZ.count cfg2 +
        sched_call.PASSIVE_5GHZ.count cfg2 + sched_call.ACTIVE_5GHZ.count cfg2 +
        sched_call.DFS_5GHZ.count cfg2 ∧
      idx ≤ K.MAX_CHANNELS_ALL_BANDS := by
  obtain ⟨n1, ch1, n2, ch2, n3, ch3, n4, ch4, n5, ch5, h1, h2, h3, h4, h5⟩ :=
    wl1271_scan_sched_scan_channels_calls K c req cfg.channels hfit
  have s1 := (wl1271_scan_get_sched_scan_channels_spec K c req _ _ _ _ _ _ _ h1).1
  have s2 := (wl1271_scan_get_sched_scan_channels_spec K c req _ _ _ _ _ _ _ h2).1
  have s3 := (wl1271_scan_get_sched_scan_channels_spec K c req _ _ _ _ _ _ _ h3).1
  have s4 := (wl1271_scan_get_sched_scan_channels_spec K c req _ _ _ _ _ _ _ h4).1
  have s5 := (wl1271_scan_get_sched_scan_channels_spec K c req _ _ _ _ _ _ _ h5).1
  refine ⟨_, _, wl1271_scan_sched_scan_channels_eq K c req cfg hp ha n1 n2 n3 n4 n5
    ch1 ch2 ch3 ch4 ch5 h1 h2 h3 h4 h5, ?_, ?_⟩
  · obtain ⟨e1, e2, e3, e4, e5, _⟩ := sched_call_count_eq cfg hp ha n1 n2 n3 n4 n5 ch5 _ rfl
    simp only [sched_call.count]
    rw [e1, e2, e3, e4]
  · exact (sched_counts_arith _ _ _ _ _ _ _ _ _ _ _ s1 s2 s3 s4 s5).1 hfirst

/-- Witness of C19: 14 active 2.4GHz channels and two active 5GHz channels. -/
theorem wl1271_scan_sched_scan_channels_capacity_witness :
    2 ≤ (wl1271_cmd_sched_scan_config.zero upstream_constants).passive.length ∧
    2 ≤ (wl1271_cmd_sched_scan_config.zero upstream_constants).active.length ∧
    (sched_bucket upstream_constants two_band_request ieee80211_band.IEEE80211_BAND_2GHZ
        false true).length +
      (sched_bucket upstream_constants two_band_request ieee80211_band.IEEE80211_BAND_2GHZ
        false false).length +
      (sched_bucket upstream_constants two_band_request ieee80211_band.IEEE80211_BAND_5GHZ
        false true).length ≤ 14 ∧
    ∃ idx cfg2,
      wl1271_scan_sched_scan_channels upstream_constants example_sched_conf
          two_band_request (wl1271_cmd_sched_scan_config.zero upstream_constants)
        = Except.ok (idx, cfg2) ∧
      idx = sched_call.PASSIVE_2GHZ.count cfg2 + sched_call.ACTIVE_2GHZ.count cfg2 +
        sched_call.PASSIVE_5GHZ.count cfg2 + sched_call.ACTIVE_5GHZ.count cfg2 +
        sched_call.DFS_5GHZ.count cfg2 ∧
      idx ≤ upstream_constants.MAX_CHANNELS_ALL_BANDS :=
  ⟨by decide, by decide, by decide,
    wl1271_scan_sched_scan_channels_capacity upstream_constants example_sched_conf
      two_band_request (wl1271_cmd_sched_scan_config.zero upstream_constants)
      (by decide) (by decide) (by decide) (by decide)⟩

/-- Counterexample to C19 as stated: for a request with 15 active 2.4GHz entries followed
by 27 active 5GHz entries, `wl1271_scan_sched_scan_channels` records `active[0] = 15`
and `active[1] = 27` and returns 42, while `MAX_CHANNELS_ALL_BANDS` is 41. -/
theorem wl1271_scan_sched_scan_channels_over_capacity :
    (wl1271_scan_sched_scan_channels upstream_constants example_sched_conf crowded_request
        (wl1271_cmd_sched_scan_config.zero upstream_constants)).toOption.map
      (fun r => (r.1, r.2.passive, r.2.active, r.2.dfs))
      = some (42, [0, 0, 0], [15, 27, 0], 0) ∧
    upstream_constants.MAX_CHANNELS_ALL_BANDS = 41 ∧
    crowded_request.n_channels = 42 := by
  refine ⟨?_, rfl, rfl⟩
  decide


/-! ## Theorems: scheduled scan, layout -/

theorem list_getD_congr (l1 l2 : List conn_scan_ch_params) (k : Nat)
    (d : conn_scan_ch_params) (h : l1[k]? = l2[k]?) : l1.getD k d = l2.getD k d := by
  rw [List.getD_eq_getElem?_getD, List.getD_eq_getElem?_getD, h]

/-- Layout of the destination after the five calls, in terms of the counts the calls
returned: if the first three buckets take at most 14 slots, and exactly 14 unless the
active 5GHz bucket or the DFS bucket is empty, every bucket is found where its call wrote
it and every slot outside the buckets keeps its initial value. -/
theorem wl1271_scan_sched_scan_channels_core (K : scan_constants)
    (c : conf_sched_scan_settings) (req : cfg80211_sched_scan_request)
    (ch0 : List conn_scan_ch_params)
    (n1 n2 n3 n4 n5 : Nat) (ch1 ch2 ch3 ch4 ch5 : List conn_scan_ch_params)
    (h1 : wl1271_scan_get_sched_scan_channels K c req ch0
        ieee80211_band.IEEE80211_BAND_2GHZ false true 0 = Except.ok (n1, ch1))
    (h2 : wl1271_scan_get_sched_scan_channels K c req ch1
        ieee80211_band.IEEE80211_BAND_2GHZ false false n1 = Except.ok (n2, ch2))
    (h3 : wl1271_scan_get_sched_scan_channels K c req ch2
        ieee80211_band.IEEE80211_BAND_5GHZ false true (n1 + n2) = Except.ok (n3, ch3))
    (h4 : wl1271_scan_get_sched_scan_channels K c req ch3
        ieee80211_band.IEEE80211_BAND_5GHZ false false 14 = Except.ok (n4, ch4))
    (h5 : wl1271_scan_get_sched_scan_channels K c req ch4
        ieee80211_band.IEEE80211_BAND_5GHZ true false (n1 + n2 + n3 + n4)
          = Except.ok (n5, ch5))
    (hlen : ch0.length = K.MAX_CHANNELS_ALL_BANDS)
    (hg1 : n1 + n2 + n3 ≤ 14) (hg2 : n1 + n2 + n3 = 14 ∨ n4 = 0 ∨ n5 = 0) :
    ch5.length = K.MAX_CHANNELS_ALL_BANDS ∧
    bucket_at K c req ch0 ch5
      (sched_bucket K req ieee80211_band.IEEE80211_BAND_2GHZ false true) 0 n1 ∧
    bucket_at K c req ch0 ch5
      (sched_bucket K req ieee80211_band.IEEE80211_BAND_2GHZ false false) n1 n2 ∧
    bucket_at K c req ch0 ch5
      (sched_bucket K req ieee80211_band.IEEE80211_BAND_5GHZ false true) (n1 + n2) n3 ∧
    bucket_at K c req ch0 ch5
      (sched_bucket K req ieee80211_band.IEEE80211_BAND_5GHZ false false) 14 n4 ∧
    bucket_at K c req ch0 ch5
      (sched_bucket K req ieee80211_band.IEEE80211_BAND_5GHZ true false)
      (n1 + n2 + n3 + n4) n5 ∧
    (∀ k, n1 + n2 + n3 ≤ k → (k < 14 ∨ 14 + n4 ≤ k) →
      (k < n1 + n2 + n3 + n4 ∨ n1 + n2 + n3 + n4 + n5 ≤ k) → ch5[k]? = ch0[k]?) := by
  obtain ⟨s1, l1, f1, w1⟩ := wl1271_scan_get_sched_scan_channels_spec K c req _ _ _ _ _ _ _ h1
  obtain ⟨s2, l2, f2, w2⟩ := wl1271_scan_get_sched_scan_channels_spec K c req _ _ _ _ _ _ _ h2
  obtain ⟨s3, l3, f3, w3⟩ := wl1271_scan_get_sched_scan_channels_spec K c req _ _ _ _ _ _ _ h3
  obtain ⟨s4, l4, f4, w4⟩ := wl1271_scan_get_sched_scan_channels_spec K c req _ _ _ _ _ _ _ h4
  obtain ⟨s5, l5, f5, w5⟩ := wl1271_scan_get_sched_scan_channels_spec K c req _ _ _ _ _ _ _ h5
  have b1 : n1 ≤ K.MAX_CHANNELS_ALL_BANDS - 0 := by omega
  have b2 : n2 ≤ K.MAX_CHANNELS_ALL_BANDS - n1 := by omega
  have b3 : n3 ≤ K.MAX_CHANNELS_ALL_BANDS - (n1 + n2) := by omega
  have b4 : n4 ≤ K.MAX_CHANNELS_ALL_BANDS - 14 := by omega
  have b5 : n5 ≤ K.MAX_CHANNELS_ALL_BANDS - (n1 + n2 + n3 + n4) := by omega
  clear s1 s2 s3 s4 s5 h1 h2 h3 h4 h5
  refine ⟨by omega, ?_, ?_, ?_, ?_, ?_, ?_⟩
  · intro m hm
    obtain ⟨ci, cj, a1, a2, a3⟩ := w1 m hm
    refine ⟨ci, cj, a1, a2, ?_⟩
    rw [f5 _ (by omega), f4 _ (by omega), f3 _ (by omega), f2 _ (by omega)]
    exact a3 (by omega)
  · intro m hm
    obtain ⟨ci, cj, a1, a2, a3⟩ := w2 m hm
    refine ⟨ci, cj, a1, a2, ?_⟩
    rw [f5 _ (by omega), f4 _ (by omega), f3 _ (by omega), a3 (by omega),
      list_getD_congr _ _ _ _ (f1 _ (by omega))]
  · intro m hm
    obtain ⟨ci, cj, a1, a2, a3⟩ := w3 m hm
    refine ⟨ci, cj, a1, a2, ?_⟩
    rw [f5 _ (by omega), f4 _ (by omega), a3 (by omega),
      list_getD_congr _ _ _ _ (f2 _ (by omega)),
      list_getD_congr _ _ _ _ (f1 _ (by omega))]
  · intro m hm
    obtain ⟨ci, cj, a1, a2, a3⟩ := w4 m hm
    refine ⟨ci, cj, a1, a2, ?_⟩
    rw [f5 _ (by omega), a3 (by omega),
      list_getD_congr _ _ _ _ (f3 _ (by omega)),
      list_getD_congr _ _ _ _ (f2 _ (by omega)),
      list_getD_congr _ _ _ _ (f1 _ (by omega))]
  · intro m hm
    obtain ⟨ci, cj, a1, a2, a3⟩ := w5 m hm
    refine ⟨ci, cj, a1, a2, ?_⟩
    rw [a3 (by omega),
      list_getD_congr _ _ _ _ (f4 _ (by omega)),
      list_getD_congr _ _ _ _ (f3 _ (by omega)),
      list_getD_congr _ _ _ _ (f2 _ (by omega)),
      list_getD_congr _ _ _ _ (f1 _ (by omega))]
  · intro k k1 k2 k3
    rw [f5 _ (by omega), f4 _ (by omega), f3 _ (by omega), f2 _ (by omega),
      f1 _ (by omega)]


/-- C20: let the command have `MAX_CHANNELS_ALL_BANDS` channel slots and its two band
entries in each count array, let every slot index that the active 5GHz call (fixed
start 14) may reach be an index of `req->channels`, and let the first three buckets
(2.4GHz passive, 2.4GHz active, 5GHz passive) hold exactly 14 channels of the request,
or at most 14 with the active 5GHz bucket or the DFS bucket empty.  Then
`wl1271_scan_sched_scan_channels` returns, and in the command it returns: each recorded
count is the size of the bucket cut off at the capacity; the buckets start at slots
`0`, `passive[0]`, `passive[0] + active[0]`, `14` and
`passive[0] + active[0] + passive[1] + active[1]`; every bucket is found, in request
order, in the slots from its start on, each slot holding what the call for that bucket
wrote over the initial slot (no later call overwrote it); slots outside the five buckets
keep their initial value; and when the first three counts add up to 14 the DFS bucket
starts right after the active 5GHz bucket. -/
theorem wl1271_scan_sched_scan_channels_layout (K : scan_constants)
    (c : conf_sched_scan_settings) (req : cfg80211_sched_scan_request)
    (cfg : wl1271_cmd_sched_scan_config)
    (hp : 2 ≤ cfg.passive.length) (ha : 2 ≤ cfg.active.length)
    (hch : cfg.channels.length = K.MAX_CHANNELS_ALL_BANDS)
    (hfit : ∀ m, m < (sched_bucket K req ieee80211_band.IEEE80211_BAND_5GHZ false
        false).length →
      14 + m < K.MAX_CHANNELS_ALL_BANDS → 14 + m < req.n_channels)
    (hgap :
      (sched_bucket K req ieee80211_band.IEEE80211_BAND_2GHZ false true).length +
        (sched_bucket K req ieee80211_band.IEEE80211_BAND_2GHZ false false).length +
        (sched_bucket K req ieee80211_band.IEEE80211_BAND_5GHZ false true).length = 14 ∨
      ((sched_bucket K req ieee80211_band.IEEE80211_BAND_2GHZ false true).length +
        (sched_bucket K req ieee80211_band.IEEE80211_BAND_2GHZ false false).length +
        (sched_bucket K req ieee80211_band.IEEE80211_BAND_5GHZ false true).length ≤ 14 ∧
       ((sched_bucket K req ieee80211_band.IEEE80211_BAND_5GHZ false false).length = 0 ∨
        (sched_bucket K req ieee80211_band.IEEE80211_BAND_5GHZ true false).length = 0))) :
    ∃ idx cfg2,
      wl1271_scan_sched_scan_channels K c req cfg = Except.ok (idx, cfg2) ∧
      (∀ b : sched_call,
        b.count cfg2 = min (sched_bucket K req b.band b.radar b.passive).length
          (K.MAX_CHANNELS_ALL_BANDS - b.start cfg2)) ∧
      (∀ b : sched_call,
        bucket_at K c req cfg.channels cfg2.channels
          (sched_bucket K req b.band b.radar b.passive) (b.start cfg2) (b.count cfg2)) ∧
      (∀ k, (∀ b : sched_call, k < b.start cfg2 ∨ b.start cfg2 + b.count cfg2 ≤ k) →
        cfg2.channels[k]? = cfg.channels[k]?) ∧
      (sched_call.PASSIVE_2GHZ.count cfg2 + sched_call.ACTIVE_2GHZ.count cfg2 +
          sched_call.PASSIVE_5GHZ.count cfg2 = 14 →
        sched_call.DFS_5GHZ.start cfg2
          = sched_call.ACTIVE_5GHZ.start cfg2 + sched_call.ACTIVE_5GHZ.count cfg2) := by
  have hex : ∃ idx cfg2,
      wl1271_scan_sched_scan_channels K c req cfg = Except.ok (idx, cfg2) := by
    obtain ⟨n1, ch1, n2, ch2, n3, ch3, n4, ch4, n5, ch5, h1, h2, h3, h4, h5⟩ :=
      wl1271_scan_sched_scan_channels_calls K c req cfg.channels hfit
    exact ⟨_, _, wl1271_scan_sched_scan_channels_eq K c req cfg hp ha n1 n2 n3 n4 n5
      ch1 ch2 ch3 ch4 ch5 h1 h2 h3 h4 h5⟩
  obtain ⟨idx, cfg2, heq⟩ := hex
  obtain ⟨n1, ch1, n2, ch2, n3, ch3, n4, ch4, n5, ch5, h1, h2, h3, h4, h5, _, hcfg2⟩ :=
    wl1271_scan_sched_scan_channels_of_ok K c req cfg hp ha idx cfg2 heq
  obtain ⟨e1, e2, e3, e4, e5, e6⟩ :=
    sched_call_count_eq cfg hp ha n1 n2 n3 n4 n5 ch5 cfg2 hcfg2
  have s1 := (wl1271_scan_get_sched_scan_channels_spec K c req _ _ _ _ _ _ _ h1).1
  have s2 := (wl1271_scan_get_sched_scan_channels_spec K c req _ _ _ _ _ _ _ h2).1
  have s3 := (wl1271_scan_get_sched_scan_channels_spec K c req _ _ _ _ _ _ _ h3).1
  have s4 := (wl1271_scan_get_sched_scan_channels_spec K c req _ _ _ _ _ _ _ h4).1
  have s5 := (wl1271_scan_get_sched_scan_channels_spec K c req _ _ _ _ _ _ _ h5).1
  have hg := sched_counts_arith _ _ _ _ _ _ _ _ _ _ _ s1 s2 s3 s4 s5
  have hg1 : n1 + n2 + n3 ≤ 14 := hg.2.1 (by
    rcases hgap with h | h
    · exact Nat.le_of_eq h
    · exact h.1)
  have hg2 : n1 + n2 + n3 = 14 ∨ n4 = 0 ∨ n5 = 0 := hg.2.2 hgap
  clear hg hgap hfit hcfg2
  obtain ⟨_, k1, k2, k3, k4, k5, k6⟩ := wl1271_scan_sched_scan_channels_core K c req
    cfg.channels n1 n2 n3 n4 n5 ch1 ch2 ch3 ch4 ch5 h1 h2 h3 h4 h5 hch hg1 hg2
  refine ⟨idx, cfg2, heq, ?_, ?_, ?_, ?_⟩
  · intro b
    cases b <;>
      simp only [sched_call.count, sched_call.start, sched_call.band, sched_call.radar,
        sched_call.passive, e1, e2, e3, e4, e5]
    · exact s1
    · exact s2
    · exact s3
    · exact s4
    · exact s5
  · intro b
    cases b <;>
      simp only [sched_call.count, sched_call.start, sched_call.band, sched_call.radar,
        sched_call.passive, e1, e2, e3, e4, e5, e6]
    · exact k1
    · exact k2
    · exact k3
    · exact k4
    · exact k5
  · intro k hk
    have q1 := hk sched_call.PASSIVE_2GHZ
    have q2 := hk sched_call.ACTIVE_2GHZ
    have q3 := hk sched_call.PASSIVE_5GHZ
    have q4 := hk sched_call.ACTIVE_5GHZ
    have q5 := hk sched_call.DFS_5GHZ
    simp only [sched_call.count, sched_call.start, e1, e2, e3, e4, e5] at q1 q2 q3 q4 q5
    rw [e6]
    have q6 : n1 + n2 + n3 ≤ k := by
      clear e1 e2 e3 e4 e5 e6 k1 k2 k3 k4 k5 k6 heq h1 h2 h3 h4 h5 s1 s2 s3 s4 s5
      omega
    exact k6 k q6 q4 q5
  · simp only [sched_call.count, sched_call.start, e1, e2, e3, e4]
    intro h14
    rw [h14]

/-- Witness of C20: 14 active 2.4GHz channels fill the slots below 14 and two active 5GHz
channels follow from slot 14 on. -/
theorem wl1271_scan_sched_scan_channels_layout_witness :
    (wl1271_cmd_sched_scan_config.zero upstream_constants).channels.length
      = upstream_constants.MAX_CHANNELS_ALL_BANDS ∧
    (sched_bucket upstream_constants two_band_request ieee80211_band.IEEE80211_BAND_2GHZ
        false true).length +
      (sched_bucket upstream_constants two_band_request ieee80211_band.IEEE80211_BAND_2GHZ
        false false).length +
      (sched_bucket upstream_constants two_band_request ieee80211_band.IEEE80211_BAND_5GHZ
        false true).length = 14 ∧
    ∃ idx cfg2,
      wl1271_scan_sched_scan_channels upstream_constants example_sched_conf
          two_band_request (wl1271_cmd_sched_scan_config.zero upstream_constants)
        = Except.ok (idx, cfg2) ∧
      ∀ b : sched_call,
        bucket_at upstream_constants example_sched_conf two_band_request
          (wl1271_cmd_sched_scan_config.zero upstream_constants).channels cfg2.channels
          (sched_bucket upstream_constants two_band_request b.band b.radar b.passive)
          (b.start cfg2) (b.count cfg2) :=
  ⟨by decide, by decide,
    (wl1271_scan_sched_scan_channels_layout upstream_constants example_sched_conf
      two_band_request (wl1271_cmd_sched_scan_config.zero upstream_constants)
      (by decide) (by decide) (by decide) (by decide) (Or.inl (by decide))).imp
      (fun _ h => h.imp (fun _ h => ⟨h.1, h.2.2.1⟩))⟩

/-- Counterexample to C20 as stated: for a request with 15 active 2.4GHz entries (hardware
ids 1 to 15) followed by one active 5GHz entry (hardware id 36), the command records
`active[0] = 15` and `active[1] = 1`, yet slot 14, the fifteenth slot of the active
2.4GHz bucket, holds channel 36 written by the later active 5GHz call (slot 13 still
holds channel 14); and the DFS bucket starts at slot 16, not at slot 15 right after the
active 5GHz bucket. -/
theorem wl1271_scan_sched_scan_channels_overlap :
    (wl1271_scan_sched_scan_channels upstream_constants example_sched_conf overlap_request
        (wl1271_cmd_sched_scan_config.zero upstream_constants)).toOption.map
      (fun r => (r.1, r.2.passive, r.2.active, r.2.dfs,
        (r.2.channels.getD 13 conn_scan_ch_params.zero).channel,
        (r.2.channels.getD 14 conn_scan_ch_params.zero).channel,
        sched_call.DFS_5GHZ.start r.2,
        sched_call.ACTIVE_5GHZ.start r.2 + sched_call.ACTIVE_5GHZ.count r.2))
      = some (16, [0, 0, 0], [15, 1, 0], 0, 14, 36, 16, 15) ∧
    ((sched_bucket upstream_constants overlap_request ieee80211_band.IEEE80211_BAND_2GHZ
      false false).map (fun ch => ch.hw_value))[14]? = some 15 := by
  exact ⟨rfl, rfl⟩


/-! ## Theorems: scheduled scan, the configuration command -/

/-- With every bucket empty `wl1271_scan_sched_scan_channels` returns 0 and makes no read
of `req->channels[j]`. -/
theorem wl1271_scan_sched_scan_channels_empty (K : scan_constants)
    (c : conf_sched_scan_settings) (req : cfg80211_sched_scan_request)
    (cfg : wl1271_cmd_sched_scan_config)
    (hp : 2 ≤ cfg.passive.length) (ha : 2 ≤ cfg.active.length)
    (hempty : ∀ b : sched_call, sched_bucket K req b.band b.radar b.passive = []) :
    ∃ cfg2, wl1271_scan_sched_scan_channels K c req cfg = Except.ok (0, cfg2) := by
  have e1 := hempty sched_call.PASSIVE_2GHZ
  have e2 := hempty sched_call.ACTIVE_2GHZ
  have e3 := hempty sched_call.PASSIVE_5GHZ
  have e4 := hempty sched_call.ACTIVE_5GHZ
  have e5 := hempty sched_call.DFS_5GHZ
  simp only [sched_call.band, sched_call.radar, sched_call.passive] at e1 e2 e3 e4 e5
  obtain ⟨n1, ch1, n2, ch2, n3, ch3, n4, ch4, n5, ch5, h1, h2, h3, h4, h5⟩ :=
    wl1271_scan_sched_scan_channels_calls K c req cfg.channels (by
      intro m hm; rw [e4] at hm; exact absurd hm (Nat.not_lt_zero _))
  have s1 := (wl1271_scan_get_sched_scan_channels_spec K c req _ _ _ _ _ _ _ h1).1
  have s2 := (wl1271_scan_get_sched_scan_channels_spec K c req _ _ _ _ _ _ _ h2).1
  have s3 := (wl1271_scan_get_sched_scan_channels_spec K c req _ _ _ _ _ _ _ h3).1
  have s4 := (wl1271_scan_get_sched_scan_channels_spec K c req _ _ _ _ _ _ _ h4).1
  have s5 := (wl1271_scan_get_sched_scan_channels_spec K c req _ _ _ _ _ _ _ h5).1
  rw [e1] at s1; rw [e2] at s2; rw [e3] at s3; rw [e4] at s4; rw [e5] at s5
  simp only [List.length_nil, Nat.zero_min] at s1 s2 s3 s4 s5
  have h := wl1271_scan_sched_scan_channels_eq K c req cfg hp ha n1 n2 n3 n4 n5
    ch1 ch2 ch3 ch4 ch5 h1 h2 h3 h4 h5
  rw [s1, s2, s3, s4, s5] at h
  exact ⟨_, h⟩

/-- Function `wl1271_scan_sched_scan_config` once its buffer is allocated, `req->ssids[0]`
is read and `wl1271_scan_sched_scan_channels` has returned. -/
theorem wl1271_scan_sched_scan_config_eq (K : scan_constants) (env : environment)
    (wl : wl1271) (req : cfg80211_sched_scan_request) (ies : ieee80211_sched_scan_ies)
    (ssid0 : cfg80211_ssid) (total : Nat) (cfg2 : wl1271_cmd_sched_scan_config)
    (halloc : env.kzalloc (wl.log ++ [event.kzalloc]) = true)
    (hssid : req.ssids[0]? = some ssid0)
    (hch : wl1271_scan_sched_scan_channels K wl.conf_sched_scan req
      (wl1271_scan_sched_scan_config_cmd K wl.conf_sched_scan req ssid0)
        = Except.ok (total, cfg2)) :
    wl1271_scan_sched_scan_config K env wl req ies
      = Except.ok (if total = 0 then (-EINVAL, wl.emit event.kzalloc)
          else wl1271_scan_sched_scan_config_2ghz env (wl.emit event.kzalloc) ssid0 ies
            cfg2) := by
  unfold wl1271_scan_sched_scan_config
  simp only [wl1271.emit, halloc, Bool.not_true, Bool.false_eq_true, if_false, hssid]
  have hch2 : wl1271_scan_sched_scan_channels K wl.conf_sched_scan req
      (wl1271_scan_sched_scan_config_cmd K wl.conf_sched_scan req ssid0)
        = Except.ok (total, cfg2) := hch
  rw [hch2]
  by_cases ht : total = 0
  · simp [ht]
  · simp [ht]

/-- C21 as amended: for a request with an SSID entry whose total channel count (the value
`wl1271_scan_sched_scan_channels` returns) is zero, `wl1271_scan_sched_scan_config`
returns `-EINVAL` (-22) when its command buffer is allocated and `-ENOMEM` (-12) when the
allocation fails; in both cases the only action it logs is the allocation: no
probe-request template is built and no command is sent. -/
theorem wl1271_scan_sched_scan_config_empty (K : scan_constants) (env : environment)
    (wl : wl1271) (req : cfg80211_sched_scan_request) (ies : ieee80211_sched_scan_ies)
    (ssid0 : cfg80211_ssid) (hssid : req.ssids[0]? = some ssid0)
    (htotal : ∃ cfg2, wl1271_scan_sched_scan_channels K wl.conf_sched_scan req
      (wl1271_scan_sched_scan_config_cmd K wl.conf_sched_scan req ssid0)
        = Except.ok (0, cfg2)) :
    ∃ ret, wl1271_scan_sched_scan_config K env wl req ies
        = Except.ok (ret, { wl with log := wl.log ++ [event.kzalloc] }) ∧
      (env.kzalloc (wl.log ++ [event.kzalloc]) = true → ret = -22) ∧
      (env.kzalloc (wl.log ++ [event.kzalloc]) = false → ret = -12) ∧
      ret < 0 ∧
      ∀ e ∈ [event.kzalloc], e.is_command = false ∧ e.is_template_build = false := by
  obtain ⟨cfg2, hch⟩ := htotal
  have hlog : ∀ e ∈ [event.kzalloc], e.is_command = false ∧ e.is_template_build = false := by
    intro e he
    simp only [List.mem_singleton] at he
    subst he
    exact ⟨rfl, rfl⟩
  cases halloc : env.kzalloc (wl.log ++ [event.kzalloc])
  · refine ⟨-12, ?_, ?_, ?_, ?_, hlog⟩
    · unfold wl1271_scan_sched_scan_config
      simp [wl1271.emit, halloc, ENOMEM]
    · intro h; cases h
    · intro _; rfl
    · decide
  · refine ⟨-22, ?_, ?_, ?_, ?_, hlog⟩
    · rw [wl1271_scan_sched_scan_config_eq K env wl req ies ssid0 0 cfg2 halloc hssid hch]
      simp [wl1271.emit, EINVAL]
    · intro _; rfl
    · intro h; cases h
    · decide

/-- Witness of C21 (amended): a request whose channels are all disabled. -/
theorem wl1271_scan_sched_scan_config_empty_witness :
    empty_sched_request.ssids[0]? = some example_ssid ∧
    ∃ ret, wl1271_scan_sched_scan_config upstream_constants env_ok example_sched_wl
          empty_sched_request example_ies
        = Except.ok (ret, { example_sched_wl with
            log := example_sched_wl.log ++ [event.kzalloc] }) ∧
      ret = -22 :=
  ⟨rfl,
    (wl1271_scan_sched_scan_config_empty upstream_constants env_ok example_sched_wl
      empty_sched_request example_ies example_ssid rfl ⟨_, rfl⟩).imp
      (fun _ h => ⟨h.1, h.2.1 rfl⟩)⟩

/-- Counterexample to C21 as stated: every channel of the request is disabled, so the
total channel count is zero, yet with an allocator that fails
`wl1271_scan_sched_scan_config` returns `-ENOMEM` (-12), not `-EINVAL` (-22). -/
theorem wl1271_scan_sched_scan_config_empty_alloc_failure :
    (wl1271_scan_sched_scan_channels upstream_constants example_sched_wl.conf_sched_scan
        empty_sched_request
        (wl1271_scan_sched_scan_config_cmd upstream_constants
          example_sched_wl.conf_sched_scan empty_sched_request example_ssid)).toOption.map
      (fun r => r.1) = some 0 ∧
    (wl1271_scan_sched_scan_config upstream_constants env_nomem example_sched_wl
        empty_sched_request example_ies).toOption.map (fun r => (r.1, r.2.log))
      = some (-12, [event.kzalloc]) := by
  exact ⟨rfl, rfl⟩


/-- The two template steps and the send of `wl1271_scan_sched_scan_config` in closed
form: what is returned and what is logged, by the two active counts and the results of
the template builds. -/
theorem wl1271_scan_sched_scan_config_2ghz_eq (env : environment) (wl : wl1271)
    (ssid0 : cfg80211_ssid) (ies : ieee80211_sched_scan_ies)
    (cfg : wl1271_cmd_sched_scan_config) :
    wl1271_scan_sched_scan_config_2ghz env wl ssid0 ies cfg
      = if cfg.active.getD 0 0 ≠ 0 ∧
            env.wl1271_cmd_build_probe_req (wl.log ++
              [sched_template ssid0 ies ieee80211_band.IEEE80211_BAND_2GHZ]) ≠ 0 then
          (-(env.wl1271_cmd_build_probe_req (wl.log ++
              [sched_template ssid0 ies ieee80211_band.IEEE80211_BAND_2GHZ]) : Int),
            { wl with log := wl.log ++
              [sched_template ssid0 ies ieee80211_band.IEEE80211_BAND_2GHZ] })
        else if cfg.active.getD 1 0 ≠ 0 ∧
            env.wl1271_cmd_build_probe_req (wl.log ++
              (if cfg.active.getD 0 0 ≠ 0 then
                [sched_template ssid0 ies ieee80211_band.IEEE80211_BAND_2GHZ] else []) ++
              [sched_template ssid0 ies ieee80211_band.IEEE80211_BAND_5GHZ]) ≠ 0 then
          (-(env.wl1271_cmd_build_probe_req (wl.log ++
              (if cfg.active.getD 0 0 ≠ 0 then
                [sched_template ssid0 ies ieee80211_band.IEEE80211_BAND_2GHZ] else []) ++
              [sched_template ssid0 ies ieee80211_band.IEEE80211_BAND_5GHZ]) : Int),
            { wl with log := wl.log ++
              (if cfg.active.getD 0 0 ≠ 0 then
                [sched_template ssid0 ies ieee80211_band.IEEE80211_BAND_2GHZ] else []) ++
              [sched_template ssid0 ies ieee80211_band.IEEE80211_BAND_5GHZ] })
        else
          (-(env.wl1271_cmd_send (wl.log ++
              (if cfg.active.getD 0 0 ≠ 0 then
                [sched_template ssid0 ies ieee80211_band.IEEE80211_BAND_2GHZ] else []) ++
              (if cfg.active.getD 1 0 ≠ 0 then
                [sched_template ssid0 ies ieee80211_band.IEEE80211_BAND_5GHZ] else []) ++
              [event.wl1271_cmd_send (command.CMD_CONNECTION_SCAN_CFG cfg)]) : Int),
            { wl with log := wl.log ++
              (if cfg.active.getD 0 0 ≠ 0 then
                [sched_template ssid0 ies ieee80211_band.IEEE80211_BAND_2GHZ] else []) ++
              (if cfg.active.getD 1 0 ≠ 0 then
                [sched_template ssid0 ies ieee80211_band.IEEE80211_BAND_5GHZ] else []) ++
              [event.wl1271_cmd_send (command.CMD_CONNECTION_SCAN_CFG cfg)] }) := by
  unfold wl1271_scan_sched_scan_config_2ghz wl1271_scan_sched_scan_config_5ghz
    wl1271_scan_sched_scan_config_send sched_template
  generalize cfg.active.getD 0 0 = a0
  generalize cfg.active.getD 1 0 = a1
  simp only [wl1271.emit, neg_errno_lt_zero, bne_iff_ne, ne_eq]
  by_cases h0 : a0 = 0 <;> by_cases h1 : a1 = 0
  · simp [h0, h1]
  · by_cases e5 : env.wl1271_cmd_build_probe_req (wl.log ++
        [event.wl1271_cmd_build_probe_req ssid0.ssid ssid0.ssid_len
          (ies.ie ieee80211_band.IEEE80211_BAND_5GHZ) ieee80211_band.IEEE80211_BAND_5GHZ]) = 0
    · simp [h0, h1, e5]
    · simp [h0, h1, e5]
  · by_cases e2 : env.wl1271_cmd_build_probe_req (wl.log ++
        [event.wl1271_cmd_build_probe_req ssid0.ssid ssid0.ssid_len
          (ies.ie ieee80211_band.IEEE80211_BAND_2GHZ) ieee80211_band.IEEE80211_BAND_2GHZ]) = 0
    · simp [h0, h1, e2]
    · simp [h0, h1, e2]
  · by_cases e2 : env.wl1271_cmd_build_probe_req (wl.log ++
        [event.wl1271_cmd_build_probe_req ssid0.ssid ssid0.ssid_len
          (ies.ie ieee80211_band.IEEE80211_BAND_2GHZ) ieee80211_band.IEEE80211_BAND_2GHZ]) = 0
    · by_cases e5 : env.wl1271_cmd_build_probe_req (wl.log ++
          [event.wl1271_cmd_build_probe_req ssid0.ssid ssid0.ssid_len
            (ies.ie ieee80211_band.IEEE80211_BAND_2GHZ) ieee80211_band.IEEE80211_BAND_2GHZ,
           event.wl1271_cmd_build_probe_req ssid0.ssid ssid0.ssid_len
            (ies.ie ieee80211_band.IEEE80211_BAND_5GHZ)
            ieee80211_band.IEEE80211_BAND_5GHZ]) = 0
      · simp [h0, h1, e2, e5]
      · simp [h0, h1, e2, e5]
    · simp [h0, h1, e2]

/-- The template steps of `wl1271_scan_sched_scan_config` when the partitioner has
returned: let the command buffer be allocated, `req->ssids[0]` exist and
`wl1271_scan_sched_scan_channels` return a non-zero total with the command `cfg2`.  Then
the function returns, and the list `added` that it appends to the log after the
allocation is characterised by the two active counts of `cfg2` and the results of the
template builds, as spelled out in the theorem on the probe templates below. -/
theorem wl1271_scan_sched_scan_config_templates_of_ok (K : scan_constants) (env : environment)
    (wl : wl1271) (req : cfg80211_sched_scan_request) (ies : ieee80211_sched_scan_ies)
    (ssid0 : cfg80211_ssid) (total : Nat) (cfg2 : wl1271_cmd_sched_scan_config)
    (halloc : env.kzalloc (wl.log ++ [event.kzalloc]) = true)
    (hssid : req.ssids[0]? = some ssid0)
    (hch : wl1271_scan_sched_scan_channels K wl.conf_sched_scan req
      (wl1271_scan_sched_scan_config_cmd K wl.conf_sched_scan req ssid0)
        = Except.ok (total, cfg2))
    (htotal : total ≠ 0) :
    ∃ ret added,
      wl1271_scan_sched_scan_config K env wl req ies
        = Except.ok (ret, { wl with log := wl.log ++ [event.kzalloc] ++ added }) ∧
      (sched_template ssid0 ies ieee80211_band.IEEE80211_BAND_2GHZ ∈ added ↔
        cfg2.active.getD 0 0 ≠ 0) ∧
      (sched_template ssid0 ies ieee80211_band.IEEE80211_BAND_5GHZ ∈ added ↔
        (cfg2.active.getD 1 0 ≠ 0 ∧
          ¬ (cfg2.active.getD 0 0 ≠ 0 ∧
            env.wl1271_cmd_build_probe_req (wl.log ++ [event.kzalloc] ++
              [sched_template ssid0 ies ieee80211_band.IEEE80211_BAND_2GHZ]) ≠ 0))) ∧
      (∀ cmd, event.wl1271_cmd_send cmd ∈ added →
        cmd = command.CMD_CONNECTION_SCAN_CFG cfg2 ∧
        ∃ pre, added = pre ++ [event.wl1271_cmd_send cmd] ∧
          ∀ e ∈ pre, e.is_command = false ∧ e.is_template_build = true) ∧
      (event.wl1271_cmd_send (command.CMD_CONNECTION_SCAN_CFG cfg2) ∈ added ↔
        (¬ (cfg2.active.getD 0 0 ≠ 0 ∧
            env.wl1271_cmd_build_probe_req (wl.log ++ [event.kzalloc] ++
              [sched_template ssid0 ies ieee80211_band.IEEE80211_BAND_2GHZ]) ≠ 0) ∧
         ¬ (cfg2.active.getD 1 0 ≠ 0 ∧
            env.wl1271_cmd_build_probe_req (wl.log ++ [event.kzalloc] ++
              (if cfg2.active.getD 0 0 ≠ 0 then
                [sched_template ssid0 ies ieee80211_band.IEEE80211_BAND_2GHZ] else []) ++
              [sched_template ssid0 ies ieee80211_band.IEEE80211_BAND_5GHZ]) ≠ 0))) ∧
      ((cfg2.active.getD 0 0 ≠ 0 ∧
          env.wl1271_cmd_build_probe_req (wl.log ++ [event.kzalloc] ++
            [sched_template ssid0 ies ieee80211_band.IEEE80211_BAND_2GHZ]) ≠ 0) →
        ret = -(env.wl1271_cmd_build_probe_req (wl.log ++ [event.kzalloc] ++
            [sched_template ssid0 ies ieee80211_band.IEEE80211_BAND_2GHZ]) : Int) ∧
        ret < 0 ∧
        added = [sched_template ssid0 ies ieee80211_band.IEEE80211_BAND_2GHZ]) ∧
      (¬ (cfg2.active.getD 0 0 ≠ 0 ∧
          env.wl1271_cmd_build_probe_req (wl.log ++ [event.kzalloc] ++
            [sched_template ssid0 ies ieee80211_band.IEEE80211_BAND_2GHZ]) ≠ 0) →
        (cfg2.active.getD 1 0 ≠ 0 ∧
          env.wl1271_cmd_build_probe_req (wl.log ++ [event.kzalloc] ++
            (if cfg2.active.getD 0 0 ≠ 0 then
              [sched_template ssid0 ies ieee80211_band.IEEE80211_BAND_2GHZ] else []) ++
            [sched_template ssid0 ies ieee80211_band.IEEE80211_BAND_5GHZ]) ≠ 0) →
        ret = -(env.wl1271_cmd_build_probe_req (wl.log ++ [event.kzalloc] ++
            (if cfg2.active.getD 0 0 ≠ 0 then
              [sched_template ssid0 ies ieee80211_band.IEEE80211_BAND_2GHZ] else []) ++
            [sched_template ssid0 ies ieee80211_band.IEEE80211_BAND_5GHZ]) : Int) ∧
        ret < 0 ∧
        added = (if cfg2.active.getD 0 0 ≠ 0 then
              [sched_template ssid0 ies ieee80211_band.IEEE80211_BAND_2GHZ] else []) ++
            [sched_template ssid0 ies ieee80211_band.IEEE80211_BAND_5GHZ]) ∧
      (event.wl1271_cmd_send (command.CMD_CONNECTION_SCAN_CFG cfg2) ∈ added →
        ret = -(env.wl1271_cmd_send (wl.log ++ [event.kzalloc] ++ added) : Int)) := by
  rw [wl1271_scan_sched_scan_config_eq K env wl req ies ssid0 total cfg2 halloc hssid hch,
    if_neg htotal, wl1271_scan_sched_scan_config_2ghz_eq]
  simp only [wl1271.emit]
  generalize cfg2.active.getD 0 0 = a0
  generalize cfg2.active.getD 1 0 = a1
  have hne : sched_template ssid0 ies ieee80211_band.IEEE80211_BAND_2GHZ
      ≠ sched_template ssid0 ies ieee80211_band.IEEE80211_BAND_5GHZ := by
    simp [sched_template]
  have hs2 : ∀ cmd, event.wl1271_cmd_send cmd
      ≠ sched_template ssid0 ies ieee80211_band.IEEE80211_BAND_2GHZ := by
    intro cmd; simp [sched_template]
  have hs5 : ∀ cmd, event.wl1271_cmd_send cmd
      ≠ sched_template ssid0 ies ieee80211_band.IEEE80211_BAND_5GHZ := by
    intro cmd; simp [sched_template]
  have hB2 : (sched_template ssid0 ies ieee80211_band.IEEE80211_BAND_2GHZ).is_command = false ∧
      (sched_template ssid0 ies ieee80211_band.IEEE80211_BAND_2GHZ).is_template_build
        = true := ⟨rfl, rfl⟩
  have hB5 : (sched_template ssid0 ies ieee80211_band.IEEE80211_BAND_5GHZ).is_command = false ∧
      (sched_template ssid0 ies ieee80211_band.IEEE80211_BAND_5GHZ).is_template_build
        = true := ⟨rfl, rfl⟩
  generalize sched_template ssid0 ies ieee80211_band.IEEE80211_BAND_2GHZ = B2 at *
  generalize sched_template ssid0 ies ieee80211_band.IEEE80211_BAND_5GHZ = B5 at *
  have hmem : ∀ (a : Nat) (B e : event), e ∈ (if a ≠ 0 then [B] else []) ↔ a ≠ 0 ∧ e = B := by
    intro a B e
    by_cases h : a = 0 <;> simp [h]
  have hS : ∀ cmd, event.wl1271_cmd_send cmd
      = event.wl1271_cmd_send (command.CMD_CONNECTION_SCAN_CFG cfg2) →
        cmd = command.CMD_CONNECTION_SCAN_CFG cfg2 := by
    intro cmd h; injection h
  generalize env.wl1271_cmd_build_probe_req (wl.log ++ [event.kzalloc] ++ [B2]) = e2
  generalize env.wl1271_cmd_build_probe_req (wl.log ++ [event.kzalloc] ++
    (if a0 ≠ 0 then [B2] else []) ++ [B5]) = e5
  by_cases f2 : a0 ≠ 0 ∧ e2 ≠ 0
  · rw [if_pos f2]
    refine ⟨-(e2 : Int), [B2], by simp, ?_, ?_, ?_, ?_, ?_, ?_, ?_⟩
    · simp only [List.mem_singleton, true_iff]; exact f2.1
    · simp only [List.mem_singleton]
      constructor
      · intro h; exact absurd h.symm hne
      · intro h; exact absurd f2 h.2
    · intro cmd h
      simp only [List.mem_singleton] at h
      exact absurd h (hs2 cmd)
    · simp only [List.mem_singleton]
      constructor
      · intro h; exact absurd h (hs2 _)
      · intro h; exact absurd f2 h.1
    · intro _; exact ⟨rfl, (neg_errno_lt_zero _).2 f2.2, rfl⟩
    · intro h; exact absurd f2 h
    · intro h
      simp only [List.mem_singleton] at h
      exact absurd h (hs2 _)
  · rw [if_neg f2]
    by_cases f5 : a1 ≠ 0 ∧ e5 ≠ 0
    · rw [if_pos f5]
      refine ⟨-(e5 : Int), (if a0 ≠ 0 then [B2] else []) ++ [B5], by simp,
        ?_, ?_, ?_, ?_, ?_, ?_, ?_⟩
      · simp only [List.mem_append, List.mem_singleton, hmem]
        constructor
        · rintro (h | h)
          · exact h.1
          · exact absurd h hne
        · intro h; exact Or.inl ⟨h, trivial⟩
      · simp only [List.mem_append, List.mem_singleton, hmem]
        constructor
        · intro _; exact ⟨f5.1, f2⟩
        · intro _; exact Or.inr trivial
      · intro cmd h
        simp only [List.mem_append, List.mem_singleton, hmem] at h
        rcases h with h | h
        · exact absurd h.2 (hs2 cmd)
        · exact absurd h (hs5 cmd)
      · simp only [List.mem_append, List.mem_singleton, hmem]
        constructor
        · rintro (h | h)
          · exact absurd h.2 (hs2 _)
          · exact absurd h (hs5 _)
        · intro h; exact absurd f5 h.2
      · intro h; exact absurd h f2
      · intro _ _; exact ⟨rfl, (neg_errno_lt_zero _).2 f5.2, rfl⟩
      · intro h
        simp only [List.mem_append, List.mem_singleton, hmem] at h
        rcases h with h | h
        · exact absurd h.2 (hs2 _)
        · exact absurd h (hs5 _)
    · rw [if_neg f5]
      refine ⟨-(env.wl1271_cmd_send (wl.log ++ [event.kzalloc] ++
          (if a0 ≠ 0 then [B2] else []) ++ (if a1 ≠ 0 then [B5] else []) ++
          [event.wl1271_cmd_send (command.CMD_CONNECTION_SCAN_CFG cfg2)]) : Int),
        (if a0 ≠ 0 then [B2] else []) ++ (if a1 ≠ 0 then [B5] else []) ++
        [event.wl1271_cmd_send (command.CMD_CONNECTION_SCAN_CFG cfg2)],
        by simp, ?_, ?_, ?_, ?_, ?_, ?_, ?_⟩
      · simp only [List.mem_append, List.mem_singleton, hmem]
        constructor
        · rintro ((h | h) | h)
          · exact h.1
          · exact absurd h.2 hne
          · exact absurd h.symm (hs2 _)
        · intro h; exact Or.inl (Or.inl ⟨h, trivial⟩)
      · simp only [List.mem_append, List.mem_singleton, hmem]
        constructor
        · rintro ((h | h) | h)
          · exact absurd h.2.symm hne
          · exact ⟨h.1, f2⟩
          · exact absurd h.symm (hs5 _)
        · intro h; exact Or.inl (Or.inr ⟨h.1, trivial⟩)
      · intro cmd h
        simp only [List.mem_append, List.mem_singleton, hmem] at h
        have hc : cmd = command.CMD_CONNECTION_SCAN_CFG cfg2 := by
          rcases h with (h | h) | h
          · exact absurd h.2 (hs2 cmd)
          · exact absurd h.2 (hs5 cmd)
          · exact hS cmd h
        subst hc
        refine ⟨rfl, _, rfl, ?_⟩
        intro e he
        simp only [List.mem_append, hmem] at he
        rcases he with he | he
        · rw [he.2]; exact hB2
        · rw [he.2]; exact hB5
      · simp only [List.mem_append, List.mem_singleton, hmem]
        constructor
        · intro _; exact ⟨f2, f5⟩
        · intro _; exact Or.inr trivial
      · intro h; exact absurd h f2
      · intro _ h; exact absurd h f5
      · intro _; simp [List.append_assoc]

/-- C22 as amended: let `req->ssids[0]` exist and every slot index that the active 5GHz
call (fixed start 14) may reach be an index of `req->channels`.  Then
`wl1271_scan_sched_scan_channels` returns a total and the command `cfg2`, whose counts
`active[0]` and `active[1]` are the sizes of the active 2.4GHz and active 5GHz buckets of
the request, cut off at the capacity, and `wl1271_scan_sched_scan_config` returns.
If the allocation of the command buffer fails it returns `-ENOMEM` (-12) and logs the
allocation alone.  If the buffer is allocated and the total is zero it returns `-EINVAL`
(-22) and logs nothing after the allocation, and both active counts are zero.
If the buffer is allocated and the total is not zero, say that the 2.4GHz build fails
when `active[0] != 0` and the 2.4GHz template build (logged right after the allocation)
has a non-zero errno, and that the 5GHz build fails when the 2.4GHz build does not fail,
`active[1] != 0` and the 5GHz template build has a non-zero errno.  Of the list `added`
that the function appends to the log after the allocation: the 2.4GHz template is in it
iff `active[0] != 0`; the 5GHz template is in it iff `active[1] != 0` and the 2.4GHz
build does not fail; a command in it is the configuration command with `cfg2`, is its
last entry, and is preceded by template builds only; the configuration command is in it
iff neither build fails; if the 2.4GHz build fails, the function returns its negative
result and `added` is that build alone; if the 5GHz build fails, the function returns
its negative result and `added` ends with that build; and if neither fails it returns
the result of the transport for the configuration command. -/
theorem wl1271_scan_sched_scan_config_templates (K : scan_constants) (env : environment)
    (wl : wl1271) (req : cfg80211_sched_scan_request) (ies : ieee80211_sched_scan_ies)
    (ssid0 : cfg80211_ssid)
    (hssid : req.ssids[0]? = some ssid0)
    (hfit : ∀ m, m < (sched_bucket K req ieee80211_band.IEEE80211_BAND_5GHZ false
        false).length →
      14 + m < K.MAX_CHANNELS_ALL_BANDS → 14 + m < req.n_channels) :
    ∃ total cfg2,
      wl1271_scan_sched_scan_channels K wl.conf_sched_scan req
        (wl1271_scan_sched_scan_config_cmd K wl.conf_sched_scan req ssid0)
          = Except.ok (total, cfg2) ∧
      cfg2.active.getD 0 0
        = min (sched_bucket K req ieee80211_band.IEEE80211_BAND_2GHZ false false).length
            (K.MAX_CHANNELS_ALL_BANDS - cfg2.passive.getD 0 0) ∧
      cfg2.active.getD 1 0
        = min (sched_bucket K req ieee80211_band.IEEE80211_BAND_5GHZ false false).length
            (K.MAX_CHANNELS_ALL_BANDS - 14) ∧
      (env.kzalloc (wl.log ++ [event.kzalloc]) = false →
        wl1271_scan_sched_scan_config K env wl req ies
          = Except.ok (-12, { wl with log := wl.log ++ [event.kzalloc] })) ∧
      (env.kzalloc (wl.log ++ [event.kzalloc]) = true →
        ∃ ret added,
          wl1271_scan_sched_scan_config K env wl req ies
            = Except.ok (ret, { wl with log := wl.log ++ [event.kzalloc] ++ added }) ∧
          (total = 0 →
            ret = -22 ∧ added = [] ∧ cfg2.active.getD 0 0 = 0 ∧ cfg2.active.getD 1 0 = 0) ∧
          (total ≠ 0 →
            (sched_template ssid0 ies ieee80211_band.IEEE80211_BAND_2GHZ ∈ added ↔
              cfg2.active.getD 0 0 ≠ 0) ∧
            (sched_template ssid0 ies ieee80211_band.IEEE80211_BAND_5GHZ ∈ added ↔
              (cfg2.active.getD 1 0 ≠ 0 ∧
                ¬ (cfg2.active.getD 0 0 ≠ 0 ∧
                  env.wl1271_cmd_build_probe_req (wl.log ++ [event.kzalloc] ++
                    [sched_template ssid0 ies ieee80211_band.IEEE80211_BAND_2GHZ]) ≠ 0))) ∧
            (∀ cmd, event.wl1271_cmd_send cmd ∈ added →
              cmd = command.CMD_CONNECTION_SCAN_CFG cfg2 ∧
              ∃ pre, added = pre ++ [event.wl1271_cmd_send cmd] ∧
                ∀ e ∈ pre, e.is_command = false ∧ e.is_template_build = true) ∧
            (event.wl1271_cmd_send (command.CMD_CONNECTION_SCAN_CFG cfg2) ∈ added ↔
              (¬ (cfg2.active.getD 0 0 ≠ 0 ∧
                  env.wl1271_cmd_build_probe_req (wl.log ++ [event.kzalloc] ++
                    [sched_template ssid0 ies ieee80211_band.IEEE80211_BAND_2GHZ]) ≠ 0) ∧
               ¬ (cfg2.active.getD 1 0 ≠ 0 ∧
                  env.wl1271_cmd_build_probe_req (wl.log ++ [event.kzalloc] ++
                    (if cfg2.active.getD 0 0 ≠ 0 then
                      [sched_template ssid0 ies ieee80211_band.IEEE80211_BAND_2GHZ] else []) ++
                    [sched_template ssid0 ies ieee80211_band.IEEE80211_BAND_5GHZ]) ≠ 0))) ∧
            ((cfg2.active.getD 0 0 ≠ 0 ∧
                env.wl1271_cmd_build_probe_req (wl.log ++ [event.kzalloc] ++
                  [sched_template ssid0 ies ieee80211_band.IEEE80211_BAND_2GHZ]) ≠ 0) →
              ret = -(env.wl1271_cmd_build_probe_req (wl.log ++ [event.kzalloc] ++
                  [sched_template ssid0 ies ieee80211_band.IEEE80211_BAND_2GHZ]) : Int) ∧
              ret < 0 ∧
              added = [sched_template ssid0 ies ieee80211_band.IEEE80211_BAND_2GHZ]) ∧
            (¬ (cfg2.active.getD 0 0 ≠ 0 ∧
                env.wl1271_cmd_build_probe_req (wl.log ++ [event.kzalloc] ++
                  [sched_template ssid0 ies ieee80211_band.IEEE80211_BAND_2GHZ]) ≠ 0) →
              (cfg2.active.getD 1 0 ≠ 0 ∧
                env.wl1271_cmd_build_probe_req (wl.log ++ [event.kzalloc] ++
                  (if cfg2.active.getD 0 0 ≠ 0 then
                    [sched_template ssid0 ies ieee80211_band.IEEE80211_BAND_2GHZ] else []) ++
                  [sched_template ssid0 ies ieee80211_band.IEEE80211_BAND_5GHZ]) ≠ 0) →
              ret = -(env.wl1271_cmd_build_probe_req (wl.log ++ [event.kzalloc] ++
                  (if cfg2.active.getD 0 0 ≠ 0 then
                    [sched_template ssid0 ies ieee80211_band.IEEE80211_BAND_2GHZ] else []) ++
                  [sched_template ssid0 ies ieee80211_band.IEEE80211_BAND_5GHZ]) : Int) ∧
              ret < 0 ∧
              added = (if cfg2.active.getD 0 0 ≠ 0 then
                    [sched_template ssid0 ies ieee80211_band.IEEE80211_BAND_2GHZ] else []) ++
                  [sched_template ssid0 ies ieee80211_band.IEEE80211_BAND_5GHZ]) ∧
            (event.wl1271_cmd_send (command.CMD_CONNECTION_SCAN_CFG cfg2) ∈ added →
              ret = -(env.wl1271_cmd_send (wl.log ++ [event.kzalloc] ++ added) : Int)))) := by
  have hp : 2 ≤
      (wl1271_scan_sched_scan_config_cmd K wl.conf_sched_scan req ssid0).passive.length := by
    simp [wl1271_scan_sched_scan_config_cmd, wl1271_cmd_sched_scan_config.zero]
  have ha : 2 ≤
      (wl1271_scan_sched_scan_config_cmd K wl.conf_sched_scan req ssid0).active.length := by
    simp [wl1271_scan_sched_scan_config_cmd, wl1271_cmd_sched_scan_config.zero]
  obtain ⟨n1, ch1, n2, ch2, n3, ch3, n4, ch4, n5, ch5, h1, h2, h3, h4, h5⟩ :=
    wl1271_scan_sched_scan_channels_calls K wl.conf_sched_scan req
      (wl1271_scan_sched_scan_config_cmd K wl.conf_sched_scan req ssid0).channels hfit
  have heq := wl1271_scan_sched_scan_channels_eq K wl.conf_sched_scan req
    (wl1271_scan_sched_scan_config_cmd K wl.conf_sched_scan req ssid0) hp ha
    n1 n2 n3 n4 n5 ch1 ch2 ch3 ch4 ch5 h1 h2 h3 h4 h5
  obtain ⟨c1, c2, c3, c4, c5, c6⟩ := sched_call_count_eq
    (wl1271_scan_sched_scan_config_cmd K wl.conf_sched_scan req ssid0) hp ha
    n1 n2 n3 n4 n5 ch5 _ rfl
  have s2 := (wl1271_scan_get_sched_scan_channels_spec K wl.conf_sched_scan req _ _ _ _ _ _
    _ h2).1
  have s4 := (wl1271_scan_get_sched_scan_channels_spec K wl.conf_sched_scan req _ _ _ _ _ _
    _ h4).1
  refine ⟨_, _, heq, ?_, ?_, ?_, ?_⟩
  · rw [c2, c1]; exact s2
  · rw [c4]; exact s4
  · intro halloc
    unfold wl1271_scan_sched_scan_config
    simp [wl1271.emit, halloc, ENOMEM]
  · intro halloc
    by_cases ht : n1 + n2 + n3 + n4 + n5 = 0
    · refine ⟨-22, [], ?_, ?_, ?_⟩
      · rw [wl1271_scan_sched_scan_config_eq K env wl req ies ssid0 _ _ halloc hssid heq,
          if_pos ht]
        simp [wl1271.emit, EINVAL]
      · intro _
        refine ⟨rfl, rfl, ?_, ?_⟩
        · rw [c2]; omega
        · rw [c4]; omega
      · intro h; exact absurd ht h
    · obtain ⟨ret, added, hres, hrest⟩ :=
        wl1271_scan_sched_scan_config_templates_of_ok K env wl req ies ssid0 _ _ halloc hssid
          heq ht
      exact ⟨ret, added, hres, fun h => absurd h ht, fun _ => hrest⟩

/-- Witness of C22: 14 active 2.4GHz and two active 5GHz channels. -/
theorem wl1271_scan_sched_scan_config_templates_witness :
    two_band_sched_request.ssids[0]? = some example_ssid ∧
    (∀ m, m < (sched_bucket upstream_constants two_band_sched_request
        ieee80211_band.IEEE80211_BAND_5GHZ false false).length →
      14 + m < upstream_constants.MAX_CHANNELS_ALL_BANDS →
      14 + m < two_band_sched_request.n_channels) ∧
    ∃ total cfg2,
      wl1271_scan_sched_scan_channels upstream_constants example_sched_wl.conf_sched_scan
        two_band_sched_request
        (wl1271_scan_sched_scan_config_cmd upstream_constants
          example_sched_wl.conf_sched_scan two_band_sched_request example_ssid)
          = Except.ok (total, cfg2) ∧
      ∃ ret added,
        wl1271_scan_sched_scan_config upstream_constants env_ok example_sched_wl
            two_band_sched_request example_ies
          = Except.ok (ret, { example_sched_wl with
              log := example_sched_wl.log ++ [event.kzalloc] ++ added }) :=
  ⟨rfl, by decide,
    (wl1271_scan_sched_scan_config_templates upstream_constants env_ok example_sched_wl
      two_band_sched_request example_ies example_ssid rfl (by decide)).imp
      (fun _ h => h.imp (fun _ h =>
        ⟨h.1, (h.2.2.2.2 rfl).imp (fun _ h => h.imp (fun _ h => h.1))⟩))⟩

/-- Counterexample to C22 as stated: the request has 14 channels in its active 2.4GHz
bucket and two in its active 5GHz bucket (the partitioner records `active = [14, 2, 0]`
for it), yet with an allocator that fails `wl1271_scan_sched_scan_config` returns
`-ENOMEM` (-12) and logs the allocation alone: no template is built for either band. -/
theorem wl1271_scan_sched_scan_config_templates_alloc_failure :
    (sched_bucket upstream_constants two_band_sched_request
      ieee80211_band.IEEE80211_BAND_2GHZ false false).length = 14 ∧
    (sched_bucket upstream_constants two_band_sched_request
      ieee80211_band.IEEE80211_BAND_5GHZ false false).length = 2 ∧
    (wl1271_scan_sched_scan_channels upstream_constants example_sched_wl.conf_sched_scan
        two_band_sched_request
        (wl1271_scan_sched_scan_config_cmd upstream_constants
          example_sched_wl.conf_sched_scan two_band_sched_request
          example_ssid)).toOption.map
      (fun r => (r.1, r.2.active)) = some (16, [14, 2, 0]) ∧
    (wl1271_scan_sched_scan_config upstream_constants env_nomem example_sched_wl
        two_band_sched_request example_ies).toOption.map (fun r => (r.1, r.2.log))
      = some (-12, [event.kzalloc]) := by
  exact ⟨rfl, rfl, rfl, rfl⟩

/-- C23 (divergence): for a request whose only eligible channel is an enabled 5GHz
channel, not passive-only and no radar channel, with hardware id 36 and maximum power
20, followed by 14 disabled channels of maximum power 10,
`wl1271_scan_sched_scan_config` returns 0 and logs the allocation, the 5GHz template (no
2.4GHz one) and one configuration command with `active[1] = 1` and all other counts
0; the channel is in slot 14 with hardware id 36 but with tx power 10, the maximum power
of `req->channels[14]`.  For the request with that channel alone the function reads
`req->channels[14]` outside the array. -/
theorem wl1271_scan_sched_scan_config_one_5ghz :
    padded_5ghz_request.channels.length = 15 ∧
    padded_5ghz_request.channels.head?.map
        (fun ch => (ch.band, ch.flags, ch.hw_value, ch.max_power))
      = some (ieee80211_band.IEEE80211_BAND_5GHZ, 0, 36, 20) ∧
    (padded_5ghz_request.channels.tail.all
      (fun ch => ch.flags &&& upstream_constants.IEEE80211_CHAN_DISABLED != 0)) = true ∧
    padded_5ghz_request.channels[14]?.map (fun ch => ch.max_power) = some 10 ∧
    (wl1271_scan_sched_scan_config upstream_constants env_ok example_sched_wl
        padded_5ghz_request example_ies).toOption.map
      (fun r => (r.1, r.2.log.length, r.2.log.take 2))
      = some (0, 3, [event.kzalloc,
          sched_template example_ssid example_ies ieee80211_band.IEEE80211_BAND_5GHZ]) ∧
    (wl1271_scan_sched_scan_config upstream_constants env_ok example_sched_wl
        padded_5ghz_request example_ies).toOption.map
      (fun r => r.2.log.filterMap (fun e => e.sched_cfg.map
        (fun cfg => (cfg.passive, cfg.active, cfg.dfs,
          cfg.channels.getD 14 conn_scan_ch_params.zero))))
      = some [([0, 0, 0], [0, 1, 0], 0,
          { min_duration := 8, max_duration := 30, passive_duration := 0, channel := 36,
            tx_power_att := 10 })] ∧
    wl1271_scan_sched_scan_config upstream_constants env_ok example_sched_wl
        single_5ghz_request example_ies
      = Except.error fault.OUT_OF_BOUNDS_READ := by
  exact ⟨rfl, rfl, rfl, rfl, rfl, rfl, rfl⟩


/-! ## Theorems: the completion handler, failed dispatches, index safety -/

/-- Function `wl1271_scan_complete_work` on a device that is on with a session that is
not Idle: the device context it leaves and what it logs. -/
theorem wl1271_scan_complete_work_eq (K : scan_constants) (env : environment)
    (wl : wl1271) (hoff : wl.state ≠ K.WL1271_STATE_OFF)
    (hidle : wl.scan.state ≠ wl1271_scan_state.WL1271_SCAN_STATE_IDLE) :
    wl1271_scan_complete_work K env wl
      = { wl with
          scan := { wl.scan with state := wl1271_scan_state.WL1271_SCAN_STATE_IDLE,
                                 scanned_ch := ∅, req := none }
          log := wl.log ++ [event.scan_state wl1271_scan_state.WL1271_SCAN_STATE_IDLE,
              event.wl1271_ps_elp_wakeup] ++
            (if env.wl1271_ps_elp_wakeup (wl.log ++
                [event.scan_state wl1271_scan_state.WL1271_SCAN_STATE_IDLE,
                  event.wl1271_ps_elp_wakeup]) ≠ 0 then []
             else completion_actions K wl) } := by
  unfold wl1271_scan_complete_work
  rw [if_neg hoff, if_neg hidle]
  simp only []
  split
  · rename_i h
    simp only [wl1271.set_scan_state, wl1271.emit, neg_errno_lt_zero, List.append_assoc,
      List.singleton_append] at h
    simp only [wl1271.set_scan_state, wl1271.emit, List.append_assoc, List.singleton_append,
      List.cons_append, List.nil_append, if_pos h, List.append_nil]
  · rename_i h
    simp only [wl1271.set_scan_state, wl1271.emit, neg_errno_lt_zero, List.append_assoc,
      List.singleton_append] at h
    simp only [wl1271.emit, wl1271.set_scan_state, completion_actions]
    split <;> split <;> split <;> rename_i h1 h2 h3 <;>
      simp only [List.append_assoc, List.singleton_append,
        List.cons_append, List.nil_append, if_neg h]

/-- What `completion_actions` contains: one completion notification, as the last action,
and the recovery work exactly when the failed flag is set. -/
theorem completion_actions_spec (K : scan_constants) (wl : wl1271) :
    (completion_actions K wl).count (event.ieee80211_scan_completed false) = 1 ∧
    (completion_actions K wl).count (event.ieee80211_scan_completed true) = 0 ∧
    (completion_actions K wl).getLast? = some (event.ieee80211_scan_completed false) ∧
    (event.wl1271_queue_recovery_work ∈ completion_actions K wl ↔ wl.scan.failed = true) ∧
    (completion_actions K wl).count event.wl1271_queue_recovery_work ≤ 1 := by
  unfold completion_actions
  generalize test_bit K.WL1271_FLAG_STA_ASSOCIATED wl.flags = c1
  generalize ((wl.bss_type == K.BSS_TYPE_STA_BSS && !c1 ||
    wl.bss_type == K.BSS_TYPE_IBSS && !test_bit K.WL1271_FLAG_IBSS_JOINED wl.flags) &&
    !test_bit wl.dev_role_id wl.roc_map) = c2
  cases wl.scan.failed <;> cases c1 <;> cases c2 <;> decide

/-- C25: `wl1271_scan_complete_work` changes nothing and logs nothing when the device is off
or the session is Idle.  Otherwise it sets the session state to Idle, clears the scanned
bit array and the request pointer, and wakes the device; when the wake-up fails it does
nothing more, and when it succeeds the actions that follow contain
`ieee80211_scan_completed(hw, false)` exactly once, as their last entry, and
`wl1271_queue_recovery_work` if and only if the failed flag is set (then once). -/
theorem wl1271_scan_complete_work_spec (K : scan_constants) (env : environment)
    (wl : wl1271) :
    ((wl.state = K.WL1271_STATE_OFF ∨
        wl.scan.state = wl1271_scan_state.WL1271_SCAN_STATE_IDLE) →
      wl1271_scan_complete_work K env wl = wl) ∧
    (wl.state ≠ K.WL1271_STATE_OFF →
      wl.scan.state ≠ wl1271_scan_state.WL1271_SCAN_STATE_IDLE →
      (wl1271_scan_complete_work K env wl).scan.state
        = wl1271_scan_state.WL1271_SCAN_STATE_IDLE ∧
      (wl1271_scan_complete_work K env wl).scan.scanned_ch = ∅ ∧
      (wl1271_scan_complete_work K env wl).scan.req = none ∧
      (wl1271_scan_complete_work K env wl).scan.failed = wl.scan.failed ∧
      ∃ added,
        (wl1271_scan_complete_work K env wl).log
          = wl.log ++ [event.scan_state wl1271_scan_state.WL1271_SCAN_STATE_IDLE,
              event.wl1271_ps_elp_wakeup] ++ added ∧
        (env.wl1271_ps_elp_wakeup (wl.log ++
            [event.scan_state wl1271_scan_state.WL1271_SCAN_STATE_IDLE,
              event.wl1271_ps_elp_wakeup]) ≠ 0 → added = []) ∧
        (env.wl1271_ps_elp_wakeup (wl.log ++
            [event.scan_state wl1271_scan_state.WL1271_SCAN_STATE_IDLE,
              event.wl1271_ps_elp_wakeup]) = 0 →
          added.count (event.ieee80211_scan_completed false) = 1 ∧
          added.count (event.ieee80211_scan_completed true) = 0 ∧
          added.getLast? = some (event.ieee80211_scan_completed false) ∧
          (event.wl1271_queue_recovery_work ∈ added ↔ wl.scan.failed = true) ∧
          added.count event.wl1271_queue_recovery_work ≤ 1)) := by
  refine ⟨?_, ?_⟩
  · intro h
    unfold wl1271_scan_complete_work
    by_cases hoff : wl.state = K.WL1271_STATE_OFF
    · rw [if_pos hoff]
    · rw [if_neg hoff, if_pos (h.resolve_left hoff)]
  · intro hoff hidle
    rw [wl1271_scan_complete_work_eq K env wl hoff hidle]
    refine ⟨rfl, rfl, rfl, rfl, _, rfl, ?_, ?_⟩
    · intro h; rw [if_pos h]
    · intro h
      rw [if_neg (fun hn => hn h)]
      exact completion_actions_spec K wl

/-- Witness of C25: the completion handler on a session in Done whose failed flag is
set. -/
theorem wl1271_scan_complete_work_spec_witness :
    (example_wl wl1271_scan_state.WL1271_SCAN_STATE_DONE (some example_request)).state
      ≠ upstream_constants.WL1271_STATE_OFF ∧
    (example_wl wl1271_scan_state.WL1271_SCAN_STATE_DONE (some example_request)).scan.state
      ≠ wl1271_scan_state.WL1271_SCAN_STATE_IDLE ∧
    (wl1271_scan_complete_work upstream_constants env_ok
        (example_wl wl1271_scan_state.WL1271_SCAN_STATE_DONE
          (some example_request))).scan.state
      = wl1271_scan_state.WL1271_SCAN_STATE_IDLE ∧
    (wl1271_scan_complete_work upstream_constants env_ok
        (example_wl wl1271_scan_state.WL1271_SCAN_STATE_DONE
          (some example_request))).scan.req = none :=
  ⟨by decide, by decide,
    ((wl1271_scan_complete_work_spec upstream_constants env_ok
      (example_wl wl1271_scan_state.WL1271_SCAN_STATE_DONE (some example_request))).2
      (by decide) (by decide)).1,
    ((wl1271_scan_complete_work_spec upstream_constants env_ok
      (example_wl wl1271_scan_state.WL1271_SCAN_STATE_DONE (some example_request))).2
      (by decide) (by decide)).2.2.1⟩


/-- C26 as amended: with the request pointer set, `wl1271_scan_send` returns; if it built
the probe-request template (so channel selection placed at least one channel), then
whatever it returns, also when the template build, the trigger-scan-timeout command or
the scan command failed, the scanned bit array it leaves is the one before the call
together with the indices of the channels selected for the command: these bits are new,
as many as channels were selected, and they are not cleared again.  The bit array is
left as it was when no template was built. -/
theorem wl1271_scan_send_failure_bits (K : scan_constants) (env : environment)
    (wl : wl1271) (band : ieee80211_band) (passive : Bool) (basic_rate : Nat)
    (req : cfg80211_scan_request) (hreq : wl.scan.req = some req) :
    ∃ ret sc added,
      wl1271_scan_send K env wl band passive basic_rate
        = Except.ok (ret, wl.after_send sc added) ∧
      (event.wl1271_cmd_build_probe_req wl.scan.ssid wl.scan.ssid_len req.ie band ∈ added →
        sc = wl.scan.scanned_ch ∪
          index_set (one_shot_selected K req band passive wl.scan.scanned_ch) ∧
        one_shot_selected K req band passive wl.scan.scanned_ch ≠ [] ∧
        Disjoint wl.scan.scanned_ch
          (index_set (one_shot_selected K req band passive wl.scan.scanned_ch)) ∧
        (sc \ wl.scan.scanned_ch).card
          = (one_shot_selected K req band passive wl.scan.scanned_ch).length ∧
        sc ≠ wl.scan.scanned_ch) ∧
      (event.wl1271_cmd_build_probe_req wl.scan.ssid wl.scan.ssid_len req.ie band ∉ added →
        sc = wl.scan.scanned_ch) := by
  obtain ⟨hcount, hbits⟩ := wl1271_get_scan_channels_count_bits K wl.conf_scan
    wl.scan.scanned_ch req (wl1271_cmd_scan.zero K).channels band passive
  have hdis := selected_disjoint K req band passive wl.scan.scanned_ch
  have hcard := selected_card K req band passive wl.scan.scanned_ch
  have hsd := added_eq_selected K req band passive wl.scan.scanned_ch
  have key : (wl1271_get_scan_channels K wl.conf_scan wl.scan.scanned_ch req
        (wl1271_cmd_scan.zero K).channels band passive).1 ≠ 0 →
      (wl1271_get_scan_channels K wl.conf_scan wl.scan.scanned_ch req
        (wl1271_cmd_scan.zero K).channels band passive).2.2 = wl.scan.scanned_ch ∪
          index_set (one_shot_selected K req band passive wl.scan.scanned_ch) ∧
        one_shot_selected K req band passive wl.scan.scanned_ch ≠ [] ∧
        Disjoint wl.scan.scanned_ch
          (index_set (one_shot_selected K req band passive wl.scan.scanned_ch)) ∧
        ((wl1271_get_scan_channels K wl.conf_scan wl.scan.scanned_ch req
          (wl1271_cmd_scan.zero K).channels band passive).2.2 \ wl.scan.scanned_ch).card
          = (one_shot_selected K req band passive wl.scan.scanned_ch).length ∧
        (wl1271_get_scan_channels K wl.conf_scan wl.scan.scanned_ch req
          (wl1271_cmd_scan.zero K).channels band passive).2.2 ≠ wl.scan.scanned_ch := by
    intro hne
    rw [hcount] at hne
    have hnil : one_shot_selected K req band passive wl.scan.scanned_ch ≠ [] := by
      intro h; rw [h] at hne; exact hne rfl
    rw [hbits]
    refine ⟨rfl, hnil, hdis, by rw [hsd, hcard], ?_⟩
    intro heq
    have h0 : (index_set (one_shot_selected K req band passive wl.scan.scanned_ch)).card
        = 0 := by
      have := congrArg (fun s => (s \ wl.scan.scanned_ch).card) heq
      simp only [hsd, Finset.sdiff_self, Finset.card_empty] at this
      exact this
    rw [hcard] at h0
    exact hne h0
  rw [wl1271_scan_send_full K env wl band passive basic_rate req hreq]
  split
  · refine ⟨_, _, _, rfl, fun h => ?_, fun _ => rfl⟩
    simp at h
  · split
    · rename_i h0
      refine ⟨_, _, _, rfl, fun h => ?_, fun _ => ?_⟩
      · simp at h
      · rw [hbits]
        have hnil : one_shot_selected K req band passive wl.scan.scanned_ch = [] := by
          rw [hcount] at h0
          exact List.length_eq_zero.mp h0
        rw [hnil]
        simp [index_set]
    · rename_i h0
      split
      · exact ⟨_, _, _, rfl, fun _ => key h0, fun h => absurd (by simp) h⟩
      · split
        · exact ⟨_, _, _, rfl, fun _ => key h0, fun h => absurd (by simp) h⟩
        · exact ⟨_, _, _, rfl, fun _ => key h0, fun h => absurd (by simp) h⟩

/-- Witness of C26 (amended): a dispatch for which the transport fails with `EIO`. -/
theorem wl1271_scan_send_failure_bits_witness :
    (example_wl wl1271_scan_state.WL1271_SCAN_STATE_2GHZ_ACTIVE
        (some example_request)).scan.req = some example_request ∧
    ∃ ret sc added,
      wl1271_scan_send small_constants env_eio
          (example_wl wl1271_scan_state.WL1271_SCAN_STATE_2GHZ_ACTIVE (some example_request))
          ieee80211_band.IEEE80211_BAND_2GHZ false 1
        = Except.ok (ret, (example_wl wl1271_scan_state.WL1271_SCAN_STATE_2GHZ_ACTIVE
            (some example_request)).after_send sc added) :=
  ⟨rfl,
    (wl1271_scan_send_failure_bits small_constants env_eio
      (example_wl wl1271_scan_state.WL1271_SCAN_STATE_2GHZ_ACTIVE (some example_request))
      ieee80211_band.IEEE80211_BAND_2GHZ false 1 example_request rfl).imp
      (fun _ h => h.imp (fun _ h => h.imp (fun _ h => h.1)))⟩

/-- Counterexample to C26 as stated: the trigger-scan-timeout command fails with `EIO`
after the two enabled channels (indices 1 and 4) of the request were selected;
`wl1271_scan_send` returns -5 with the bits 1 and 4 set in the scanned bit array, which
was empty before the call. -/
theorem wl1271_scan_send_failure_marks_channels :
    (example_wl wl1271_scan_state.WL1271_SCAN_STATE_2GHZ_ACTIVE
        (some example_request)).scan.scanned_ch = ∅ ∧
    (wl1271_scan_send small_constants env_eio
        (example_wl wl1271_scan_state.WL1271_SCAN_STATE_2GHZ_ACTIVE (some example_request))
        ieee80211_band.IEEE80211_BAND_2GHZ false 1).toOption.map
      (fun r => (r.1, r.2.scan.scanned_ch, r.2.log))
      = some (-5, set_bit 4 (set_bit 1 ∅),
          [event.kzalloc, event.kzalloc,
           event.wl1271_cmd_build_probe_req [] 0 [] ieee80211_band.IEEE80211_BAND_2GHZ,
           event.wl1271_cmd_send (command.CMD_TRIGGER_SCAN_TO 0)]) ∧
    set_bit 4 (set_bit 1 ∅) ≠ (∅ : bitmap) := by
  refine ⟨rfl, ?_, by decide⟩
  decide

/-- C27 (divergence): called with the fixed start 14 on a request with a single channel,
an active 5GHz channel, `wl1271_scan_get_sched_scan_channels` selects that channel
(`i = 0`) for slot `j = 14` and reads `req->channels[14]`, which is outside the array
of one element. -/
theorem wl1271_scan_get_sched_scan_channels_reads_outside :
    one_5ghz_request.n_channels = 1 ∧
    one_5ghz_request.channels[14]? = none ∧
    (one_5ghz_request.channels.map (fun ch =>
      wl1271_scan_get_sched_scan_channels_cond upstream_constants ch
        ieee80211_band.IEEE80211_BAND_5GHZ false false)) = [true] ∧
    wl1271_scan_get_sched_scan_channels upstream_constants example_sched_conf
        one_5ghz_request (wl1271_cmd_sched_scan_config.zero upstream_constants).channels
        ieee80211_band.IEEE80211_BAND_5GHZ false false 14
      = Except.error fault.OUT_OF_BOUNDS_READ := by
  exact ⟨rfl, rfl, rfl, rfl⟩


/-! ## Theorems: the one-shot example -/

theorem enum_filter_snd (l : List ieee80211_channel) (q : ieee80211_channel → Bool) :
    (l.enum.filter (fun p => q p.2)).map Prod.snd = l.filter q := by
  have h : (fun p : Nat × ieee80211_channel => q p.2) = q ∘ Prod.snd := rfl
  rw [h, ← List.filter_map, List.enum_map_snd]

/-- A drive from Active2G on a session all of whose channels are disabled or marked
scanned, with an allocator that does not fail: it ends in Done with `failed = false`
and logs `nothing_to_scan_log`. -/
theorem wl1271_scan_stm_all_scanned (K : scan_constants) (env : environment)
    (wl : wl1271) (req : cfg80211_scan_request)
    (hstate : wl.scan.state = wl1271_scan_state.WL1271_SCAN_STATE_2GHZ_ACTIVE)
    (hreq : wl.scan.req = some req)
    (hall : ∀ p ∈ req.channels.enum,
      p.2.flags &&& K.IEEE80211_CHAN_DISABLED ≠ 0 ∨ p.1 ∈ wl.scan.scanned_ch)
    (halloc : ∀ log, env.kzalloc log = true) :
    wl1271_scan_stm K env wl
      = Except.ok { wl with
          scan := { wl.scan with
            state := wl1271_scan_state.WL1271_SCAN_STATE_DONE, failed := false }
          log := wl.log ++ nothing_to_scan_log wl.enable_11a } := by
  have h1 := wl1271_scan_stm_skip K env wl _ _ (by rw [hstate]; rfl) req hreq hall halloc
  have h2 := wl1271_scan_stm_skip K env wl.skipped ieee80211_band.IEEE80211_BAND_2GHZ true
    (by simp [wl1271.skipped, wl1271.set_scan_state, hstate, wl1271_scan_state.next,
      wl1271_scan_state.band_state]) req hreq hall halloc
  rw [h1, h2]
  cases h11a : wl.enable_11a
  · rw [wl1271_scan_stm_done K env wl.skipped.skipped (by
      simp [wl1271.skipped, wl1271.set_scan_state, wl1271.after_send, hstate, h11a,
        wl1271_scan_state.next])]
    simp [wl1271.skipped, wl1271.set_scan_state, wl1271.after_send, hstate, h11a,
      wl1271_scan_state.next, nothing_to_scan_log]
  · have h3 := wl1271_scan_stm_skip K env wl.skipped.skipped
      ieee80211_band.IEEE80211_BAND_5GHZ false
      (by simp [wl1271.skipped, wl1271.set_scan_state, wl1271.after_send, hstate, h11a,
        wl1271_scan_state.next, wl1271_scan_state.band_state]) req hreq hall halloc
    have h4 := wl1271_scan_stm_skip K env wl.skipped.skipped.skipped
      ieee80211_band.IEEE80211_BAND_5GHZ true
      (by simp [wl1271.skipped, wl1271.set_scan_state, wl1271.after_send, hstate, h11a,
        wl1271_scan_state.next, wl1271_scan_state.band_state]) req hreq hall halloc
    rw [h3, h4, wl1271_scan_stm_done K env wl.skipped.skipped.skipped.skipped (by
      simp [wl1271.skipped, wl1271.set_scan_state, wl1271.after_send, hstate, h11a,
        wl1271_scan_state.next])]
    simp [wl1271.skipped, wl1271.set_scan_state, wl1271.after_send, hstate, h11a,
      wl1271_scan_state.next, nothing_to_scan_log]

theorem nothing_to_scan_log_quiet (enable_11a : Bool) :
    ∀ e ∈ nothing_to_scan_log enable_11a,
      e.is_command = false ∧ e.is_template_build = false := by
  cases enable_11a <;> decide

/-- In a request each of whose channels is disabled or an enabled 2.4GHz channel that is
not passive-only, the channels eligible for the active 2.4GHz command of a fresh session
are the enabled ones. -/
theorem eligible_of_enabled (K : scan_constants) (req : cfg80211_scan_request)
    (hshape : ∀ ch ∈ req.channels,
      ch.flags &&& K.IEEE80211_CHAN_DISABLED ≠ 0 ∨
      (ch.band = ieee80211_band.IEEE80211_BAND_2GHZ ∧
        ch.flags &&& K.IEEE80211_CHAN_PASSIVE_SCAN = 0)) :
    one_shot_eligible_channels K req ieee80211_band.IEEE80211_BAND_2GHZ false ∅
      = req.channels.enum.filter
          (fun p => p.2.flags &&& K.IEEE80211_CHAN_DISABLED == 0) := by
  unfold one_shot_eligible_channels
  apply List.filter_congr
  intro p hp
  have hmem : p.2 ∈ req.channels := by
    have := List.mem_map_of_mem Prod.snd hp
    rwa [List.enum_map_snd] at this
  unfold one_shot_eligible
  rcases hshape p.2 hmem with h | ⟨h1, h2⟩
  · simp [h]
  · by_cases hd : p.2.flags &&& K.IEEE80211_CHAN_DISABLED = 0
    · simp [h1, h2, hd]
    · simp [hd]


/-- C24: take a request within `WL1271_MAX_CHANNELS` each of whose channels is disabled or
an enabled 2.4GHz channel that is not passive-only, with at least one and at most
`WL1271_SCAN_MAX_CHANNELS` enabled channels (for example 3 disabled and 2 enabled
channels with a capacity of 4), and an environment in which allocation, template build
and command transport always succeed.  Started on an Idle session, `wl1271_scan`
returns 0 and logs, after the state assignment and the queueing of the watchdog, one
dispatch: two allocations, the 2.4GHz template, the trigger-scan-timeout command and one
scan command.  That command carries the 2.4GHz band tag, counts exactly the enabled
channels and holds them in request order in its first slots, each with the active
minimum and maximum dwell time.  The session is then in Active2G with `failed` still
set.  The next drive `wl1271_scan_stm` returns with the session in Done and
`failed = false`; what it logs is, per band state visited, the two allocations and the
assignment of the next state, and at the end the cancellation and immediate queueing of
the completion work: no template is built and no command is sent. -/
theorem wl1271_scan_one_shot_example (K : scan_constants) (env : environment)
    (wl : wl1271) (ssid : Option (List Nat)) (ssid_len : Nat)
    (req : cfg80211_scan_request)
    (hn : req.n_channels ≤ K.WL1271_MAX_CHANNELS)
    (hidle : wl.scan.state = wl1271_scan_state.WL1271_SCAN_STATE_IDLE)
    (hkz : ∀ log, env.kzalloc log = true)
    (hbuild : ∀ log, env.wl1271_cmd_build_probe_req log = 0)
    (hsend : ∀ log, env.wl1271_cmd_send log = 0)
    (hshape : ∀ ch ∈ req.channels,
      ch.flags &&& K.IEEE80211_CHAN_DISABLED ≠ 0 ∨
      (ch.band = ieee80211_band.IEEE80211_BAND_2GHZ ∧
        ch.flags &&& K.IEEE80211_CHAN_PASSIVE_SCAN = 0))
    (hsome : enabled_channels K req ≠ [])
    (hcap : (enabled_channels K req).length ≤ K.WL1271_SCAN_MAX_CHANNELS) :
    ∃ wl1 cmd wl2,
      wl1271_scan K env wl ssid ssid_len req = Except.ok (0, wl1) ∧
      wl1.log = wl.log ++
        [event.scan_state wl1271_scan_state.WL1271_SCAN_STATE_2GHZ_ACTIVE,
         event.ieee80211_queue_delayed_work K.WL1271_SCAN_TIMEOUT,
         event.kzalloc, event.kzalloc,
         event.wl1271_cmd_build_probe_req
           (started_session K wl ssid ssid_len req).scan.ssid
           (started_session K wl ssid ssid_len req).scan.ssid_len req.ie
           ieee80211_band.IEEE80211_BAND_2GHZ,
         event.wl1271_cmd_send (command.CMD_TRIGGER_SCAN_TO 0),
         event.wl1271_cmd_send (command.CMD_SCAN cmd)] ∧
      cmd.band = K.WL1271_SCAN_BAND_2_4_GHZ ∧
      cmd.n_ch = (enabled_channels K req).length ∧
      cmd.channels.take cmd.n_ch
        = (enabled_channels K req).map
            (fun ch => wl1271_get_scan_channels_slot wl.conf_scan ch false) ∧
      (∀ p ∈ cmd.channels.take cmd.n_ch,
        p.min_duration = wl.conf_scan.min_dwell_time_active ∧
        p.max_duration = wl.conf_scan.max_dwell_time_active) ∧
      wl1.scan.state = wl1271_scan_state.WL1271_SCAN_STATE_2GHZ_ACTIVE ∧
      wl1.scan.failed = true ∧
      wl1271_scan_stm K env wl1 = Except.ok wl2 ∧
      wl2.scan.state = wl1271_scan_state.WL1271_SCAN_STATE_DONE ∧
      wl2.scan.failed = false ∧
      wl2.log = wl1.log ++ nothing_to_scan_log wl.enable_11a ∧
      (∀ e ∈ nothing_to_scan_log wl.enable_11a,
        e.is_command = false ∧ e.is_template_build = false) := by
  -- the channels the first command takes
  have helig := eligible_of_enabled K req hshape
  have hlen : (one_shot_eligible_channels K req ieee80211_band.IEEE80211_BAND_2GHZ false
      ∅).length = (enabled_channels K req).length := by
    unfold enabled_channels
    rw [helig, ← enum_filter_snd req.channels
      (fun ch => ch.flags &&& K.IEEE80211_CHAN_DISABLED == 0), List.length_map]
  have hsel : one_shot_selected K req ieee80211_band.IEEE80211_BAND_2GHZ false ∅
      = req.channels.enum.filter
          (fun p => p.2.flags &&& K.IEEE80211_CHAN_DISABLED == 0) := by
    unfold one_shot_selected
    rw [List.take_of_length_le (by rw [hlen]; exact hcap), helig]
  have hselmap : (one_shot_selected K req ieee80211_band.IEEE80211_BAND_2GHZ false ∅).map
      Prod.snd = enabled_channels K req := by
    rw [hsel]
    exact enum_filter_snd req.channels
      (fun ch => ch.flags &&& K.IEEE80211_CHAN_DISABLED == 0)
  have hsellen : (one_shot_selected K req ieee80211_band.IEEE80211_BAND_2GHZ false ∅).length
      = (enabled_channels K req).length := by
    rw [← hselmap, List.length_map]
  have hpos : (enabled_channels K req).length ≠ 0 := by
    intro h; exact hsome (List.length_eq_zero.mp h)
  obtain ⟨hcount, hbits⟩ := wl1271_get_scan_channels_count_bits K wl.conf_scan ∅ req
    (wl1271_cmd_scan.zero K).channels ieee80211_band.IEEE80211_BAND_2GHZ false
  have hdest := wl1271_get_scan_channels_dest K wl.conf_scan ∅ req
    (wl1271_cmd_scan.zero K).channels ieee80211_band.IEEE80211_BAND_2GHZ false
    (by simp [wl1271_cmd_scan.zero])
  -- the first drive
  have hreq : (started_session K wl ssid ssid_len req).scan.req = some req := rfl
  have hfull := wl1271_scan_send_full K env (started_session K wl ssid ssid_len req)
    ieee80211_band.IEEE80211_BAND_2GHZ false
    (env.wl1271_tx_min_rate_get
      ((started_session K wl ssid ssid_len req).bitrate_masks
        ieee80211_band.IEEE80211_BAND_2GHZ)) req hreq
  have hr1 : (wl1271_get_scan_channels K
      (started_session K wl ssid ssid_len req).conf_scan
      (started_session K wl ssid ssid_len req).scan.scanned_ch req
      (wl1271_cmd_scan.zero K).channels ieee80211_band.IEEE80211_BAND_2GHZ false).1 ≠ 0 := by
    show (wl1271_get_scan_channels K wl.conf_scan ∅ req
      (wl1271_cmd_scan.zero K).channels ieee80211_band.IEEE80211_BAND_2GHZ false).1 ≠ 0
    rw [hcount, hsellen]; exact hpos
  rw [if_neg (by simp [hkz]), if_neg hr1, if_neg (by simp [hbuild]),
    if_neg (by simp [hsend])] at hfull
  have hstm := wl1271_scan_stm_band K env (started_session K wl ssid ssid_len req)
    ieee80211_band.IEEE80211_BAND_2GHZ false rfl
  rw [hfull] at hstm
  simp only [hsend, Int.natCast_zero, Int.neg_zero, WL1271_NOTHING_TO_SCAN,
    show ((0 : Int) = 1) = False from by simp, if_false, wl1271_scan_stm_out,
    show ((0 : Int) < 0) = False from by simp] at hstm
  have hscan := wl1271_scan_eq K env wl ssid ssid_len req hn hidle
  rw [hstm] at hscan
  simp only [] at hscan
  -- the second drive
  have hall : ∀ p ∈ req.channels.enum,
      p.2.flags &&& K.IEEE80211_CHAN_DISABLED ≠ 0 ∨
      p.1 ∈ (wl1271_get_scan_channels K wl.conf_scan ∅ req
        (wl1271_cmd_scan.zero K).channels ieee80211_band.IEEE80211_BAND_2GHZ false).2.2 := by
    intro p hp
    by_cases hd : p.2.flags &&& K.IEEE80211_CHAN_DISABLED = 0
    · right
      rw [hbits, hsel]
      simp only [index_set, Finset.empty_union, List.mem_toFinset, List.mem_map]
      exact ⟨p, List.mem_filter.mpr ⟨hp, by simpa using hd⟩, rfl⟩
    · exact Or.inl hd
  have hdone := wl1271_scan_stm_all_scanned K env
    ((started_session K wl ssid ssid_len req).after_send
      (wl1271_get_scan_channels K wl.conf_scan ∅ req
        (wl1271_cmd_scan.zero K).channels ieee80211_band.IEEE80211_BAND_2GHZ false).2.2
      [event.kzalloc, event.kzalloc,
       event.wl1271_cmd_build_probe_req
         (started_session K wl ssid ssid_len req).scan.ssid
         (started_session K wl ssid ssid_len req).scan.ssid_len req.ie
         ieee80211_band.IEEE80211_BAND_2GHZ,
       event.wl1271_cmd_send (command.CMD_TRIGGER_SCAN_TO 0),
       event.wl1271_cmd_send (command.CMD_SCAN
         (wl1271_scan_send_cmd K env (started_session K wl ssid ssid_len req) req
           ieee80211_band.IEEE80211_BAND_2GHZ false
           (env.wl1271_tx_min_rate_get
             ((started_session K wl ssid ssid_len req).bitrate_masks
               ieee80211_band.IEEE80211_BAND_2GHZ))
           (wl1271_get_scan_channels K wl.conf_scan ∅ req
             (wl1271_cmd_scan.zero K).channels ieee80211_band.IEEE80211_BAND_2GHZ false).1
           (wl1271_get_scan_channels K wl.conf_scan ∅ req
             (wl1271_cmd_scan.zero K).channels ieee80211_band.IEEE80211_BAND_2GHZ
             false).2.1))])
    req rfl rfl hall hkz
  have htake : ((wl1271_get_scan_channels K wl.conf_scan ∅ req
        (wl1271_cmd_scan.zero K).channels ieee80211_band.IEEE80211_BAND_2GHZ false).2.1).take
      (wl1271_get_scan_channels K wl.conf_scan ∅ req
        (wl1271_cmd_scan.zero K).channels ieee80211_band.IEEE80211_BAND_2GHZ false).1
      = (enabled_channels K req).map
          (fun ch => wl1271_get_scan_channels_slot wl.conf_scan ch false) := by
    rw [hdest, hcount, ← hselmap, List.map_map]
    rw [List.take_left' (by rw [List.length_map])]
    rfl
  refine ⟨_,
    wl1271_scan_send_cmd K env (started_session K wl ssid ssid_len req) req
      ieee80211_band.IEEE80211_BAND_2GHZ false
      (env.wl1271_tx_min_rate_get
        ((started_session K wl ssid ssid_len req).bitrate_masks
          ieee80211_band.IEEE80211_BAND_2GHZ))
      (wl1271_get_scan_channels K wl.conf_scan ∅ req
        (wl1271_cmd_scan.zero K).channels ieee80211_band.IEEE80211_BAND_2GHZ false).1
      (wl1271_get_scan_channels K wl.conf_scan ∅ req
        (wl1271_cmd_scan.zero K).channels ieee80211_band.IEEE80211_BAND_2GHZ false).2.1,
    _, hscan, ?_, ?_, ?_, htake, ?_, rfl, rfl, hdone, rfl, rfl, rfl,
    nothing_to_scan_log_quiet _⟩
  · simp [wl1271.after_send, started_session]
  · simp [wl1271_scan_send_cmd]
  · show (wl1271_get_scan_channels K wl.conf_scan ∅ req
        (wl1271_cmd_scan.zero K).channels ieee80211_band.IEEE80211_BAND_2GHZ false).1
      = (enabled_channels K req).length
    rw [hcount, hsellen]
  · intro p hp
    have hp2 : p ∈ (enabled_channels K req).map
        (fun ch => wl1271_get_scan_channels_slot wl.conf_scan ch false) := by
      rw [← htake]; exact hp
    rw [List.mem_map] at hp2
    obtain ⟨ch, _, rfl⟩ := hp2
    exact ⟨rfl, rfl⟩

/-- Witness of C24: the request with three disabled and two enabled 2.4GHz channels and a
command capacity of four. -/
theorem wl1271_scan_one_shot_example_witness :
    example_request.n_channels ≤ small_constants.WL1271_MAX_CHANNELS ∧
    enabled_channels small_constants example_request
      = [example_channel 2 0, example_channel 5 0] ∧
    (enabled_channels small_constants example_request).length
      ≤ small_constants.WL1271_SCAN_MAX_CHANNELS ∧
    ∃ (wl1 : wl1271) (cmd : wl1271_cmd_scan) (wl2 : wl1271),
      wl1271_scan small_constants env_ok
          (example_wl wl1271_scan_state.WL1271_SCAN_STATE_IDLE none) none 0 example_request
        = Except.ok (0, wl1) ∧
      cmd.n_ch = (enabled_channels small_constants example_request).length ∧
      wl1271_scan_stm small_constants env_ok wl1 = Except.ok wl2 ∧
      wl2.scan.state = wl1271_scan_state.WL1271_SCAN_STATE_DONE ∧
      wl2.scan.failed = false :=
  ⟨by decide, by decide, by decide,
    (wl1271_scan_one_shot_example small_constants env_ok
      (example_wl wl1271_scan_state.WL1271_SCAN_STATE_IDLE none) none 0 example_request
      (by decide) rfl (fun _ => rfl) (fun _ => rfl) (fun _ => rfl) (by decide) (by decide)
      (by decide)).imp
      (fun _ h => h.imp (fun _ h => h.imp (fun _ h =>
        ⟨h.1, h.2.2.2.1, h.2.2.2.2.2.2.2.2.1, h.2.2.2.2.2.2.2.2.2.1,
          h.2.2.2.2.2.2.2.2.2.2.1⟩)))⟩


end Wl12xx

namespace McpUnicode

/-! ## Theorems: tables and bit operations -/

set_option maxRecDepth 100000 in
/-- The table `mcpUni_trailingBytesForUTF8` by ranges of the lead byte. -/
theorem trailingBytesForUTF8_eq : ∀ b < 256, trailingBytesForUTF8 b =
    if b < 0xC0 then 0 else if b < 0xE0 then 1 else if b < 0xF0 then 2
    else if b < 0xF8 then 3 else if b < 0xFC then 4 else 5 := by
  decide

theorem testBit_eq_false_of_lt (m i n : Nat) (hm : m < 2 ^ n) (hi : n ≤ i) :
    m.testBit i = false :=
  Nat.testBit_lt_two_pow (Nat.lt_of_lt_of_le hm (Nat.pow_le_pow_right (by decide) hi))

/-- A mask below `2 ^ n` sees only the low `n` bits. -/
theorem and_mod_two_pow (x m n : Nat) (hm : m < 2 ^ n) : x &&& m = (x % 2 ^ n) &&& m := by
  apply Nat.eq_of_testBit_eq
  intro i
  rw [Nat.testBit_and, Nat.testBit_and, Nat.testBit_mod_two_pow]
  by_cases hi : i < n
  · simp [hi]
  · rw [testBit_eq_false_of_lt m i n hm (by omega)]
    simp

/-- Setting bits below `2 ^ n` commutes with taking the low `n` bits. -/
theorem or_mod_two_pow (x m n : Nat) (hm : m < 2 ^ n) :
    (x ||| m) % 2 ^ n = (x % 2 ^ n) ||| m := by
  apply Nat.eq_of_testBit_eq
  intro i
  rw [Nat.testBit_mod_two_pow, Nat.testBit_or, Nat.testBit_or, Nat.testBit_mod_two_pow]
  by_cases hi : i < n
  · simp [hi]
  · rw [testBit_eq_false_of_lt m i n hm (by omega)]
    simp [hi]

set_option maxRecDepth 100000 in
theorem continuation_byte_low : ∀ r < 256, ((r ||| 0x80) &&& 0xBF) = 0x80 + r % 64 := by
  decide

/-- The byte `(ch | byteMark) & byteMask` of mcp_unicode.c:291-293 is the continuation
byte `0x80 + ch % 64`. -/
theorem continuation_byte (ch : Nat) : ((ch ||| 0x80) &&& 0xBF) % 2 ^ 8 = 0x80 + ch % 64 := by
  have h1 : (ch ||| 0x80) &&& 0xBF = ((ch ||| 0x80) % 2 ^ 8) &&& 0xBF :=
    and_mod_two_pow _ _ 8 (by norm_num)
  have h2 : (ch ||| 0x80) % 2 ^ 8 = (ch % 2 ^ 8) ||| 0x80 := or_mod_two_pow _ _ 8 (by norm_num)
  have h3 := continuation_byte_low (ch % 2 ^ 8) (Nat.mod_lt _ (by norm_num))
  rw [h1, h2, h3]
  omega

set_option maxRecDepth 100000 in
theorem lead_byte_low : ∀ x < 128,
    (x ||| 0x00 = x) ∧ (x < 32 → x ||| 0xC0 = 0xC0 + x) ∧ (x < 16 → x ||| 0xE0 = 0xE0 + x) ∧
    (x < 8 → x ||| 0xF0 = 0xF0 + x) := by
  decide

theorem MCP_UNI_READ_WRITE_UTF16 (host_big_endian : Bool) (endianity : McpUniEndianity)
    (w : Nat) (hw : w < 65536) :
    MCP_UNI_READ_UTF16 host_big_endian endianity
      (MCP_UNI_WRITE_UTF16 host_big_endian endianity w) = w := by
  cases endianity <;> cases host_big_endian <;>
    simp only [MCP_UNI_READ_UTF16, MCP_UNI_WRITE_UTF16, MCP_ENDIAN_HostToBE16,
      MCP_ENDIAN_HostToLE16, MCP_ENDIAN_BEtoHost16, MCP_ENDIAN_LEtoHost16,
      Bool.false_eq_true, if_false, if_true] <;>
    omega

/-! ## Theorems: `McpUniIsLegalUTF8` -/

theorem utf8_encode_length_pos (cp : Nat) : 0 < (utf8_encode cp).length := by
  unfold utf8_encode
  split_ifs <;> simp

/-- C28 (divergence): the three bytes `ED 41 80` have the length that the table gives
for the lead byte `ED`, and so have the four bytes `F4 00 80 80` for `F4`;
`McpUniIsLegalUTF8` returns true for both, yet neither is the UTF-8 encoding of a Unicode
scalar value (the second byte is no continuation byte).  For a length of 0 or above 4
the function returns false. -/
theorem McpUniIsLegalUTF8_accepts_ill_formed :
    trailingBytesForUTF8 0xED + 1 = 3 ∧
    McpUniIsLegalUTF8 [0xED, 0x41, 0x80] 3 = Except.ok true ∧
    ¬ well_formed_utf8_char [0xED, 0x41, 0x80] ∧
    trailingBytesForUTF8 0xF4 + 1 = 4 ∧
    McpUniIsLegalUTF8 [0xF4, 0x00, 0x80, 0x80] 4 = Except.ok true ∧
    ¬ well_formed_utf8_char [0xF4, 0x00, 0x80, 0x80] ∧
    (∀ s, McpUniIsLegalUTF8 s 0 = Except.ok false) ∧
    (∀ s n, 4 < n → McpUniIsLegalUTF8 s n = Except.ok false) := by
  refine ⟨?_, rfl, ?_, ?_, rfl, ?_, fun _ => rfl, ?_⟩
  · rw [trailingBytesForUTF8_eq _ (by norm_num)]; rfl
  · rintro ⟨cp, _, he⟩
    unfold utf8_encode at he
    split_ifs at he <;> simp at he
    omega
  · rw [trailingBytesForUTF8_eq _ (by norm_num)]; rfl
  · rintro ⟨cp, _, he⟩
    unfold utf8_encode at he
    split_ifs at he <;> simp at he
  · intro s n hn
    match n, hn with
    | n + 5, _ => rfl

/-! ## Theorems: `MCP_StriCmpUtf8` -/

set_option maxRecDepth 100000 in
/-- C30 (divergence): the strings `C3 A9 00` (U+00E9) and `C4 80 00` (U+0100) are
NUL-terminated well-formed UTF-8 and differ in the lead byte of two-byte characters;
whatever bound is put on the outer loop of `MCP_StriCmpUtf8`, the loop is not left: an
iteration ends with both pointers where they were. -/
theorem MCP_StriCmpUtf8_does_not_return :
    utf8_text [0xE9] ++ [0] = [0xC3, 0xA9, 0] ∧ is_scalar_value 0xE9 ∧
    utf8_text [0x100] ++ [0] = [0xC4, 0x80, 0] ∧ is_scalar_value 0x100 ∧
    (∀ bound, MCP_StriCmpUtf8 (bound + 1) [0xC3, 0xA9, 0] [0xC4, 0x80, 0]
      = MCP_StriCmpUtf8 bound [0xC3, 0xA9, 0] [0xC4, 0x80, 0]) ∧
    ∀ bound, MCP_StriCmpUtf8 bound [0xC3, 0xA9, 0] [0xC4, 0x80, 0]
      = Except.error fault.LOOP_BOUND_EXCEEDED := by
  have hstep : ∀ bound, MCP_StriCmpUtf8 (bound + 1) [0xC3, 0xA9, 0] [0xC4, 0x80, 0]
      = MCP_StriCmpUtf8 bound [0xC3, 0xA9, 0] [0xC4, 0x80, 0] := fun _ => rfl
  refine ⟨by decide, by decide, by decide, by decide, hstep, ?_⟩
  intro bound
  induction bound with
  | zero => rfl
  | succ n ih => rw [hstep, ih]

/-! ## Theorems: one character, UTF-8 to UTF-16 -/

/-- The four shapes of `utf8_encode`, by the range of the code point. -/
theorem utf8_encode_eq (cp : Nat) :
    (cp < 0x80 → utf8_encode cp = [cp]) ∧
    (0x80 ≤ cp → cp < 0x800 → utf8_encode cp = [0xC0 + cp / 64, 0x80 + cp % 64]) ∧
    (0x800 ≤ cp → cp < 0x10000 →
      utf8_encode cp = [0xE0 + cp / 4096, 0x80 + cp / 64 % 64, 0x80 + cp % 64]) ∧
    (0x10000 ≤ cp →
      utf8_encode cp = [0xF0 + cp / 262144, 0x80 + cp / 4096 % 64, 0x80 + cp / 64 % 64,
        0x80 + cp % 64]) := by
  unfold utf8_encode
  refine ⟨fun h => by rw [if_pos h], fun h1 h2 => ?_, fun h1 h2 => ?_, fun h1 => ?_⟩
  · rw [if_neg (by omega), if_pos h2]
  · rw [if_neg (by omega), if_neg (by omega), if_pos h2]
  · rw [if_neg (by omega), if_neg (by omega), if_neg (by omega)]

theorem McpUniIsLegalUTF8_case1_ok (s0 : Nat) (rest : List Nat)
    (h1 : ¬ (0x80 ≤ s0 ∧ s0 < 0xC2)) (h2 : s0 ≤ 0xF4) :
    McpUniIsLegalUTF8_case1 (s0 :: rest) = Except.ok true := by
  simp only [McpUniIsLegalUTF8_case1, read_byte, List.getElem?_cons_zero]
  split_ifs <;> first | rfl | (exfalso; omega)

theorem McpUniIsLegalUTF8_case2_ok (s0 a : Nat) (rest : List Nat)
    (ha : 0x80 ≤ a ∧ a ≤ 0xBF) (hE0 : s0 = 0xE0 → 0xA0 ≤ a) (hED : s0 = 0xED → a ≤ 0x9F)
    (hF0 : s0 = 0xF0 → 0x90 ≤ a) (hF4 : s0 = 0xF4 → a ≤ 0x8F) :
    McpUniIsLegalUTF8_case2 (s0 :: a :: rest) = McpUniIsLegalUTF8_case1 (s0 :: a :: rest) := by
  simp only [McpUniIsLegalUTF8_case2, read_byte, List.getElem?_cons_zero,
    List.getElem?_cons_succ]
  split_ifs <;> first | rfl | (exfalso; omega)

theorem McpUniIsLegalUTF8_case3_ok (s0 a b : Nat) (rest : List Nat)
    (hb : 0x80 ≤ b ∧ b ≤ 0xBF) :
    McpUniIsLegalUTF8_case3 (s0 :: a :: b :: rest)
      = McpUniIsLegalUTF8_case2 (s0 :: a :: b :: rest) := by
  simp only [McpUniIsLegalUTF8_case3, read_byte, List.getElem?_cons_zero,
    List.getElem?_cons_succ]
  split_ifs <;> first | rfl | (exfalso; omega)

theorem McpUniIsLegalUTF8_case4_ok (s0 a b c : Nat) (rest : List Nat)
    (hc : 0x80 ≤ c ∧ c ≤ 0xBF) :
    McpUniIsLegalUTF8_case4 (s0 :: a :: b :: c :: rest)
      = McpUniIsLegalUTF8_case3 (s0 :: a :: b :: c :: rest) := by
  simp only [McpUniIsLegalUTF8_case4, read_byte, List.getElem?_cons_zero,
    List.getElem?_cons_succ]
  split_ifs <;> first | rfl | (exfalso; omega)

theorem legal_1 (cp : Nat) (h : cp < 0x80) (rest : List Nat) :
    McpUniIsLegalUTF8 (cp :: rest) 1 = Except.ok true := by
  show McpUniIsLegalUTF8_case1 _ = _
  exact McpUniIsLegalUTF8_case1_ok _ _ (by omega) (by omega)

theorem legal_2 (cp : Nat) (h1 : 0x80 ≤ cp) (h2 : cp < 0x800) (rest : List Nat) :
    McpUniIsLegalUTF8 ((0xC0 + cp / 64) :: (0x80 + cp % 64) :: rest) 2 = Except.ok true := by
  show McpUniIsLegalUTF8_case2 _ = _
  rw [McpUniIsLegalUTF8_case2_ok _ _ _ (by omega) (by omega) (by omega) (by omega) (by omega)]
  exact McpUniIsLegalUTF8_case1_ok _ _ (by omega) (by omega)

theorem legal_3 (cp : Nat) (h1 : 0x800 ≤ cp) (h2 : cp < 0x10000)
    (hs : ¬ (0xD800 ≤ cp ∧ cp ≤ 0xDFFF)) (rest : List Nat) :
    McpUniIsLegalUTF8
      ((0xE0 + cp / 4096) :: (0x80 + cp / 64 % 64) :: (0x80 + cp % 64) :: rest) 3
      = Except.ok true := by
  show McpUniIsLegalUTF8_case3 _ = _
  rw [McpUniIsLegalUTF8_case3_ok _ _ _ _ (by omega),
    McpUniIsLegalUTF8_case2_ok _ _ _ (by omega) (by omega) (by omega) (by omega) (by omega)]
  exact McpUniIsLegalUTF8_case1_ok _ _ (by omega) (by omega)

theorem legal_4 (cp : Nat) (h1 : 0x10000 ≤ cp) (h2 : cp ≤ 0x10FFFF) (rest : List Nat) :
    McpUniIsLegalUTF8
      ((0xF0 + cp / 262144) :: (0x80 + cp / 4096 % 64) :: (0x80 + cp / 64 % 64) ::
        (0x80 + cp % 64) :: rest) 4
      = Except.ok true := by
  show McpUniIsLegalUTF8_case4 _ = _
  rw [McpUniIsLegalUTF8_case4_ok _ _ _ _ _ (by omega),
    McpUniIsLegalUTF8_case3_ok _ _ _ _ (by omega),
    McpUniIsLegalUTF8_case2_ok _ _ _ (by omega) (by omega) (by omega) (by omega) (by omega)]
  exact McpUniIsLegalUTF8_case1_ok _ _ (by omega) (by omega)

/-- The number of trailing bytes that the table gives for the lead byte of an encoded
scalar value, the verdict of `McpUniIsLegalUTF8` on the encoding, and the value that
`McpUniConvertUTF8toUTF16` decodes from it. -/
theorem utf8_encode_decode (cp : Nat) (hs : is_scalar_value cp) (rest : List Nat) :
    ∃ b0 tail, utf8_encode cp = b0 :: tail ∧ b0 < 256 ∧
      trailingBytesForUTF8 b0 = tail.length ∧
      McpUniIsLegalUTF8 (utf8_encode cp ++ rest) (tail.length + 1) = Except.ok true ∧
      McpUniConvertUTF8toUTF16_ch (utf8_encode cp ++ rest) tail.length = cp ∧
      (cp ≠ 0 → ∀ b ∈ utf8_encode cp, b ≠ 0) := by
  obtain ⟨e1, e2, e3, e4⟩ := utf8_encode_eq cp
  obtain ⟨hmax, hsur⟩ := hs
  by_cases c1 : cp < 0x80
  · rw [e1 c1]
    refine ⟨_, _, rfl, by omega, ?_, legal_1 cp c1 rest, ?_, ?_⟩
    · rw [trailingBytesForUTF8_eq _ (by omega), if_pos (by omega)]; rfl
    · simp [McpUniConvertUTF8toUTF16_ch, McpUniConvertUTF8toUTF16_shift,
        mcpUni_offsetsFromUTF8]
      omega
    · intro h b hb
      simp only [List.mem_singleton] at hb
      omega
  · by_cases c2 : cp < 0x800
    · rw [e2 (by omega) c2]
      refine ⟨_, _, rfl, by omega, ?_, legal_2 cp (by omega) c2 rest, ?_, ?_⟩
      · rw [trailingBytesForUTF8_eq _ (by omega), if_neg (by omega), if_pos (by omega)]; rfl
      · simp [McpUniConvertUTF8toUTF16_ch, McpUniConvertUTF8toUTF16_shift,
          mcpUni_offsetsFromUTF8]
        omega
      · intro h b hb
        simp only [List.mem_cons, List.mem_singleton, List.not_mem_nil, or_false] at hb
        omega
    · by_cases c3 : cp < 0x10000
      · rw [e3 (by omega) c3]
        refine ⟨_, _, rfl, by omega, ?_, legal_3 cp (by omega) c3 hsur rest, ?_, ?_⟩
        · rw [trailingBytesForUTF8_eq _ (by omega), if_neg (by omega), if_neg (by omega),
            if_pos (by omega)]; rfl
        · simp [McpUniConvertUTF8toUTF16_ch, McpUniConvertUTF8toUTF16_shift,
            mcpUni_offsetsFromUTF8]
          omega
        · intro h b hb
          simp only [List.mem_cons, List.mem_singleton, List.not_mem_nil, or_false] at hb
          omega
      · rw [e4 (by omega)]
        refine ⟨_, _, rfl, by omega, ?_, legal_4 cp (by omega) hmax rest, ?_, ?_⟩
        · rw [trailingBytesForUTF8_eq _ (by omega), if_neg (by omega), if_neg (by omega),
            if_neg (by omega), if_pos (by omega)]; rfl
        · simp [McpUniConvertUTF8toUTF16_ch, McpUniConvertUTF8toUTF16_shift,
            mcpUni_offsetsFromUTF8]
          omega
        · intro h b hb
          simp only [List.mem_cons, List.mem_singleton, List.not_mem_nil, or_false] at hb
          omega

/-! ## Theorems: a whole text, UTF-8 to UTF-16 -/

theorem utf16_encode_eq (cp : Nat) :
    (cp < 0x10000 → utf16_encode cp = [cp]) ∧
    (0x10000 ≤ cp →
      utf16_encode cp = [0xD800 + (cp - 0x10000) / 1024, 0xDC00 + (cp - 0x10000) % 1024]) := by
  unfold utf16_encode
  exact ⟨fun h => by rw [if_pos h], fun h => by rw [if_neg (by omega)]⟩

/-- The two cells that `McpUniConvertUTF8toUTF16` stores for a value above U+FFFF are the
surrogate pair of `utf16_encode`. -/
theorem surrogate_pair_values (cp : Nat) (h1 : 0x10000 ≤ cp) (h2 : cp ≤ 0x10FFFF) :
    (((cp - mcpUni_halfBase) >>> mcpUni_halfShift) + MCP_UNI_SUR_HIGH_START) % 2 ^ 16
        = 0xD800 + (cp - 0x10000) / 1024 ∧
    (((cp - mcpUni_halfBase) &&& mcpUni_halfMask) + MCP_UNI_SUR_LOW_START) % 2 ^ 16
        = 0xDC00 + (cp - 0x10000) % 1024 := by
  have hm : mcpUni_halfMask = 2 ^ 10 - 1 := rfl
  rw [hm, Nat.and_pow_two_sub_one_eq_mod, Nat.shiftRight_eq_div_pow]
  simp only [mcpUni_halfBase, mcpUni_halfShift, MCP_UNI_SUR_HIGH_START, MCP_UNI_SUR_LOW_START]
  constructor <;> omega

/-- One iteration of the loop of `McpUniConvertUTF8toUTF16` on the encoding of a scalar
value, with room in the target: the bytes of the character are consumed and its UTF-16
units are stored. -/
theorem McpUniConvertUTF8toUTF16_loop_step (host : Bool) (capacity : Nat)
    (flags : McpUniConversionFlags) (e : McpUniEndianity) (bound cp : Nat)
    (rest : List Nat) (target : List (Nat × Nat)) (hs : is_scalar_value cp)
    (hroom : target.length + (utf16_encode cp).length ≤ capacity) :
    McpUniConvertUTF8toUTF16_loop host capacity flags e (bound + 1)
        (utf8_encode cp ++ rest) target
      = McpUniConvertUTF8toUTF16_loop host capacity flags e bound rest
          (target ++ (utf16_encode cp).map (MCP_UNI_WRITE_UTF16 host e)) := by
  obtain ⟨b0, tail, henc, hb0, htrail, hlegal, hch, -⟩ := utf8_encode_decode cp hs rest
  obtain ⟨u1, u2⟩ := utf16_encode_eq cp
  obtain ⟨hmax, hsur⟩ := hs
  rw [henc] at hlegal hch ⊢
  rw [List.cons_append] at hlegal hch ⊢
  rw [McpUniConvertUTF8toUTF16_loop]
  simp only [htrail, hlegal, hch, List.length_cons, List.length_append, List.drop_succ_cons,
    List.drop_left, MCP_UNI_MAX_BMP, MCP_UNI_MAX_UTF16, MCP_UNI_SUR_HIGH_START,
    MCP_UNI_SUR_LOW_END]
  by_cases c : cp < 0x10000
  · rw [u1 c] at hroom ⊢
    simp only [List.length_singleton] at hroom
    rw [if_neg (by omega), if_neg (by omega), if_pos (by omega), if_neg (by omega),
      Nat.mod_eq_of_lt (by omega)]
    rfl
  · obtain ⟨p1, p2⟩ := surrogate_pair_values cp (by omega) hmax
    simp only [MCP_UNI_SUR_HIGH_START] at p1
    rw [u2 (by omega)] at hroom ⊢
    simp only [List.length_cons, List.length_nil] at hroom
    rw [if_neg (by omega), if_neg (by omega), if_neg (by omega), if_neg (by omega),
      if_neg (by omega), p1, p2]
    rfl

theorem utf8_text_cons (cp : Nat) (cps : List Nat) :
    utf8_text (cp :: cps) = utf8_encode cp ++ utf8_text cps := by
  simp [utf8_text]

theorem utf16_text_cons (cp : Nat) (cps : List Nat) :
    utf16_text (cp :: cps) = utf16_encode cp ++ utf16_text cps := by
  simp [utf16_text]

theorem utf8_text_append (a b : List Nat) :
    utf8_text (a ++ b) = utf8_text a ++ utf8_text b := by
  simp [utf8_text]

theorem utf16_text_append (a b : List Nat) :
    utf16_text (a ++ b) = utf16_text a ++ utf16_text b := by
  simp [utf16_text]

/-- The loop of `McpUniConvertUTF8toUTF16` on the encoding of a list of scalar values
that ends at `sourceEnd`, with room in the target: it ends with `conversionOK`, has
consumed the whole source and has stored the UTF-16 units of the text. -/
theorem McpUniConvertUTF8toUTF16_loop_text (host : Bool) (capacity : Nat)
    (flags : McpUniConversionFlags) (e : McpUniEndianity) :
    ∀ (cps : List Nat) (bound : Nat) (target : List (Nat × Nat)),
      (∀ cp ∈ cps, is_scalar_value cp) → cps.length < bound →
      target.length + (utf16_text cps).length ≤ capacity →
      McpUniConvertUTF8toUTF16_loop host capacity flags e bound (utf8_text cps) target
        = Except.ok (McpUniConversionResult.conversionOK, [],
            target ++ (utf16_text cps).map (MCP_UNI_WRITE_UTF16 host e)) := by
  intro cps
  induction cps with
  | nil =>
    intro bound target _ hb _
    obtain ⟨b, rfl⟩ : ∃ b, bound = b + 1 := ⟨bound - 1, by simp at hb; omega⟩
    simp [utf8_text, utf16_text, McpUniConvertUTF8toUTF16_loop]
  | cons cp cps ih =>
    intro bound target hs hb hroom
    obtain ⟨b, rfl⟩ : ∃ b, bound = b + 1 := ⟨bound - 1, by simp at hb; omega⟩
    rw [utf16_text_cons, List.length_append] at hroom
    rw [utf8_text_cons, McpUniConvertUTF8toUTF16_loop_step host capacity flags e b cp _ target
      (hs cp (List.mem_cons_self _ _)) (by omega),
      ih b _ (fun c hc => hs c (List.mem_cons_of_mem _ hc))
        (by simp at hb; omega) (by simp; omega)]
    simp [utf16_text_cons]

/-! ## Theorems: UTF-16 to UTF-8 -/

/-- The bytes that `McpUniConvertUTF16toUTF8` stores for a value up to U+10FFFF are its
UTF-8 encoding. -/
theorem McpUniConvertUTF16toUTF8_bytes_eq (cp : Nat) (h : cp ≤ 0x10FFFF) :
    McpUniConvertUTF16toUTF8_bytes (McpUniConvertUTF16toUTF8_size cp).1
        (McpUniConvertUTF16toUTF8_size cp).2 = utf8_encode cp ∧
    (McpUniConvertUTF16toUTF8_size cp).1 = (utf8_encode cp).length := by
  obtain ⟨e1, e2, e3, e4⟩ := utf8_encode_eq cp
  have s6 : ∀ x : Nat, x >>> 6 = x / 64 := fun x => by
    rw [Nat.shiftRight_eq_div_pow]
  have m1 : mcpUni_firstByteMark.getD 1 0 = 0x00 := rfl
  have m2 : mcpUni_firstByteMark.getD 2 0 = 0xC0 := rfl
  have m3 : mcpUni_firstByteMark.getD 3 0 = 0xE0 := rfl
  have m4 : mcpUni_firstByteMark.getD 4 0 = 0xF0 := rfl
  by_cases c1 : cp < 0x80
  · have hsz : McpUniConvertUTF16toUTF8_size cp = (1, cp) := by
      unfold McpUniConvertUTF16toUTF8_size
      rw [if_pos c1]
    have hl := (lead_byte_low cp (by omega)).1
    rw [hsz, e1 c1]
    simp only [McpUniConvertUTF16toUTF8_bytes, m1, hl]
    refine ⟨?_, rfl⟩
    rw [Nat.mod_eq_of_lt (by omega)]
  · by_cases c2 : cp < 0x800
    · have hsz : McpUniConvertUTF16toUTF8_size cp = (2, cp) := by
        unfold McpUniConvertUTF16toUTF8_size
        rw [if_neg c1, if_pos c2]
      have hl := (lead_byte_low (cp / 64) (by omega)).2.1 (by omega)
      rw [hsz, e2 (by omega) c2]
      simp only [McpUniConvertUTF16toUTF8_bytes, m2, s6, continuation_byte, hl]
      refine ⟨?_, rfl⟩
      rw [Nat.mod_eq_of_lt (by omega)]
    · by_cases c3 : cp < 0x10000
      · have hsz : McpUniConvertUTF16toUTF8_size cp = (3, cp) := by
          unfold McpUniConvertUTF16toUTF8_size
          rw [if_neg c1, if_neg c2, if_pos c3]
        have hd : cp / 64 / 64 = cp / 4096 := by omega
        have hl := (lead_byte_low (cp / 4096) (by omega)).2.2.1 (by omega)
        rw [hsz, e3 (by omega) c3]
        simp only [McpUniConvertUTF16toUTF8_bytes, m3, s6, continuation_byte, hd, hl]
        refine ⟨?_, rfl⟩
        rw [Nat.mod_eq_of_lt (by omega)]
      · have hsz : McpUniConvertUTF16toUTF8_size cp = (4, cp) := by
          unfold McpUniConvertUTF16toUTF8_size
          rw [if_neg c1, if_neg c2, if_neg c3, if_pos (by omega)]
        have hd : cp / 64 / 64 = cp / 4096 := by omega
        have hd2 : cp / 4096 / 64 = cp / 262144 := by omega
        have hl := (lead_byte_low (cp / 262144) (by omega)).2.2.2 (by omega)
        rw [hsz, e4 (by omega)]
        simp only [McpUniConvertUTF16toUTF8_bytes, m4, s6, continuation_byte, hd, hd2, hl]
        refine ⟨?_, rfl⟩
        rw [Nat.mod_eq_of_lt (by omega)]

/-- The value that `McpUniConvertUTF16toUTF8` computes from the surrogate pair of
`utf16_encode`. -/
theorem surrogate_pair_decode (cp : Nat) (h1 : 0x10000 ≤ cp) (h2 : cp ≤ 0x10FFFF) :
    ((0xD800 + (cp - 0x10000) / 1024 - MCP_UNI_SUR_HIGH_START) <<< mcpUni_halfShift) % 2 ^ 32 +
      (0xDC00 + (cp - 0x10000) % 1024 - MCP_UNI_SUR_LOW_START) + mcpUni_halfBase = cp := by
  simp only [MCP_UNI_SUR_HIGH_START, MCP_UNI_SUR_LOW_START, mcpUni_halfShift, mcpUni_halfBase,
    Nat.shiftLeft_eq]
  omega

/-- One iteration of the loop of `McpUniConvertUTF16toUTF8` on the UTF-16 units of a
scalar value, with room in the target: the units are consumed and the UTF-8 bytes of the
character are stored. -/
theorem McpUniConvertUTF16toUTF8_loop_step (host : Bool) (capacity : Nat)
    (flags : McpUniConversionFlags) (e : McpUniEndianity) (bound cp remaining : Nat)
    (rest : List (Nat × Nat)) (target : List Nat) (hs : is_scalar_value cp)
    (hroom : target.length + (utf8_encode cp).length ≤ capacity) :
    McpUniConvertUTF16toUTF8_loop host capacity flags e (bound + 1)
        ((utf16_encode cp).length + remaining)
        ((utf16_encode cp).map (MCP_UNI_WRITE_UTF16 host e) ++ rest) target
      = McpUniConvertUTF16toUTF8_loop host capacity flags e bound remaining rest
          (target ++ utf8_encode cp) := by
  obtain ⟨u1, u2⟩ := utf16_encode_eq cp
  obtain ⟨hmax, hsur⟩ := hs
  obtain ⟨hbytes, hsize⟩ := McpUniConvertUTF16toUTF8_bytes_eq cp hmax
  by_cases c : cp < 0x10000
  · rw [u1 c]
    rw [McpUniConvertUTF16toUTF8_loop.eq_def]
    simp only [List.map_cons, List.map_nil, List.cons_append, List.nil_append,
      List.length_singleton, MCP_UNI_READ_WRITE_UTF16 host e cp (by omega),
      MCP_UNI_SUR_HIGH_START, MCP_UNI_SUR_HIGH_END, MCP_UNI_SUR_LOW_START,
      MCP_UNI_SUR_LOW_END, hbytes, hsize]
    rw [if_neg (by omega), if_neg (by omega), if_neg (by omega), if_neg (by omega)]
    rw [← hsize, hbytes]
    congr 1
    omega
  · have r1 := MCP_UNI_READ_WRITE_UTF16 host e (0xD800 + (cp - 0x10000) / 1024) (by omega)
    have r2 := MCP_UNI_READ_WRITE_UTF16 host e (0xDC00 + (cp - 0x10000) % 1024) (by omega)
    have hd := surrogate_pair_decode cp (by omega) hmax
    simp only [MCP_UNI_SUR_HIGH_START, MCP_UNI_SUR_LOW_START] at hd
    rw [u2 (by omega)]
    rw [McpUniConvertUTF16toUTF8_loop.eq_def]
    simp only [List.map_cons, List.map_nil, List.cons_append, List.nil_append,
      List.length_cons, List.length_nil, r1, r2,
      MCP_UNI_SUR_HIGH_START, MCP_UNI_SUR_HIGH_END, MCP_UNI_SUR_LOW_START,
      MCP_UNI_SUR_LOW_END, hd, hbytes, hsize]
    rw [if_neg (by omega), if_pos (by omega), if_pos (by omega), if_pos (by omega),
      if_neg (by omega)]
    rw [← hsize, hbytes]
    congr 1
    omega

/-- The loop of `McpUniConvertUTF16toUTF8` on the UTF-16 units of a list of scalar
values, followed by cells beyond `sourceEnd`, with room in the target: it ends with
`conversionOK`, has consumed the source and has stored the UTF-8 bytes of the text. -/
theorem McpUniConvertUTF16toUTF8_loop_text (host : Bool) (capacity : Nat)
    (flags : McpUniConversionFlags) (e : McpUniEndianity) (beyond : List (Nat × Nat)) :
    ∀ (cps : List Nat) (bound : Nat) (target : List Nat),
      (∀ cp ∈ cps, is_scalar_value cp) → cps.length < bound →
      target.length + (utf8_text cps).length ≤ capacity →
      McpUniConvertUTF16toUTF8_loop host capacity flags e bound (utf16_text cps).length
          ((utf16_text cps).map (MCP_UNI_WRITE_UTF16 host e) ++ beyond) target
        = Except.ok (McpUniConversionResult.conversionOK, 0, target ++ utf8_text cps) := by
  intro cps
  induction cps with
  | nil =>
    intro bound target _ hb _
    obtain ⟨b, rfl⟩ : ∃ b, bound = b + 1 := ⟨bound - 1, by simp at hb; omega⟩
    simp [utf8_text, utf16_text, McpUniConvertUTF16toUTF8_loop]
  | cons cp cps ih =>
    intro bound target hs hb hroom
    obtain ⟨b, rfl⟩ : ∃ b, bound = b + 1 := ⟨bound - 1, by simp at hb; omega⟩
    rw [utf8_text_cons, List.length_append] at hroom
    rw [utf16_text_cons, List.length_append, List.map_append, List.append_assoc,
      McpUniConvertUTF16toUTF8_loop_step host capacity flags e b cp _ _ target
        (hs cp (List.mem_cons_self _ _)) (by omega),
      ih b _ (fun c hc => hs c (List.mem_cons_of_mem _ hc))
        (by simp at hb; omega) (by simp; omega)]
    simp [utf8_text_cons]

/-! ## Theorems: the exported conversions and the round trip -/

theorem MCP_HAL_STRING_StrLen_eq (s junk : List Nat) (h : ∀ b ∈ s, b ≠ 0) :
    MCP_HAL_STRING_StrLen (s ++ 0 :: junk) = Except.ok s.length := by
  induction s with
  | nil => simp [MCP_HAL_STRING_StrLen]
  | cons b s ih =>
    have hb : b ≠ 0 := h b (List.mem_cons_self _ _)
    simp [MCP_HAL_STRING_StrLen, hb, ih (fun c hc => h c (List.mem_cons_of_mem _ hc))]

theorem utf8_text_nonzero (cps : List Nat) (hs : ∀ cp ∈ cps, is_scalar_value cp ∧ cp ≠ 0) :
    ∀ b ∈ utf8_text cps, b ≠ 0 := by
  intro b hb
  unfold utf8_text at hb
  rw [List.mem_flatMap] at hb
  obtain ⟨cp, hcp, hbcp⟩ := hb
  obtain ⟨_, _, _, _, _, _, _, hnz⟩ := utf8_encode_decode cp (hs cp hcp).1 []
  exact hnz (hs cp hcp).2 b hbcp

theorem utf8_text_length_ge (cps : List Nat) : cps.length ≤ (utf8_text cps).length := by
  induction cps with
  | nil => simp
  | cons cp cps ih =>
    have := utf8_encode_length_pos cp
    rw [utf8_text_cons, List.length_append, List.length_cons]
    omega

theorem utf16_text_length_ge (cps : List Nat) : cps.length ≤ (utf16_text cps).length := by
  induction cps with
  | nil => simp
  | cons cp cps ih =>
    have : 0 < (utf16_encode cp).length := by
      unfold utf16_encode
      split_ifs <;> simp
    rw [utf16_text_cons, List.length_append, List.length_cons]
    omega

theorem utf8_text_terminated (cps : List Nat) : utf8_text (cps ++ [0]) = utf8_text cps ++ [0] := by
  rw [utf8_text_append]
  rfl

theorem utf16_text_terminated (cps : List Nat) :
    utf16_text (cps ++ [0]) = utf16_text cps ++ [0] := by
  rw [utf16_text_append]
  rfl

theorem scalar_terminated (cps : List Nat) (hs : ∀ cp ∈ cps, is_scalar_value cp ∧ cp ≠ 0) :
    ∀ cp ∈ cps ++ [0], is_scalar_value cp := by
  intro cp hcp
  rw [List.mem_append, List.mem_singleton] at hcp
  rcases hcp with h | h
  · exact (hs cp h).1
  · subst h
    decide

theorem utf16_text_unit_lt (cps : List Nat) (hs : ∀ cp ∈ cps, is_scalar_value cp) :
    ∀ w ∈ utf16_text cps, w < 65536 := by
  intro w hw
  unfold utf16_text at hw
  rw [List.mem_flatMap] at hw
  obtain ⟨cp, hcp, hwcp⟩ := hw
  obtain ⟨hmax, -⟩ := hs cp hcp
  unfold utf16_encode at hwcp
  split_ifs at hwcp with c
  · simp only [List.mem_singleton] at hwcp
    omega
  · simp only [List.mem_cons, List.mem_singleton, List.not_mem_nil, or_false] at hwcp
    omega

/-- The function `MCP_Utf8ToUtf16Endian` on a buffer that holds a well-formed text without a
0 character, then a 0 byte, then anything, with a target that has room for the units of
the text: the cells written are the UTF-16 units of the text and a 0 unit; the value
returned is twice their number, cut to 16 bits. -/
theorem MCP_Utf8ToUtf16Endian_text (host : Bool) (e : McpUniEndianity) (cps junk : List Nat)
    (tgtSize : Nat) (hs : ∀ cp ∈ cps, is_scalar_value cp ∧ cp ≠ 0)
    (hroom : (utf16_text cps).length ≤ tgtSize) :
    MCP_Utf8ToUtf16Endian host tgtSize (utf8_text cps ++ 0 :: junk) e
      = Except.ok (2 * ((utf16_text cps).length + 1) % 2 ^ 16,
          (utf16_text cps ++ [0]).map (MCP_UNI_WRITE_UTF16 host e)) := by
  have htake : (utf8_text cps ++ 0 :: junk).take ((utf8_text cps).length + 1)
      = utf8_text (cps ++ [0]) := by
    have h1 : utf8_text cps ++ 0 :: junk = (utf8_text cps ++ [0]) ++ junk := by simp
    rw [h1, List.take_left' (by simp), utf8_text_terminated]
  have hlen := utf8_text_length_ge (cps ++ [0])
  have hconv := McpUniConvertUTF8toUTF16_loop_text host (tgtSize + 1)
    McpUniConversionFlags.strictConversion e (cps ++ [0])
    ((utf8_text (cps ++ [0])).length + 1) [] (scalar_terminated cps hs) (by omega)
    (by rw [utf16_text_terminated]; simp; omega)
  unfold MCP_Utf8ToUtf16Endian
  rw [MCP_HAL_STRING_StrLen_eq _ _ (utf8_text_nonzero cps hs)]
  simp only [htake, McpUniConvertUTF8toUTF16, hconv, utf16_text_terminated, List.nil_append,
    ne_eq, not_true_eq_false, if_false, List.length_map, List.length_append,
    List.length_singleton]

/-- The function `MCP_Utf16ToUtf8Endian` on the UTF-16 units of a well-formed text and a
0 unit, `srcLen` being their number, followed by anything, with a target that has room
for the bytes of the text: the bytes written are the UTF-8 bytes of the text and a 0
byte; the value returned is their number, cut to 16 bits. -/
theorem MCP_Utf16ToUtf8Endian_text (host : Bool) (e : McpUniEndianity) (cps : List Nat)
    (beyond : List (Nat × Nat)) (tgtSize : Nat)
    (hs : ∀ cp ∈ cps, is_scalar_value cp ∧ cp ≠ 0)
    (hroom : (utf8_text cps).length ≤ tgtSize) :
    MCP_Utf16ToUtf8Endian host tgtSize
        ((utf16_text cps ++ [0]).map (MCP_UNI_WRITE_UTF16 host e) ++ beyond)
        ((utf16_text cps).length + 1) e
      = Except.ok (((utf8_text cps).length + 1) % 2 ^ 16, utf8_text cps ++ [0]) := by
  have hlen := utf16_text_length_ge (cps ++ [0])
  have hconv := McpUniConvertUTF16toUTF8_loop_text host (tgtSize + 1)
    McpUniConversionFlags.strictConversion e beyond (cps ++ [0])
    ((utf16_text (cps ++ [0])).length + 1) [] (scalar_terminated cps hs) (by omega)
    (by rw [utf8_text_terminated]; simp; omega)
  rw [utf16_text_terminated, utf8_text_terminated, List.length_append,
    List.length_singleton] at hconv
  unfold MCP_Utf16ToUtf8Endian McpUniConvertUTF16toUTF8
  rw [hconv]
  simp only [List.nil_append, List.length_append, List.length_singleton]

theorem utf16_text_replicate_ascii (n : Nat) :
    utf16_text (List.replicate n 65) = List.replicate n 65 := by
  induction n with
  | zero => rfl
  | succ n ih =>
    rw [List.replicate_succ, utf16_text_cons, ih]
    rfl

theorem utf8_text_replicate_ascii (n : Nat) :
    utf8_text (List.replicate n 65) = List.replicate n 65 := by
  induction n with
  | zero => rfl
  | succ n ih =>
    rw [List.replicate_succ, utf8_text_cons, ih]
    rfl

/-- C29 (amended): for a well-formed text without a 0 character and targets with room
for the text, `MCP_Utf8ToUtf16Endian` on the UTF-8 bytes followed by a 0 byte stores the
UTF-16 units of the text and a 0 unit and returns twice their number cut to 16 bits,
which is twice their number when the UTF-16 form, terminator included, takes fewer than
65536 bytes; and `MCP_Utf16ToUtf8Endian` on these units, with the same endianity, stores
the bytes of the text followed by a 0 byte and returns the length of the text plus one
cut to 16 bits, which is the length of the text plus one when that is below 65536. -/
theorem MCP_Utf8ToUtf16Endian_round_trip (host : Bool) (e : McpUniEndianity)
    (cps junk : List Nat) (beyond : List (Nat × Nat)) (tgtSize16 tgtSize8 : Nat)
    (hs : ∀ cp ∈ cps, is_scalar_value cp ∧ cp ≠ 0)
    (hroom16 : (utf16_text cps).length ≤ tgtSize16)
    (hroom8 : (utf8_text cps).length ≤ tgtSize8) :
    ∃ units : List (Nat × Nat),
      MCP_Utf8ToUtf16Endian host tgtSize16 (utf8_text cps ++ 0 :: junk) e
        = Except.ok (2 * ((utf16_text cps).length + 1) % 2 ^ 16, units) ∧
      (2 * ((utf16_text cps).length + 1) < 65536 →
        MCP_Utf8ToUtf16Endian host tgtSize16 (utf8_text cps ++ 0 :: junk) e
          = Except.ok (2 * ((utf16_text cps).length + 1), units)) ∧
      units.length = (utf16_text cps).length + 1 ∧
      units.map (MCP_UNI_READ_UTF16 host e) = utf16_text cps ++ [0] ∧
      MCP_Utf16ToUtf8Endian host tgtSize8 (units ++ beyond) units.length e
        = Except.ok (((utf8_text cps).length + 1) % 2 ^ 16, utf8_text cps ++ [0]) ∧
      ((utf8_text cps).length + 1 < 65536 →
        MCP_Utf16ToUtf8Endian host tgtSize8 (units ++ beyond) units.length e
          = Except.ok ((utf8_text cps).length + 1, utf8_text cps ++ [0])) := by
  have h1 := MCP_Utf8ToUtf16Endian_text host e cps junk tgtSize16 hs hroom16
  have h2 := MCP_Utf16ToUtf8Endian_text host e cps beyond tgtSize8 hs hroom8
  have hlen : ((utf16_text cps ++ [0]).map (MCP_UNI_WRITE_UTF16 host e)).length
      = (utf16_text cps).length + 1 := by simp
  rw [← hlen] at h2
  refine ⟨_, h1, ?_, hlen, ?_, h2, ?_⟩
  · intro hu16
    rw [h1, Nat.mod_eq_of_lt (by omega)]
  · rw [List.map_map]
    have hid : ∀ w ∈ utf16_text cps ++ [0],
        (MCP_UNI_READ_UTF16 host e ∘ MCP_UNI_WRITE_UTF16 host e) w = w := by
      intro w hw
      exact MCP_UNI_READ_WRITE_UTF16 host e w (utf16_text_unit_lt (cps ++ [0])
        (scalar_terminated cps hs) w (by rw [utf16_text_terminated]; exact hw))
    rw [List.map_congr_left hid]
    exact List.map_id _
  · intro hu8
    rw [h2, Nat.mod_eq_of_lt (by omega)]

/-- C29 (divergence from the claim as written): a text of 32767 letters `A` is well
formed and free of 0 bytes, the target has room for its 32767 units and the terminator,
and 32768 units are stored; yet `MCP_Utf8ToUtf16Endian` returns 0, not twice the number
of units stored (65536), because the result is cut to the 16 bits of `McpU16`. -/
theorem MCP_Utf8ToUtf16Endian_return_wraps :
    (∀ cp ∈ List.replicate 32767 65, is_scalar_value cp ∧ cp ≠ 0) ∧
    utf8_text (List.replicate 32767 65) = List.replicate 32767 65 ∧
    (utf16_text (List.replicate 32767 65)).length = 32767 ∧
    ∃ units : List (Nat × Nat), units.length = 32768 ∧
      MCP_Utf8ToUtf16Endian false 32767 (List.replicate 32767 65 ++ [0])
        McpUniEndianity.mcpLittleEndian = Except.ok (0, units) := by
  have hs : ∀ cp ∈ List.replicate 32767 65, is_scalar_value cp ∧ cp ≠ 0 := by
    intro cp hcp
    rw [List.eq_of_mem_replicate hcp]
    decide
  have hl : (utf16_text (List.replicate 32767 65)).length = 32767 := by
    rw [utf16_text_replicate_ascii, List.length_replicate]
  have h := MCP_Utf8ToUtf16Endian_text false McpUniEndianity.mcpLittleEndian
    (List.replicate 32767 65) [] 32767 hs (by omega)
  rw [hl, utf8_text_replicate_ascii] at h
  refine ⟨hs, utf8_text_replicate_ascii _, hl, _, ?_, h⟩
  rw [List.length_map, List.length_append, hl]
  rfl

/-- A concrete round trip: the text "A", "é", "€", U+1F600 on a little-endian host with
big-endian cells. -/
theorem MCP_Utf8ToUtf16Endian_round_trip_witness :
    ∃ units : List (Nat × Nat),
      MCP_Utf8ToUtf16Endian false 8 (utf8_text [0x41, 0xE9, 0x20AC, 0x1F600] ++ 0 :: [7, 7])
          McpUniEndianity.mcpBigEndian
        = Except.ok (2 * ((utf16_text [0x41, 0xE9, 0x20AC, 0x1F600]).length + 1), units) ∧
      units.length = (utf16_text [0x41, 0xE9, 0x20AC, 0x1F600]).length + 1 ∧
      units.map (MCP_UNI_READ_UTF16 false McpUniEndianity.mcpBigEndian)
        = utf16_text [0x41, 0xE9, 0x20AC, 0x1F600] ++ [0] ∧
      MCP_Utf16ToUtf8Endian false 16 (units ++ [(9, 9)]) units.length
          McpUniEndianity.mcpBigEndian
        = Except.ok ((utf8_text [0x41, 0xE9, 0x20AC, 0x1F600]).length + 1,
            utf8_text [0x41, 0xE9, 0x20AC, 0x1F600] ++ [0]) :=
  (MCP_Utf8ToUtf16Endian_round_trip false McpUniEndianity.mcpBigEndian
    [0x41, 0xE9, 0x20AC, 0x1F600] [7, 7] [(9, 9)] 8 16 (by decide) (by decide)
    (by decide)).imp
    (fun _ h => ⟨h.2.1 (by decide), h.2.2.1, h.2.2.2.1, h.2.2.2.2.2 (by decide)⟩)

/-! ## Theorems: the bounded copy -/

theorem utf8_encode_length_le (cp : Nat) : (utf8_encode cp).length ≤ 4 := by
  unfold utf8_encode
  split_ifs <;> simp

theorem utf8_text_length_le (cps : List Nat) : (utf8_text cps).length ≤ 4 * cps.length := by
  induction cps with
  | nil => simp [utf8_text]
  | cons cp cps ih =>
    have := utf8_encode_length_le cp
    rw [utf8_text_cons, List.length_append, List.length_cons]
    omega

theorem MCP_StrnCpyUtf8_copy_eq (s rest written : List Nat) :
    MCP_StrnCpyUtf8_copy s.length (s ++ rest) written = Except.ok (rest, written ++ s) := by
  induction s generalizing written with
  | nil => simp [MCP_StrnCpyUtf8_copy]
  | cons b s ih =>
    simp only [List.length_cons, List.cons_append, MCP_StrnCpyUtf8_copy]
    rw [ih]
    simp

theorem MCP_StrnCpyUtf8_loop_padding (count : Nat) (source written : List Nat) :
    MCP_StrnCpyUtf8_loop count true source written
      = Except.ok (written ++ List.replicate count 0) := by
  induction count generalizing written with
  | zero => simp [MCP_StrnCpyUtf8_loop]
  | succ c ih =>
    rw [MCP_StrnCpyUtf8_loop.eq_def]
    simp only [if_true]
    rw [ih, List.replicate_succ]
    simp

/-- One iteration of the loop of `MCP_StrnCpyUtf8` at the encoding of a scalar value
other than 0: the bytes of the character are copied. -/
theorem MCP_StrnCpyUtf8_loop_step (count cp : Nat) (rest written : List Nat)
    (hs : is_scalar_value cp) (hnz : cp ≠ 0) :
    MCP_StrnCpyUtf8_loop (count + 1) false (utf8_encode cp ++ rest) written
      = MCP_StrnCpyUtf8_loop count false rest (written ++ utf8_encode cp) := by
  obtain ⟨b0, tail, henc, hb0, htrail, hlegal, -, hbytes⟩ := utf8_encode_decode cp hs rest
  have hlen := utf8_encode_length_le cp
  have hcopy := MCP_StrnCpyUtf8_copy_eq (utf8_encode cp) rest written
  have hb0nz : b0 ≠ 0 := hbytes hnz b0 (by rw [henc]; exact List.mem_cons_self _ _)
  rw [henc] at hlegal hlen hcopy ⊢
  rw [List.length_cons] at hlen hcopy
  rw [List.cons_append] at hlegal hcopy ⊢
  rw [MCP_StrnCpyUtf8_loop.eq_def]
  simp only [Bool.false_eq_true, if_false, hb0nz, htrail,
    Nat.mod_eq_of_lt (show tail.length + 1 < 2 ^ 8 by omega), hlegal, hcopy]

/-- The loop of `MCP_StrnCpyUtf8` on a well-formed text without a 0 character that is
followed by a 0 byte. -/
theorem MCP_StrnCpyUtf8_loop_text (junk : List Nat) :
    ∀ (cps : List Nat) (count : Nat) (written : List Nat),
      (∀ cp ∈ cps, is_scalar_value cp ∧ cp ≠ 0) →
      MCP_StrnCpyUtf8_loop count false (utf8_text cps ++ 0 :: junk) written
        = Except.ok (written ++
            (if cps.length < count then
              utf8_text cps ++ List.replicate (count - cps.length) 0
             else utf8_text (cps.take count))) := by
  intro cps
  induction cps with
  | nil =>
    intro count written _
    cases count with
    | zero => simp [MCP_StrnCpyUtf8_loop, utf8_text]
    | succ c =>
      rw [MCP_StrnCpyUtf8_loop.eq_def]
      simp only [utf8_text, List.flatMap_nil, List.nil_append, Bool.false_eq_true, if_false,
        if_true, MCP_StrnCpyUtf8_loop_padding, List.length_nil, Nat.zero_lt_succ, Nat.sub_zero,
        List.replicate_succ, List.append_assoc, List.singleton_append]
  | cons cp cps ih =>
    intro count written hs
    cases count with
    | zero => simp [MCP_StrnCpyUtf8_loop, utf8_text]
    | succ c =>
      rw [utf8_text_cons, List.append_assoc,
        MCP_StrnCpyUtf8_loop_step c cp _ written (hs cp (List.mem_cons_self _ _)).1
          (hs cp (List.mem_cons_self _ _)).2,
        ih c _ (fun x hx => hs x (List.mem_cons_of_mem _ hx))]
      by_cases h : cps.length < c
      · rw [if_pos h, if_pos (by simp; omega)]
        simp [List.append_assoc]
      · rw [if_neg h, if_neg (by simp; omega)]
        simp [utf8_text_cons, List.append_assoc]

/-- C31: for a source that holds a well-formed text of `n` characters, none of them 0,
followed by a 0 byte (and then anything), and every `count`, `MCP_StrnCpyUtf8` returns
`dest`; when `n < count` it stores the bytes of the text followed by `count - n` bytes 0,
when `n >= count` it stores exactly the bytes of the first `count` characters; the
number of bytes stored is at most `4 * count`. -/
theorem MCP_StrnCpyUtf8_spec (dest count : Nat) (cps junk : List Nat)
    (hs : ∀ cp ∈ cps, is_scalar_value cp ∧ cp ≠ 0) :
    ∃ written,
      MCP_StrnCpyUtf8 dest (utf8_text cps ++ 0 :: junk) count = Except.ok (dest, written) ∧
      (cps.length < count →
        written = utf8_text cps ++ List.replicate (count - cps.length) 0) ∧
      (count ≤ cps.length → written = utf8_text (cps.take count)) ∧
      written.length ≤ 4 * count := by
  have h := MCP_StrnCpyUtf8_loop_text junk cps count [] hs
  rw [List.nil_append] at h
  refine ⟨_, by unfold MCP_StrnCpyUtf8; rw [h], ?_, ?_, ?_⟩
  · intro hlt
    rw [if_pos hlt]
  · intro hle
    rw [if_neg (by omega)]
  · have h1 := utf8_text_length_le cps
    have h2 := utf8_text_length_le (cps.take count)
    by_cases hlt : cps.length < count
    · rw [if_pos hlt, List.length_append, List.length_replicate]
      omega
    · rw [if_neg hlt]
      rw [List.length_take] at h2
      omega

/-- A concrete bounded copy: the text "A", "é", "€" followed by a 0 byte and one more
byte, with `count = 5`. -/
theorem MCP_StrnCpyUtf8_spec_witness :
    (∀ cp ∈ [0x41, 0xE9, 0x20AC], is_scalar_value cp ∧ cp ≠ 0) ∧
    ∃ written,
      MCP_StrnCpyUtf8 100 (utf8_text [0x41, 0xE9, 0x20AC] ++ 0 :: [7]) 5
        = Except.ok (100, written) ∧
      ([0x41, 0xE9, 0x20AC].length < 5 →
        written = utf8_text [0x41, 0xE9, 0x20AC] ++
          List.replicate (5 - [0x41, 0xE9, 0x20AC].length) 0) ∧
      (5 ≤ [0x41, 0xE9, 0x20AC].length →
        written = utf8_text ([0x41, 0xE9, 0x20AC].take 5)) ∧
      written.length ≤ 4 * 5 :=
  ⟨by decide, MCP_StrnCpyUtf8_spec 100 5 [0x41, 0xE9, 0x20AC] [7] (by decide)⟩

/-! ## Theorems: the target bound of the UTF-16 to UTF-8 conversion -/

theorem McpUniConvertUTF16toUTF8_bytes_length (ch : Nat) :
    (McpUniConvertUTF16toUTF8_bytes (McpUniConvertUTF16toUTF8_size ch).1
      (McpUniConvertUTF16toUTF8_size ch).2).length = (McpUniConvertUTF16toUTF8_size ch).1 := by
  unfold McpUniConvertUTF16toUTF8_size
  split_ifs <;> rfl

/-- The loop of `McpUniConvertUTF16toUTF8` never stores beyond `targetEnd`, and keeps
what has been stored. -/
theorem McpUniConvertUTF16toUTF8_loop_length_le (host : Bool) (capacity : Nat)
    (flags : McpUniConversionFlags) (e : McpUniEndianity) :
    ∀ (bound remaining : Nat) (source : List (Nat × Nat)) (target : List Nat)
      (r : McpUniConversionResult × Nat × List Nat),
      target.length ≤ capacity →
      McpUniConvertUTF16toUTF8_loop host capacity flags e bound remaining source target
        = Except.ok r →
      r.2.2.length ≤ capacity ∧ target <+: r.2.2 := by
  intro bound
  induction bound with
  | zero =>
    intro remaining source target r _ h
    simp [McpUniConvertUTF16toUTF8_loop] at h
  | succ b ih =>
    intro remaining source target r ht h
    have step : ∀ (ch rem2 : Nat) (src2 : List (Nat × Nat)),
        ¬ (target.length + (McpUniConvertUTF16toUTF8_size ch).1 > capacity) →
        McpUniConvertUTF16toUTF8_loop host capacity flags e b rem2 src2
          (target ++ McpUniConvertUTF16toUTF8_bytes (McpUniConvertUTF16toUTF8_size ch).1
            (McpUniConvertUTF16toUTF8_size ch).2) = Except.ok r →
        r.2.2.length ≤ capacity ∧ target <+: r.2.2 := by
      intro ch rem2 src2 hroom h2
      have hl := McpUniConvertUTF16toUTF8_bytes_length ch
      obtain ⟨h3, h4⟩ := ih rem2 src2 _ r
        (by rw [List.length_append, hl]; omega) h2
      exact ⟨h3, (List.prefix_append _ _).trans h4⟩
    rw [McpUniConvertUTF16toUTF8_loop.eq_def] at h
    simp only [] at h
    by_cases c1 : remaining = 0
    · rw [if_pos c1] at h
      cases h
      exact ⟨ht, List.prefix_refl _⟩
    · rw [if_neg c1] at h
      cases source with
      | nil => cases h
      | cons cell rest =>
        simp only [] at h
        cases rest with
        | nil =>
          simp only [] at h
          split_ifs at h <;>
            first
            | exact step _ _ _ (by assumption) h
            | (cases h; exact ⟨ht, List.prefix_refl _⟩)
        | cons cell2 rest2 =>
          simp only [] at h
          split_ifs at h <;>
            first
            | exact step _ _ _ (by assumption) h
            | (cases h; exact ⟨ht, List.prefix_refl _⟩)

/-- The loop of `McpUniConvertUTF16toUTF8` returns when `srcLen` cells are in the source
buffer. -/
theorem McpUniConvertUTF16toUTF8_loop_returns (host : Bool) (capacity : Nat)
    (flags : McpUniConversionFlags) (e : McpUniEndianity) :
    ∀ (bound remaining : Nat) (source : List (Nat × Nat)) (target : List Nat),
      remaining < bound → remaining ≤ source.length →
      ∃ r, McpUniConvertUTF16toUTF8_loop host capacity flags e bound remaining source target
        = Except.ok r := by
  intro bound
  induction bound with
  | zero =>
    intro remaining source target hb _
    omega
  | succ b ih =>
    intro remaining source target hb hsrc
    rw [McpUniConvertUTF16toUTF8_loop.eq_def]
    simp only []
    by_cases c1 : remaining = 0
    · rw [if_pos c1]
      exact ⟨_, rfl⟩
    · rw [if_neg c1]
      cases source with
      | nil =>
        simp only [List.length_nil] at hsrc
        omega
      | cons cell rest =>
        simp only [List.length_cons] at hsrc
        simp only []
        cases rest with
        | nil =>
          simp only [List.length_nil] at hsrc
          simp only []
          split_ifs <;>
            first
            | exact ⟨_, rfl⟩
            | exact ih _ _ _ (by omega) (by omega)
            | (exfalso; omega)
        | cons cell2 rest2 =>
          simp only [List.length_cons] at hsrc
          simp only []
          split_ifs <;>
            first
            | exact ⟨_, rfl⟩
            | exact ih _ _ _ (by omega)
                (by first | omega | (simp only [List.length_cons, List.length_nil]; omega))

/-- One iteration of the loop of `McpUniConvertUTF16toUTF8` on the UTF-16 units of a
scalar value whose UTF-8 bytes do not fit between `target` and `targetEnd`: the loop is
left with `targetExhausted` and nothing is stored. -/
theorem McpUniConvertUTF16toUTF8_loop_full (host : Bool) (capacity : Nat)
    (flags : McpUniConversionFlags) (e : McpUniEndianity) (bound cp remaining : Nat)
    (rest : List (Nat × Nat)) (target : List Nat) (hs : is_scalar_value cp)
    (hroom : capacity < target.length + (utf8_encode cp).length) :
    McpUniConvertUTF16toUTF8_loop host capacity flags e (bound + 1)
        ((utf16_encode cp).length + remaining)
        ((utf16_encode cp).map (MCP_UNI_WRITE_UTF16 host e) ++ rest) target
      = Except.ok (McpUniConversionResult.targetExhausted,
          (utf16_encode cp).length + remaining, target) := by
  obtain ⟨u1, u2⟩ := utf16_encode_eq cp
  obtain ⟨hmax, hsur⟩ := hs
  obtain ⟨hbytes, hsize⟩ := McpUniConvertUTF16toUTF8_bytes_eq cp hmax
  by_cases c : cp < 0x10000
  · rw [u1 c]
    rw [McpUniConvertUTF16toUTF8_loop.eq_def]
    simp only [List.map_cons, List.map_nil, List.cons_append, List.nil_append,
      List.length_singleton, MCP_UNI_READ_WRITE_UTF16 host e cp (by omega),
      MCP_UNI_SUR_HIGH_START, MCP_UNI_SUR_HIGH_END, MCP_UNI_SUR_LOW_START,
      MCP_UNI_SUR_LOW_END, hsize]
    rw [if_neg (by omega), if_neg (by omega), if_neg (by omega), if_pos (by omega)]
  · have r1 := MCP_UNI_READ_WRITE_UTF16 host e (0xD800 + (cp - 0x10000) / 1024) (by omega)
    have r2 := MCP_UNI_READ_WRITE_UTF16 host e (0xDC00 + (cp - 0x10000) % 1024) (by omega)
    have hd := surrogate_pair_decode cp (by omega) hmax
    simp only [MCP_UNI_SUR_HIGH_START, MCP_UNI_SUR_LOW_START] at hd
    rw [u2 (by omega)]
    rw [McpUniConvertUTF16toUTF8_loop.eq_def]
    simp only [List.map_cons, List.map_nil, List.cons_append, List.nil_append,
      List.length_cons, List.length_nil, r1, r2,
      MCP_UNI_SUR_HIGH_START, MCP_UNI_SUR_HIGH_END, MCP_UNI_SUR_LOW_START,
      MCP_UNI_SUR_LOW_END, hd, hsize]
    rw [if_neg (by omega), if_pos (by omega), if_pos (by omega), if_pos (by omega),
      if_pos (by omega)]

theorem chars_that_fit_prefix (cps : List Nat) :
    ∀ room, chars_that_fit room cps <+: cps ∧
      (utf8_text (chars_that_fit room cps)).length ≤ room ∧
      (chars_that_fit room cps = cps ∨
        ∃ cp, chars_that_fit room cps ++ [cp] <+: cps ∧
          room < (utf8_text (chars_that_fit room cps ++ [cp])).length) := by
  induction cps with
  | nil =>
    intro room
    simp [chars_that_fit, utf8_text]
  | cons cp cps ih =>
    intro room
    unfold chars_that_fit
    by_cases h : (utf8_encode cp).length ≤ room
    · rw [if_pos h]
      obtain ⟨h1, h2, h3⟩ := ih (room - (utf8_encode cp).length)
      refine ⟨(List.prefix_cons_inj cp).mpr h1, ?_, ?_⟩
      · rw [utf8_text_cons, List.length_append]
        omega
      · rcases h3 with h3 | ⟨c, h3, h4⟩
        · left
          rw [h3]
        · right
          refine ⟨c, ?_, ?_⟩
          · rw [List.cons_append]
            exact (List.prefix_cons_inj cp).mpr h3
          · rw [List.cons_append, utf8_text_cons, List.length_append]
            omega
    · rw [if_neg h]
      refine ⟨List.nil_prefix, by simp [utf8_text], Or.inr ⟨cp, ?_, ?_⟩⟩
      · rw [List.nil_append]
        exact List.prefix_iff_eq_append.mpr (by simp)
      · rw [List.nil_append, utf8_text_cons]
        simp only [utf8_text, List.flatMap_nil, List.append_nil]
        omega

/-- The loop of `McpUniConvertUTF16toUTF8` on the UTF-16 units of a list of scalar
values, whatever the room in the target: it stores the UTF-8 bytes of the characters
that fit, whole characters only, and stops before the first one that does not fit. -/
theorem McpUniConvertUTF16toUTF8_loop_fit (host : Bool) (capacity : Nat)
    (flags : McpUniConversionFlags) (e : McpUniEndianity) (beyond : List (Nat × Nat)) :
    ∀ (cps : List Nat) (bound : Nat) (target : List Nat),
      (∀ cp ∈ cps, is_scalar_value cp) → cps.length < bound →
      target.length ≤ capacity →
      ∃ res rem,
        McpUniConvertUTF16toUTF8_loop host capacity flags e bound (utf16_text cps).length
            ((utf16_text cps).map (MCP_UNI_WRITE_UTF16 host e) ++ beyond) target
          = Except.ok (res, rem,
              target ++ utf8_text (chars_that_fit (capacity - target.length) cps)) := by
  intro cps
  induction cps with
  | nil =>
    intro bound target _ hb _
    obtain ⟨b, rfl⟩ : ∃ b, bound = b + 1 := ⟨bound - 1, by simp at hb; omega⟩
    exact ⟨McpUniConversionResult.conversionOK, 0, by
      simp [utf8_text, utf16_text, chars_that_fit, McpUniConvertUTF16toUTF8_loop]⟩
  | cons cp cps ih =>
    intro bound target hs hb ht
    obtain ⟨b, rfl⟩ : ∃ b, bound = b + 1 := ⟨bound - 1, by simp at hb; omega⟩
    rw [utf16_text_cons, List.length_append, List.map_append, List.append_assoc]
    unfold chars_that_fit
    by_cases h : (utf8_encode cp).length ≤ capacity - target.length
    · rw [if_pos h, McpUniConvertUTF16toUTF8_loop_step host capacity flags e b cp _ _ target
        (hs cp (List.mem_cons_self _ _)) (by omega)]
      obtain ⟨res, rem, hr⟩ := ih b (target ++ utf8_encode cp)
        (fun c hc => hs c (List.mem_cons_of_mem _ hc)) (by simp at hb; omega)
        (by rw [List.length_append]; omega)
      refine ⟨res, rem, ?_⟩
      rw [hr, utf8_text_cons, List.length_append, List.append_assoc, Nat.sub_add_eq]
    · rw [if_neg h, McpUniConvertUTF16toUTF8_loop_full host capacity flags e b cp _ _ target
        (hs cp (List.mem_cons_self _ _)) (by omega)]
      exact ⟨McpUniConversionResult.targetExhausted,
        (utf16_encode cp).length + (utf16_text cps).length, by simp [utf8_text]⟩

/-- The function `MCP_Utf16ToUtf8Endian` returns whenever `srcLen` cells are in the source
buffer; the bytes it stores number at most `tgtSize + 1`, and the value returned is that
number cut to 16 bits. -/
theorem MCP_Utf16ToUtf8Endian_bound (host : Bool) (tgtSize : Nat)
    (srcText : List (Nat × Nat)) (srcLen : Nat) (e : McpUniEndianity)
    (hsrc : srcLen ≤ srcText.length) :
    ∃ bytes, MCP_Utf16ToUtf8Endian host tgtSize srcText srcLen e
        = Except.ok (bytes.length % 2 ^ 16, bytes) ∧
      bytes.length ≤ tgtSize + 1 := by
  obtain ⟨r, hr⟩ := McpUniConvertUTF16toUTF8_loop_returns host (tgtSize + 1)
    McpUniConversionFlags.strictConversion e (srcLen + 1) srcLen srcText [] (by omega) hsrc
  obtain ⟨hle, -⟩ := McpUniConvertUTF16toUTF8_loop_length_le host (tgtSize + 1)
    McpUniConversionFlags.strictConversion e (srcLen + 1) srcLen srcText [] r
    (by simp) hr
  obtain ⟨res, rem, out⟩ := r
  refine ⟨out, ?_, hle⟩
  unfold MCP_Utf16ToUtf8Endian McpUniConvertUTF16toUTF8
  rw [hr]

/-- The function `MCP_Utf16ToUtf8Endian` on the UTF-16 units of a list of scalar values:
the bytes stored are the UTF-8 bytes of the characters that fit into `tgtSize + 1` bytes,
whole characters only. -/
theorem MCP_Utf16ToUtf8Endian_fit (host : Bool) (tgtSize : Nat) (cps : List Nat)
    (beyond : List (Nat × Nat)) (e : McpUniEndianity)
    (hs : ∀ cp ∈ cps, is_scalar_value cp) :
    MCP_Utf16ToUtf8Endian host tgtSize
        ((utf16_text cps).map (MCP_UNI_WRITE_UTF16 host e) ++ beyond)
        (utf16_text cps).length e
      = Except.ok ((utf8_text (chars_that_fit (tgtSize + 1) cps)).length % 2 ^ 16,
          utf8_text (chars_that_fit (tgtSize + 1) cps)) := by
  have hlen := utf16_text_length_ge cps
  obtain ⟨res, rem, hr⟩ := McpUniConvertUTF16toUTF8_loop_fit host (tgtSize + 1)
    McpUniConversionFlags.strictConversion e beyond cps ((utf16_text cps).length + 1) []
    hs (by omega) (by simp)
  unfold MCP_Utf16ToUtf8Endian McpUniConvertUTF16toUTF8
  rw [hr]
  simp

/-- C32 as amended: whenever `srcLen` cells are in the source buffer,
`MCP_Utf16ToUtf8Endian` returns; the bytes it stores into `tgtText` number at most
`tgtSize + 1`; the value returned is that number cut to 16 bits, hence that number itself
when `tgtSize` is below 65535; and when the `srcLen` cells are the UTF-16 units of a text
(a list of scalar values), the bytes stored are the UTF-8 bytes of the characters that
fit, one after the other, into `tgtSize + 1` bytes: these characters are a prefix of
the text, and either the whole text or followed by a character with which the encoding
would be longer than `tgtSize + 1` bytes. -/
theorem MCP_Utf16ToUtf8Endian_target_bound (host : Bool) (tgtSize : Nat)
    (srcText : List (Nat × Nat)) (srcLen : Nat) (e : McpUniEndianity)
    (hsrc : srcLen ≤ srcText.length) :
    ∃ bytes, MCP_Utf16ToUtf8Endian host tgtSize srcText srcLen e
        = Except.ok (bytes.length % 2 ^ 16, bytes) ∧
      bytes.length ≤ tgtSize + 1 ∧
      (tgtSize < 65535 → bytes.length % 2 ^ 16 = bytes.length) ∧
      ∀ cps : List Nat, (∀ cp ∈ cps, is_scalar_value cp) →
        srcText.take srcLen = (utf16_text cps).map (MCP_UNI_WRITE_UTF16 host e) →
        bytes = utf8_text (chars_that_fit (tgtSize + 1) cps) ∧
        chars_that_fit (tgtSize + 1) cps <+: cps ∧
        (chars_that_fit (tgtSize + 1) cps = cps ∨
          ∃ cp, chars_that_fit (tgtSize + 1) cps ++ [cp] <+: cps ∧
            tgtSize + 1 < (utf8_text (chars_that_fit (tgtSize + 1) cps ++ [cp])).length) := by
  obtain ⟨bytes, hres, hle⟩ := MCP_Utf16ToUtf8Endian_bound host tgtSize srcText srcLen e hsrc
  refine ⟨bytes, hres, hle, fun h => Nat.mod_eq_of_lt (by omega), ?_⟩
  intro cps hs htake
  obtain ⟨p1, -, p3⟩ := chars_that_fit_prefix cps (tgtSize + 1)
  refine ⟨?_, p1, p3⟩
  have hlen : srcLen = (utf16_text cps).length := by
    have := congrArg List.length htake
    rw [List.length_take, List.length_map] at this
    omega
  have hsplit : srcText
      = (utf16_text cps).map (MCP_UNI_WRITE_UTF16 host e) ++ srcText.drop srcLen := by
    rw [← htake, List.take_append_drop]
  have hfit := MCP_Utf16ToUtf8Endian_fit host tgtSize cps (srcText.drop srcLen) e hs
  rw [← hsplit, ← hlen, hres] at hfit
  injection hfit with hfit
  exact (Prod.mk.inj hfit).2

/-- Witness of C32 (amended): three cells "A", "B", U+20AC with `tgtSize = 3`. -/
theorem MCP_Utf16ToUtf8Endian_target_bound_witness :
    3 ≤ [(0x41, 0), (0x42, 0), (0xAC, 0x20)].length ∧
    ∃ bytes, MCP_Utf16ToUtf8Endian false 3 [(0x41, 0), (0x42, 0), (0xAC, 0x20)] 3
          McpUniEndianity.mcpLittleEndian
        = Except.ok (bytes.length % 2 ^ 16, bytes) ∧
      bytes.length ≤ 3 + 1 :=
  ⟨by decide,
    (MCP_Utf16ToUtf8Endian_target_bound false 3 [(0x41, 0), (0x42, 0), (0xAC, 0x20)] 3
      McpUniEndianity.mcpLittleEndian (by decide)).imp (fun _ h => ⟨h.1, h.2.1⟩)⟩

set_option maxRecDepth 100000 in
/-- Counterexample to C32 as stated: with `tgtSize = 0` and the single unit "A",
`MCP_Utf16ToUtf8Endian` stores one byte and returns 1; with `tgtSize = 2` and the units
"ABC" it stores three bytes and returns 3; with `tgtSize = 3` and the units "A", U+20AC
it stores four bytes and returns 4: in each case one byte more than `tgtSize`, because
`targetEnd` is `tgtText + tgtSize + 1`.  With `tgtSize = 3` and the units "A", "B",
U+20AC the text does not fit and the two whole characters "AB" are stored. -/
theorem MCP_Utf16ToUtf8Endian_exceeds_tgtSize :
    MCP_Utf16ToUtf8Endian false 0 [(0x41, 0)] 1 McpUniEndianity.mcpLittleEndian
      = Except.ok (1, [0x41]) ∧
    [(0x41, 0), (0x42, 0), (0x43, 0)].map
        (MCP_UNI_READ_UTF16 false McpUniEndianity.mcpLittleEndian) = [0x41, 0x42, 0x43] ∧
    MCP_Utf16ToUtf8Endian false 2 [(0x41, 0), (0x42, 0), (0x43, 0)] 3
        McpUniEndianity.mcpLittleEndian
      = Except.ok (3, [0x41, 0x42, 0x43]) ∧
    [(0x41, 0), (0xAC, 0x20)].map
        (MCP_UNI_READ_UTF16 false McpUniEndianity.mcpLittleEndian) = [0x41, 0x20AC] ∧
    MCP_Utf16ToUtf8Endian false 3 [(0x41, 0), (0xAC, 0x20)] 2
        McpUniEndianity.mcpLittleEndian
      = Except.ok (4, [0x41, 0xE2, 0x82, 0xAC]) ∧
    MCP_Utf16ToUtf8Endian false 3 [(0x41, 0), (0x42, 0), (0xAC, 0x20)] 3
        McpUniEndianity.mcpLittleEndian
      = Except.ok (2, [0x41, 0x42]) :=
  ⟨rfl, rfl, rfl, rfl, rfl, rfl⟩

end McpUnicode
